import Mathlib

/-!
# LINFO2146: tree routing, energy model and trend detection of the sensor network

Shallow embedding of the six node programs of the repository

* `src/energised/e-computation-node.c`  (namespace `e_computation_node`)
* `src/energised/e-sensor-node.c`       (namespace `e_sensor_node`)
* `src/energised/e-border-router.c`     (namespace `e_border_router`)
* `src/no_energised/computation-node.c` (namespace `computation_node`)
* `src/no_energised/sensor-node.c`      (namespace `sensor_node`)
* `src/no_energised/border-router.c`    (namespace `border_router`)

Conventions of the embedding.

* The file-scope variables of a C file are the fields of its `state` record; a handler is a
  function `state → ... → state × List effect`, where the effect list records, in program
  order, the calls into the external collaborators (radio output, `printf`, timers, LEDs).
* Machine integers are naturals; a store into a `uint8_t`/`uint16_t`/`uint32_t` variable is an
  explicit `% 2^w`.  `int` is taken to be at least 32 bits wide, so the integer promotions of
  `uint8_t`/`uint16_t` operands never wrap.  Multi-byte `memcpy` is little-endian.
* `float`/`double` quantities (battery level, slope) are rationals.  The `float` arithmetic
  of `update_battery` is binary32 arithmetic, every operation rounded (`f32_round`).  The
  other `float` statements add or subtract one of the exactly representable constants `1.0`,
  `2.0`, `3.0` or compare with such a constant; they are written with exact arithmetic, like
  the `double` arithmetic of the slope functions on integer samples.
* An out-of-range conversion `(uint8_t)battery_level`, undefined in C, yields an unspecified
  byte that is a parameter `undef` of the function.
* Platform constants that the repository does not define (`CLOCK_SECOND`, `LINKADDR_SIZE`)
  are parameters.
-/

/-! ## Shared vocabulary -/

/-- A `linkaddr_t`: the bytes `u8[0], u8[1], ...` of a link-layer address. -/
abbrev linkaddr_t := List Nat

/-- The comparison `linkaddr_cmp(a, b)`: true exactly when the two addresses are equal. -/
def linkaddr_cmp (a b : linkaddr_t) : Bool := decide (a = b)

/-- The initialiser `linkaddr_t dst = {{n}}`: first byte `n`, remaining bytes zero. -/
def linkaddr_of_u8 (LINKADDR_SIZE n : Nat) : linkaddr_t :=
  n :: List.replicate (LINKADDR_SIZE - 1) 0

/-- The anonymous `enum { STATE_ACTIVE, STATE_LPM, STATE_DEEP_LPM }` of the energised files. -/
inductive power_state_t
  | STATE_ACTIVE
  | STATE_LPM
  | STATE_DEEP_LPM
deriving DecidableEq, Repr

/-- The integer value of a power state, as stored by `(uint8_t)power_state`. -/
def power_state_t.toNat : power_state_t → Nat
  | .STATE_ACTIVE => 0
  | .STATE_LPM => 1
  | .STATE_DEEP_LPM => 2

/-- The event timers declared by the node programs. -/
inductive timer_id
  | hello_timer
  | energy_timer
  | sensor_timer
  | valve_timer
deriving DecidableEq, Repr

/-- The log lines printed by the node programs, one constructor per `printf` format. -/
inductive log_t
  | tree_new_parent (node src rank : Nat) (bat : Option Nat)
  | tree_hello (node rank : Nat) (bat state : Option Nat)
  | tree_root (node : Nat)
  | process_slope (node : Nat) (slope : ℚ) (sensor : Nat)
  | process_open_valve (node sid : Nat)
  | process_forward (node sid parent : Nat)
  | process_server_got (id value : Nat)
  | process_valve_open (node : Nat)
  | process_valve_closed (node : Nat)
  | process_send_reading (node reading parent : Nat)
  | dlpm_skip (node : Nat)
  | mode_lpm (node : Nat) (battery : ℚ)
  | mode_deep_lpm (node : Nat) (battery : ℚ)
  | mode_wake (node : Nat) (battery : ℚ)
  | border_sent (type node : Nat) (code : Option Nat)
deriving DecidableEq

/-- Calls into the external collaborators, recorded in program order.
`output none buf` is `NETSTACK_NETWORK.output(NULL)` (broadcast) with `nullnet_buf = buf`,
`output (some dst) buf` is the unicast `NETSTACK_NETWORK.output(&dst)`. -/
inductive effect
  | output (dest : Option linkaddr_t) (buf : List Nat)
  | printf (line : log_t)
  | etimer_set (t : timer_id) (interval : Nat)
  | etimer_reset (t : timer_id)
  | leds_on_red
  | leds_off_red
deriving DecidableEq

/-- The four cumulative counters returned by `energest_type_time` after `energest_flush()`. -/
structure energest_t where
  cpu : Nat
  lpm : Nat
  tx : Nat
  rx : Nat
deriving DecidableEq, Repr

/-- Subtraction of `uint32_t` values: `a - b` modulo `2^32`. -/
def u32_sub (a b : Nat) : Nat := (a % 2 ^ 32 + (2 ^ 32 - b % 2 ^ 32)) % 2 ^ 32

/-- The value read by `memcpy(&v, p, 2)` from the two bytes `lo, hi` into a `uint16_t`
(little-endian). -/
def u16_of_bytes (lo hi : Nat) : Nat := (lo % 256 + 256 * (hi % 256)) % 65536

/-- The two bytes written by `memcpy(p, &v, 2)` from a `uint16_t` (little-endian). -/
def bytes_of_u16 (v : Nat) : List Nat := [v % 256, v / 256 % 256]

/-- Search loop `for (i = start; i < start + n; i++) if (p i) return i;`. -/
def first_index (p : Nat → Bool) : Nat → Nat → Option Nat
  | 0, _ => none
  | n + 1, i => if p i then some i else first_index p n (i + 1)

/-! ## Binary32 arithmetic

The energised programs keep the battery level in a `float` and compute the energy debit of
`update_battery` in `float` arithmetic.  A `float` is taken to be an IEEE 754 binary32
number, every operation being rounded to nearest, ties to even (`FLT_EVAL_METHOD == 0`, no
contraction into fused operations).  Values are rationals; `f32_round` maps the exact result
of an operation to the binary32 number that the operation returns.  Overflow (magnitudes of
`2^128` and more), infinities and NaN are not modelled: they do not arise for 32-bit counters
and a non-zero `CLOCK_SECOND`. -/

/-- Rounding of a rational to the nearest integer, ties to the even integer. -/
def round_half_even (x : ℚ) : ℤ :=
  if x - ⌊x⌋ < 1 / 2 then ⌊x⌋
  else if 1 / 2 < x - ⌊x⌋ then ⌊x⌋ + 1
  else if ⌊x⌋ % 2 = 0 then ⌊x⌋ else ⌊x⌋ + 1

/-- The binary exponent of the binary32 format for the value `x`: `⌊log₂ |x|⌋`, and `-126`
for the values below `2^-126` (subnormal numbers and zero). -/
def f32_exponent (x : ℚ) : ℤ := max (Int.log 2 |x|) (-126)

/-- Rounding to binary32: the multiple of `2^(e - 23)` nearest to `x`, ties to the even
multiple, where `e` is the binary exponent of `x` (24 significant bits). -/
def f32_round (x : ℚ) : ℚ :=
  (round_half_even (x / 2 ^ (f32_exponent x - 23)) : ℚ) * 2 ^ (f32_exponent x - 23)

/-- The conversion `(float)n` of an unsigned integer. -/
def f32_of_nat (n : Nat) : ℚ := f32_round (n : ℚ)

/-- The `float` division `a / b`. -/
def f32_div (a b : ℚ) : ℚ := f32_round (a / b)

/-- The `float` product `a * b`. -/
def f32_mul (a b : ℚ) : ℚ := f32_round (a * b)

/-- The `float` sum `a + b`. -/
def f32_add (a b : ℚ) : ℚ := f32_round (a + b)

/-- The `float` difference `a - b`. -/
def f32_sub (a b : ℚ) : ℚ := f32_round (a - b)

/-- The conversion `(uint8_t)x` of a `float`: `x` truncated toward zero, when the truncated
value lies in `0..255`, that is for `-1 < x < 256` (the truncation is then `⌊x⌋`, or 0 for
`x < 0`). Outside that range the conversion is undefined in C; the byte is then the
unspecified value `undef`. -/
def u8_of_float (undef : Nat) (x : ℚ) : Nat :=
  if -1 < x ∧ x < 256 then Int.toNat ⌊x⌋ else undef % 256

/-! ## Constants shared by the programs (identical `#define`s in every file that has them) -/

def WINDOW_SIZE : Nat := 30
def MAX_SENSORS : Nat := 5
def SLOPE_THRESHOLD : ℚ := 0.5
def WINDOW_EXPIRY : Nat := 5 * 60
def BATTERY_MAX : ℚ := 100.0
def LPM_THRESHOLD : ℚ := 30.0
def DEEP_LPM_THRESHOLD : ℚ := 10.0
def WAKE_THRESHOLD : ℚ := 90.0
/-- The constant `0.2f`. -/
def CPU_COST : ℚ := f32_round 0.2
/-- The constant `0.02f`. -/
def LPM_COST : ℚ := f32_round 0.02
def TX_COST : ℚ := 1.0
def RX_COST : ℚ := 1.0
def COST_HELLO : ℚ := 1.0
def COST_SENSOR_TX : ℚ := 3.0
def COST_COMMAND_TX : ℚ := 2.0
def COST_VALVE_RX : ℚ := 1.0
def COST_FORWARD : ℚ := 1.0
def ENERGY_DIFF_THRESHOLD : Nat := 30
def HELLO_INTERVAL_NODE (CLOCK_SECOND : Nat) : Nat := CLOCK_SECOND * 15
def HELLO_INTERVAL_BORDER (CLOCK_SECOND : Nat) : Nat := CLOCK_SECOND * 10
def SENSOR_INTERVAL (CLOCK_SECOND : Nat) : Nat := CLOCK_SECOND * 60
def VALVE_DURATION (CLOCK_SECOND : Nat) : Nat := CLOCK_SECOND * 600

/-- The `float` value that `update_battery` subtracts from `battery_level` (the same
expression in the three energised files), for the counter differences `d_cpu`, `d_lpm`,
`d_tx`, `d_rx`: with `s_x = d_x / (float)CLOCK_SECOND`, the sum
`s_cpu*CPU_COST + s_lpm*LPM_COST + s_tx*TX_COST + s_rx*RX_COST`, added left to right. -/
def battery_debit (CLOCK_SECOND d_cpu d_lpm d_tx d_rx : Nat) : ℚ :=
  let s_cpu := f32_div (f32_of_nat d_cpu) (f32_of_nat CLOCK_SECOND)
  let s_lpm := f32_div (f32_of_nat d_lpm) (f32_of_nat CLOCK_SECOND)
  let s_tx := f32_div (f32_of_nat d_tx) (f32_of_nat CLOCK_SECOND)
  let s_rx := f32_div (f32_of_nat d_rx) (f32_of_nat CLOCK_SECOND)
  f32_add (f32_add (f32_add (f32_mul s_cpu CPU_COST) (f32_mul s_lpm LPM_COST))
    (f32_mul s_tx TX_COST)) (f32_mul s_rx RX_COST)

/-! ## `src/energised/e-computation-node.c` -/

namespace e_computation_node

/-- The `sensor_window_t` of the energised computation node. -/
structure sensor_window_t where
  id : Nat
  count : Nat
  idx : Nat
  values : List Nat
deriving DecidableEq, Repr

/-- The result of `memset(&w, 0, sizeof w)`. -/
def zero_window : sensor_window_t :=
  { id := 0, count := 0, idx := 0, values := List.replicate WINDOW_SIZE 0 }

/-- File-scope variables of `e-computation-node.c` (with the two `static` counters of the
process thread and the node address `linkaddr_node_addr`). -/
structure state where
  linkaddr_node_addr : linkaddr_t
  my_rank : Nat
  parent : linkaddr_t
  parent_energy : Nat
  sensors : List sensor_window_t
  battery_level : ℚ
  power_state : power_state_t
  last_cpu : Nat
  last_lpm : Nat
  last_tx : Nat
  last_rx : Nat
  lpm_cnt : Nat
  deep_cnt : Nat
deriving DecidableEq

/-- The function `update_battery`, for the counter readings `e` returned by
`energest_type_time` after the flush; the `float` arithmetic is binary32. -/
def update_battery (CLOCK_SECOND : Nat) (e : energest_t) (s : state) : state :=
  let d_cpu := u32_sub e.cpu s.last_cpu
  let d_lpm := u32_sub e.lpm s.last_lpm
  let d_tx := u32_sub e.tx s.last_tx
  let d_rx := u32_sub e.rx s.last_rx
  { s with
    last_cpu := e.cpu % 2 ^ 32
    last_lpm := e.lpm % 2 ^ 32
    last_tx := e.tx % 2 ^ 32
    last_rx := e.rx % 2 ^ 32
    battery_level :=
      f32_sub s.battery_level (battery_debit CLOCK_SECOND d_cpu d_lpm d_tx d_rx) }

/-- The function `broadcast_rank`; `undef` is the byte that `(uint8_t)battery_level` yields
when the battery level is outside the range of the conversion. -/
def broadcast_rank (undef : Nat) (s : state) : state × List effect :=
  let buf : List Nat :=
    [1, (s.my_rank >>> 8) % 256, s.my_rank % 256,
      u8_of_float undef s.battery_level, s.power_state.toNat % 256]
  ({ s with battery_level := s.battery_level - COST_HELLO },
    [effect.output none buf,
     effect.printf (log_t.tree_hello (s.linkaddr_node_addr.headD 0) s.my_rank
       (some (buf.getD 3 0)) (some (buf.getD 4 0)))])

/-- The function `get_window`: the index of the slot returned (`none` for `NULL`) and the
table after the call. -/
def get_window (sensors : List sensor_window_t) (id : Nat) :
    Option Nat × List sensor_window_t :=
  match first_index
      (fun i => decide ((sensors.getD i zero_window).count > 0) &&
        decide ((sensors.getD i zero_window).id = id)) MAX_SENSORS 0 with
  | some i => (some i, sensors)
  | none =>
    match first_index (fun i => decide ((sensors.getD i zero_window).count = 0))
        MAX_SENSORS 0 with
    | some i => (some i, sensors.set i { zero_window with id := id })
    | none => (none, sensors)

/-- The function `compute_slope`: the buffer is read in index order `i = 0 .. 29`. -/
def compute_slope (w : sensor_window_t) : ℚ :=
  if w.count < WINDOW_SIZE then 0
  else
    let sum_i : ℚ := (((WINDOW_SIZE - 1) * WINDOW_SIZE : Nat) : ℚ) / 2
    let sum_i2 : ℚ := (((WINDOW_SIZE - 1) * WINDOW_SIZE * (2 * WINDOW_SIZE - 1) : Nat) : ℚ) / 6
    let acc : ℚ × ℚ := (List.range WINDOW_SIZE).foldl
      (fun (a : ℚ × ℚ) (i : Nat) =>
        (a.1 + (w.values.getD i 0 : ℚ), a.2 + (i : ℚ) * (w.values.getD i 0 : ℚ)))
      (0, 0)
    let sv := acc.1
    let siv := acc.2
    let num : ℚ := (WINDOW_SIZE : ℚ) * siv - sum_i * sv
    let den : ℚ := (WINDOW_SIZE : ℚ) * sum_i2 - sum_i * sum_i
    if den ≠ 0 then num / den else 0

/-- The three statements of `input_callback` that store a reading `v` into the window `w`:
`w->values[w->idx] = v; if (w->count < WINDOW_SIZE) w->count++; w->idx = (w->idx+1) % WINDOW_SIZE`. -/
def store_reading (w : sensor_window_t) (v : Nat) : sensor_window_t :=
  let w := { w with values := w.values.set w.idx v }
  let w := if w.count < WINDOW_SIZE then { w with count := (w.count + 1) % 256 } else w
  { w with idx := (w.idx + 1) % WINDOW_SIZE }

/-- The body of the branch `if (len == 5 && buf[0] == 1) { ... }` of `input_callback`. -/
def on_hello (s : state) (data : List Nat) (src : linkaddr_t) : state × List effect :=
  let buf := fun i => data.getD i 0
  let recv := ((buf 1 <<< 8) ||| buf 2) % 65536
  if recv ≠ 0xFFFF then
    let cand := (recv + 1) % 65536
    let energy := buf 3
    if cand < s.my_rank ∨
        (cand = s.my_rank ∧ linkaddr_cmp src s.parent = false ∧
          energy > s.parent_energy + ENERGY_DIFF_THRESHOLD) then
      ({ s with my_rank := cand, parent := src, parent_energy := energy },
        [effect.printf (log_t.tree_new_parent (s.linkaddr_node_addr.headD 0) (src.headD 0)
          cand (some energy))])
    else if linkaddr_cmp src s.parent then
      ({ s with parent_energy := energy }, [])
    else (s, [])
  else (s, [])

/-- The body of the branch `if (len == 4 && buf[0] == 2) { ... }` of `input_callback`. -/
def on_sensor (LINKADDR_SIZE : Nat) (s : state) (data : List Nat) : state × List effect :=
  let buf := fun i => data.getD i 0
  let sid := buf 1
  let v := u16_of_bytes (buf 2) (buf 3)
  if s.power_state ≠ power_state_t.STATE_DEEP_LPM then
    match get_window s.sensors sid with
    | (some i, sensors) =>
      let w := store_reading (sensors.getD i zero_window) v
      let slope := compute_slope w
      let s := { s with sensors := sensors.set i w }
      let log := effect.printf (log_t.process_slope (s.linkaddr_node_addr.headD 0) slope sid)
      if slope > SLOPE_THRESHOLD then
        let cmd : List Nat := [3, sid] ++ bytes_of_u16 1
        ({ s with battery_level := s.battery_level - COST_COMMAND_TX },
          [log, effect.output (some (linkaddr_of_u8 LINKADDR_SIZE sid)) cmd,
           effect.printf (log_t.process_open_valve (s.linkaddr_node_addr.headD 0) sid)])
      else (s, [log])
    | (none, sensors) => ({ s with sensors := sensors }, [])
  else
    ({ s with battery_level := s.battery_level - COST_SENSOR_TX },
      [effect.output (some s.parent) data,
       effect.printf (log_t.process_forward (s.linkaddr_node_addr.headD 0) sid
         (s.parent.headD 0))])

/-- The function `input_callback` on a frame `data` (of length `len = data.length`) from `src`. -/
def input_callback (LINKADDR_SIZE : Nat) (s : state) (data : List Nat) (src : linkaddr_t) :
    state × List effect :=
  let len := data.length
  let buf := fun i => data.getD i 0
  if len = 5 ∧ buf 0 = 1 then on_hello s data src
  else if len = 4 ∧ buf 0 = 2 then on_sensor LINKADDR_SIZE s data
  else (s, [])

/-- The recharge block of the energy-timer branch of `computation_node_process`. -/
def energy_recharge (s : state) : state :=
  if s.power_state = power_state_t.STATE_LPM then
    let c := (s.lpm_cnt + 1) % 256
    if c ≥ 10 then
      let b := s.battery_level + 1
      { s with battery_level := if b > BATTERY_MAX then BATTERY_MAX else b, lpm_cnt := 0 }
    else { s with lpm_cnt := c }
  else if s.power_state = power_state_t.STATE_DEEP_LPM then
    let c := (s.deep_cnt + 1) % 256
    if c ≥ 2 then
      let b := s.battery_level + 1
      { s with battery_level := if b > BATTERY_MAX then BATTERY_MAX else b, deep_cnt := 0 }
    else { s with deep_cnt := c }
  else s

/-- The three consecutive `if` statements that switch the power state. -/
def energy_transitions (s : state) : state × List effect :=
  let node := s.linkaddr_node_addr.headD 0
  let r1 : state × List effect :=
    if s.power_state = power_state_t.STATE_ACTIVE ∧ s.battery_level ≤ LPM_THRESHOLD then
      ({ s with power_state := power_state_t.STATE_LPM },
        [effect.printf (log_t.mode_lpm node s.battery_level)])
    else (s, [])
  let r2 : state × List effect :=
    if r1.1.power_state = power_state_t.STATE_LPM ∧ r1.1.battery_level ≤ DEEP_LPM_THRESHOLD then
      ({ r1.1 with power_state := power_state_t.STATE_DEEP_LPM },
        r1.2 ++ [effect.printf (log_t.mode_deep_lpm node r1.1.battery_level)])
    else r1
  if r2.1.power_state = power_state_t.STATE_DEEP_LPM ∧ r2.1.battery_level ≥ WAKE_THRESHOLD then
    ({ r2.1 with power_state := power_state_t.STATE_ACTIVE },
      r2.2 ++ [effect.printf (log_t.mode_wake node r2.1.battery_level)])
  else r2

/-- The branch `if (etimer_expired(&energy_timer)) { ... }` of `computation_node_process`,
for the counter readings `e`. -/
def energy_tick (CLOCK_SECOND : Nat) (e : energest_t) (s : state) : state × List effect :=
  let r := energy_transitions (energy_recharge (update_battery CLOCK_SECOND e s))
  (r.1, r.2 ++ [effect.etimer_reset timer_id.energy_timer])

/-- The branch `if (etimer_expired(&hello_timer)) { ... }` of `computation_node_process`. -/
def hello_tick (undef : Nat) (s : state) : state × List effect :=
  let r := broadcast_rank undef s
  (r.1, r.2 ++ [effect.etimer_reset timer_id.hello_timer])

end e_computation_node

/-! ## `src/energised/e-sensor-node.c` -/

namespace e_sensor_node

/-- File-scope variables of `e-sensor-node.c` (with the two `static` counters of the process
thread and the node address `linkaddr_node_addr`). -/
structure state where
  linkaddr_node_addr : linkaddr_t
  my_rank : Nat
  parent : linkaddr_t
  parent_energy : Nat
  sensor_timer_started : Bool
  valve_open : Bool
  battery_level : ℚ
  power_state : power_state_t
  last_cpu : Nat
  last_lpm : Nat
  last_tx : Nat
  last_rx : Nat
  lpm_cnt : Nat
  deep_cnt : Nat
deriving DecidableEq

/-- The function `update_battery`, for the counter readings `e` returned by
`energest_type_time` after the flush; the `float` arithmetic is binary32. -/
def update_battery (CLOCK_SECOND : Nat) (e : energest_t) (s : state) : state :=
  let d_cpu := u32_sub e.cpu s.last_cpu
  let d_lpm := u32_sub e.lpm s.last_lpm
  let d_tx := u32_sub e.tx s.last_tx
  let d_rx := u32_sub e.rx s.last_rx
  { s with
    last_cpu := e.cpu % 2 ^ 32
    last_lpm := e.lpm % 2 ^ 32
    last_tx := e.tx % 2 ^ 32
    last_rx := e.rx % 2 ^ 32
    battery_level :=
      f32_sub s.battery_level (battery_debit CLOCK_SECOND d_cpu d_lpm d_tx d_rx) }

/-- The function `broadcast_rank`; `undef` is the byte that `(uint8_t)battery_level` yields
when the battery level is outside the range of the conversion. -/
def broadcast_rank (undef : Nat) (s : state) : state × List effect :=
  let buf : List Nat :=
    [1, (s.my_rank >>> 8) &&& 0xFF, s.my_rank &&& 0xFF,
      u8_of_float undef s.battery_level, s.power_state.toNat % 256]
  ({ s with battery_level := s.battery_level - COST_HELLO },
    [effect.output none buf,
     effect.printf (log_t.tree_hello (s.linkaddr_node_addr.headD 0) s.my_rank
       (some (buf.getD 3 0)) (some (buf.getD 4 0)))])

/-- The body of the branch `if (len == 5 && buf[0] == 1) { ... }` of `input_callback`. -/
def on_hello (CLOCK_SECOND : Nat) (s : state) (data : List Nat) (src : linkaddr_t) :
    state × List effect :=
  let buf := fun i => data.getD i 0
  let recv_rank := ((buf 1 <<< 8) ||| buf 2) % 65536
  if recv_rank ≠ 0xFFFF then
    let cand_rank := (recv_rank + 1) % 65536
    let recv_energy := buf 3
    if cand_rank < s.my_rank ∨
        (cand_rank = s.my_rank ∧ linkaddr_cmp src s.parent = false ∧
          recv_energy > s.parent_energy + ENERGY_DIFF_THRESHOLD) then
      ({ s with
          my_rank := cand_rank, parent := src, parent_energy := recv_energy,
          sensor_timer_started := true },
        [effect.printf (log_t.tree_new_parent (s.linkaddr_node_addr.headD 0) (src.headD 0)
          cand_rank (some recv_energy))] ++
        (if s.sensor_timer_started = false then
          [effect.etimer_set timer_id.sensor_timer (SENSOR_INTERVAL CLOCK_SECOND)]
         else []))
    else if linkaddr_cmp src s.parent then
      ({ s with parent_energy := recv_energy }, [])
    else (s, [])
  else (s, [])

/-- The function `input_callback` on a frame `data` (of length `len = data.length`) from `src`. -/
def input_callback (CLOCK_SECOND : Nat) (s : state) (data : List Nat) (src : linkaddr_t) :
    state × List effect :=
  let len := data.length
  let buf := fun i => data.getD i 0
  if len = 4 ∧ buf 0 = 3 then
    ({ s with battery_level := s.battery_level - COST_VALVE_RX, valve_open := true },
      [effect.leds_on_red, effect.etimer_set timer_id.valve_timer (VALVE_DURATION CLOCK_SECOND),
       effect.printf (log_t.process_valve_open (s.linkaddr_node_addr.headD 0))])
  else if len = 5 ∧ buf 0 = 1 then on_hello CLOCK_SECOND s data src
  else (s, [])

/-- The recharge block of the energy-timer branch of `sensor_node_process`. -/
def energy_recharge (s : state) : state :=
  if s.power_state = power_state_t.STATE_LPM then
    let c := (s.lpm_cnt + 1) % 256
    if c ≥ 10 then
      let b := s.battery_level + 1
      { s with battery_level := if b > BATTERY_MAX then BATTERY_MAX else b, lpm_cnt := 0 }
    else { s with lpm_cnt := c }
  else if s.power_state = power_state_t.STATE_DEEP_LPM then
    let c := (s.deep_cnt + 1) % 256
    if c ≥ 2 then
      let b := s.battery_level + 1
      { s with battery_level := if b > BATTERY_MAX then BATTERY_MAX else b, deep_cnt := 0 }
    else { s with deep_cnt := c }
  else s

/-- The three consecutive `if` statements that switch the power state. -/
def energy_transitions (s : state) : state × List effect :=
  let node := s.linkaddr_node_addr.headD 0
  let r1 : state × List effect :=
    if s.power_state = power_state_t.STATE_ACTIVE ∧ s.battery_level ≤ LPM_THRESHOLD then
      ({ s with power_state := power_state_t.STATE_LPM },
        [effect.printf (log_t.mode_lpm node s.battery_level)])
    else (s, [])
  let r2 : state × List effect :=
    if r1.1.power_state = power_state_t.STATE_LPM ∧ r1.1.battery_level ≤ DEEP_LPM_THRESHOLD then
      ({ r1.1 with power_state := power_state_t.STATE_DEEP_LPM },
        r1.2 ++ [effect.printf (log_t.mode_deep_lpm node r1.1.battery_level)])
    else r1
  if r2.1.power_state = power_state_t.STATE_DEEP_LPM ∧ r2.1.battery_level ≥ WAKE_THRESHOLD then
    ({ r2.1 with power_state := power_state_t.STATE_ACTIVE },
      r2.2 ++ [effect.printf (log_t.mode_wake node r2.1.battery_level)])
  else r2

/-- The branch `if (etimer_expired(&energy_timer)) { ... }` of `sensor_node_process`, for the
counter readings `e`. -/
def energy_tick (CLOCK_SECOND : Nat) (e : energest_t) (s : state) : state × List effect :=
  let r := energy_transitions (energy_recharge (update_battery CLOCK_SECOND e s))
  (r.1, r.2 ++ [effect.etimer_reset timer_id.energy_timer])

/-- The branch `if (etimer_expired(&hello_timer)) { ... }` of `sensor_node_process`. -/
def hello_tick (undef : Nat) (s : state) : state × List effect :=
  let r := broadcast_rank undef s
  (r.1, r.2 ++ [effect.etimer_reset timer_id.hello_timer])

/-- The body of `if (sensor_timer_started && etimer_expired(&sensor_timer)) { ... }`, where
`rnd` is the value returned by `random_rand()`. -/
def sensor_tick (rnd : Nat) (s : state) : state × List effect :=
  if s.power_state ≠ power_state_t.STATE_DEEP_LPM then
    let reading := rnd % 100
    let buf : List Nat := [2, s.linkaddr_node_addr.headD 0] ++ bytes_of_u16 reading
    ({ s with battery_level := s.battery_level - COST_SENSOR_TX },
      [effect.output (some s.parent) buf,
       effect.printf (log_t.process_send_reading (s.linkaddr_node_addr.headD 0) reading
         (s.parent.headD 0)),
       effect.etimer_reset timer_id.sensor_timer])
  else
    (s, [effect.printf (log_t.dlpm_skip (s.linkaddr_node_addr.headD 0)),
         effect.etimer_reset timer_id.sensor_timer])

/-- The body of `if (valve_open && etimer_expired(&valve_timer)) { ... }`. -/
def valve_tick (s : state) : state × List effect :=
  ({ s with valve_open := false },
    [effect.leds_off_red,
     effect.printf (log_t.process_valve_closed (s.linkaddr_node_addr.headD 0))])

end e_sensor_node

/-! ## `src/energised/e-border-router.c` -/

namespace e_border_router

/-- File-scope variables of `e-border-router.c` (with the `static` counters `lpmc`, `dpc` of
the energy branch and the node address `linkaddr_node_addr`). -/
structure state where
  linkaddr_node_addr : linkaddr_t
  my_rank : Nat
  battery_level : ℚ
  power_state : power_state_t
  last_cpu : Nat
  last_lpm : Nat
  last_tx : Nat
  last_rx : Nat
  lpmc : Nat
  dpc : Nat
deriving DecidableEq

/-- The function `update_battery`, for the counter readings `e` returned by
`energest_type_time` after the flush; the `float` arithmetic is binary32. -/
def update_battery (CLOCK_SECOND : Nat) (e : energest_t) (s : state) : state :=
  let d_cpu := u32_sub e.cpu s.last_cpu
  let d_lpm := u32_sub e.lpm s.last_lpm
  let d_tx := u32_sub e.tx s.last_tx
  let d_rx := u32_sub e.rx s.last_rx
  { s with
    last_cpu := e.cpu % 2 ^ 32
    last_lpm := e.lpm % 2 ^ 32
    last_tx := e.tx % 2 ^ 32
    last_rx := e.rx % 2 ^ 32
    battery_level :=
      f32_sub s.battery_level (battery_debit CLOCK_SECOND d_cpu d_lpm d_tx d_rx) }

/-- The function `broadcast_rank`; `undef` is the byte that `(uint8_t)battery_level` yields
when the battery level is outside the range of the conversion. -/
def broadcast_rank (undef : Nat) (s : state) : state × List effect :=
  let buf : List Nat :=
    [1, (s.my_rank >>> 8) % 256, s.my_rank % 256,
      u8_of_float undef s.battery_level, s.power_state.toNat % 256]
  ({ s with battery_level := s.battery_level - COST_HELLO },
    [effect.output none buf,
     effect.printf (log_t.tree_hello (s.linkaddr_node_addr.headD 0) s.my_rank
       (some (buf.getD 3 0)) (some (buf.getD 4 0)))])

/-- The function `input_callback` on a frame `data` (of length `len = data.length`). -/
def input_callback (s : state) (data : List Nat) (_src : linkaddr_t) : state × List effect :=
  let len := data.length
  let buf := fun i => data.getD i 0
  if len = 4 then
    if buf 0 = 2 then
      ({ s with battery_level := s.battery_level - COST_FORWARD },
        [effect.printf (log_t.process_server_got (buf 1) (u16_of_bytes (buf 2) (buf 3)))])
    else (s, [])
  else (s, [])

/-- The body of `if (sscanf(line, "%hhu %hhu %hu", &t, &n, &c) == 3) { ... }` of the serial
branch, for the three values `t`, `n`, `c` stored by `sscanf`. -/
def serial_command (LINKADDR_SIZE : Nat) (s : state) (t n c : Nat) : state × List effect :=
  let cmd : List Nat := [t, n] ++ bytes_of_u16 c
  ({ s with battery_level := s.battery_level - COST_FORWARD },
    [effect.output (some (linkaddr_of_u8 LINKADDR_SIZE n)) cmd,
     effect.printf (log_t.border_sent t n none)])

/-- The two recharge statements of the energy-timer branch of `border_router_process`. -/
def energy_recharge (s : state) : state :=
  let s1 : state :=
    if s.power_state = power_state_t.STATE_LPM then
      let c := (s.lpmc + 1) % 256
      if c ≥ 10 then { s with battery_level := s.battery_level + 1, lpmc := 0 }
      else { s with lpmc := c }
    else s
  if s1.power_state = power_state_t.STATE_DEEP_LPM then
    let c := (s1.dpc + 1) % 256
    if c ≥ 2 then { s1 with battery_level := s1.battery_level + 1, dpc := 0 }
    else { s1 with dpc := c }
  else s1

/-- The three consecutive `if` statements that switch the power state. -/
def energy_transitions (s : state) : state :=
  let s1 : state :=
    if s.power_state = power_state_t.STATE_ACTIVE ∧ s.battery_level ≤ LPM_THRESHOLD then
      { s with power_state := power_state_t.STATE_LPM }
    else s
  let s2 : state :=
    if s1.power_state = power_state_t.STATE_LPM ∧ s1.battery_level ≤ DEEP_LPM_THRESHOLD then
      { s1 with power_state := power_state_t.STATE_DEEP_LPM }
    else s1
  if s2.power_state = power_state_t.STATE_DEEP_LPM ∧ s2.battery_level ≥ WAKE_THRESHOLD then
    { s2 with power_state := power_state_t.STATE_ACTIVE }
  else s2

/-- The branch `if (etimer_expired(&energy_timer)) { ... }` of `border_router_process`, for
the counter readings `e`. -/
def energy_tick (CLOCK_SECOND : Nat) (e : energest_t) (s : state) : state × List effect :=
  (energy_transitions (energy_recharge (update_battery CLOCK_SECOND e s)),
    [effect.etimer_reset timer_id.energy_timer])

/-- The branch `if (etimer_expired(&hello_timer)) { ... }` of `border_router_process`. -/
def hello_tick (undef : Nat) (s : state) : state × List effect :=
  let r := broadcast_rank undef s
  (r.1, r.2 ++ [effect.etimer_reset timer_id.hello_timer])

/-- The state after the initialisation part of `border_router_process` (before the event
loop), on a node with address `addr`, for the counter readings `e` of the first flush. -/
def init (BORDER_NODE_ID : Nat) (addr : linkaddr_t) (e : energest_t) : state :=
  { linkaddr_node_addr := addr
    my_rank := if addr.headD 0 = BORDER_NODE_ID then 0 else 0xFFFF
    battery_level := BATTERY_MAX
    power_state := power_state_t.STATE_ACTIVE
    last_cpu := e.cpu % 2 ^ 32
    last_lpm := e.lpm % 2 ^ 32
    last_tx := e.tx % 2 ^ 32
    last_rx := e.rx % 2 ^ 32
    lpmc := 0
    dpc := 0 }

end e_border_router

/-! ## `src/no_energised/computation-node.c`

`clock_seconds()` and `clock_time_t` are taken to be 32 bits wide; `now` is the value returned
by `clock_seconds()` during the call. -/

namespace computation_node

/-- The `sensor_window_t` of the energy-unaware computation node. -/
structure sensor_window_t where
  id : Nat
  count : Nat
  idx : Nat
  last_ts : Nat
  values : List Nat
deriving DecidableEq, Repr

/-- The result of `memset(&w, 0, sizeof(sensor_window_t))`. -/
def zero_window : sensor_window_t :=
  { id := 0, count := 0, idx := 0, last_ts := 0, values := List.replicate WINDOW_SIZE 0 }

/-- File-scope variables of `computation-node.c` (with the node address). -/
structure state where
  linkaddr_node_addr : linkaddr_t
  my_rank : Nat
  parent : linkaddr_t
  sensors : List sensor_window_t
deriving DecidableEq

/-- The function `broadcast_rank`: the two bytes of `my_rank` are sent as they lie in memory. -/
def broadcast_rank (s : state) : state × List effect :=
  (s, [effect.output none (bytes_of_u16 s.my_rank),
       effect.printf (log_t.tree_hello (s.linkaddr_node_addr.headD 0) s.my_rank none none)])

/-- The body of the first loop of `get_window`, for loop index `i`. -/
def expire_step (now : Nat) (t : List sensor_window_t) (i : Nat) : List sensor_window_t :=
  if (t.getD i zero_window).count > 0 ∧
      u32_sub now (t.getD i zero_window).last_ts > WINDOW_EXPIRY then
    t.set i zero_window
  else t

/-- The first loop of `get_window`: expire stale windows. -/
def expire_windows (now : Nat) (sensors : List sensor_window_t) : List sensor_window_t :=
  (List.range MAX_SENSORS).foldl (expire_step now) sensors

/-- The function `get_window`: the index of the slot returned (`none` for `NULL`) and the
table after the call. -/
def get_window (now : Nat) (sensors : List sensor_window_t) (id : Nat) :
    Option Nat × List sensor_window_t :=
  let sensors := expire_windows now sensors
  match first_index
      (fun i => decide ((sensors.getD i zero_window).count > 0) &&
        decide ((sensors.getD i zero_window).id = id)) MAX_SENSORS 0 with
  | some i => (some i, sensors)
  | none =>
    match first_index (fun i => decide ((sensors.getD i zero_window).count = 0))
        MAX_SENSORS 0 with
    | some i => (some i, sensors.set i { zero_window with id := id })
    | none => (none, sensors)

/-- The function `compute_slope_fixed`: the buffer is read oldest-first, from position `idx`. -/
def compute_slope_fixed (w : sensor_window_t) : ℚ :=
  let sum_i : ℚ := (((WINDOW_SIZE - 1) * WINDOW_SIZE : Nat) : ℚ) / 2
  let sum_i2 : ℚ := (((WINDOW_SIZE - 1) * WINDOW_SIZE * (2 * WINDOW_SIZE - 1) : Nat) : ℚ) / 6
  let acc : ℚ × ℚ := (List.range WINDOW_SIZE).foldl
    (fun (a : ℚ × ℚ) (k : Nat) =>
      let pos := (w.idx + k) % WINDOW_SIZE
      let v : ℚ := (w.values.getD pos 0 : ℚ)
      (a.1 + v, a.2 + (k : ℚ) * v))
    (0, 0)
  let sum_v := acc.1
  let sum_iv := acc.2
  let num : ℚ := (WINDOW_SIZE : ℚ) * sum_iv - sum_i * sum_v
  let den : ℚ := (WINDOW_SIZE : ℚ) * sum_i2 - sum_i * sum_i
  if den ≠ 0 then num / den else 0

/-- The four statements of `input_callback` that store a reading `val` into the window `w`:
`w->values[w->idx] = val; w->last_ts = clock_seconds(); if (w->count < WINDOW_SIZE) w->count++;
w->idx = (w->idx + 1) % WINDOW_SIZE`. -/
def store_reading (now : Nat) (w : sensor_window_t) (val : Nat) : sensor_window_t :=
  let w := { w with values := w.values.set w.idx val, last_ts := now % 2 ^ 32 }
  let w := if w.count < WINDOW_SIZE then { w with count := (w.count + 1) % 256 } else w
  { w with idx := (w.idx + 1) % WINDOW_SIZE }

/-- The body of the branch `if (len == sizeof(uint16_t)) { ... }` of `input_callback`. -/
def on_hello (s : state) (data : List Nat) (src : linkaddr_t) : state × List effect :=
  let buf := fun i => data.getD i 0
  let recv_rank := u16_of_bytes (buf 0) (buf 1)
  if recv_rank + 1 < s.my_rank then
    ({ s with my_rank := (recv_rank + 1) % 65536, parent := src },
      [effect.printf (log_t.tree_new_parent (s.linkaddr_node_addr.headD 0) (src.headD 0)
        ((recv_rank + 1) % 65536) none)])
  else (s, [])

/-- The body of the branch `if (len >= 4 && buf[0] == 2) { ... }` of `input_callback`. -/
def on_sensor (LINKADDR_SIZE : Nat) (now : Nat) (s : state) (data : List Nat) :
    state × List effect :=
  let buf := fun i => data.getD i 0
  let sid := buf 1
  let val := u16_of_bytes (buf 2) (buf 3)
  match get_window now s.sensors sid with
  | (some i, sensors) =>
    let w := store_reading now (sensors.getD i zero_window) val
    let s := { s with sensors := sensors.set i w }
    if w.count ≥ WINDOW_SIZE then
      let slope := compute_slope_fixed w
      let log := effect.printf (log_t.process_slope (s.linkaddr_node_addr.headD 0) slope sid)
      if slope > SLOPE_THRESHOLD then
        let cmd : List Nat := [3, sid] ++ bytes_of_u16 1
        (s, [log, effect.output (some (linkaddr_of_u8 LINKADDR_SIZE sid)) cmd,
             effect.printf (log_t.process_open_valve (s.linkaddr_node_addr.headD 0) sid)])
      else (s, [log])
    else (s, [])
  | (none, sensors) => ({ s with sensors := sensors }, [])

/-- The function `input_callback` on a frame `data` (of length `len = data.length`) from `src`,
at clock reading `now`. -/
def input_callback (LINKADDR_SIZE : Nat) (now : Nat) (s : state) (data : List Nat)
    (src : linkaddr_t) : state × List effect :=
  let len := data.length
  let buf := fun i => data.getD i 0
  if len = 2 then on_hello s data src
  else if len ≥ 4 ∧ buf 0 = 2 then on_sensor LINKADDR_SIZE now s data
  else (s, [])

end computation_node

/-! ## `src/no_energised/sensor-node.c` -/

namespace sensor_node

/-- File-scope variables of `sensor-node.c` (with the node address). -/
structure state where
  linkaddr_node_addr : linkaddr_t
  my_rank : Nat
  parent : linkaddr_t
  sensor_timer_started : Bool
  valve_open : Bool
deriving DecidableEq

/-- The function `broadcast_rank`. -/
def broadcast_rank (s : state) : state × List effect :=
  (s, [effect.output none (bytes_of_u16 s.my_rank),
       effect.printf (log_t.tree_hello (s.linkaddr_node_addr.headD 0) s.my_rank none none)])

/-- The function `input_callback` on a frame `data` (of length `len = data.length`) from `src`;
a 4-byte frame is read through `packet_t` (`type`, `node`, little-endian `value`). -/
def input_callback (CLOCK_SECOND : Nat) (s : state) (data : List Nat) (src : linkaddr_t) :
    state × List effect :=
  let len := data.length
  let buf := fun i => data.getD i 0
  if len = 2 then
    let recv_rank := u16_of_bytes (buf 0) (buf 1)
    if recv_rank + 1 < s.my_rank then
      ({ s with my_rank := (recv_rank + 1) % 65536, parent := src },
        [effect.printf (log_t.tree_new_parent (s.linkaddr_node_addr.headD 0) (src.headD 0)
          ((recv_rank + 1) % 65536) none)])
    else (s, [])
  else if len = 4 then
    if buf 0 = 3 ∧ u16_of_bytes (buf 2) (buf 3) = 1 then
      ({ s with valve_open := true },
        [effect.leds_on_red, effect.etimer_set timer_id.valve_timer (VALVE_DURATION CLOCK_SECOND),
         effect.printf (log_t.process_valve_open (s.linkaddr_node_addr.headD 0))])
    else (s, [])
  else (s, [])

/-- The branch `if (etimer_expired(&hello_timer)) { ... }` of `sensor_node_process`. -/
def hello_tick (CLOCK_SECOND : Nat) (s : state) : state × List effect :=
  let r := broadcast_rank s
  if r.1.sensor_timer_started = false ∧ r.1.my_rank ≠ 0xFFFF then
    ({ r.1 with sensor_timer_started := true },
      r.2 ++ [effect.etimer_reset timer_id.hello_timer,
              effect.etimer_set timer_id.sensor_timer (SENSOR_INTERVAL CLOCK_SECOND)])
  else (r.1, r.2 ++ [effect.etimer_reset timer_id.hello_timer])

/-- The body of `if (sensor_timer_started && etimer_expired(&sensor_timer)) { ... }`, where
`rnd` is the value returned by `random_rand()`. -/
def sensor_tick (rnd : Nat) (s : state) : state × List effect :=
  let reading := rnd % 100
  let pkt : List Nat := [2, s.linkaddr_node_addr.headD 0] ++ bytes_of_u16 reading
  (s, [effect.output (some s.parent) pkt,
       effect.printf (log_t.process_send_reading (s.linkaddr_node_addr.headD 0) reading
         (s.parent.headD 0)),
       effect.etimer_reset timer_id.sensor_timer])

/-- The body of `if (valve_open && etimer_expired(&valve_timer)) { ... }`. -/
def valve_tick (s : state) : state × List effect :=
  ({ s with valve_open := false },
    [effect.leds_off_red,
     effect.printf (log_t.process_valve_closed (s.linkaddr_node_addr.headD 0))])

end sensor_node

/-! ## `src/no_energised/border-router.c` -/

namespace border_router

/-- File-scope variables of `border-router.c` (with the node address). -/
structure state where
  linkaddr_node_addr : linkaddr_t
  my_rank : Nat
  parent : linkaddr_t
deriving DecidableEq

/-- The function `broadcast_rank`. -/
def broadcast_rank (s : state) : state × List effect :=
  (s, [effect.output none (bytes_of_u16 s.my_rank),
       effect.printf (log_t.tree_hello (s.linkaddr_node_addr.headD 0) s.my_rank none none)])

/-- The function `input_callback` on a frame `data` (of length `len = data.length`) from `src`;
a 4-byte frame is read through `packet_t` (`type`, `node`, little-endian `value`). -/
def input_callback (s : state) (data : List Nat) (src : linkaddr_t) : state × List effect :=
  let len := data.length
  let buf := fun i => data.getD i 0
  if len = 2 then
    let recv_rank := u16_of_bytes (buf 0) (buf 1)
    if recv_rank + 1 < s.my_rank then
      ({ s with my_rank := (recv_rank + 1) % 65536, parent := src },
        [effect.printf (log_t.tree_new_parent (s.linkaddr_node_addr.headD 0) (src.headD 0)
          ((recv_rank + 1) % 65536) none)])
    else (s, [])
  else if len = 4 then
    if buf 0 = 2 then
      (s, [effect.printf (log_t.process_server_got (buf 1) (u16_of_bytes (buf 2) (buf 3)))])
    else (s, [])
  else (s, [])

/-- The body of `if (sscanf(line, "%u %u %u", &type, &node, &code) == 3) { ... }` of the
serial branch, for the three `unsigned int` values stored by `sscanf`. -/
def serial_command (LINKADDR_SIZE : Nat) (s : state) (type node code : Nat) :
    state × List effect :=
  let cmd : List Nat := [type % 256, node % 256] ++ bytes_of_u16 code
  (s, [effect.output (some (linkaddr_of_u8 LINKADDR_SIZE (node % 256))) cmd,
       effect.printf (log_t.border_sent type node (some code))])

end border_router

/-! ## Spec-side definitions and runs -/

/-- The least-squares slope of `N = 30` samples `vs` as the specification words it:
`Sᵢ = N(N-1)/2`, `Sᵢᵢ = (N-1)N(2N-1)/6`, `Sᵥ = Σ vₖ`, `Sᵢᵥ = Σ k·vₖ` over the samples in
arrival order, and `slope = (N·Sᵢᵥ − Sᵢ·Sᵥ) / (N·Sᵢᵢ − Sᵢ²)`. -/
def spec_slope (vs : List Nat) : ℚ :=
  let N : ℚ := 30
  let Si : ℚ := N * (N - 1) / 2
  let Sii : ℚ := (N - 1) * N * (2 * N - 1) / 6
  let Sv : ℚ := ((List.range 30).map (fun (k : Nat) => (vs.getD k 0 : ℚ))).sum
  let Siv : ℚ := ((List.range 30).map (fun (k : Nat) => (k : ℚ) * (vs.getD k 0 : ℚ))).sum
  (N * Siv - Si * Sv) / (N * Sii - Si ^ 2)

/-- The 4-byte SENSOR frame `[2, sid, v_lo, v_hi]`. -/
def sensor_frame (sid v : Nat) : List Nat := [2, sid] ++ bytes_of_u16 v

/-- The state after handling the inputs `inputs` one after the other with `step`. -/
def run_inputs {σ ι : Type} (step : σ → ι → σ × List effect) (s : σ) (inputs : List ι) : σ :=
  inputs.foldl (fun s i => (step s i).1) s

/-- The effect lists produced while handling `inputs` one after the other with `step`, one
list per input, in order. -/
def run_effects {σ ι : Type} (step : σ → ι → σ × List effect) : σ → List ι → List (List effect)
  | _, [] => []
  | s, i :: rest => (step s i).2 :: run_effects step (step s i).1 rest

/-- The power state left by the three consecutive transition `if`s, started in state `p`
with battery level `b`: each test reads the state written by the one before it. -/
def chained_power_state (p : power_state_t) (b : ℚ) : power_state_t :=
  let p1 := if p = power_state_t.STATE_ACTIVE ∧ b ≤ LPM_THRESHOLD then
    power_state_t.STATE_LPM else p
  let p2 := if p1 = power_state_t.STATE_LPM ∧ b ≤ DEEP_LPM_THRESHOLD then
    power_state_t.STATE_DEEP_LPM else p1
  if p2 = power_state_t.STATE_DEEP_LPM ∧ b ≥ WAKE_THRESHOLD then
    power_state_t.STATE_ACTIVE else p2

/-- An energised sensor node that is Active with battery level 5. -/
def low_sensor : e_sensor_node.state :=
  { linkaddr_node_addr := [2, 0], my_rank := 1, parent := [1, 0], parent_energy := 40,
    sensor_timer_started := true, valve_open := false, battery_level := 5,
    power_state := power_state_t.STATE_ACTIVE,
    last_cpu := 0, last_lpm := 0, last_tx := 0, last_rx := 0, lpm_cnt := 0, deep_cnt := 0 }

/-- An energised computation node that is Active with battery level 5. -/
def low_computation : e_computation_node.state :=
  { linkaddr_node_addr := [3, 0], my_rank := 3, parent := [1, 0], parent_energy := 40,
    sensors := List.replicate MAX_SENSORS e_computation_node.zero_window, battery_level := 5,
    power_state := power_state_t.STATE_ACTIVE,
    last_cpu := 0, last_lpm := 0, last_tx := 0, last_rx := 0, lpm_cnt := 0, deep_cnt := 0 }

/-- An energised border router that is Active with battery level 5. -/
def low_border : e_border_router.state :=
  { linkaddr_node_addr := [1, 0], my_rank := 0, battery_level := 5,
    power_state := power_state_t.STATE_ACTIVE,
    last_cpu := 0, last_lpm := 0, last_tx := 0, last_rx := 0, lpmc := 0, dpc := 0 }

/-- An energised sensor node in Deep-LPM with battery level 89.5, one tick before its next
recharge. -/
def deep_sensor : e_sensor_node.state :=
  { low_sensor with
    battery_level := 89.5, power_state := power_state_t.STATE_DEEP_LPM, deep_cnt := 1 }

/-- An energised sensor node in LPM with battery level 20. -/
def lpm_sensor : e_sensor_node.state :=
  { low_sensor with battery_level := 20, power_state := power_state_t.STATE_LPM }

/-- A full energy-unaware window whose next write position is 7 and whose samples, read
oldest-first from position 7, are `0, 1, ..., 29`. -/
def ramp_window_at_7 : computation_node.sensor_window_t :=
  { id := 7, count := 30, idx := 7, last_ts := 0,
    values := [23, 24, 25, 26, 27, 28, 29, 0, 1, 2, 3, 4, 5, 6, 7, 8, 9, 10, 11, 12, 13, 14,
      15, 16, 17, 18, 19, 20, 21, 22] }

/-- The frames handed to the radio by a list of effects: destination (`none` for broadcast)
and bytes, in order. -/
def outputs_of (l : List effect) : List (Option linkaddr_t × List Nat) :=
  l.filterMap (fun e => match e with
    | effect.output dest buf => some (dest, buf)
    | _ => none)

/-- The window that holds the readings `pre` (at most 30 of them) of sensor `sid` after they
were stored, in arrival order, into a freshly allocated energised window. -/
def e_window_of (sid : Nat) (pre : List Nat) : e_computation_node.sensor_window_t :=
  { id := sid, count := pre.length, idx := pre.length % WINDOW_SIZE,
    values := pre ++ List.replicate (WINDOW_SIZE - pre.length) 0 }

/-- Slot `j` of the energised table `t` holds exactly the readings `pre` of sensor `sid`, and
no other slot is an occupied window of `sid`. -/
def e_tracked (t : List e_computation_node.sensor_window_t) (j sid : Nat) (pre : List Nat) :
    Prop :=
  j < MAX_SENSORS ∧ t.length = MAX_SENSORS ∧
  t.getD j e_computation_node.zero_window = e_window_of sid pre ∧
  ∀ i, i < MAX_SENSORS → i ≠ j →
    ¬ ((t.getD i e_computation_node.zero_window).count > 0 ∧
       (t.getD i e_computation_node.zero_window).id = sid)

/-- The window that holds the readings `pre` (at most 30 of them) of sensor `sid` after they
were stored, in arrival order, into a freshly allocated energy-unaware window, the last one
at clock reading `ts`. -/
def c_window_of (sid ts : Nat) (pre : List Nat) : computation_node.sensor_window_t :=
  { id := sid, count := pre.length, idx := pre.length % WINDOW_SIZE, last_ts := ts,
    values := pre ++ List.replicate (WINDOW_SIZE - pre.length) 0 }

/-- Slot `j` of the energy-unaware table `t` holds exactly the readings `pre` of sensor `sid`
with time stamp `ts`, and no other slot is an occupied window of `sid`. -/
def c_tracked (t : List computation_node.sensor_window_t) (j sid ts : Nat) (pre : List Nat) :
    Prop :=
  j < MAX_SENSORS ∧ t.length = MAX_SENSORS ∧
  t.getD j computation_node.zero_window = c_window_of sid ts pre ∧
  ∀ i, i < MAX_SENSORS → i ≠ j →
    ¬ ((t.getD i computation_node.zero_window).count > 0 ∧
       (t.getD i computation_node.zero_window).id = sid)

/-- An energy-unaware computation node with an empty window table. -/
def fresh_computation : computation_node.state :=
  { linkaddr_node_addr := [3, 0], my_rank := 1, parent := [1, 0],
    sensors := List.replicate MAX_SENSORS computation_node.zero_window }

/-- An energised computation node, Active and fully charged, with an empty window table. -/
def fresh_e_computation : e_computation_node.state :=
  { low_computation with battery_level := 100 }

/-- The readings `0, 1, ..., 29`. -/
def ramp : List Nat := List.range 30

/-- The readings `0, 1, ..., 29`, one every 60 seconds. -/
def timed_ramp : List (Nat × Nat) := (List.range 30).map (fun k => (60 * k, k))

/-- The readings `0, 1, ..., 29`, one every 301 seconds. -/
def slow_ramp : List (Nat × Nat) := (List.range 30).map (fun k => (301 * k, k))

/-- The energised window reached by storing the readings `0, 1, ..., 30` of sensor 7 into a
fresh window: the buffer has wrapped once, the next write position is 1, and the 30 samples
in arrival order (from position 1) are `1, 2, ..., 30`. -/
def wrapped_e_window : e_computation_node.sensor_window_t :=
  { id := 7, count := 30, idx := 1,
    values := [30, 1, 2, 3, 4, 5, 6, 7, 8, 9, 10, 11, 12, 13, 14, 15, 16, 17, 18, 19, 20, 21,
      22, 23, 24, 25, 26, 27, 28, 29] }

/-- The energy-unaware window with the same buffer contents and write position as
`wrapped_e_window`. -/
def wrapped_window : computation_node.sensor_window_t :=
  { id := 7, count := 30, idx := 1, last_ts := 0, values := wrapped_e_window.values }

/-- An energised computation node in Deep-LPM with battery level 8 and parent `[1, 0]`. -/
def deep_computation : e_computation_node.state :=
  { low_computation with battery_level := 8, power_state := power_state_t.STATE_DEEP_LPM }

/-- An energised sensor node of rank 3 with parent `[1, 0]` and cached parent energy 40. -/
def rank3_sensor : e_sensor_node.state :=
  { low_sensor with my_rank := 3, battery_level := 100 }

/-! ## Definitions for the serial line, the timers and the LEDs -/

/-- The serial branch `if (ev == serial_line_event_message) { ... continue; }` of the
energised `border_router_process`. The argument `scan` is the outcome of
`sscanf(line, "%hhu %hhu %hu", &t, &n, &c)` on the received line: `some (t, n, c)` when it
returns 3 (with the values it stored), `none` otherwise. -/
def e_border_router.serial_line_event (LINKADDR_SIZE : Nat) (s : e_border_router.state)
    (scan : Option (Nat × Nat × Nat)) : e_border_router.state × List effect :=
  match scan with
  | some (t, n, c) => e_border_router.serial_command LINKADDR_SIZE s t n c
  | none => (s, [])

/-- The serial branch `if (ev == serial_line_event_message) { ... continue; }` of the
energy-unaware `border_router_process`. The argument `scan` is the outcome of
`sscanf(line, "%u %u %u", &type, &node, &code)` on the received line: `some (type, node, code)`
when it returns 3 (with the values it stored), `none` otherwise. -/
def border_router.serial_line_event (LINKADDR_SIZE : Nat) (s : border_router.state)
    (scan : Option (Nat × Nat × Nat)) : border_router.state × List effect :=
  match scan with
  | some (type, node, code) => border_router.serial_command LINKADDR_SIZE s type node code
  | none => (s, [])

/-- Modelled from the spec: the external timer interface `set(timer, duration)`,
`reset(timer)` (re-arms from the previous target). A timer is `none` while never armed and
`some (expiry, interval)` once armed; the result is the state of timer `t` after the effects
`effs` were performed at clock tick `now`. -/
def timer_after (t : timer_id) (now : Nat) : Option (Nat × Nat) → List effect →
    Option (Nat × Nat)
  | old, [] => old
  | old, effect.etimer_set t1 d :: rest =>
    timer_after t now (if t1 = t then some (now + d, d) else old) rest
  | old, effect.etimer_reset t1 :: rest =>
    timer_after t now
      (if t1 = t then old.map (fun p => (p.1 + p.2, p.2)) else old) rest
  | old, _ :: rest => timer_after t now old rest

/-- Modelled from the spec: the external LED interface `on(RED)`, `off(RED)`. The result is
the state of the red LED after the effects `effs`, given its state `old` before. -/
def red_led_after : Bool → List effect → Bool
  | old, [] => old
  | _, effect.leds_on_red :: rest => red_led_after true rest
  | _, effect.leds_off_red :: rest => red_led_after false rest
  | old, _ :: rest => red_led_after old rest

/-- The state after the initialisation part of the energised `sensor_node_process` (before
the event loop), on a node with address `addr`, for the counter readings `e` of the first
flush; `LINKADDR_SIZE` gives the size of the zero-initialised `parent`. -/
def e_sensor_node.init (LINKADDR_SIZE BORDER_NODE_ID : Nat) (addr : linkaddr_t)
    (e : energest_t) : e_sensor_node.state :=
  { linkaddr_node_addr := addr
    my_rank := if addr.headD 0 = BORDER_NODE_ID then 0 else 0xFFFF
    parent := List.replicate LINKADDR_SIZE 0
    parent_energy := 0
    sensor_timer_started := false
    valve_open := false
    battery_level := BATTERY_MAX
    power_state := power_state_t.STATE_ACTIVE
    last_cpu := e.cpu % 2 ^ 32
    last_lpm := e.lpm % 2 ^ 32
    last_tx := e.tx % 2 ^ 32
    last_rx := e.rx % 2 ^ 32
    lpm_cnt := 0
    deep_cnt := 0 }

/-- The state after the initialisation part of the energised `computation_node_process`
(before the event loop), on a node with address `addr`, for the counter readings `e` of the
first flush; `LINKADDR_SIZE` gives the size of the zero-initialised `parent`. -/
def e_computation_node.init (LINKADDR_SIZE BORDER_NODE_ID : Nat) (addr : linkaddr_t)
    (e : energest_t) : e_computation_node.state :=
  { linkaddr_node_addr := addr
    my_rank := if addr.headD 0 = BORDER_NODE_ID then 0 else 0xFFFF
    parent := List.replicate LINKADDR_SIZE 0
    parent_energy := 0
    sensors := List.replicate MAX_SENSORS e_computation_node.zero_window
    battery_level := BATTERY_MAX
    power_state := power_state_t.STATE_ACTIVE
    last_cpu := e.cpu % 2 ^ 32
    last_lpm := e.lpm % 2 ^ 32
    last_tx := e.tx % 2 ^ 32
    last_rx := e.rx % 2 ^ 32
    lpm_cnt := 0
    deep_cnt := 0 }

/-- An energy-unaware sensor node of rank 2 with parent `[1, 0]` and a closed valve. -/
def plain_sensor : sensor_node.state :=
  { linkaddr_node_addr := [7, 0], my_rank := 2, parent := [1, 0],
    sensor_timer_started := true, valve_open := false }

/-- An energy-unaware border router (the root). -/
def plain_border : border_router.state :=
  { linkaddr_node_addr := [1, 0], my_rank := 0, parent := [0, 0] }

/-- An energised border router (the root), Active and fully charged. -/
def full_border : e_border_router.state :=
  { low_border with battery_level := 100 }

/-- An energised sensor node (address 7, not the border) right after initialisation:
unjoined, parent `[0, 0]`, cached parent energy 0. -/
def unjoined_e_sensor : e_sensor_node.state :=
  e_sensor_node.init 2 1 [7, 0] ⟨0, 0, 0, 0⟩

/-- An energised computation node (address 3, not the border) right after initialisation:
unjoined, parent `[0, 0]`, cached parent energy 0. -/
def unjoined_e_computation : e_computation_node.state :=
  e_computation_node.init 2 1 [3, 0] ⟨0, 0, 0, 0⟩

/-- An energy-unaware sensor node that has not joined the tree. -/
def unjoined_sensor : sensor_node.state :=
  { linkaddr_node_addr := [7, 0], my_rank := 0xFFFF, parent := [0, 0],
    sensor_timer_started := false, valve_open := false }

/-- An energised window table whose five slots are occupied by the sensors 1, 2, 3, 4, 5
(one reading, 40, each). -/
def full_e_table : List e_computation_node.sensor_window_t :=
  (List.range 5).map (fun i =>
    { id := i + 1, count := 1, idx := 1, values := 40 :: List.replicate 29 0 })

/-- An energised computation node in Deep-LPM (battery 8, parent `[1, 0]`) whose window table
is `full_e_table`. -/
def full_deep_computation : e_computation_node.state :=
  { deep_computation with sensors := full_e_table }

/-- An energised computation node, Active and fully charged, whose window table is
`full_e_table`. -/
def full_e_computation : e_computation_node.state :=
  { fresh_e_computation with sensors := full_e_table }

/-- An energy-unaware computation node whose five slots are occupied by the sensors
1, 2, 3, 4, 5 (one reading, 40, each, stored at clock reading 1000). -/
def full_computation : computation_node.state :=
  { fresh_computation with
    sensors := (List.range 5).map (fun i =>
      { id := i + 1, count := 1, idx := 1, last_ts := 1000,
        values := 40 :: List.replicate 29 0 }) }

/-- An energised computation node, Active with battery 100, whose first slot holds the 29
readings `0, 1, ..., 28` of sensor 7 (the other slots are free). -/
def primed_e_computation : e_computation_node.state :=
  { fresh_e_computation with
    sensors := e_window_of 7 (List.range 29) ::
      List.replicate 4 e_computation_node.zero_window }

/-- An energised sensor node, Active with battery level 31 and all counter snapshots 0. -/
def active31_sensor : e_sensor_node.state :=
  { low_sensor with battery_level := 31 }

/-- An energised computation node, Active with battery level 31 and all counter snapshots
0. -/
def active31_computation : e_computation_node.state :=
  { low_computation with battery_level := 31 }

/-- An energised border router, Active with battery level 31 and all counter snapshots 0. -/
def active31_border : e_border_router.state :=
  { low_border with battery_level := 31 }

/-- An energised sensor node in LPM with battery level 20 and LPM recharge counter `c`. -/
def lpm_sensor_at (c : Nat) : e_sensor_node.state :=
  { lpm_sensor with lpm_cnt := c }

/-! ## Definitions for the slope constants -/

/-- The constant `sum_i = (WINDOW_SIZE - 1) * WINDOW_SIZE / 2.0` of `compute_slope` and
`compute_slope_fixed`. -/
def slope_sum_i : ℚ := (((WINDOW_SIZE - 1) * WINDOW_SIZE : Nat) : ℚ) / 2

/-- The constant `sum_i2 = (WINDOW_SIZE - 1) * WINDOW_SIZE * (2*WINDOW_SIZE - 1) / 6.0` of
`compute_slope` and `compute_slope_fixed`. -/
def slope_sum_i2 : ℚ :=
  (((WINDOW_SIZE - 1) * WINDOW_SIZE * (2 * WINDOW_SIZE - 1) : Nat) : ℚ) / 6

/-- The denominator `den = WINDOW_SIZE * sum_i2 - sum_i * sum_i` of `compute_slope` and
`compute_slope_fixed`. -/
def slope_den : ℚ := (WINDOW_SIZE : ℚ) * slope_sum_i2 - slope_sum_i * slope_sum_i

/-- The numerator `num = WINDOW_SIZE * sum_iv - sum_i * sum_v` of `compute_slope_fixed`, with
the two sums accumulated by its loop over `k = 0 .. 29` at the positions `(idx + k) % 30`. -/
def slope_num_fixed (w : computation_node.sensor_window_t) : ℚ :=
  (WINDOW_SIZE : ℚ) *
      ((List.range WINDOW_SIZE).map (fun (k : Nat) =>
        (k : ℚ) * (w.values.getD ((w.idx + k) % WINDOW_SIZE) 0 : ℚ))).sum -
    slope_sum_i *
      ((List.range WINDOW_SIZE).map (fun (k : Nat) =>
        (w.values.getD ((w.idx + k) % WINDOW_SIZE) 0 : ℚ))).sum

/-- The numerator `num = WINDOW_SIZE * siv - sum_i * sv` of the energised `compute_slope`,
with the two sums accumulated by its loop over the buffer positions `i = 0 .. 29`. -/
def slope_num (w : e_computation_node.sensor_window_t) : ℚ :=
  (WINDOW_SIZE : ℚ) *
      ((List.range WINDOW_SIZE).map (fun (i : Nat) =>
        (i : ℚ) * (w.values.getD i 0 : ℚ))).sum -
    slope_sum_i *
      ((List.range WINDOW_SIZE).map (fun (i : Nat) => (w.values.getD i 0 : ℚ))).sum

/-! ## Definitions for the idle scenario -/

/-- The counter readings `e` follow the readings `prev` by one idle second: only the LPM
counter has grown, by `CLOCK_SECOND` ticks (`Δlpm = CLOCK_SECOND`, `Δcpu = Δtx = Δrx = 0`, the
differences being the `uint32_t` subtractions of `update_battery`). -/
def idle_second (CLOCK_SECOND : Nat) (prev e : energest_t) : Prop :=
  u32_sub e.cpu prev.cpu = 0 ∧ u32_sub e.lpm prev.lpm = CLOCK_SECOND ∧
  u32_sub e.tx prev.tx = 0 ∧ u32_sub e.rx prev.rx = 0

instance (CLOCK_SECOND : Nat) (prev e : energest_t) :
    Decidable (idle_second CLOCK_SECOND prev e) := by
  unfold idle_second
  infer_instance

/-- The snapshot `last_cpu, last_lpm, last_tx, last_rx` kept by the energised sensor node. -/
def e_sensor_node.snapshot (s : e_sensor_node.state) : energest_t :=
  ⟨s.last_cpu, s.last_lpm, s.last_tx, s.last_rx⟩

/-- The snapshot `last_cpu, last_lpm, last_tx, last_rx` kept by the energised computation
node. -/
def e_computation_node.snapshot (s : e_computation_node.state) : energest_t :=
  ⟨s.last_cpu, s.last_lpm, s.last_tx, s.last_rx⟩

/-- The snapshot `last_cpu, last_lpm, last_tx, last_rx` kept by the energised border
router. -/
def e_border_router.snapshot (s : e_border_router.state) : energest_t :=
  ⟨s.last_cpu, s.last_lpm, s.last_tx, s.last_rx⟩

/-- An energised sensor node in Deep-LPM with battery level 89 and Deep-LPM recharge counter
`c`. -/
def deep89_sensor (c : Nat) : e_sensor_node.state :=
  { low_sensor with
    battery_level := 89, power_state := power_state_t.STATE_DEEP_LPM, deep_cnt := c }

/-- An energised computation node in Deep-LPM with battery level 89 and Deep-LPM recharge
counter `c`. -/
def deep89_computation (c : Nat) : e_computation_node.state :=
  { low_computation with
    battery_level := 89, power_state := power_state_t.STATE_DEEP_LPM, deep_cnt := c }

/-- An energised border router in Deep-LPM with battery level 89 and Deep-LPM recharge
counter `c`. -/
def deep89_border (c : Nat) : e_border_router.state :=
  { low_border with
    battery_level := 89, power_state := power_state_t.STATE_DEEP_LPM, dpc := c }

/-! ## The window table invariant -/

/-- The invariant of one window with `count` readings stored and next write position `idx`:
`count ≤ 30`, `idx < 30`, and `idx = count` as long as the window is not full. -/
def window_ok (count idx : Nat) : Prop :=
  count ≤ WINDOW_SIZE ∧ idx < WINDOW_SIZE ∧ (count < WINDOW_SIZE → idx = count)

instance (count idx : Nat) : Decidable (window_ok count idx) := by
  unfold window_ok
  infer_instance

/-- The invariant of a table `T` of windows of type `W` (with field accessors `id`, `count`,
`idx` and zeroed window `z`): it has `MAX_SENSORS` slots, every window satisfies `window_ok`,
and no two occupied windows (`count > 0`) have the same source id. -/
def table_inv {W : Type} (id count idx : W → Nat) (z : W) (T : List W) : Prop :=
  T.length = MAX_SENSORS ∧
  (∀ i, i < MAX_SENSORS → window_ok (count (T.getD i z)) (idx (T.getD i z))) ∧
  (∀ i, i < MAX_SENSORS → ∀ j, j < MAX_SENSORS → i ≠ j →
    count (T.getD i z) > 0 → count (T.getD j z) > 0 → id (T.getD i z) ≠ id (T.getD j z))

instance {W : Type} (id count idx : W → Nat) (z : W) (T : List W) :
    Decidable (table_inv id count idx z T) :=
  @instDecidableAnd _ _ _ (@instDecidableAnd _ _ _ (Nat.decidableBallLT _ _))

/-- The window table invariant for the table of the energised computation node. -/
def e_table_inv (T : List e_computation_node.sensor_window_t) : Prop :=
  table_inv e_computation_node.sensor_window_t.id e_computation_node.sensor_window_t.count
    e_computation_node.sensor_window_t.idx e_computation_node.zero_window T

/-- The window table invariant for the table of the energy-unaware computation node. -/
def c_table_inv (T : List computation_node.sensor_window_t) : Prop :=
  table_inv computation_node.sensor_window_t.id computation_node.sensor_window_t.count
    computation_node.sensor_window_t.idx computation_node.zero_window T

instance (T : List e_computation_node.sensor_window_t) : Decidable (e_table_inv T) := by
  unfold e_table_inv
  infer_instance

instance (T : List computation_node.sensor_window_t) : Decidable (c_table_inv T) := by
  unfold c_table_inv
  infer_instance

/-! ## Definitions for the crowded-table scenario -/

/-- Frames of six sensors for a table of five windows, with their clock readings: the
sensors 1..5 send one reading each at clock reading 0, the sensors 2..5 send a second reading
at 200, and sensor 6 sends its first reading at 301. -/
def crowded_frames : List (Nat × List Nat × linkaddr_t) :=
  [(0, [2, 1, 40, 0], [1, 0]), (0, [2, 2, 40, 0], [2, 0]), (0, [2, 3, 40, 0], [3, 0]),
   (0, [2, 4, 40, 0], [4, 0]), (0, [2, 5, 40, 0], [5, 0]),
   (200, [2, 2, 41, 0], [2, 0]), (200, [2, 3, 41, 0], [3, 0]), (200, [2, 4, 41, 0], [4, 0]),
   (200, [2, 5, 41, 0], [5, 0]),
   (301, [2, 6, 50, 0], [6, 0])]

/-- The energy-unaware computation node with an empty table after it has handled
`crowded_frames`. -/
def crowded_computation : computation_node.state :=
  run_inputs (fun s (f : Nat × List Nat × linkaddr_t) =>
    computation_node.input_callback 2 f.1 s f.2.1 f.2.2) fresh_computation crowded_frames

/-- The value `a` approximates `x` within `k` binary32 roundings: each of `a`, `x` is at least
the other one times `(1 - 2^-24)^k`. -/
def f32_close (k : Nat) (a x : ℚ) : Prop :=
  x * (1 - 1 / 16777216) ^ k ≤ a ∧ a * (1 - 1 / 16777216) ^ k ≤ x

instance (k : Nat) (a x : ℚ) : Decidable (f32_close k a x) := by
  unfold f32_close
  infer_instance

/-! ## The event loops of the energised nodes -/

/-- Modelled from the spec: `expired(timer) → bool` of the external timer interface at clock
tick `now`, for a timer in the representation of `timer_after`: the timer was armed and its
target is reached. -/
def timer_expired (now : Nat) : Option (Nat × Nat) → Bool
  | some p => decide (p.1 ≤ now)
  | none => false

/-- The handlers of the energised sensor node: the four timer branches of the loop of
`sensor_node_process`, with the values they read from outside (the counters `e` of
`energest_type_time`, the unspecified byte `undef` of an out-of-range `(uint8_t)battery_level`,
the value `rnd` of `random_rand()`), and `input_callback` on a received frame. -/
inductive e_sensor_node.handler
  | energy (e : energest_t)
  | hello (undef : Nat)
  | sampling (rnd : Nat)
  | valve
  | frame (data : List Nat) (src : linkaddr_t)

/-- One handler of the energised sensor node run on the state `s`. -/
def e_sensor_node.handle (CLOCK_SECOND : Nat) (s : e_sensor_node.state) :
    e_sensor_node.handler → e_sensor_node.state × List effect
  | e_sensor_node.handler.energy e => e_sensor_node.energy_tick CLOCK_SECOND e s
  | e_sensor_node.handler.hello undef => e_sensor_node.hello_tick undef s
  | e_sensor_node.handler.sampling rnd => e_sensor_node.sensor_tick rnd s
  | e_sensor_node.handler.valve => e_sensor_node.valve_tick s
  | e_sensor_node.handler.frame data src =>
    e_sensor_node.input_callback CLOCK_SECOND s data src

/-- The handlers of the energised computation node: the two timer branches of the loop of
`computation_node_process` and `input_callback` on a received frame. -/
inductive e_computation_node.handler
  | energy (e : energest_t)
  | hello (undef : Nat)
  | frame (data : List Nat) (src : linkaddr_t)

/-- One handler of the energised computation node run on the state `s`. -/
def e_computation_node.handle (CLOCK_SECOND LINKADDR_SIZE : Nat)
    (s : e_computation_node.state) :
    e_computation_node.handler → e_computation_node.state × List effect
  | e_computation_node.handler.energy e => e_computation_node.energy_tick CLOCK_SECOND e s
  | e_computation_node.handler.hello undef => e_computation_node.hello_tick undef s
  | e_computation_node.handler.frame data src =>
    e_computation_node.input_callback LINKADDR_SIZE s data src

/-- The process `border_router_process` of the energised border router between two
wake-ups: its variables, the clock of the timer driver, and its two event timers in the
representation of `timer_after` (target and interval). -/
structure e_border_router.process_t where
  vars : e_border_router.state
  clock : Nat
  energy_timer : Option (Nat × Nat)
  hello_timer : Option (Nat × Nat)
deriving DecidableEq

/-- What makes the energised border router run: the radio driver calls `input_callback` on a
frame; `PROCESS_WAIT_EVENT()` returns with `ev == serial_line_event_message` (`scan` is the
outcome of `sscanf` on the line); or `PROCESS_WAIT_EVENT()` returns with another event (`e`
are the counters that `update_battery` reads if it runs, `undef` the unspecified byte of an
out-of-range `(uint8_t)battery_level`). -/
inductive e_border_router.wakeup
  | frame (data : List Nat) (src : linkaddr_t)
  | serial_line (scan : Option (Nat × Nat × Nat))
  | event (e : energest_t) (undef : Nat)

/-- The process after a handler returned the state and effects `r`: the timer effects are
performed on the two timers at the current clock tick. -/
def e_border_router.process_t.after (p : e_border_router.process_t)
    (r : e_border_router.state × List effect) : e_border_router.process_t :=
  { vars := r.1
    clock := p.clock
    energy_timer := timer_after timer_id.energy_timer p.clock p.energy_timer r.2
    hello_timer := timer_after timer_id.hello_timer p.clock p.hello_timer r.2 }

/-- The part of `border_router_process` before the loop, run at clock tick `now`: the
initialisation of the variables, `etimer_set(&energy_timer, CLOCK_SECOND)` and
`etimer_set(&hello_timer, random_rand() % HELLO_INTERVAL)`, where `rnd` is the value of
`random_rand()`. -/
def e_border_router.process_begin (CLOCK_SECOND BORDER_NODE_ID : Nat) (addr : linkaddr_t)
    (e : energest_t) (rnd now : Nat) : e_border_router.process_t :=
  e_border_router.process_t.after
    { vars := e_border_router.init BORDER_NODE_ID addr e, clock := now,
      energy_timer := none, hello_timer := none }
    (e_border_router.init BORDER_NODE_ID addr e,
      [effect.etimer_set timer_id.energy_timer CLOCK_SECOND,
       effect.etimer_set timer_id.hello_timer (rnd % HELLO_INTERVAL_BORDER CLOCK_SECOND)])

/-- The statement `if (etimer_expired(&energy_timer)) { ... }` of the loop. -/
def e_border_router.energy_branch (CLOCK_SECOND : Nat) (e : energest_t)
    (p : e_border_router.process_t) : e_border_router.process_t :=
  if timer_expired p.clock p.energy_timer then
    p.after (e_border_router.energy_tick CLOCK_SECOND e p.vars)
  else p

/-- The statement `if (etimer_expired(&hello_timer)) { ... }` of the loop. -/
def e_border_router.hello_branch (undef : Nat) (p : e_border_router.process_t) :
    e_border_router.process_t :=
  if timer_expired p.clock p.hello_timer then
    p.after (e_border_router.hello_tick undef p.vars)
  else p

/-- One run of the energised border router, `dt` clock ticks after the previous one: a call of
`input_callback`, or one iteration of the loop of `border_router_process`, which on a serial
line handles the line and continues, and otherwise tests the energy timer and then the HELLO
timer. -/
def e_border_router.process_step (CLOCK_SECOND LINKADDR_SIZE : Nat)
    (p : e_border_router.process_t) (i : Nat × e_border_router.wakeup) :
    e_border_router.process_t :=
  match i.2 with
  | e_border_router.wakeup.frame data src =>
    e_border_router.process_t.after { p with clock := p.clock + i.1 }
      (e_border_router.input_callback p.vars data src)
  | e_border_router.wakeup.serial_line scan =>
    e_border_router.process_t.after { p with clock := p.clock + i.1 }
      (e_border_router.serial_line_event LINKADDR_SIZE p.vars scan)
  | e_border_router.wakeup.event e undef =>
    e_border_router.hello_branch undef
      (e_border_router.energy_branch CLOCK_SECOND e { p with clock := p.clock + i.1 })

/-- The process after the runs `is`, one after the other. -/
def e_border_router.process_run (CLOCK_SECOND LINKADDR_SIZE : Nat)
    (p : e_border_router.process_t) (is : List (Nat × e_border_router.wakeup)) :
    e_border_router.process_t :=
  is.foldl (e_border_router.process_step CLOCK_SECOND LINKADDR_SIZE) p

/-- Modelled from the spec: the timer driver makes the process run at every expiration of a
timer ("at each 1-second tick"), so that the energy timer, which is re-armed from its previous
target, is never found a full period late: at each of the runs `is` the clock is less than
`CLOCK_SECOND` ticks past the target of the energy timer. -/
def e_border_router.energy_timer_served (CLOCK_SECOND LINKADDR_SIZE : Nat) :
    e_border_router.process_t → List (Nat × e_border_router.wakeup) → Bool
  | _, [] => true
  | p, i :: rest =>
    (match p.energy_timer with
      | some t => decide (p.clock + i.1 < t.1 + CLOCK_SECOND)
      | none => true) &&
    e_border_router.energy_timer_served CLOCK_SECOND LINKADDR_SIZE
      (e_border_router.process_step CLOCK_SECOND LINKADDR_SIZE p i) rest

/-- The invariant that bounds the battery of the border process whose HELLO timer has the
interval `r`; `mid` is 1 between the two timer tests of an iteration and 0 between runs. In
LPM the level is at most `30 + n`, where the surplus `n` of recharges over HELLOs is paid for
by the head start of the energy timer over the HELLO timer. -/
def e_border_router.battery_inv (CLOCK_SECOND r mid : Nat) (p : e_border_router.process_t) :
    Prop :=
  p.vars.lpmc < 10 ∧
  match p.energy_timer, p.hello_timer with
  | some te, some th =>
    te.2 = CLOCK_SECOND ∧ th.2 = r ∧ te.1 ≤ p.clock + CLOCK_SECOND ∧ th.1 < te.1 + r ∧
    (match p.vars.power_state with
      | power_state_t.STATE_ACTIVE => p.vars.battery_level ≤ 100
      | power_state_t.STATE_DEEP_LPM => p.vars.battery_level ≤ 90
      | power_state_t.STATE_LPM =>
        ∃ n : Nat, n < 3 ∧ p.vars.battery_level ≤ 30 + (n : ℚ) ∧
          10 * n + p.vars.lpmc ≤ 20 + mid ∧
          th.1 + (10 * n + p.vars.lpmc + 1) * CLOCK_SECOND ≤ te.1 + 20 * CLOCK_SECOND)
  | _, _ => False

instance (CLOCK_SECOND r mid : Nat) (p : e_border_router.process_t) :
    Decidable (e_border_router.battery_inv CLOCK_SECOND r mid p) := by
  unfold e_border_router.battery_inv
  refine @instDecidableAnd _ _ _ ?_
  split
  · refine @instDecidableAnd _ _ _ (@instDecidableAnd _ _ _ (@instDecidableAnd _ _ _
      (@instDecidableAnd _ _ _ ?_)))
    split
    · infer_instance
    · infer_instance
    · refine @Nat.decidableExistsLT _ ?_ 3
      intro n
      infer_instance
  · infer_instance

/-! # Theorems -/

/-! ## Binary32 rounding -/

theorem round_half_even_eq (y : ℚ) (m : ℤ) (h1 : (m : ℚ) - 1 / 2 < y)
    (h2 : y < (m : ℚ) + 1 / 2) : round_half_even y = m := by
  unfold round_half_even
  have hfl := Int.floor_le y
  have hlt := Int.lt_floor_add_one y
  have hcases : ⌊y⌋ = m ∨ ⌊y⌋ = m - 1 := by
    have ha : m - 1 ≤ ⌊y⌋ := by
      rw [Int.le_floor]
      push_cast
      linarith
    have hb : ⌊y⌋ < m + 1 := by
      rw [Int.floor_lt]
      push_cast
      linarith
    omega
  rcases hcases with h | h
  · rw [h]
    rw [if_pos (by linarith)]
  · rw [h]
    have hy : ¬ (y - ((m - 1 : ℤ) : ℚ) < 1 / 2) := by
      push_cast
      linarith
    have hy2 : 1 / 2 < y - ((m - 1 : ℤ) : ℚ) := by
      push_cast
      linarith
    rw [if_neg hy, if_pos hy2]
    omega

theorem round_half_even_int (m : ℤ) : round_half_even (m : ℚ) = m :=
  round_half_even_eq _ m (by linarith) (by linarith)

theorem round_half_even_le (y : ℚ) (k : ℤ) (h : y ≤ k) : round_half_even y ≤ k := by
  unfold round_half_even
  have hfl : ⌊y⌋ ≤ k := by
    have h0 : (⌊y⌋ : ℚ) ≤ (k : ℚ) := le_trans (Int.floor_le y) h
    exact_mod_cast h0
  split_ifs with h1 h2 h3
  · exact hfl
  · by_contra hc
    have hk : ⌊y⌋ = k := by omega
    rw [hk] at h2
    linarith
  · exact hfl
  · by_contra hc
    have hk : ⌊y⌋ = k := by omega
    rw [hk] at h1
    have : ¬ (y - (k : ℚ) < 1 / 2) := h1
    linarith

theorem le_round_half_even (y : ℚ) (k : ℤ) (h : (k : ℚ) ≤ y) : k ≤ round_half_even y := by
  unfold round_half_even
  have hfl : k ≤ ⌊y⌋ := Int.le_floor.mpr h
  split_ifs <;> omega

theorem f32_exponent_eq (x : ℚ) (e : ℤ) (he : -126 ≤ e) (h1 : (2 : ℚ) ^ e ≤ |x|)
    (h2 : |x| < (2 : ℚ) ^ (e + 1)) : f32_exponent x = e := by
  have hpos : 0 < |x| := lt_of_lt_of_le (by positivity) h1
  have hlog : Int.log 2 |x| = e := by
    have ha : e ≤ Int.log 2 |x| := by
      rw [← Int.zpow_le_iff_le_log (by norm_num) hpos]
      exact_mod_cast h1
    have hb : Int.log 2 |x| < e + 1 := by
      rw [← Int.lt_zpow_iff_log_lt (by norm_num) hpos]
      exact_mod_cast h2
    omega
  unfold f32_exponent
  rw [hlog]
  exact max_eq_left he

theorem f32_round_eq (x : ℚ) (e m : ℤ) (he : -126 ≤ e) (h1 : (2 : ℚ) ^ e ≤ |x|)
    (h2 : |x| < (2 : ℚ) ^ (e + 1))
    (h3 : ((m : ℚ) - 1 / 2) * 2 ^ (e - 23) < x) (h4 : x < ((m : ℚ) + 1 / 2) * 2 ^ (e - 23)) :
    f32_round x = (m : ℚ) * 2 ^ (e - 23) := by
  unfold f32_round
  rw [f32_exponent_eq x e he h1 h2]
  have hu : (0 : ℚ) < 2 ^ (e - 23) := by positivity
  rw [round_half_even_eq (x / 2 ^ (e - 23)) m (by rw [lt_div_iff₀ hu]; exact h3)
    (by rw [div_lt_iff₀ hu]; exact h4)]

theorem f32_round_zero : f32_round 0 = 0 := by
  unfold f32_round
  rw [zero_div]
  have : round_half_even 0 = 0 := by
    have := round_half_even_int 0
    simpa using this
  rw [this]
  simp

theorem f32_round_nonneg (x : ℚ) (h : 0 ≤ x) : 0 ≤ f32_round x := by
  unfold f32_round
  have hu : (0 : ℚ) < 2 ^ (f32_exponent x - 23) := by positivity
  have hk : (0 : ℤ) ≤ round_half_even (x / 2 ^ (f32_exponent x - 23)) :=
    le_round_half_even _ 0 (by push_cast; positivity)
  have : (0 : ℚ) ≤ (round_half_even (x / 2 ^ (f32_exponent x - 23)) : ℚ) := by
    exact_mod_cast hk
  positivity

theorem f32_round_nonpos (x : ℚ) (h : x ≤ 0) : f32_round x ≤ 0 := by
  unfold f32_round
  have hu : (0 : ℚ) < 2 ^ (f32_exponent x - 23) := by positivity
  have hk : round_half_even (x / 2 ^ (f32_exponent x - 23)) ≤ (0 : ℤ) :=
    round_half_even_le _ 0 (by push_cast; exact div_nonpos_of_nonpos_of_nonneg h hu.le)
  have : (round_half_even (x / 2 ^ (f32_exponent x - 23)) : ℚ) ≤ 0 := by
    exact_mod_cast hk
  exact mul_nonpos_of_nonpos_of_nonneg this hu.le

theorem f32_exponent_ge (x : ℚ) : -126 ≤ f32_exponent x := le_max_right _ _

theorem f32_exponent_le (x : ℚ) (k : ℤ) (hk : 0 ≤ k) (h : |x| < (2 : ℚ) ^ (k + 1)) :
    f32_exponent x ≤ k := by
  unfold f32_exponent
  apply max_le _ (by omega)
  by_cases h0 : |x| ≤ 0
  · rw [Int.log_of_right_le_zero 2 h0]
    omega
  · have hpos : 0 < |x| := lt_of_not_ge h0
    have : Int.log 2 |x| < k + 1 := by
      rw [← Int.lt_zpow_iff_log_lt (by norm_num) hpos]
      exact_mod_cast h
    omega

theorem f32_round_le_nat (x : ℚ) (N : Nat) (hN : N < 2 ^ 23) (h : x ≤ N) :
    f32_round x ≤ N := by
  by_cases h0 : x ≤ 0
  · exact le_trans (f32_round_nonpos x h0) (by positivity)
  · have hpos : 0 < x := lt_of_not_ge h0
    have habs : |x| = x := abs_of_pos hpos
    have hx23 : |x| < (2 : ℚ) ^ ((22 : ℤ) + 1) := by
      rw [habs]
      have : (N : ℚ) < 2 ^ 23 := by exact_mod_cast hN
      have h23 : ((2 : ℚ) ^ ((22 : ℤ) + 1)) = 2 ^ 23 := by norm_num
      rw [h23]
      linarith
    have he : f32_exponent x ≤ 22 := f32_exponent_le x 22 (by norm_num) hx23
    have hge := f32_exponent_ge x
    unfold f32_round
    generalize f32_exponent x = e at he hge
    obtain ⟨k, hk⟩ : ∃ k : Nat, e - 23 = -(k : ℤ) :=
      ⟨(23 - e).toNat, by
        have := Int.toNat_of_nonneg (show 0 ≤ 23 - e by omega)
        omega⟩
    rw [hk]
    have hu : (0 : ℚ) < 2 ^ (-(k : ℤ)) := by positivity
    have hdiv : x / 2 ^ (-(k : ℤ)) ≤ ((N * 2 ^ k : Nat) : ℤ) := by
      rw [div_le_iff₀ hu]
      push_cast
      rw [zpow_neg, zpow_natCast, mul_assoc, mul_inv_cancel₀ (by positivity), mul_one]
      exact h
    have hr := round_half_even_le _ _ hdiv
    have hr2 : (round_half_even (x / 2 ^ (-(k : ℤ))) : ℚ) ≤ ((N * 2 ^ k : Nat) : ℚ) := by
      exact_mod_cast hr
    calc (round_half_even (x / 2 ^ (-(k : ℤ))) : ℚ) * 2 ^ (-(k : ℤ))
        ≤ ((N * 2 ^ k : Nat) : ℚ) * 2 ^ (-(k : ℤ)) := mul_le_mul_of_nonneg_right hr2 hu.le
      _ = N := by
        push_cast
        rw [zpow_neg, zpow_natCast, mul_assoc, mul_inv_cancel₀ (by positivity), mul_one]

theorem one_le_f32_round (x : ℚ) (h : 1 ≤ x) : 1 ≤ f32_round x := by
  have hpos : 0 < x := lt_of_lt_of_le one_pos h
  have habs : |x| = x := abs_of_pos hpos
  have hlog0 : 0 ≤ Int.log 2 x := by
    rw [← Int.zpow_le_iff_le_log (by norm_num) hpos]
    simpa using h
  have hexp : f32_exponent x = Int.log 2 x := by
    unfold f32_exponent
    rw [habs]
    exact max_eq_left (by omega)
  have hle : ((2 : ℕ) : ℚ) ^ Int.log 2 x ≤ x := Int.zpow_log_le_self (by norm_num) hpos
  unfold f32_round
  rw [hexp]
  generalize Int.log 2 x = e at hlog0 hle
  have hu : (0 : ℚ) < 2 ^ (e - 23) := by positivity
  have h223 : (8388608 : ℚ) * 2 ^ (e - 23) = 2 ^ e := by
    have h8 : (8388608 : ℚ) = 2 ^ (23 : ℤ) := by norm_num
    rw [h8, ← zpow_add₀ (by norm_num)]
    congr 1
    omega
  have hdiv : (((2 ^ 23 : Nat) : ℤ) : ℚ) ≤ x / 2 ^ (e - 23) := by
    rw [le_div_iff₀ hu]
    push_cast
    rw [h223]
    exact_mod_cast hle
  have hr := le_round_half_even _ _ hdiv
  have hr2 : (8388608 : ℚ) ≤ (round_half_even (x / 2 ^ (e - 23)) : ℚ) := by
    have : (((2 ^ 23 : Nat) : ℤ) : ℚ) ≤ (round_half_even (x / 2 ^ (e - 23)) : ℚ) := by
      exact_mod_cast hr
    push_cast at this
    exact this
  have h2e : (1 : ℚ) ≤ 2 ^ e := one_le_zpow₀ (by norm_num) hlog0
  calc (1 : ℚ) ≤ 2 ^ e := h2e
    _ = (8388608 : ℚ) * 2 ^ (e - 23) := h223.symm
    _ ≤ (round_half_even (x / 2 ^ (e - 23)) : ℚ) * 2 ^ (e - 23) :=
        mul_le_mul_of_nonneg_right hr2 hu.le

theorem f32_round_one : f32_round 1 = 1 := by
  have := f32_round_eq 1 0 (2 ^ 23) (by norm_num) (by norm_num) (by norm_num)
    (by norm_num) (by norm_num)
  rw [this]
  norm_num

theorem f32_round_fixed (x : ℚ) (e m : ℤ) (he : -126 ≤ e) (hm1 : 2 ^ 23 ≤ |m|)
    (hm2 : |m| < 2 ^ 24) (hx : x = (m : ℚ) * 2 ^ (e - 23)) : f32_round x = x := by
  have hu : (0 : ℚ) < 2 ^ (e - 23) := by positivity
  have habs : |x| = (|m| : ℤ) * 2 ^ (e - 23) := by
    rw [hx, abs_mul, abs_of_pos hu]
    push_cast
    rfl
  have h23 : (2 : ℚ) ^ (23 : ℤ) * 2 ^ (e - 23) = 2 ^ e := by
    rw [← zpow_add₀ (by norm_num)]
    congr 1
    omega
  have h24 : (2 : ℚ) ^ (24 : ℤ) * 2 ^ (e - 23) = 2 ^ (e + 1) := by
    rw [← zpow_add₀ (by norm_num)]
    congr 1
    omega
  have hm1q : (2 : ℚ) ^ (23 : ℤ) ≤ ((|m| : ℤ) : ℚ) := by
    have : ((2 ^ 23 : ℤ) : ℚ) ≤ ((|m| : ℤ) : ℚ) := by exact_mod_cast hm1
    norm_num at this ⊢
    exact this
  have hm2q : ((|m| : ℤ) : ℚ) < (2 : ℚ) ^ (24 : ℤ) := by
    have : ((|m| : ℤ) : ℚ) < ((2 ^ 24 : ℤ) : ℚ) := by exact_mod_cast hm2
    norm_num at this ⊢
    exact this
  have h := f32_round_eq x e m he
    (by rw [habs, ← h23]; exact mul_le_mul_of_nonneg_right hm1q hu.le)
    (by rw [habs, ← h24]; exact mul_lt_mul_of_pos_right hm2q hu)
    (by rw [hx]; exact mul_lt_mul_of_pos_right (by linarith) hu)
    (by rw [hx]; exact mul_lt_mul_of_pos_right (by linarith) hu)
  rw [h, hx]

theorem f32_round_5 : f32_round 5 = 5 :=
  f32_round_fixed 5 2 10485760 (by norm_num) (by norm_num) (by norm_num) (by norm_num)

theorem f32_round_20 : f32_round 20 = 20 :=
  f32_round_fixed 20 4 10485760 (by norm_num) (by norm_num) (by norm_num) (by norm_num)

theorem f32_round_89_5 : f32_round 89.5 = 89.5 :=
  f32_round_fixed 89.5 6 11730944 (by norm_num) (by norm_num) (by norm_num) (by norm_num)

theorem CPU_COST_eq : CPU_COST = 13421773 / 67108864 := by
  unfold CPU_COST
  rw [f32_round_eq 0.2 (-3) 13421773 (by norm_num) (by norm_num [abs_of_pos])
    (by norm_num [abs_of_pos]) (by norm_num) (by norm_num)]
  norm_num

theorem LPM_COST_eq : LPM_COST = 5368709 / 268435456 := by
  unfold LPM_COST
  rw [f32_round_eq 0.02 (-6) 10737418 (by norm_num) (by norm_num [abs_of_pos])
    (by norm_num [abs_of_pos]) (by norm_num) (by norm_num)]
  norm_num

theorem f32_round_CPU_COST : f32_round CPU_COST = CPU_COST := by
  rw [CPU_COST_eq]
  exact f32_round_fixed _ (-3) 13421773 (by norm_num) (by norm_num) (by norm_num)
    (by norm_num)

theorem f32_round_LPM_COST : f32_round LPM_COST = LPM_COST := by
  rw [LPM_COST_eq]
  exact f32_round_fixed _ (-6) 10737418 (by norm_num) (by norm_num) (by norm_num)
    (by norm_num)

theorem f32_of_nat_zero : f32_of_nat 0 = 0 := by
  unfold f32_of_nat
  rw [Nat.cast_zero, f32_round_zero]

theorem f32_div_zero_left (b : ℚ) : f32_div 0 b = 0 := by
  unfold f32_div
  rw [zero_div, f32_round_zero]

theorem f32_mul_zero_left (b : ℚ) : f32_mul 0 b = 0 := by
  unfold f32_mul
  rw [zero_mul, f32_round_zero]

theorem f32_add_zero_right (a : ℚ) : f32_add a 0 = f32_round a := by
  unfold f32_add
  rw [add_zero]

theorem f32_add_zero_left (a : ℚ) : f32_add 0 a = f32_round a := by
  unfold f32_add
  rw [zero_add]

theorem f32_sub_zero (a : ℚ) : f32_sub a 0 = f32_round a := by
  unfold f32_sub
  rw [sub_zero]

theorem f32_div_self_nat (n : Nat) (h : 0 < n) : f32_div (f32_of_nat n) (f32_of_nat n) = 1 := by
  have h1 : (1 : ℚ) ≤ f32_of_nat n :=
    one_le_f32_round _ (by exact_mod_cast h)
  unfold f32_div
  rw [div_self (by linarith), f32_round_one]

theorem battery_debit_zero (CLOCK_SECOND : Nat) : battery_debit CLOCK_SECOND 0 0 0 0 = 0 := by
  simp only [battery_debit, f32_of_nat_zero, f32_div_zero_left, f32_mul_zero_left,
    f32_add_zero_right, f32_round_zero]

theorem battery_debit_nonneg (CLOCK_SECOND d_cpu d_lpm d_tx d_rx : Nat) :
    0 ≤ battery_debit CLOCK_SECOND d_cpu d_lpm d_tx d_rx := by
  have hn : ∀ n : Nat, 0 ≤ f32_of_nat n := fun n => f32_round_nonneg _ (by positivity)
  have hd : ∀ a b : ℚ, 0 ≤ a → 0 ≤ b → 0 ≤ f32_div a b :=
    fun a b ha hb => f32_round_nonneg _ (div_nonneg ha hb)
  have hm : ∀ a b : ℚ, 0 ≤ a → 0 ≤ b → 0 ≤ f32_mul a b :=
    fun a b ha hb => f32_round_nonneg _ (mul_nonneg ha hb)
  have ha : ∀ a b : ℚ, 0 ≤ a → 0 ≤ b → 0 ≤ f32_add a b :=
    fun a b ha hb => f32_round_nonneg _ (add_nonneg ha hb)
  have hc1 : (0 : ℚ) ≤ CPU_COST := by rw [CPU_COST_eq]; norm_num
  have hc2 : (0 : ℚ) ≤ LPM_COST := by rw [LPM_COST_eq]; norm_num
  have hc3 : (0 : ℚ) ≤ TX_COST := by norm_num [TX_COST]
  have hc4 : (0 : ℚ) ≤ RX_COST := by norm_num [RX_COST]
  unfold battery_debit
  simp only []
  exact ha _ _ (ha _ _ (ha _ _ (hm _ _ (hd _ _ (hn _) (hn _)) hc1)
    (hm _ _ (hd _ _ (hn _) (hn _)) hc2)) (hm _ _ (hd _ _ (hn _) (hn _)) hc3))
    (hm _ _ (hd _ _ (hn _) (hn _)) hc4)

theorem round_half_even_mono (x y : ℚ) (h : x ≤ y) : round_half_even x ≤ round_half_even y := by
  by_cases hf : ⌊x⌋ < ⌊y⌋
  · have h1 : round_half_even x ≤ ⌊x⌋ + 1 :=
      round_half_even_le x (⌊x⌋ + 1) (by push_cast; exact (Int.lt_floor_add_one x).le)
    have h2 : ⌊y⌋ ≤ round_half_even y := le_round_half_even y ⌊y⌋ (Int.floor_le y)
    omega
  · have hfe : ⌊x⌋ = ⌊y⌋ := le_antisymm (Int.floor_mono h) (not_lt.mp hf)
    unfold round_half_even
    rw [hfe]
    split_ifs <;> first | omega | linarith

theorem abs_lt_zpow_f32_exponent (x : ℚ) : |x| < (2 : ℚ) ^ (f32_exponent x + 1) := by
  have h1 : |x| < ((2 : ℕ) : ℚ) ^ (Int.log 2 |x| + 1) := Int.lt_zpow_succ_log_self (by norm_num) _
  have h2 : ((2 : ℕ) : ℚ) ^ (Int.log 2 |x| + 1) ≤ ((2 : ℕ) : ℚ) ^ (f32_exponent x + 1) :=
    zpow_le_zpow_right₀ (by norm_num) (by unfold f32_exponent; have := le_max_left (Int.log 2 |x|) (-126); omega)
  exact_mod_cast lt_of_lt_of_le h1 h2

theorem zpow_f32_exponent_le (x : ℚ) (h : -126 < f32_exponent x) (hx : x ≠ 0) :
    (2 : ℚ) ^ f32_exponent x ≤ |x| := by
  have hpos : 0 < |x| := abs_pos.mpr hx
  have he : f32_exponent x = Int.log 2 |x| := by
    unfold f32_exponent at h ⊢
    rcases max_cases (Int.log 2 |x|) (-126) with ⟨h1, _⟩ | ⟨h1, _⟩
    · exact h1
    · rw [h1] at h
      omega
  rw [he]
  exact_mod_cast Int.zpow_log_le_self (b := 2) (by norm_num) hpos

theorem f32_exponent_mono (x y : ℚ) (hx : x ≠ 0) (h : |x| ≤ |y|) :
    f32_exponent x ≤ f32_exponent y := by
  unfold f32_exponent
  exact max_le_max (Int.log_mono_right (abs_pos.mpr hx) h) (le_refl _)

theorem zpow_exp_split (e : ℤ) : (8388608 : ℚ) * 2 ^ (e - 23) = 2 ^ e := by
  have h8 : (8388608 : ℚ) = 2 ^ (23 : ℤ) := by norm_num
  rw [h8, ← zpow_add₀ (by norm_num)]
  congr 1
  omega

theorem zpow_exp_split_succ (e : ℤ) : (16777216 : ℚ) * 2 ^ (e - 23) = 2 ^ (e + 1) := by
  have h8 : (16777216 : ℚ) = 2 ^ (24 : ℤ) := by norm_num
  rw [h8, ← zpow_add₀ (by norm_num)]
  congr 1
  omega

/-- The rounded value of a positive `x` lies in the closed binade of `x`. -/
theorem f32_round_le_zpow (x : ℚ) (hx : 0 ≤ x) :
    f32_round x ≤ (2 : ℚ) ^ (f32_exponent x + 1) := by
  have hlt := abs_lt_zpow_f32_exponent x
  rw [abs_of_nonneg hx] at hlt
  unfold f32_round
  generalize f32_exponent x = e at hlt ⊢
  have hu : (0 : ℚ) < 2 ^ (e - 23) := by positivity
  have hdiv : x / 2 ^ (e - 23) ≤ ((16777216 : ℤ) : ℚ) := by
    rw [div_le_iff₀ hu]
    push_cast
    rw [zpow_exp_split_succ]
    exact hlt.le
  have hr : (round_half_even (x / 2 ^ (e - 23)) : ℚ) ≤ 16777216 := by
    exact_mod_cast round_half_even_le _ _ hdiv
  calc (round_half_even (x / 2 ^ (e - 23)) : ℚ) * 2 ^ (e - 23)
      ≤ 16777216 * 2 ^ (e - 23) := mul_le_mul_of_nonneg_right hr hu.le
    _ = 2 ^ (e + 1) := zpow_exp_split_succ e

theorem zpow_le_f32_round (x : ℚ) (hx : 0 < x) (h : -126 < f32_exponent x) :
    (2 : ℚ) ^ f32_exponent x ≤ f32_round x := by
  have hle := zpow_f32_exponent_le x h hx.ne'
  rw [abs_of_pos hx] at hle
  unfold f32_round
  generalize f32_exponent x = e at hle ⊢
  have hu : (0 : ℚ) < 2 ^ (e - 23) := by positivity
  have hdiv : ((8388608 : ℤ) : ℚ) ≤ x / 2 ^ (e - 23) := by
    rw [le_div_iff₀ hu]
    push_cast
    rw [zpow_exp_split]
    exact hle
  have hr : (8388608 : ℚ) ≤ (round_half_even (x / 2 ^ (e - 23)) : ℚ) := by
    exact_mod_cast le_round_half_even _ _ hdiv
  calc (2 : ℚ) ^ e = 8388608 * 2 ^ (e - 23) := (zpow_exp_split e).symm
    _ ≤ (round_half_even (x / 2 ^ (e - 23)) : ℚ) * 2 ^ (e - 23) :=
        mul_le_mul_of_nonneg_right hr hu.le

theorem neg_zpow_le_f32_round (x : ℚ) (hx : x ≤ 0) :
    -(2 : ℚ) ^ (f32_exponent x + 1) ≤ f32_round x := by
  have hlt := abs_lt_zpow_f32_exponent x
  rw [abs_of_nonpos hx] at hlt
  unfold f32_round
  generalize f32_exponent x = e at hlt ⊢
  have hu : (0 : ℚ) < 2 ^ (e - 23) := by positivity
  have hdiv : ((-16777216 : ℤ) : ℚ) ≤ x / 2 ^ (e - 23) := by
    rw [le_div_iff₀ hu]
    push_cast
    rw [neg_mul, zpow_exp_split_succ]
    linarith
  have hr : (-16777216 : ℚ) ≤ (round_half_even (x / 2 ^ (e - 23)) : ℚ) := by
    exact_mod_cast le_round_half_even _ _ hdiv
  calc -(2 : ℚ) ^ (e + 1) = -16777216 * 2 ^ (e - 23) := by rw [neg_mul, zpow_exp_split_succ]
    _ ≤ (round_half_even (x / 2 ^ (e - 23)) : ℚ) * 2 ^ (e - 23) :=
        mul_le_mul_of_nonneg_right hr hu.le

theorem f32_round_le_neg_zpow (x : ℚ) (hx : x < 0) (h : -126 < f32_exponent x) :
    f32_round x ≤ -(2 : ℚ) ^ f32_exponent x := by
  have hle := zpow_f32_exponent_le x h hx.ne
  rw [abs_of_neg hx] at hle
  unfold f32_round
  generalize f32_exponent x = e at hle ⊢
  have hu : (0 : ℚ) < 2 ^ (e - 23) := by positivity
  have hdiv : x / 2 ^ (e - 23) ≤ ((-8388608 : ℤ) : ℚ) := by
    rw [div_le_iff₀ hu]
    push_cast
    rw [neg_mul, zpow_exp_split]
    linarith
  have hr : (round_half_even (x / 2 ^ (e - 23)) : ℚ) ≤ -8388608 := by
    exact_mod_cast round_half_even_le _ _ hdiv
  calc (round_half_even (x / 2 ^ (e - 23)) : ℚ) * 2 ^ (e - 23)
      ≤ -8388608 * 2 ^ (e - 23) := mul_le_mul_of_nonneg_right hr hu.le
    _ = -(2 : ℚ) ^ e := by rw [neg_mul, zpow_exp_split]

theorem f32_round_mono_same (x y : ℚ) (h : x ≤ y) (he : f32_exponent x = f32_exponent y) :
    f32_round x ≤ f32_round y := by
  unfold f32_round
  rw [he]
  have hu : (0 : ℚ) < 2 ^ (f32_exponent y - 23) := by positivity
  have hr := round_half_even_mono (x / 2 ^ (f32_exponent y - 23))
    (y / 2 ^ (f32_exponent y - 23)) (div_le_div_of_nonneg_right h hu.le)
  have hr2 : (round_half_even (x / 2 ^ (f32_exponent y - 23)) : ℚ) ≤
      (round_half_even (y / 2 ^ (f32_exponent y - 23)) : ℚ) := by exact_mod_cast hr
  exact mul_le_mul_of_nonneg_right hr2 hu.le

/-- Rounding to binary32 is monotone. -/
theorem f32_round_mono (x y : ℚ) (h : x ≤ y) : f32_round x ≤ f32_round y := by
  rcases le_or_lt x 0 with hx0 | hx0
  · rcases le_or_lt 0 y with hy0 | hy0
    · exact le_trans (f32_round_nonpos x hx0) (f32_round_nonneg y hy0)
    · have hxneg : x < 0 := lt_of_le_of_lt h hy0
      have hexp : f32_exponent y ≤ f32_exponent x :=
        f32_exponent_mono y x hy0.ne (by rw [abs_of_neg hy0, abs_of_neg hxneg]; linarith)
      rcases eq_or_lt_of_le hexp with heq | hlt
      · exact f32_round_mono_same x y h heq.symm
      · have h1 := f32_round_le_neg_zpow x hxneg (by have := f32_exponent_ge y; omega)
        have h2 := neg_zpow_le_f32_round y hy0.le
        have h3 : (2 : ℚ) ^ (f32_exponent y + 1) ≤ 2 ^ f32_exponent x :=
          zpow_le_zpow_right₀ (by norm_num) (by omega)
        linarith
  · have hy0 : 0 < y := lt_of_lt_of_le hx0 h
    have hexp : f32_exponent x ≤ f32_exponent y :=
      f32_exponent_mono x y hx0.ne' (by rw [abs_of_pos hx0, abs_of_pos hy0]; exact h)
    rcases eq_or_lt_of_le hexp with heq | hlt
    · exact f32_round_mono_same x y h heq
    · have h1 := f32_round_le_zpow x hx0.le
      have h2 := zpow_le_f32_round y hy0 (by have := f32_exponent_ge x; omega)
      have h3 : (2 : ℚ) ^ (f32_exponent x + 1) ≤ 2 ^ f32_exponent y :=
        zpow_le_zpow_right₀ (by norm_num) (by omega)
      linarith

/-- Subtracting a non-negative amount from a binary32 value never gives a larger binary32
value. -/
theorem f32_sub_le_self (b d : ℚ) (hb : f32_round b = b) (hd : 0 ≤ d) : f32_sub b d ≤ b := by
  unfold f32_sub
  calc f32_round (b - d) ≤ f32_round b := f32_round_mono _ _ (by linarith)
    _ = b := hb

theorem round_half_even_abs_sub (y : ℚ) : |(round_half_even y : ℚ) - y| ≤ 1 / 2 := by
  have hfl := Int.floor_le y
  have hlt := Int.lt_floor_add_one y
  unfold round_half_even
  rw [abs_le]
  split_ifs <;> push_cast <;> constructor <;> linarith

/-- The relative error of rounding a value of the normal range is at most `2^-24`. -/
theorem f32_round_rel (x : ℚ) (hx : (2 : ℚ) ^ (-126 : ℤ) ≤ x) :
    x * (1 - 1 / 16777216) ≤ f32_round x ∧ f32_round x ≤ x * (1 + 1 / 16777216) := by
  have hpos : 0 < x := lt_of_lt_of_le (by positivity) hx
  have hlog : -126 ≤ Int.log 2 |x| := by
    rw [← Int.zpow_le_iff_le_log (by norm_num) (abs_pos.mpr hpos.ne'), abs_of_pos hpos]
    exact_mod_cast hx
  have hexp : f32_exponent x = Int.log 2 |x| := by
    unfold f32_exponent
    exact max_eq_left hlog
  have hle : (2 : ℚ) ^ f32_exponent x ≤ x := by
    rw [hexp]
    have := Int.zpow_log_le_self (b := 2) (r := |x|) (by norm_num) (abs_pos.mpr hpos.ne')
    rw [abs_of_pos hpos] at this ⊢
    exact_mod_cast this
  unfold f32_round
  generalize f32_exponent x = e at hle ⊢
  have hu : (0 : ℚ) < 2 ^ (e - 23) := by positivity
  have habs := round_half_even_abs_sub (x / 2 ^ (e - 23))
  rw [abs_le] at habs
  have hx2 : x / 2 ^ (e - 23) * 2 ^ (e - 23) = x := div_mul_cancel₀ x hu.ne'
  have hs := zpow_exp_split e
  have hA : (round_half_even (x / 2 ^ (e - 23)) : ℚ) * 2 ^ (e - 23) - x ≤
      1 / 2 * 2 ^ (e - 23) := by
    have := mul_le_mul_of_nonneg_right habs.2 hu.le
    rw [sub_mul, hx2] at this
    exact this
  have hB : -(1 / 2) * 2 ^ (e - 23) ≤
      (round_half_even (x / 2 ^ (e - 23)) : ℚ) * 2 ^ (e - 23) - x := by
    have := mul_le_mul_of_nonneg_right habs.1 hu.le
    rw [sub_mul, hx2] at this
    exact this
  constructor <;> nlinarith

/-! ## Accumulated rounding error -/

theorem f32_close_refl (x : ℚ) : f32_close 0 x x := by
  unfold f32_close
  simp

theorem f32_close_mono (k j : Nat) (a x : ℚ) (hkj : k ≤ j) (ha : 0 ≤ a) (hx : 0 ≤ x)
    (h : f32_close k a x) : f32_close j a x := by
  unfold f32_close at h ⊢
  have hr0 : (0 : ℚ) ≤ 1 - 1 / 16777216 := by norm_num
  have hr1 : (1 - 1 / 16777216 : ℚ) ≤ 1 := by norm_num
  have hp : (1 - 1 / 16777216 : ℚ) ^ j ≤ (1 - 1 / 16777216) ^ k :=
    pow_le_pow_of_le_one hr0 hr1 hkj
  exact ⟨le_trans (mul_le_mul_of_nonneg_left hp hx) h.1,
    le_trans (mul_le_mul_of_nonneg_left hp ha) h.2⟩

theorem f32_close_zero (k : Nat) : f32_close k 0 0 := by
  unfold f32_close
  simp

theorem f32_close_add (k : Nat) (a b x y : ℚ) (h1 : f32_close k a x) (h2 : f32_close k b y) :
    f32_close k (a + b) (x + y) := by
  unfold f32_close at h1 h2 ⊢
  constructor
  · rw [add_mul]
    linarith [h1.1, h2.1]
  · rw [add_mul]
    linarith [h1.2, h2.2]

theorem f32_close_mul (k j : Nat) (a b x y : ℚ) (ha : 0 ≤ a) (hb : 0 ≤ b) (hx : 0 ≤ x)
    (hy : 0 ≤ y) (h1 : f32_close k a x) (h2 : f32_close j b y) :
    f32_close (k + j) (a * b) (x * y) := by
  unfold f32_close at h1 h2 ⊢
  have hr0 : (0 : ℚ) ≤ 1 - 1 / 16777216 := by norm_num
  have hk : (0 : ℚ) ≤ (1 - 1 / 16777216) ^ k := pow_nonneg hr0 k
  have hj : (0 : ℚ) ≤ (1 - 1 / 16777216) ^ j := pow_nonneg hr0 j
  rw [pow_add]
  constructor
  · calc x * y * ((1 - 1 / 16777216) ^ k * (1 - 1 / 16777216) ^ j)
        = (x * (1 - 1 / 16777216) ^ k) * (y * (1 - 1 / 16777216) ^ j) := by ring
      _ ≤ a * b := mul_le_mul h1.1 h2.1 (mul_nonneg hy hj) ha
  · calc a * b * ((1 - 1 / 16777216) ^ k * (1 - 1 / 16777216) ^ j)
        = (a * (1 - 1 / 16777216) ^ k) * (b * (1 - 1 / 16777216) ^ j) := by ring
      _ ≤ x * y := mul_le_mul h1.2 h2.2 (mul_nonneg hb hj) hx

theorem f32_close_div (k j : Nat) (a b x y : ℚ) (ha : 0 ≤ a) (hb : 0 < b) (hx : 0 ≤ x)
    (hy : 0 < y) (h1 : f32_close k a x) (h2 : f32_close j b y) :
    f32_close (k + j) (a / b) (x / y) := by
  unfold f32_close at h1 h2 ⊢
  have hr0 : (0 : ℚ) ≤ 1 - 1 / 16777216 := by norm_num
  have hk : (0 : ℚ) ≤ (1 - 1 / 16777216) ^ k := pow_nonneg hr0 k
  have hj : (0 : ℚ) ≤ (1 - 1 / 16777216) ^ j := pow_nonneg hr0 j
  rw [pow_add]
  constructor
  · rw [div_mul_eq_mul_div, div_le_div_iff₀ hy hb]
    calc x * ((1 - 1 / 16777216) ^ k * (1 - 1 / 16777216) ^ j) * b
        = (x * (1 - 1 / 16777216) ^ k) * (b * (1 - 1 / 16777216) ^ j) := by ring
      _ ≤ a * y := mul_le_mul h1.1 h2.2 (mul_nonneg hb.le hj) ha
  · rw [div_mul_eq_mul_div, div_le_div_iff₀ hb hy]
    calc a * ((1 - 1 / 16777216) ^ k * (1 - 1 / 16777216) ^ j) * y
        = (a * (1 - 1 / 16777216) ^ k) * (y * (1 - 1 / 16777216) ^ j) := by ring
      _ ≤ x * b := mul_le_mul h1.2 h2.1 (mul_nonneg hy.le hj) hx

theorem f32_close_round (k : Nat) (a x : ℚ) (hx : 0 ≤ x)
    (hn : a = 0 ∨ (2 : ℚ) ^ (-126 : ℤ) ≤ a) (h : f32_close k a x) :
    f32_close (k + 1) (f32_round a) x := by
  rcases hn with h0 | hn
  · subst h0
    rw [f32_round_zero]
    unfold f32_close at h ⊢
    have hr0 : (0 : ℚ) ≤ 1 - 1 / 16777216 := by norm_num
    have hrk : (0 : ℚ) < (1 - 1 / 16777216) ^ k := pow_pos (by norm_num) k
    have hx0 : x = 0 := by
      refine le_antisymm ?_ hx
      by_contra hc
      push_neg at hc
      have := mul_pos hc hrk
      linarith [h.1]
    subst hx0
    simp
  · obtain ⟨hlo, hhi⟩ := f32_round_rel a hn
    have ha : 0 < a := lt_of_lt_of_le (by positivity) hn
    unfold f32_close at h ⊢
    have hr0 : (0 : ℚ) ≤ 1 - 1 / 16777216 := by norm_num
    have hk : (0 : ℚ) ≤ (1 - 1 / 16777216) ^ k := pow_nonneg hr0 k
    rw [pow_succ]
    constructor
    · calc x * ((1 - 1 / 16777216) ^ k * (1 - 1 / 16777216))
          = (x * (1 - 1 / 16777216) ^ k) * (1 - 1 / 16777216) := by ring
        _ ≤ a * (1 - 1 / 16777216) := mul_le_mul_of_nonneg_right h.1 hr0
        _ ≤ f32_round a := hlo
    · have h1 : f32_round a * (1 - 1 / 16777216) ≤ a := by
        have : a * (1 + 1 / 16777216) * (1 - 1 / 16777216) ≤ a := by nlinarith
        exact le_trans (mul_le_mul_of_nonneg_right hhi hr0) this
      calc f32_round a * ((1 - 1 / 16777216) ^ k * (1 - 1 / 16777216))
          = (f32_round a * (1 - 1 / 16777216)) * (1 - 1 / 16777216) ^ k := by ring
        _ ≤ a * (1 - 1 / 16777216) ^ k := mul_le_mul_of_nonneg_right h1 hk
        _ ≤ x := h.2

theorem f32_close_lower (k : Nat) (a x : ℚ) (hk : k ≤ 8) (hx : 0 ≤ x)
    (h : f32_close k a x) : x / 2 ≤ a := by
  have hr0 : (0 : ℚ) ≤ 1 - 1 / 16777216 := by norm_num
  have hr1 : (1 - 1 / 16777216 : ℚ) ≤ 1 := by norm_num
  have h8 : (1 / 2 : ℚ) ≤ (1 - 1 / 16777216) ^ 8 := by norm_num
  have hp : (1 - 1 / 16777216 : ℚ) ^ 8 ≤ (1 - 1 / 16777216) ^ k :=
    pow_le_pow_of_le_one hr0 hr1 hk
  unfold f32_close at h
  calc x / 2 = x * (1 / 2) := by ring
    _ ≤ x * (1 - 1 / 16777216) ^ k := mul_le_mul_of_nonneg_left (le_trans h8 hp) hx
    _ ≤ a := h.1

theorem f32_close_round_of_lower (k : Nat) (a x : ℚ) (hk : k ≤ 8) (ha : 0 ≤ a)
    (hx : x = 0 ∨ (2 : ℚ) ^ (-100 : ℤ) ≤ x) (h : f32_close k a x) :
    f32_close (k + 1) (f32_round a) x := by
  rcases hx with hx | hx
  · subst hx
    have hrk : (0 : ℚ) < (1 - 1 / 16777216) ^ k := pow_pos (by norm_num) k
    have ha0 : a = 0 := by
      refine le_antisymm ?_ ha
      by_contra hc
      push_neg at hc
      have := mul_pos hc hrk
      unfold f32_close at h
      linarith [h.2]
    subst ha0
    exact f32_close_round k 0 0 (le_refl _) (Or.inl rfl) h
  · have hx0 : 0 ≤ x := le_trans (by positivity) hx
    have hl := f32_close_lower k a x hk hx0 h
    refine f32_close_round k a x hx0 (Or.inr ?_) h
    have h126 : (2 : ℚ) ^ (-126 : ℤ) ≤ 2 ^ (-100 : ℤ) / 2 := by
      have : (2 : ℚ) ^ (-100 : ℤ) / 2 = 2 ^ (-101 : ℤ) := by
        rw [show (-100 : ℤ) = -101 + 1 by norm_num, zpow_add₀ (by norm_num)]
        norm_num
      rw [this]
      exact zpow_le_zpow_right₀ (by norm_num) (by norm_num)
    exact le_trans h126 (le_trans (div_le_div_of_nonneg_right hx (by norm_num)) hl)

theorem f32_of_nat_close (n : Nat) : f32_close 1 (f32_of_nat n) n ∧ 0 ≤ f32_of_nat n := by
  refine ⟨?_, f32_round_nonneg _ (by positivity)⟩
  unfold f32_of_nat
  rcases Nat.eq_zero_or_pos n with h0 | hpos
  · subst h0
    exact f32_close_round 0 _ _ (by simp) (Or.inl (by simp)) (f32_close_refl _)
  · refine f32_close_round 0 _ _ (by positivity) (Or.inr ?_) (f32_close_refl _)
    have h1 : (1 : ℚ) ≤ n := by exact_mod_cast hpos
    have h2 : (2 : ℚ) ^ (-126 : ℤ) ≤ 1 := zpow_le_one_of_nonpos₀ (by norm_num) (by norm_num)
    linarith

theorem nat_div_lower (d CS : Nat) (hd : 0 < d) (hCS : 0 < CS) (hCS32 : CS < 2 ^ 32) :
    (2 : ℚ) ^ (-32 : ℤ) ≤ (d : ℚ) / CS := by
  have h1 : (1 : ℚ) ≤ d := by exact_mod_cast hd
  have h2 : (0 : ℚ) < CS := by exact_mod_cast hCS
  have h3 : (CS : ℚ) ≤ 2 ^ 32 := by exact_mod_cast hCS32.le
  rw [le_div_iff₀ h2]
  have : (2 : ℚ) ^ (-32 : ℤ) * 2 ^ 32 = 1 := by norm_num
  nlinarith [show (0 : ℚ) ≤ 2 ^ (-32 : ℤ) by positivity]

/-- One addend of the debit: `(d / (float)CLOCK_SECOND) * c` for a cost `c` that is the
binary32 value of `c0`, within five roundings of `d / CLOCK_SECOND · c0`. -/
theorem debit_term_close (CS d : Nat) (c c0 : ℚ) (hCS : 0 < CS) (hCS32 : CS < 2 ^ 32)
    (hc0 : 1 / 64 ≤ c0) (hc : f32_close 1 c c0) (hcn : 0 ≤ c) :
    f32_close 5 (f32_mul (f32_div (f32_of_nat d) (f32_of_nat CS)) c) ((d : ℚ) / CS * c0) ∧
    0 ≤ f32_mul (f32_div (f32_of_nat d) (f32_of_nat CS)) c ∧
    ((d : ℚ) / CS * c0 = 0 ∨ (2 : ℚ) ^ (-100 : ℤ) ≤ (d : ℚ) / CS * c0) := by
  have hCSq : (0 : ℚ) < CS := by exact_mod_cast hCS
  rcases Nat.eq_zero_or_pos d with h0 | hpos
  · subst h0
    have hz : ((0 : Nat) : ℚ) / CS * c0 = 0 := by simp
    rw [f32_of_nat_zero, f32_div_zero_left, f32_mul_zero_left, hz]
    exact ⟨f32_close_zero 5, le_refl _, Or.inl rfl⟩
  · obtain ⟨hd1, hdn⟩ := f32_of_nat_close d
    obtain ⟨hC1, hCn⟩ := f32_of_nat_close CS
    have hCpos : 0 < f32_of_nat CS := by
      have := one_le_f32_round (CS : ℚ) (by exact_mod_cast hCS)
      unfold f32_of_nat
      linarith
    have hdq : (0 : ℚ) ≤ d := by positivity
    have hq := f32_close_div 1 1 _ _ _ _ hdn hCpos hdq hCSq hd1 hC1
    have hlow := nat_div_lower d CS hpos hCS hCS32
    have hx100 : (2 : ℚ) ^ (-100 : ℤ) ≤ (d : ℚ) / CS :=
      le_trans (zpow_le_zpow_right₀ (by norm_num) (by norm_num)) hlow
    have hqn : 0 ≤ f32_of_nat d / f32_of_nat CS := div_nonneg hdn hCn
    have hs := f32_close_round_of_lower 2 _ _ (by norm_num) hqn (Or.inr hx100) hq
    have hsn : 0 ≤ f32_div (f32_of_nat d) (f32_of_nat CS) := f32_round_nonneg _ hqn
    have hc0n : (0 : ℚ) ≤ c0 := by linarith
    have hdCn : (0 : ℚ) ≤ (d : ℚ) / CS := div_nonneg hdq hCSq.le
    have hm := f32_close_mul 3 1 _ _ _ _ hsn hcn hdCn hc0n hs hc
    have hprod : (2 : ℚ) ^ (-100 : ℤ) ≤ (d : ℚ) / CS * c0 := by
      have h38 : (2 : ℚ) ^ (-100 : ℤ) ≤ 2 ^ (-32 : ℤ) * (1 / 64) := by
        have : (2 : ℚ) ^ (-32 : ℤ) * (1 / 64) = 2 ^ (-38 : ℤ) := by
          rw [show (-38 : ℤ) = -32 + -6 by norm_num, zpow_add₀ (by norm_num)]
          norm_num
        rw [this]
        exact zpow_le_zpow_right₀ (by norm_num) (by norm_num)
      calc (2 : ℚ) ^ (-100 : ℤ) ≤ 2 ^ (-32 : ℤ) * (1 / 64) := h38
        _ ≤ (d : ℚ) / CS * c0 := mul_le_mul hlow hc0 (by norm_num) hdCn
    have hmn : 0 ≤ f32_div (f32_of_nat d) (f32_of_nat CS) * c := mul_nonneg hsn hcn
    exact ⟨f32_close_round_of_lower 4 _ _ (by norm_num) hmn (Or.inr hprod) hm,
      f32_round_nonneg _ hmn, Or.inr hprod⟩

theorem zero_or_lower_add (x y : ℚ) (hx : x = 0 ∨ (2 : ℚ) ^ (-100 : ℤ) ≤ x)
    (hy : y = 0 ∨ (2 : ℚ) ^ (-100 : ℤ) ≤ y) :
    x + y = 0 ∨ (2 : ℚ) ^ (-100 : ℤ) ≤ x + y := by
  have hp : (0 : ℚ) ≤ 2 ^ (-100 : ℤ) := by positivity
  rcases hx with hx | hx <;> rcases hy with hy | hy
  · left
    rw [hx, hy, add_zero]
  · right
    rw [hx, zero_add]
    exact hy
  · right
    rw [hy, add_zero]
    exact hx
  · right
    linarith

theorem CPU_COST_close : f32_close 1 CPU_COST 0.2 ∧ 0 ≤ CPU_COST := by
  refine ⟨?_, by rw [CPU_COST_eq]; norm_num⟩
  unfold CPU_COST
  refine f32_close_round 0 _ _ (by norm_num) (Or.inr ?_) (f32_close_refl _)
  exact le_trans (zpow_le_zpow_right₀ (by norm_num) (by norm_num : (-126 : ℤ) ≤ -3))
    (by norm_num : (2 : ℚ) ^ (-3 : ℤ) ≤ 0.2)

theorem LPM_COST_close : f32_close 1 LPM_COST 0.02 ∧ 0 ≤ LPM_COST := by
  refine ⟨?_, by rw [LPM_COST_eq]; norm_num⟩
  unfold LPM_COST
  refine f32_close_round 0 _ _ (by norm_num) (Or.inr ?_) (f32_close_refl _)
  exact le_trans (zpow_le_zpow_right₀ (by norm_num) (by norm_num : (-126 : ℤ) ≤ -6))
    (by norm_num : (2 : ℚ) ^ (-6 : ℤ) ≤ 0.02)

/-- The debit of `update_battery` is within eight binary32 roundings of the exact value of
`(Δcpu·0.2 + Δlpm·0.02 + Δtx·1.0 + Δrx·1.0) / CLOCK_SECOND`. -/
theorem battery_debit_close (CS d_cpu d_lpm d_tx d_rx : Nat) (hCS : 0 < CS)
    (hCS32 : CS < 2 ^ 32) :
    f32_close 8 (battery_debit CS d_cpu d_lpm d_tx d_rx)
      (((d_cpu : ℚ) * 0.2 + (d_lpm : ℚ) * 0.02 + (d_tx : ℚ) * 1.0 + (d_rx : ℚ) * 1.0) / CS) := by
  have hone : f32_close 1 (1 : ℚ) 1 :=
    f32_close_mono 0 1 1 1 (by norm_num) (by norm_num) (by norm_num) (f32_close_refl 1)
  obtain ⟨c1, n1, z1⟩ := debit_term_close CS d_cpu CPU_COST 0.2 hCS hCS32 (by norm_num)
    CPU_COST_close.1 CPU_COST_close.2
  obtain ⟨c2, n2, z2⟩ := debit_term_close CS d_lpm LPM_COST 0.02 hCS hCS32 (by norm_num)
    LPM_COST_close.1 LPM_COST_close.2
  obtain ⟨c3, n3, z3⟩ := debit_term_close CS d_tx 1 1 hCS hCS32 (by norm_num) hone
    (by norm_num)
  obtain ⟨c4, n4, z4⟩ := debit_term_close CS d_rx 1 1 hCS hCS32 (by norm_num) hone
    (by norm_num)
  have hCSq : (0 : ℚ) < CS := by exact_mod_cast hCS
  have t1 : (0 : ℚ) ≤ (d_cpu : ℚ) / CS * 0.2 := by positivity
  have t2 : (0 : ℚ) ≤ (d_lpm : ℚ) / CS * 0.02 := by positivity
  have t3 : (0 : ℚ) ≤ (d_tx : ℚ) / CS * 1 := by positivity
  have t4 : (0 : ℚ) ≤ (d_rx : ℚ) / CS * 1 := by positivity
  have s1 := f32_close_round_of_lower 5 _ _ (by norm_num) (add_nonneg n1 n2)
    (zero_or_lower_add _ _ z1 z2) (f32_close_add 5 _ _ _ _ c1 c2)
  have m1 : 0 ≤ f32_round (f32_mul (f32_div (f32_of_nat d_cpu) (f32_of_nat CS)) CPU_COST +
      f32_mul (f32_div (f32_of_nat d_lpm) (f32_of_nat CS)) LPM_COST) :=
    f32_round_nonneg _ (add_nonneg n1 n2)
  have c3b := f32_close_mono 5 6 _ _ (by norm_num) n3 t3 c3
  have s2 := f32_close_round_of_lower 6 _ _ (by norm_num) (add_nonneg m1 n3)
    (zero_or_lower_add _ _ (zero_or_lower_add _ _ z1 z2) z3) (f32_close_add 6 _ _ _ _ s1 c3b)
  have m2 := f32_round_nonneg _ (add_nonneg m1 n3)
  have c4b := f32_close_mono 5 7 _ _ (by norm_num) n4 t4 c4
  have s3 := f32_close_round_of_lower 7 _ _ (by norm_num) (add_nonneg m2 n4)
    (zero_or_lower_add _ _ (zero_or_lower_add _ _ (zero_or_lower_add _ _ z1 z2) z3) z4)
    (f32_close_add 7 _ _ _ _ s2 c4b)
  have heq : ((d_cpu : ℚ) * 0.2 + (d_lpm : ℚ) * 0.02 + (d_tx : ℚ) * 1.0 + (d_rx : ℚ) * 1.0) / CS =
      (d_cpu : ℚ) / CS * 0.2 + (d_lpm : ℚ) / CS * 0.02 + (d_tx : ℚ) / CS * 1 +
        (d_rx : ℚ) / CS * 1 := by
    field_simp
    norm_num
  rw [heq]
  simpa only [battery_debit, f32_add, TX_COST, RX_COST, show (1.0 : ℚ) = 1 by norm_num] using s3

/-- The debit of `update_battery` differs from the exact value of the formula by a relative
error of at most `2^-20`. -/
theorem battery_debit_rel (CS d_cpu d_lpm d_tx d_rx : Nat) (hCS : 0 < CS)
    (hCS32 : CS < 2 ^ 32) :
    ((d_cpu : ℚ) * 0.2 + (d_lpm : ℚ) * 0.02 + (d_tx : ℚ) * 1.0 + (d_rx : ℚ) * 1.0) / CS *
        (1 - 1 / 1048576) ≤ battery_debit CS d_cpu d_lpm d_tx d_rx ∧
    battery_debit CS d_cpu d_lpm d_tx d_rx ≤
      ((d_cpu : ℚ) * 0.2 + (d_lpm : ℚ) * 0.02 + (d_tx : ℚ) * 1.0 + (d_rx : ℚ) * 1.0) / CS *
        (1 + 1 / 1048576) := by
  have h := battery_debit_close CS d_cpu d_lpm d_tx d_rx hCS hCS32
  have hD := battery_debit_nonneg CS d_cpu d_lpm d_tx d_rx
  have hE : (0 : ℚ) ≤
      ((d_cpu : ℚ) * 0.2 + (d_lpm : ℚ) * 0.02 + (d_tx : ℚ) * 1.0 + (d_rx : ℚ) * 1.0) / CS := by
    positivity
  unfold f32_close at h
  generalize battery_debit CS d_cpu d_lpm d_tx d_rx = D at h hD
  generalize ((d_cpu : ℚ) * 0.2 + (d_lpm : ℚ) * 0.02 + (d_tx : ℚ) * 1.0 + (d_rx : ℚ) * 1.0) / CS
    = E at h hE
  have h8a : (1 - 1 / 1048576 : ℚ) ≤ (1 - 1 / 16777216) ^ 8 := by norm_num
  have h8b : (1 : ℚ) ≤ (1 - 1 / 16777216) ^ 8 * (1 + 1 / 1048576) := by norm_num
  constructor
  · exact le_trans (mul_le_mul_of_nonneg_left h8a hE) h.1
  · calc D = D * 1 := (mul_one D).symm
      _ ≤ D * ((1 - 1 / 16777216) ^ 8 * (1 + 1 / 1048576)) := mul_le_mul_of_nonneg_left h8b hD
      _ = D * (1 - 1 / 16777216) ^ 8 * (1 + 1 / 1048576) := by ring
      _ ≤ E * (1 + 1 / 1048576) := mul_le_mul_of_nonneg_right h.2 (by norm_num)

/-! ## The debit of `update_battery` -/

theorem f32_mul_one_left (c : ℚ) : f32_mul 1 c = f32_round c := by
  unfold f32_mul
  rw [one_mul]

/-- The debit of `update_battery` for one second of CPU time and nothing else is `0.2f`. -/
theorem battery_debit_cpu_second (CLOCK_SECOND : Nat) (hCS : 0 < CLOCK_SECOND) :
    battery_debit CLOCK_SECOND CLOCK_SECOND 0 0 0 = CPU_COST := by
  simp only [battery_debit, f32_of_nat_zero, f32_div_zero_left, f32_mul_zero_left,
    f32_add_zero_right, f32_div_self_nat CLOCK_SECOND hCS, f32_mul_one_left,
    f32_round_CPU_COST]

/-- The debit of `update_battery` for one idle second and nothing else is `0.02f`. -/
theorem battery_debit_idle_second (CLOCK_SECOND : Nat) (hCS : 0 < CLOCK_SECOND) :
    battery_debit CLOCK_SECOND 0 CLOCK_SECOND 0 0 = LPM_COST := by
  simp only [battery_debit, f32_of_nat_zero, f32_div_zero_left, f32_mul_zero_left,
    f32_add_zero_right, f32_add_zero_left, f32_div_self_nat CLOCK_SECOND hCS,
    f32_mul_one_left, f32_round_LPM_COST]

theorem f32_sub_le_nat (b d : ℚ) (N : Nat) (hN : N < 2 ^ 23) (hb : b ≤ N) (hd : 0 ≤ d) :
    f32_sub b d ≤ N :=
  f32_round_le_nat _ N hN (by linarith)

/-- In the binade `[64, 128)` the subtraction of `0.02f` lowers a binary32 value by 2621 units
in the last place. -/
theorem f32_sub_lpm_cost (m : ℤ) (h1 : 8391230 ≤ m) (h2 : m ≤ 16777216) :
    f32_sub ((m : ℚ) / 131072) LPM_COST = ((m - 2621 : ℤ) : ℚ) / 131072 := by
  have hm1 : (8391230 : ℚ) ≤ (m : ℚ) := by exact_mod_cast h1
  have hm2 : (m : ℚ) ≤ 16777216 := by exact_mod_cast h2
  have hpos : (0 : ℚ) < (m : ℚ) / 131072 - 5368709 / 268435456 := by linarith
  unfold f32_sub
  rw [LPM_COST_eq, f32_round_eq _ 6 (m - 2621) (by norm_num)
    (by rw [abs_of_pos hpos]; norm_num; linarith)
    (by rw [abs_of_pos hpos]; norm_num; linarith)
    (by push_cast; norm_num; linarith) (by push_cast; norm_num; linarith)]
  norm_num
  ring

/-- The binary32 difference `31.0f - 0.2f`. -/
theorem f32_sub_31_cpu_cost : f32_sub 31 CPU_COST = 8074035 / 262144 := by
  unfold f32_sub
  rw [CPU_COST_eq, f32_round_eq _ 4 16148070 (by norm_num) (by norm_num [abs_of_pos])
    (by norm_num [abs_of_pos]) (by norm_num) (by norm_num)]
  norm_num

theorem u32_sub_zero_zero : u32_sub 0 0 = 0 := by
  norm_num [u32_sub]

theorem e_sensor_update_battery_same (CLOCK_SECOND : Nat) (s : e_sensor_node.state)
    (h1 : s.last_cpu = 0) (h2 : s.last_lpm = 0) (h3 : s.last_tx = 0) (h4 : s.last_rx = 0) :
    (e_sensor_node.update_battery CLOCK_SECOND ⟨0, 0, 0, 0⟩ s).battery_level =
      f32_round s.battery_level := by
  simp only [e_sensor_node.update_battery, h1, h2, h3, h4, u32_sub_zero_zero,
    battery_debit_zero, f32_sub_zero]

theorem e_computation_update_battery_same (CLOCK_SECOND : Nat) (s : e_computation_node.state)
    (h1 : s.last_cpu = 0) (h2 : s.last_lpm = 0) (h3 : s.last_tx = 0) (h4 : s.last_rx = 0) :
    (e_computation_node.update_battery CLOCK_SECOND ⟨0, 0, 0, 0⟩ s).battery_level =
      f32_round s.battery_level := by
  simp only [e_computation_node.update_battery, h1, h2, h3, h4, u32_sub_zero_zero,
    battery_debit_zero, f32_sub_zero]

theorem e_border_update_battery_same (CLOCK_SECOND : Nat) (s : e_border_router.state)
    (h1 : s.last_cpu = 0) (h2 : s.last_lpm = 0) (h3 : s.last_tx = 0) (h4 : s.last_rx = 0) :
    (e_border_router.update_battery CLOCK_SECOND ⟨0, 0, 0, 0⟩ s).battery_level =
      f32_round s.battery_level := by
  simp only [e_border_router.update_battery, h1, h2, h3, h4, u32_sub_zero_zero,
    battery_debit_zero, f32_sub_zero]

theorem e_sensor_update_battery_fixed (CLOCK_SECOND : Nat) (s : e_sensor_node.state)
    (h1 : s.last_cpu = 0) (h2 : s.last_lpm = 0) (h3 : s.last_tx = 0) (h4 : s.last_rx = 0)
    (hb : f32_round s.battery_level = s.battery_level) :
    e_sensor_node.update_battery CLOCK_SECOND ⟨0, 0, 0, 0⟩ s = s := by
  cases s
  simp only at h1 h2 h3 h4 hb
  subst h1 h2 h3 h4
  simp only [e_sensor_node.update_battery, u32_sub_zero_zero, battery_debit_zero, f32_sub_zero,
    hb, Nat.zero_mod]

theorem e_computation_update_battery_fixed (CLOCK_SECOND : Nat)
    (s : e_computation_node.state)
    (h1 : s.last_cpu = 0) (h2 : s.last_lpm = 0) (h3 : s.last_tx = 0) (h4 : s.last_rx = 0)
    (hb : f32_round s.battery_level = s.battery_level) :
    e_computation_node.update_battery CLOCK_SECOND ⟨0, 0, 0, 0⟩ s = s := by
  cases s
  simp only at h1 h2 h3 h4 hb
  subst h1 h2 h3 h4
  simp only [e_computation_node.update_battery, u32_sub_zero_zero, battery_debit_zero,
    f32_sub_zero, hb, Nat.zero_mod]

theorem e_border_update_battery_fixed (CLOCK_SECOND : Nat) (s : e_border_router.state)
    (h1 : s.last_cpu = 0) (h2 : s.last_lpm = 0) (h3 : s.last_tx = 0) (h4 : s.last_rx = 0)
    (hb : f32_round s.battery_level = s.battery_level) :
    e_border_router.update_battery CLOCK_SECOND ⟨0, 0, 0, 0⟩ s = s := by
  cases s
  simp only at h1 h2 h3 h4 hb
  subst h1 h2 h3 h4
  simp only [e_border_router.update_battery, u32_sub_zero_zero, battery_debit_zero,
    f32_sub_zero, hb, Nat.zero_mod]

theorem low_sensor_update :
    e_sensor_node.update_battery 128 ⟨0, 0, 0, 0⟩ low_sensor = low_sensor :=
  e_sensor_update_battery_fixed 128 low_sensor rfl rfl rfl rfl f32_round_5

theorem deep_sensor_update :
    e_sensor_node.update_battery 128 ⟨0, 0, 0, 0⟩ deep_sensor = deep_sensor :=
  e_sensor_update_battery_fixed 128 deep_sensor rfl rfl rfl rfl f32_round_89_5

theorem lpm_sensor_update :
    e_sensor_node.update_battery 128 ⟨0, 0, 0, 0⟩ lpm_sensor = lpm_sensor :=
  e_sensor_update_battery_fixed 128 lpm_sensor rfl rfl rfl rfl f32_round_20

theorem f32_round_pos_eq (x y : ℚ) (e m : ℤ) (he : -126 ≤ e) (hx : 0 < x)
    (h1 : (2 : ℚ) ^ e ≤ x) (h2 : x < (2 : ℚ) ^ (e + 1))
    (h3 : ((m : ℚ) - 1 / 2) * 2 ^ (e - 23) < x) (h4 : x < ((m : ℚ) + 1 / 2) * 2 ^ (e - 23))
    (hy : (m : ℚ) * 2 ^ (e - 23) = y) : f32_round x = y := by
  rw [← hy]
  exact f32_round_eq x e m he (by rw [abs_of_pos hx]; exact h1) (by rw [abs_of_pos hx]; exact h2)
    h3 h4

/-- The debit of `update_battery` for `Δcpu = Δlpm = 64`, `Δtx = 128`, `Δrx = 0` and
`CLOCK_SECOND = 128`, computed step by step in binary32. -/
theorem battery_debit_half_second : battery_debit 128 64 64 128 0 = 9311355 / 8388608 := by
  have n64 : f32_of_nat 64 = 64 :=
    f32_round_pos_eq _ _ 6 8388608 (by norm_num) (by norm_num) (by norm_num) (by norm_num)
      (by norm_num) (by norm_num) (by norm_num)
  have n128 : f32_of_nat 128 = 128 :=
    f32_round_pos_eq _ _ 7 8388608 (by norm_num) (by norm_num) (by norm_num) (by norm_num)
      (by norm_num) (by norm_num) (by norm_num)
  have dhalf : f32_div 64 128 = 1 / 2 :=
    f32_round_pos_eq _ _ (-1) 8388608 (by norm_num) (by norm_num) (by norm_num) (by norm_num)
      (by norm_num) (by norm_num) (by norm_num)
  have done : f32_div 128 128 = 1 := by
    unfold f32_div
    rw [div_self (by norm_num), f32_round_one]
  have p1 : f32_mul (1 / 2) CPU_COST = 13421773 / 134217728 := by
    unfold f32_mul
    rw [CPU_COST_eq]
    exact f32_round_pos_eq _ _ (-4) 13421773 (by norm_num) (by norm_num) (by norm_num)
      (by norm_num) (by norm_num) (by norm_num) (by norm_num)
  have p2 : f32_mul (1 / 2) LPM_COST = 5368709 / 536870912 := by
    unfold f32_mul
    rw [LPM_COST_eq]
    exact f32_round_pos_eq _ _ (-7) 10737418 (by norm_num) (by norm_num) (by norm_num)
      (by norm_num) (by norm_num) (by norm_num) (by norm_num)
  have p3 : f32_mul 1 TX_COST = 1 := by
    unfold f32_mul TX_COST
    rw [show (1 : ℚ) * 1.0 = 1 by norm_num, f32_round_one]
  have a1 : f32_add (13421773 / 134217728) (5368709 / 536870912) = 7381975 / 67108864 :=
    f32_round_pos_eq _ _ (-4) 14763950 (by norm_num) (by norm_num) (by norm_num)
      (by norm_num) (by norm_num) (by norm_num) (by norm_num)
  have a2 : f32_add (7381975 / 67108864) 1 = 9311355 / 8388608 :=
    f32_round_pos_eq _ _ 0 9311355 (by norm_num) (by norm_num) (by norm_num)
      (by norm_num) (by norm_num) (by norm_num) (by norm_num)
  have a3 : f32_round (9311355 / 8388608) = 9311355 / 8388608 :=
    f32_round_pos_eq _ _ 0 9311355 (by norm_num) (by norm_num) (by norm_num)
      (by norm_num) (by norm_num) (by norm_num) (by norm_num)
  simp only [battery_debit, n64, n128, f32_of_nat_zero, dhalf, done, f32_div_zero_left,
    f32_mul_zero_left, p1, p2, p3, a1, a2, f32_add_zero_right, a3]

theorem round_half_even_half (m : ℤ) :
    round_half_even ((m : ℚ) + 1 / 2) = if m % 2 = 0 then m else m + 1 := by
  have hfl : ⌊(m : ℚ) + 1 / 2⌋ = m := by
    rw [Int.floor_eq_iff]
    constructor <;> linarith
  unfold round_half_even
  rw [hfl]
  have h1 : ¬ ((m : ℚ) + 1 / 2 - (m : ℚ) < 1 / 2) := by
    rw [add_sub_cancel_left]
    exact lt_irrefl _
  have h2 : ¬ ((1 : ℚ) / 2 < (m : ℚ) + 1 / 2 - (m : ℚ)) := by
    rw [add_sub_cancel_left]
    exact lt_irrefl _
  rw [if_neg h1, if_neg h2]

/-- The binary32 difference `5.0f - 1.11000001f`: the exact difference lies halfway between
two binary32 values and is rounded to the one with an even significand. -/
theorem f32_sub_5_half_second : f32_sub 5 (9311355 / 8388608) = 8157921 / 2097152 := by
  unfold f32_sub f32_round
  rw [f32_exponent_eq _ 1 (by norm_num) (by norm_num [abs_of_pos]) (by norm_num [abs_of_pos])]
  have hy : ((5 : ℚ) - 9311355 / 8388608) / 2 ^ ((1 : ℤ) - 23) = ((16315842 : ℤ) : ℚ) + 1 / 2 := by
    norm_num
  rw [hy, round_half_even_half]
  norm_num

theorem u32_sub_eq_emod (a b : Nat) :
    ((u32_sub a b : Nat) : ℤ) = ((a : ℤ) - (b : ℤ)) % (2 ^ 32 : ℤ) := by
  unfold u32_sub
  omega

theorem u32_sub_eq_toNat (a b : Nat) :
    u32_sub a b = Int.toNat (((a : ℤ) - (b : ℤ)) % (2 ^ 32 : ℤ)) := by
  have h := u32_sub_eq_emod a b
  omega

/-! ## Helper lemmas -/

theorem hello_rank_decode (hi lo : Nat) (hhi : hi < 256) (hlo : lo < 256) :
    ((hi <<< 8) ||| lo) % 65536 = hi * 256 + lo := by
  have h : (2 : Nat) ^ 8 * hi + lo = 2 ^ 8 * hi ||| lo :=
    Nat.mul_add_lt_is_or (by simpa using hlo) hi
  rw [Nat.shiftLeft_eq, Nat.mul_comm hi (2 ^ 8), ← h]
  omega

theorem linkaddr_cmp_eq_false (a b : linkaddr_t) : linkaddr_cmp a b = false ↔ a ≠ b := by
  simp [linkaddr_cmp]

theorem linkaddr_cmp_eq_true (a b : linkaddr_t) : linkaddr_cmp a b = true ↔ a = b := by
  simp [linkaddr_cmp]

/-- The energised computation node on a HELLO frame with a joined rank. -/
theorem e_computation_hello (LINKADDR_SIZE hi lo recv_energy st : Nat) (src : linkaddr_t)
    (s : e_computation_node.state)
    (hhi : hi < 256) (hlo : lo < 256) (hrank : hi * 256 + lo ≠ 0xFFFF) :
    e_computation_node.input_callback LINKADDR_SIZE s [1, hi, lo, recv_energy, st] src =
      if hi * 256 + lo + 1 < s.my_rank ∨ (hi * 256 + lo + 1 = s.my_rank ∧ src ≠ s.parent ∧
          recv_energy > s.parent_energy + 30) then
        ({ s with my_rank := hi * 256 + lo + 1, parent := src, parent_energy := recv_energy },
          [effect.printf (log_t.tree_new_parent (s.linkaddr_node_addr.headD 0) (src.headD 0)
            (hi * 256 + lo + 1) (some recv_energy))])
      else if src = s.parent then ({ s with parent_energy := recv_energy }, [])
      else (s, []) := by
  have hdec := hello_rank_decode hi lo hhi hlo
  have hcand : (hi * 256 + lo + 1) % 65536 = hi * 256 + lo + 1 := by
    apply Nat.mod_eq_of_lt
    have : hi * 256 + lo < 65536 := by omega
    omega
  simp only [e_computation_node.input_callback, e_computation_node.on_hello, List.length_cons,
    List.length_nil, List.getD_cons_zero, List.getD_cons_succ, hdec, hcand, ENERGY_DIFF_THRESHOLD,
    linkaddr_cmp_eq_false, linkaddr_cmp_eq_true]
  simp [hrank]

/-- The energised sensor node on a HELLO frame with a joined rank. -/
theorem e_sensor_hello (CLOCK_SECOND hi lo recv_energy st : Nat) (src : linkaddr_t)
    (s : e_sensor_node.state)
    (hhi : hi < 256) (hlo : lo < 256) (hrank : hi * 256 + lo ≠ 0xFFFF) :
    e_sensor_node.input_callback CLOCK_SECOND s [1, hi, lo, recv_energy, st] src =
      if hi * 256 + lo + 1 < s.my_rank ∨ (hi * 256 + lo + 1 = s.my_rank ∧ src ≠ s.parent ∧
          recv_energy > s.parent_energy + 30) then
        ({ s with my_rank := hi * 256 + lo + 1, parent := src, parent_energy := recv_energy,
                  sensor_timer_started := true },
          [effect.printf (log_t.tree_new_parent (s.linkaddr_node_addr.headD 0) (src.headD 0)
            (hi * 256 + lo + 1) (some recv_energy))] ++
          (if s.sensor_timer_started = false then
            [effect.etimer_set timer_id.sensor_timer (SENSOR_INTERVAL CLOCK_SECOND)]
           else []))
      else if src = s.parent then ({ s with parent_energy := recv_energy }, [])
      else (s, []) := by
  have hdec := hello_rank_decode hi lo hhi hlo
  have hcand : (hi * 256 + lo + 1) % 65536 = hi * 256 + lo + 1 := by
    apply Nat.mod_eq_of_lt
    have : hi * 256 + lo < 65536 := by omega
    omega
  simp only [e_sensor_node.input_callback, e_sensor_node.on_hello, List.length_cons,
    List.length_nil, List.getD_cons_zero, List.getD_cons_succ, hdec, hcand, ENERGY_DIFF_THRESHOLD,
    linkaddr_cmp_eq_false, linkaddr_cmp_eq_true]
  simp [hrank]

/-- C1 (energised Computation and Sensor nodes). For a 5-byte HELLO `[1, hi, lo, recv_energy, st]`
from `src` whose rank `recv_rank = 256*hi + lo` is not `0xFFFF`, with `cand = recv_rank + 1`:
the handler logs the adoption of a new parent exactly when `cand < my_rank`, or
`cand = my_rank`, `src` is not the current parent and `recv_energy > parent_energy + 30`;
in that case rank, parent and parent energy become `cand`, `src`, `recv_energy`; otherwise
rank and parent are unchanged and the parent energy is refreshed to `recv_energy` when `src`
is the current parent and left alone when it is not. -/
theorem C1_energised_parent_selection
    (LINKADDR_SIZE CLOCK_SECOND hi lo recv_energy st : Nat) (src : linkaddr_t)
    (hhi : hi < 256) (hlo : lo < 256) (hrank : hi * 256 + lo ≠ 0xFFFF) :
    (∀ s : e_computation_node.state,
      let cand := hi * 256 + lo + 1
      let adopt := cand < s.my_rank ∨
        (cand = s.my_rank ∧ src ≠ s.parent ∧ recv_energy > s.parent_energy + 30)
      let r := e_computation_node.input_callback LINKADDR_SIZE s [1, hi, lo, recv_energy, st] src
      ((effect.printf (log_t.tree_new_parent (s.linkaddr_node_addr.headD 0) (src.headD 0) cand
          (some recv_energy)) ∈ r.2) ↔ adopt) ∧
      (adopt → r.1.my_rank = cand ∧ r.1.parent = src ∧ r.1.parent_energy = recv_energy) ∧
      (¬ adopt → r.1.my_rank = s.my_rank ∧ r.1.parent = s.parent ∧ r.2 = [] ∧
        (src = s.parent → r.1.parent_energy = recv_energy) ∧
        (src ≠ s.parent → r.1.parent_energy = s.parent_energy))) ∧
    (∀ s : e_sensor_node.state,
      let cand := hi * 256 + lo + 1
      let adopt := cand < s.my_rank ∨
        (cand = s.my_rank ∧ src ≠ s.parent ∧ recv_energy > s.parent_energy + 30)
      let r := e_sensor_node.input_callback CLOCK_SECOND s [1, hi, lo, recv_energy, st] src
      ((effect.printf (log_t.tree_new_parent (s.linkaddr_node_addr.headD 0) (src.headD 0) cand
          (some recv_energy)) ∈ r.2) ↔ adopt) ∧
      (adopt → r.1.my_rank = cand ∧ r.1.parent = src ∧ r.1.parent_energy = recv_energy) ∧
      (¬ adopt → r.1.my_rank = s.my_rank ∧ r.1.parent = s.parent ∧
        r.2 = [] ∧
        (src = s.parent → r.1.parent_energy = recv_energy) ∧
        (src ≠ s.parent → r.1.parent_energy = s.parent_energy))) := by
  constructor
  · intro s
    intro cand adopt
    rw [e_computation_hello LINKADDR_SIZE hi lo recv_energy st src s hhi hlo hrank]
    by_cases hA : adopt
    · rw [if_pos hA]
      exact ⟨by simp [hA, cand], fun _ => ⟨rfl, rfl, rfl⟩, fun h => absurd hA h⟩
    · rw [if_neg hA]
      by_cases hp : src = s.parent
      · rw [if_pos hp]
        exact ⟨by simp [hA], fun h => absurd h hA,
          fun _ => ⟨rfl, rfl, rfl, fun _ => rfl, fun h => absurd hp h⟩⟩
      · rw [if_neg hp]
        exact ⟨by simp [hA], fun h => absurd h hA,
          fun _ => ⟨rfl, rfl, rfl, fun h => absurd h hp, fun _ => rfl⟩⟩
  · intro s
    intro cand adopt
    rw [e_sensor_hello CLOCK_SECOND hi lo recv_energy st src s hhi hlo hrank]
    by_cases hA : adopt
    · rw [if_pos hA]
      exact ⟨by simp [hA, cand], fun _ => ⟨rfl, rfl, rfl⟩, fun h => absurd hA h⟩
    · rw [if_neg hA]
      by_cases hp : src = s.parent
      · rw [if_pos hp]
        exact ⟨by simp [hA], fun h => absurd h hA,
          fun _ => ⟨rfl, rfl, rfl, fun _ => rfl, fun h => absurd hp h⟩⟩
      · rw [if_neg hp]
        exact ⟨by simp [hA], fun h => absurd h hA,
          fun _ => ⟨rfl, rfl, rfl, fun h => absurd h hp, fun _ => rfl⟩⟩

/-- Instances of C1 (scenario S6): a node of rank 3 with parent `[1, 0]` and parent energy 40
receives an equal-rank HELLO (advertised rank 2) from the neighbour `[4, 0]`. With energy 80
it switches to `[4, 0]`; with energy 65 it keeps `[1, 0]` and the cached energy 40. -/
theorem C1_energised_parent_selection_witness :
    ((e_computation_node.input_callback 2 low_computation [1, 0, 2, 80, 0] [4, 0]).1.my_rank = 3 ∧
      (e_computation_node.input_callback 2 low_computation [1, 0, 2, 80, 0] [4, 0]).1.parent =
        [4, 0] ∧
      (e_computation_node.input_callback 2 low_computation [1, 0, 2, 80, 0]
        [4, 0]).1.parent_energy = 80) ∧
    ((e_computation_node.input_callback 2 low_computation [1, 0, 2, 65, 0] [4, 0]).1.parent =
        [1, 0] ∧
      (e_computation_node.input_callback 2 low_computation [1, 0, 2, 65, 0]
        [4, 0]).1.parent_energy = 40) ∧
    ((e_sensor_node.input_callback 128 rank3_sensor [1, 0, 2, 80, 0] [4, 0]).1.my_rank = 3 ∧
      (e_sensor_node.input_callback 128 rank3_sensor [1, 0, 2, 80, 0] [4, 0]).1.parent =
        [4, 0] ∧
      (e_sensor_node.input_callback 128 rank3_sensor [1, 0, 2, 80, 0] [4, 0]).1.parent_energy =
        80) ∧
    ((e_sensor_node.input_callback 128 rank3_sensor [1, 0, 2, 65, 0] [4, 0]).1.parent =
        [1, 0] ∧
      (e_sensor_node.input_callback 128 rank3_sensor [1, 0, 2, 65, 0] [4, 0]).1.parent_energy =
        40) := by
  have h80 := C1_energised_parent_selection 2 128 0 2 80 0 [4, 0] (by decide) (by decide)
    (by decide)
  have h65 := C1_energised_parent_selection 2 128 0 2 65 0 [4, 0] (by decide) (by decide)
    (by decide)
  have c80 := (h80.1 low_computation).2.1 (Or.inr ⟨rfl, by decide, by decide⟩)
  have c65 := (h65.1 low_computation).2.2 (by decide)
  have s80 := (h80.2 rank3_sensor).2.1 (Or.inr ⟨rfl, by decide, by decide⟩)
  have s65 := (h65.2 rank3_sensor).2.2 (by decide)
  exact ⟨c80, ⟨c65.2.1, c65.2.2.2.2 (by decide)⟩, s80, ⟨s65.2.1, s65.2.2.2.2 (by decide)⟩⟩

theorem run_inputs_append {σ ι : Type} (step : σ → ι → σ × List effect) (s : σ)
    (l1 l2 : List ι) :
    run_inputs step s (l1 ++ l2) = run_inputs step (run_inputs step s l1) l2 := by
  simp [run_inputs, List.foldl_append]

theorem run_inputs_monotone {σ ι : Type} (step : σ → ι → σ × List effect) (f : σ → Nat)
    (hstep : ∀ s i, f (step s i).1 ≤ f s) (s : σ) (inputs : List ι) :
    f (run_inputs step s inputs) ≤ f s := by
  induction inputs generalizing s with
  | nil => exact Nat.le_refl _
  | cons i rest ih =>
    exact Nat.le_trans (ih (step s i).1) (hstep s i)

theorem e_computation_on_hello_rank_le (s : e_computation_node.state)
    (data : List Nat) (src : linkaddr_t) :
    (e_computation_node.on_hello s data src).1.my_rank ≤ s.my_rank := by
  unfold e_computation_node.on_hello
  simp only []
  split_ifs with h1 h2 h3
  · rcases h2 with h2 | h2
    · exact Nat.le_of_lt h2
    · exact Nat.le_of_eq h2.1
  all_goals exact Nat.le_refl _

theorem e_computation_on_sensor_rank (LINKADDR_SIZE : Nat) (s : e_computation_node.state)
    (data : List Nat) :
    (e_computation_node.on_sensor LINKADDR_SIZE s data).1.my_rank = s.my_rank ∧
    (e_computation_node.on_sensor LINKADDR_SIZE s data).1.parent = s.parent ∧
    (e_computation_node.on_sensor LINKADDR_SIZE s data).1.parent_energy = s.parent_energy := by
  unfold e_computation_node.on_sensor
  simp only []
  split_ifs with h1
  · split
    · split_ifs <;> exact ⟨rfl, rfl, rfl⟩
    · exact ⟨rfl, rfl, rfl⟩
  · exact ⟨rfl, rfl, rfl⟩

theorem e_computation_rank_le (LINKADDR_SIZE : Nat) (s : e_computation_node.state)
    (data : List Nat) (src : linkaddr_t) :
    (e_computation_node.input_callback LINKADDR_SIZE s data src).1.my_rank ≤ s.my_rank := by
  unfold e_computation_node.input_callback
  simp only []
  split_ifs with h1 h2
  · exact e_computation_on_hello_rank_le s data src
  · exact Nat.le_of_eq (e_computation_on_sensor_rank LINKADDR_SIZE s data).1
  · exact Nat.le_refl _

theorem e_sensor_rank_le (CLOCK_SECOND : Nat) (s : e_sensor_node.state)
    (data : List Nat) (src : linkaddr_t) :
    (e_sensor_node.input_callback CLOCK_SECOND s data src).1.my_rank ≤ s.my_rank := by
  unfold e_sensor_node.input_callback e_sensor_node.on_hello
  simp only []
  split_ifs with h1 h2 h3 h4 h5
  all_goals first
    | exact Nat.le_refl _
    | (rcases h4 with h4 | h4
       · exact Nat.le_of_lt h4
       · exact Nat.le_of_eq h4.1)

theorem computation_on_sensor_rank (LINKADDR_SIZE now : Nat) (s : computation_node.state)
    (data : List Nat) :
    (computation_node.on_sensor LINKADDR_SIZE now s data).1.my_rank = s.my_rank ∧
    (computation_node.on_sensor LINKADDR_SIZE now s data).1.parent = s.parent := by
  unfold computation_node.on_sensor
  simp only []
  split
  · split_ifs <;> exact ⟨rfl, rfl⟩
  · exact ⟨rfl, rfl⟩

theorem computation_rank_le (LINKADDR_SIZE now : Nat) (s : computation_node.state)
    (data : List Nat) (src : linkaddr_t) :
    (computation_node.input_callback LINKADDR_SIZE now s data src).1.my_rank ≤ s.my_rank := by
  unfold computation_node.input_callback computation_node.on_hello
  simp only []
  split_ifs with h1 h2 h3
  · exact Nat.le_trans (Nat.mod_le _ _) (Nat.le_of_lt h2)
  · exact Nat.le_refl _
  · exact Nat.le_of_eq (computation_on_sensor_rank LINKADDR_SIZE now s data).1
  · exact Nat.le_refl _

theorem sensor_rank_le (CLOCK_SECOND : Nat) (s : sensor_node.state)
    (data : List Nat) (src : linkaddr_t) :
    (sensor_node.input_callback CLOCK_SECOND s data src).1.my_rank ≤ s.my_rank := by
  unfold sensor_node.input_callback
  simp only []
  split_ifs with h1 h2 h3 h4
  · exact Nat.le_trans (Nat.mod_le _ _) (Nat.le_of_lt h2)
  all_goals exact Nat.le_refl _

theorem border_rank_le (s : border_router.state) (data : List Nat) (src : linkaddr_t) :
    (border_router.input_callback s data src).1.my_rank ≤ s.my_rank := by
  unfold border_router.input_callback
  simp only []
  split_ifs with h1 h2 h3 h4
  · exact Nat.le_trans (Nat.mod_le _ _) (Nat.le_of_lt h2)
  all_goals exact Nat.le_refl _

/-- C2 (rank monotonicity). In the five node programs that process HELLOs (energised
Computation and Sensor; energy-unaware Computation, Sensor and Border), `my_rank` after
`input_callback` is at most `my_rank` before, for every frame (any length, any bytes, any
source, any clock reading); hence along any sequence of received frames the rank after a
longer prefix is at most the rank after a shorter prefix. -/
theorem C2_rank_monotone (LINKADDR_SIZE CLOCK_SECOND : Nat) :
    ((∀ (s : e_computation_node.state) (data : List Nat) (src : linkaddr_t),
        (e_computation_node.input_callback LINKADDR_SIZE s data src).1.my_rank ≤ s.my_rank) ∧
     (∀ (s : e_sensor_node.state) (data : List Nat) (src : linkaddr_t),
        (e_sensor_node.input_callback CLOCK_SECOND s data src).1.my_rank ≤ s.my_rank) ∧
     (∀ (now : Nat) (s : computation_node.state) (data : List Nat) (src : linkaddr_t),
        (computation_node.input_callback LINKADDR_SIZE now s data src).1.my_rank ≤ s.my_rank) ∧
     (∀ (s : sensor_node.state) (data : List Nat) (src : linkaddr_t),
        (sensor_node.input_callback CLOCK_SECOND s data src).1.my_rank ≤ s.my_rank) ∧
     (∀ (s : border_router.state) (data : List Nat) (src : linkaddr_t),
        (border_router.input_callback s data src).1.my_rank ≤ s.my_rank)) ∧
    ((∀ (s : e_computation_node.state) (l1 l2 : List (List Nat × linkaddr_t)),
        (run_inputs (fun s i => e_computation_node.input_callback LINKADDR_SIZE s i.1 i.2)
            s (l1 ++ l2)).my_rank ≤
          (run_inputs (fun s i => e_computation_node.input_callback LINKADDR_SIZE s i.1 i.2)
            s l1).my_rank) ∧
     (∀ (s : e_sensor_node.state) (l1 l2 : List (List Nat × linkaddr_t)),
        (run_inputs (fun s i => e_sensor_node.input_callback CLOCK_SECOND s i.1 i.2)
            s (l1 ++ l2)).my_rank ≤
          (run_inputs (fun s i => e_sensor_node.input_callback CLOCK_SECOND s i.1 i.2)
            s l1).my_rank) ∧
     (∀ (s : computation_node.state) (l1 l2 : List (Nat × List Nat × linkaddr_t)),
        (run_inputs
            (fun s i => computation_node.input_callback LINKADDR_SIZE i.1 s i.2.1 i.2.2)
            s (l1 ++ l2)).my_rank ≤
          (run_inputs
            (fun s i => computation_node.input_callback LINKADDR_SIZE i.1 s i.2.1 i.2.2)
            s l1).my_rank) ∧
     (∀ (s : sensor_node.state) (l1 l2 : List (List Nat × linkaddr_t)),
        (run_inputs (fun s i => sensor_node.input_callback CLOCK_SECOND s i.1 i.2)
            s (l1 ++ l2)).my_rank ≤
          (run_inputs (fun s i => sensor_node.input_callback CLOCK_SECOND s i.1 i.2)
            s l1).my_rank) ∧
     (∀ (s : border_router.state) (l1 l2 : List (List Nat × linkaddr_t)),
        (run_inputs (fun s i => border_router.input_callback s i.1 i.2) s (l1 ++ l2)).my_rank ≤
          (run_inputs (fun s i => border_router.input_callback s i.1 i.2) s l1).my_rank)) := by
  refine ⟨⟨e_computation_rank_le LINKADDR_SIZE, e_sensor_rank_le CLOCK_SECOND,
    fun now s data src => computation_rank_le LINKADDR_SIZE now s data src,
    sensor_rank_le CLOCK_SECOND, border_rank_le⟩, ?_, ?_, ?_, ?_, ?_⟩
  · intro s l1 l2
    rw [run_inputs_append]
    exact run_inputs_monotone _ (fun s => s.my_rank)
      (fun s i => e_computation_rank_le LINKADDR_SIZE s i.1 i.2) _ l2
  · intro s l1 l2
    rw [run_inputs_append]
    exact run_inputs_monotone _ (fun s => s.my_rank)
      (fun s i => e_sensor_rank_le CLOCK_SECOND s i.1 i.2) _ l2
  · intro s l1 l2
    rw [run_inputs_append]
    exact run_inputs_monotone _ (fun s => s.my_rank)
      (fun s i => computation_rank_le LINKADDR_SIZE i.1 s i.2.1 i.2.2) _ l2
  · intro s l1 l2
    rw [run_inputs_append]
    exact run_inputs_monotone _ (fun s => s.my_rank)
      (fun s i => sensor_rank_le CLOCK_SECOND s i.1 i.2) _ l2
  · intro s l1 l2
    rw [run_inputs_append]
    exact run_inputs_monotone _ (fun s => s.my_rank)
      (fun s i => border_rank_le s i.1 i.2) _ l2

/-! ## The power-state machine -/

theorem LPM_THRESHOLD_eq : LPM_THRESHOLD = 30 := by norm_num [LPM_THRESHOLD]

theorem DEEP_LPM_THRESHOLD_eq : DEEP_LPM_THRESHOLD = 10 := by norm_num [DEEP_LPM_THRESHOLD]

theorem WAKE_THRESHOLD_eq : WAKE_THRESHOLD = 90 := by norm_num [WAKE_THRESHOLD]

theorem BATTERY_MAX_eq : BATTERY_MAX = 100 := by norm_num [BATTERY_MAX]

theorem chained_from_active (b : ℚ) :
    chained_power_state power_state_t.STATE_ACTIVE b =
      if b ≤ 30 then (if b ≤ 10 then power_state_t.STATE_DEEP_LPM else power_state_t.STATE_LPM)
      else power_state_t.STATE_ACTIVE := by
  unfold chained_power_state
  simp only [LPM_THRESHOLD_eq, DEEP_LPM_THRESHOLD_eq, WAKE_THRESHOLD_eq]
  by_cases h30 : b ≤ 30
  · by_cases h10 : b ≤ 10
    · have h90 : ¬ (b ≥ 90) := by intro h; linarith
      simp [h30, h10, h90]
    · simp [h30, h10]
  · simp [h30]

theorem chained_from_lpm (b : ℚ) :
    chained_power_state power_state_t.STATE_LPM b =
      if b ≤ 10 then power_state_t.STATE_DEEP_LPM else power_state_t.STATE_LPM := by
  unfold chained_power_state
  simp only [LPM_THRESHOLD_eq, DEEP_LPM_THRESHOLD_eq, WAKE_THRESHOLD_eq]
  by_cases h10 : b ≤ 10
  · have h90 : ¬ (b ≥ 90) := by intro h; linarith
    simp [h10, h90]
  · simp [h10]

theorem chained_from_deep (b : ℚ) :
    chained_power_state power_state_t.STATE_DEEP_LPM b =
      if b ≥ 90 then power_state_t.STATE_ACTIVE else power_state_t.STATE_DEEP_LPM := by
  unfold chained_power_state
  simp only [LPM_THRESHOLD_eq, DEEP_LPM_THRESHOLD_eq, WAKE_THRESHOLD_eq]
  by_cases h90 : b ≥ 90
  · simp [h90]
  · simp [h90]

theorem e_computation_transitions (s : e_computation_node.state) :
    (e_computation_node.energy_transitions s).1.power_state =
        chained_power_state s.power_state s.battery_level ∧
      (e_computation_node.energy_transitions s).1.battery_level = s.battery_level := by
  unfold e_computation_node.energy_transitions chained_power_state
  simp only []
  split_ifs <;> simp_all

theorem e_sensor_transitions (s : e_sensor_node.state) :
    (e_sensor_node.energy_transitions s).1.power_state =
        chained_power_state s.power_state s.battery_level ∧
      (e_sensor_node.energy_transitions s).1.battery_level = s.battery_level := by
  unfold e_sensor_node.energy_transitions chained_power_state
  simp only []
  split_ifs <;> simp_all

theorem e_border_transitions (s : e_border_router.state) :
    (e_border_router.energy_transitions s).power_state =
        chained_power_state s.power_state s.battery_level ∧
      (e_border_router.energy_transitions s).battery_level = s.battery_level := by
  unfold e_border_router.energy_transitions chained_power_state
  simp only []
  split_ifs <;> simp_all

theorem e_computation_recharge_state (s : e_computation_node.state) :
    (e_computation_node.energy_recharge s).power_state = s.power_state := by
  unfold e_computation_node.energy_recharge
  simp only []
  split_ifs <;> rfl

theorem e_sensor_recharge_state (s : e_sensor_node.state) :
    (e_sensor_node.energy_recharge s).power_state = s.power_state := by
  unfold e_sensor_node.energy_recharge
  simp only []
  split_ifs <;> rfl

theorem e_border_recharge_state (s : e_border_router.state) :
    (e_border_router.energy_recharge s).power_state = s.power_state := by
  unfold e_border_router.energy_recharge
  simp only []
  split_ifs <;> rfl

theorem e_computation_recharge_active (s : e_computation_node.state)
    (h : s.power_state = power_state_t.STATE_ACTIVE) :
    e_computation_node.energy_recharge s = s := by
  unfold e_computation_node.energy_recharge
  simp [h]

theorem e_sensor_recharge_active (s : e_sensor_node.state)
    (h : s.power_state = power_state_t.STATE_ACTIVE) :
    e_sensor_node.energy_recharge s = s := by
  unfold e_sensor_node.energy_recharge
  simp [h]

theorem e_border_recharge_active (s : e_border_router.state)
    (h : s.power_state = power_state_t.STATE_ACTIVE) :
    e_border_router.energy_recharge s = s := by
  unfold e_border_router.energy_recharge
  simp [h]

/-- The power state at the end of an energy tick is the chained transition applied to the
power state at its start and the battery level at its end (all three energised roles). -/
theorem energy_tick_power_state (CLOCK_SECOND : Nat) (e : energest_t) :
    (∀ s : e_computation_node.state,
      (e_computation_node.energy_tick CLOCK_SECOND e s).1.power_state =
        chained_power_state s.power_state
          (e_computation_node.energy_tick CLOCK_SECOND e s).1.battery_level) ∧
    (∀ s : e_sensor_node.state,
      (e_sensor_node.energy_tick CLOCK_SECOND e s).1.power_state =
        chained_power_state s.power_state
          (e_sensor_node.energy_tick CLOCK_SECOND e s).1.battery_level) ∧
    (∀ s : e_border_router.state,
      (e_border_router.energy_tick CLOCK_SECOND e s).1.power_state =
        chained_power_state s.power_state
          (e_border_router.energy_tick CLOCK_SECOND e s).1.battery_level) := by
  refine ⟨fun s => ?_, fun s => ?_, fun s => ?_⟩
  · simp only [e_computation_node.energy_tick]
    rw [(e_computation_transitions _).1, (e_computation_transitions _).2,
      e_computation_recharge_state]
    rfl
  · simp only [e_sensor_node.energy_tick]
    rw [(e_sensor_transitions _).1, (e_sensor_transitions _).2, e_sensor_recharge_state]
    rfl
  · simp only [e_border_router.energy_tick]
    rw [(e_border_transitions _).1, (e_border_transitions _).2, e_border_recharge_state]
    rfl

theorem e_computation_update_state (CLOCK_SECOND : Nat) (e : energest_t)
    (s : e_computation_node.state) :
    (e_computation_node.update_battery CLOCK_SECOND e s).power_state = s.power_state := rfl

theorem e_sensor_update_state (CLOCK_SECOND : Nat) (e : energest_t) (s : e_sensor_node.state) :
    (e_sensor_node.update_battery CLOCK_SECOND e s).power_state = s.power_state := rfl

theorem e_border_update_state (CLOCK_SECOND : Nat) (e : energest_t)
    (s : e_border_router.state) :
    (e_border_router.update_battery CLOCK_SECOND e s).power_state = s.power_state := rfl

theorem e_computation_tick_active (CLOCK_SECOND : Nat) (e : energest_t)
    (s : e_computation_node.state) (h : s.power_state = power_state_t.STATE_ACTIVE) :
    (e_computation_node.energy_tick CLOCK_SECOND e s).1.battery_level =
      (e_computation_node.update_battery CLOCK_SECOND e s).battery_level := by
  simp only [e_computation_node.energy_tick]
  rw [(e_computation_transitions _).2, e_computation_recharge_active _
    ((e_computation_update_state CLOCK_SECOND e s).trans h)]

theorem e_sensor_tick_active (CLOCK_SECOND : Nat) (e : energest_t)
    (s : e_sensor_node.state) (h : s.power_state = power_state_t.STATE_ACTIVE) :
    (e_sensor_node.energy_tick CLOCK_SECOND e s).1.battery_level =
      (e_sensor_node.update_battery CLOCK_SECOND e s).battery_level := by
  simp only [e_sensor_node.energy_tick]
  rw [(e_sensor_transitions _).2, e_sensor_recharge_active _
    ((e_sensor_update_state CLOCK_SECOND e s).trans h)]

theorem e_border_tick_active (CLOCK_SECOND : Nat) (e : energest_t)
    (s : e_border_router.state) (h : s.power_state = power_state_t.STATE_ACTIVE) :
    (e_border_router.energy_tick CLOCK_SECOND e s).1.battery_level =
      (e_border_router.update_battery CLOCK_SECOND e s).battery_level := by
  simp only [e_border_router.energy_tick]
  rw [(e_border_transitions _).2, e_border_recharge_active _
    ((e_border_update_state CLOCK_SECOND e s).trans h)]

/-- C3, refuted as stated: an Active node whose battery level is 5 when the energy timer
expires (counters unchanged since the last snapshot) is in Deep-LPM at the end of that
single tick, in all three energised roles. -/
theorem C3_counterexample_active_to_deep_lpm :
    (low_computation.power_state = power_state_t.STATE_ACTIVE ∧
      (e_computation_node.energy_tick 128 ⟨0, 0, 0, 0⟩ low_computation).1.power_state =
        power_state_t.STATE_DEEP_LPM) ∧
    (low_sensor.power_state = power_state_t.STATE_ACTIVE ∧
      (e_sensor_node.energy_tick 128 ⟨0, 0, 0, 0⟩ low_sensor).1.power_state =
        power_state_t.STATE_DEEP_LPM) ∧
    (low_border.power_state = power_state_t.STATE_ACTIVE ∧
      (e_border_router.energy_tick 128 ⟨0, 0, 0, 0⟩ low_border).1.power_state =
        power_state_t.STATE_DEEP_LPM) := by
  obtain ⟨hc, hs, hb⟩ := energy_tick_power_state 128 ⟨0, 0, 0, 0⟩
  refine ⟨⟨rfl, ?_⟩, ⟨rfl, ?_⟩, ⟨rfl, ?_⟩⟩
  · rw [hc low_computation, e_computation_tick_active _ _ _ rfl]
    have hb5 : (e_computation_node.update_battery 128 ⟨0, 0, 0, 0⟩
        low_computation).battery_level = 5 := by
      rw [e_computation_update_battery_same _ _ rfl rfl rfl rfl]
      exact f32_round_5
    rw [hb5, show low_computation.power_state = power_state_t.STATE_ACTIVE from rfl,
      chained_from_active]
    norm_num
  · rw [hs low_sensor, e_sensor_tick_active _ _ _ rfl]
    have hb5 : (e_sensor_node.update_battery 128 ⟨0, 0, 0, 0⟩ low_sensor).battery_level = 5 := by
      rw [e_sensor_update_battery_same _ _ rfl rfl rfl rfl]
      exact f32_round_5
    rw [hb5, show low_sensor.power_state = power_state_t.STATE_ACTIVE from rfl,
      chained_from_active]
    norm_num
  · rw [hb low_border, e_border_tick_active _ _ _ rfl]
    have hb5 : (e_border_router.update_battery 128 ⟨0, 0, 0, 0⟩ low_border).battery_level = 5 := by
      rw [e_border_update_battery_same _ _ rfl rfl rfl rfl]
      exact f32_round_5
    rw [hb5, show low_border.power_state = power_state_t.STATE_ACTIVE from rfl,
      chained_from_active]
    norm_num

/-- C3, amended. In all three energised roles the three transition rules are tested one
after the other on the state left by the previous test. A node that starts the energy tick in
Active is not recharged, so its battery level `b` at the end of the tick is the level after
the debit of `update_battery`, and it ends the tick in Active when `b > 30`, in LPM when
`10 < b ≤ 30`, and in Deep-LPM when `b ≤ 10` (rules 1 and 2 both fire in that tick). -/
theorem C3_active_tick_chained (CLOCK_SECOND : Nat) (e : energest_t) :
    (∀ s : e_computation_node.state, s.power_state = power_state_t.STATE_ACTIVE →
      (e_computation_node.energy_tick CLOCK_SECOND e s).1.battery_level =
        (e_computation_node.update_battery CLOCK_SECOND e s).battery_level ∧
      (e_computation_node.energy_tick CLOCK_SECOND e s).1.power_state =
        if (e_computation_node.energy_tick CLOCK_SECOND e s).1.battery_level ≤ 30 then
          (if (e_computation_node.energy_tick CLOCK_SECOND e s).1.battery_level ≤ 10 then
            power_state_t.STATE_DEEP_LPM else power_state_t.STATE_LPM)
        else power_state_t.STATE_ACTIVE) ∧
    (∀ s : e_sensor_node.state, s.power_state = power_state_t.STATE_ACTIVE →
      (e_sensor_node.energy_tick CLOCK_SECOND e s).1.battery_level =
        (e_sensor_node.update_battery CLOCK_SECOND e s).battery_level ∧
      (e_sensor_node.energy_tick CLOCK_SECOND e s).1.power_state =
        if (e_sensor_node.energy_tick CLOCK_SECOND e s).1.battery_level ≤ 30 then
          (if (e_sensor_node.energy_tick CLOCK_SECOND e s).1.battery_level ≤ 10 then
            power_state_t.STATE_DEEP_LPM else power_state_t.STATE_LPM)
        else power_state_t.STATE_ACTIVE) ∧
    (∀ s : e_border_router.state, s.power_state = power_state_t.STATE_ACTIVE →
      (e_border_router.energy_tick CLOCK_SECOND e s).1.battery_level =
        (e_border_router.update_battery CLOCK_SECOND e s).battery_level ∧
      (e_border_router.energy_tick CLOCK_SECOND e s).1.power_state =
        if (e_border_router.energy_tick CLOCK_SECOND e s).1.battery_level ≤ 30 then
          (if (e_border_router.energy_tick CLOCK_SECOND e s).1.battery_level ≤ 10 then
            power_state_t.STATE_DEEP_LPM else power_state_t.STATE_LPM)
        else power_state_t.STATE_ACTIVE) := by
  obtain ⟨hc, hs, hb⟩ := energy_tick_power_state CLOCK_SECOND e
  refine ⟨fun s h => ⟨e_computation_tick_active _ _ _ h, ?_⟩,
    fun s h => ⟨e_sensor_tick_active _ _ _ h, ?_⟩,
    fun s h => ⟨e_border_tick_active _ _ _ h, ?_⟩⟩
  · rw [hc s, h, chained_from_active]
  · rw [hs s, h, chained_from_active]
  · rw [hb s, h, chained_from_active]

/-- Instance of the amended C3 at the Active sensor node with battery level 5 and unchanged
counters: the tick ends with battery level 5 in Deep-LPM. -/
theorem C3_active_tick_chained_witness :
    low_sensor.power_state = power_state_t.STATE_ACTIVE ∧
    (e_sensor_node.energy_tick 128 ⟨0, 0, 0, 0⟩ low_sensor).1.battery_level =
      (e_sensor_node.update_battery 128 ⟨0, 0, 0, 0⟩ low_sensor).battery_level ∧
    (e_sensor_node.energy_tick 128 ⟨0, 0, 0, 0⟩ low_sensor).1.power_state =
      if (e_sensor_node.energy_tick 128 ⟨0, 0, 0, 0⟩ low_sensor).1.battery_level ≤ 30 then
        (if (e_sensor_node.energy_tick 128 ⟨0, 0, 0, 0⟩ low_sensor).1.battery_level ≤ 10 then
          power_state_t.STATE_DEEP_LPM else power_state_t.STATE_LPM)
      else power_state_t.STATE_ACTIVE :=
  ⟨rfl, (C3_active_tick_chained 128 ⟨0, 0, 0, 0⟩).2.1 low_sensor rfl⟩

/-- C4 (hysteresis). For every energy tick in each of the three energised roles, with the
battery level read at the end of the tick (after debit and recharge): a node that leaves Active
has battery ≤ 30; a node that enters Deep-LPM has battery ≤ 10; a node that goes from
Deep-LPM to Active has battery ≥ 90; and a node that starts the tick in LPM does not end it in
Active. -/
theorem C4_hysteresis (CLOCK_SECOND : Nat) (e : energest_t) :
    (∀ s : e_computation_node.state,
      (s.power_state = power_state_t.STATE_ACTIVE →
        (e_computation_node.energy_tick CLOCK_SECOND e s).1.power_state ≠
          power_state_t.STATE_ACTIVE →
        (e_computation_node.energy_tick CLOCK_SECOND e s).1.battery_level ≤ 30) ∧
      (s.power_state ≠ power_state_t.STATE_DEEP_LPM →
        (e_computation_node.energy_tick CLOCK_SECOND e s).1.power_state =
          power_state_t.STATE_DEEP_LPM →
        (e_computation_node.energy_tick CLOCK_SECOND e s).1.battery_level ≤ 10) ∧
      (s.power_state = power_state_t.STATE_DEEP_LPM →
        (e_computation_node.energy_tick CLOCK_SECOND e s).1.power_state =
          power_state_t.STATE_ACTIVE →
        (e_computation_node.energy_tick CLOCK_SECOND e s).1.battery_level ≥ 90) ∧
      (s.power_state = power_state_t.STATE_LPM →
        (e_computation_node.energy_tick CLOCK_SECOND e s).1.power_state ≠
          power_state_t.STATE_ACTIVE)) ∧
    (∀ s : e_sensor_node.state,
      (s.power_state = power_state_t.STATE_ACTIVE →
        (e_sensor_node.energy_tick CLOCK_SECOND e s).1.power_state ≠
          power_state_t.STATE_ACTIVE →
        (e_sensor_node.energy_tick CLOCK_SECOND e s).1.battery_level ≤ 30) ∧
      (s.power_state ≠ power_state_t.STATE_DEEP_LPM →
        (e_sensor_node.energy_tick CLOCK_SECOND e s).1.power_state =
          power_state_t.STATE_DEEP_LPM →
        (e_sensor_node.energy_tick CLOCK_SECOND e s).1.battery_level ≤ 10) ∧
      (s.power_state = power_state_t.STATE_DEEP_LPM →
        (e_sensor_node.energy_tick CLOCK_SECOND e s).1.power_state =
          power_state_t.STATE_ACTIVE →
        (e_sensor_node.energy_tick CLOCK_SECOND e s).1.battery_level ≥ 90) ∧
      (s.power_state = power_state_t.STATE_LPM →
        (e_sensor_node.energy_tick CLOCK_SECOND e s).1.power_state ≠
          power_state_t.STATE_ACTIVE)) ∧
    (∀ s : e_border_router.state,
      (s.power_state = power_state_t.STATE_ACTIVE →
        (e_border_router.energy_tick CLOCK_SECOND e s).1.power_state ≠
          power_state_t.STATE_ACTIVE →
        (e_border_router.energy_tick CLOCK_SECOND e s).1.battery_level ≤ 30) ∧
      (s.power_state ≠ power_state_t.STATE_DEEP_LPM →
        (e_border_router.energy_tick CLOCK_SECOND e s).1.power_state =
          power_state_t.STATE_DEEP_LPM →
        (e_border_router.energy_tick CLOCK_SECOND e s).1.battery_level ≤ 10) ∧
      (s.power_state = power_state_t.STATE_DEEP_LPM →
        (e_border_router.energy_tick CLOCK_SECOND e s).1.power_state =
          power_state_t.STATE_ACTIVE →
        (e_border_router.energy_tick CLOCK_SECOND e s).1.battery_level ≥ 90) ∧
      (s.power_state = power_state_t.STATE_LPM →
        (e_border_router.energy_tick CLOCK_SECOND e s).1.power_state ≠
          power_state_t.STATE_ACTIVE)) := by
  have key : ∀ (p q : power_state_t) (b : ℚ), q = chained_power_state p b →
      (p = power_state_t.STATE_ACTIVE → q ≠ power_state_t.STATE_ACTIVE → b ≤ 30) ∧
      (p ≠ power_state_t.STATE_DEEP_LPM → q = power_state_t.STATE_DEEP_LPM → b ≤ 10) ∧
      (p = power_state_t.STATE_DEEP_LPM → q = power_state_t.STATE_ACTIVE → b ≥ 90) ∧
      (p = power_state_t.STATE_LPM → q ≠ power_state_t.STATE_ACTIVE) := by
    intro p q b hq
    subst hq
    refine ⟨?_, ?_, ?_, ?_⟩
    · intro hp hq
      subst hp
      rw [chained_from_active] at hq
      by_contra h30
      simp [h30] at hq
    · intro hp hq
      cases p
      · rw [chained_from_active] at hq
        by_contra h10
        by_cases h30 : b ≤ 30 <;> simp [h30, h10] at hq
      · rw [chained_from_lpm] at hq
        by_contra h10
        simp [h10] at hq
      · exact absurd rfl hp
    · intro hp hq
      subst hp
      rw [chained_from_deep] at hq
      by_contra h90
      simp [h90] at hq
    · intro hp
      subst hp
      rw [chained_from_lpm]
      by_cases h10 : b ≤ 10 <;> simp [h10]
  obtain ⟨hc, hs, hb⟩ := energy_tick_power_state CLOCK_SECOND e
  exact ⟨fun s => key _ _ _ (hc s), fun s => key _ _ _ (hs s), fun s => key _ _ _ (hb s)⟩

theorem low_sensor_tick :
    (e_sensor_node.energy_tick 128 ⟨0, 0, 0, 0⟩ low_sensor).1.power_state =
      power_state_t.STATE_DEEP_LPM := by
  simp only [e_sensor_node.energy_tick]
  rw [low_sensor_update]
  simp [e_sensor_node.energy_transitions, e_sensor_node.energy_recharge, low_sensor,
      LPM_THRESHOLD_eq, DEEP_LPM_THRESHOLD_eq, WAKE_THRESHOLD_eq]
  norm_num

theorem deep_sensor_tick :
    (e_sensor_node.energy_tick 128 ⟨0, 0, 0, 0⟩ deep_sensor).1.power_state =
      power_state_t.STATE_ACTIVE := by
  simp only [e_sensor_node.energy_tick]
  rw [deep_sensor_update]
  simp [e_sensor_node.energy_transitions, e_sensor_node.energy_recharge, deep_sensor,
      low_sensor, LPM_THRESHOLD_eq, DEEP_LPM_THRESHOLD_eq, WAKE_THRESHOLD_eq, BATTERY_MAX_eq]
  norm_num

/-- Instances of C4 for the energised sensor node with unchanged counters: the Active node
with battery 5 leaves Active (battery ≤ 30) and enters Deep-LPM (battery ≤ 10); the Deep-LPM
node recharged from 89.5 wakes with battery ≥ 90; the LPM node with battery 20 does not end
the tick in Active. -/
theorem C4_hysteresis_witness :
    (e_sensor_node.energy_tick 128 ⟨0, 0, 0, 0⟩ low_sensor).1.battery_level ≤ 30 ∧
    (e_sensor_node.energy_tick 128 ⟨0, 0, 0, 0⟩ low_sensor).1.battery_level ≤ 10 ∧
    (e_sensor_node.energy_tick 128 ⟨0, 0, 0, 0⟩ deep_sensor).1.battery_level ≥ 90 ∧
    (e_sensor_node.energy_tick 128 ⟨0, 0, 0, 0⟩ lpm_sensor).1.power_state ≠
      power_state_t.STATE_ACTIVE :=
  ⟨((C4_hysteresis 128 ⟨0, 0, 0, 0⟩).2.1 low_sensor).1 rfl (by rw [low_sensor_tick]; decide),
   ((C4_hysteresis 128 ⟨0, 0, 0, 0⟩).2.1 low_sensor).2.1 (by decide) low_sensor_tick,
   ((C4_hysteresis 128 ⟨0, 0, 0, 0⟩).2.1 deep_sensor).2.2.1 rfl deep_sensor_tick,
   ((C4_hysteresis 128 ⟨0, 0, 0, 0⟩).2.1 lpm_sensor).2.2.2 rfl⟩

/-! ## Slope -/

/-- The accumulation loop of the slope functions on samples `f k = a·k + b`, in closed form. -/
theorem slope_fold_affine (f : Nat → ℚ) (a b : ℚ) (n : Nat) (hf : ∀ k < n, f k = a * k + b) :
    (List.range n).foldl (fun (acc : ℚ × ℚ) (k : Nat) => (acc.1 + f k, acc.2 + (k : ℚ) * f k))
        (0, 0) =
      (a * n * (n - 1) / 2 + b * n,
        a * (n - 1) * n * (2 * n - 1) / 6 + b * n * (n - 1) / 2) := by
  induction n with
  | zero => simp
  | succ n ih =>
    rw [List.range_succ, List.foldl_append, ih (fun k hk => hf k (Nat.lt_succ_of_lt hk))]
    simp only [List.foldl_cons, List.foldl_nil, hf n (Nat.lt_succ_self n)]
    push_cast
    refine Prod.ext ?_ ?_
    · simp only []
      ring
    · simp only []
      ring

/-- C5 (slope correctness, energy-unaware variant). If the stored values of a window, read
oldest-first from the write position `idx` (wrapping modulo 30), are `v_k = a·k + b` for
`k = 0..29`, then `compute_slope_fixed` returns `a` in exact arithmetic; this holds whatever
`idx` and `count` are, in particular for every full window and every `idx` in `0..29`. In
particular a constant window gives slope 0 and the ramp `0, 1, ..., 29` gives slope 1. -/
theorem C5_slope_fixed_affine (w : computation_node.sensor_window_t) :
    (∀ a b : ℚ,
      (∀ k < 30, (w.values.getD ((w.idx + k) % 30) 0 : ℚ) = a * k + b) →
      computation_node.compute_slope_fixed w = a) ∧
    (∀ c : Nat, (∀ k < 30, w.values.getD ((w.idx + k) % 30) 0 = c) →
      computation_node.compute_slope_fixed w = 0) ∧
    ((∀ k < 30, w.values.getD ((w.idx + k) % 30) 0 = k) →
      computation_node.compute_slope_fixed w = 1) := by
  have main : ∀ a b : ℚ,
      (∀ k < 30, (w.values.getD ((w.idx + k) % 30) 0 : ℚ) = a * k + b) →
      computation_node.compute_slope_fixed w = a := by
    intro a b hv
    simp only [computation_node.compute_slope_fixed, WINDOW_SIZE]
    rw [slope_fold_affine (fun k => (w.values.getD ((w.idx + k) % 30) 0 : ℚ)) a b 30 hv]
    norm_num
    field_simp
    ring
  refine ⟨main, fun c hc => main 0 c (fun k hk => ?_), fun h => main 1 0 (fun k hk => ?_)⟩
  · rw [hc k hk]
    ring
  · rw [h k hk]
    ring

/-- Instance of C5 at a wrapped full window (write position 7) holding the ramp
`0, 1, ..., 29` in arrival order: the slope is 1. -/
theorem C5_slope_fixed_affine_witness :
    computation_node.compute_slope_fixed ramp_window_at_7 = 1 :=
  (C5_slope_fixed_affine ramp_window_at_7).2.2 (by decide)

/-! ## Window lookup -/

theorem first_index_of_unique (p : Nat → Bool) (n i j : Nat) (hij : i ≤ j) (hjn : j < i + n)
    (hp : p j = true) (hbefore : ∀ k, i ≤ k → k < j → p k = false) :
    first_index p n i = some j := by
  induction n generalizing i with
  | zero => omega
  | succ n ih =>
    unfold first_index
    by_cases hpi : p i = true
    · have : i = j := by
        by_contra hne
        have := hbefore i (Nat.le_refl i) (by omega)
        rw [this] at hpi
        exact Bool.false_ne_true hpi
      subst this
      simp [hpi]
    · have hne : i ≠ j := fun h => hpi (h ▸ hp)
      simp only [hpi]
      exact ih (i + 1) (by omega) (by omega) (fun k hk hkj => hbefore k (by omega) hkj)

theorem first_index_none_of_forall (p : Nat → Bool) (n i : Nat)
    (h : ∀ k, i ≤ k → k < i + n → p k = false) : first_index p n i = none := by
  induction n generalizing i with
  | zero => rfl
  | succ n ih =>
    unfold first_index
    rw [h i (Nat.le_refl i) (by omega)]
    simp only [Bool.false_eq_true, if_false]
    exact ih (i + 1) (fun k hk hkn => h k (by omega) (by omega))

theorem first_index_some_of_exists (p : Nat → Bool) (n i : Nat)
    (h : ∃ k, i ≤ k ∧ k < i + n ∧ p k = true) :
    ∃ j, first_index p n i = some j ∧ i ≤ j ∧ j < i + n ∧ p j = true := by
  induction n generalizing i with
  | zero =>
    obtain ⟨k, h1, h2, _⟩ := h
    omega
  | succ n ih =>
    unfold first_index
    by_cases hpi : p i = true
    · exact ⟨i, by simp [hpi], Nat.le_refl i, by omega, hpi⟩
    · obtain ⟨k, h1, h2, h3⟩ := h
      have hki : k ≠ i := fun hk => hpi (hk ▸ h3)
      obtain ⟨j, hj1, hj2, hj3, hj4⟩ := ih (i + 1) ⟨k, by omega, by omega, h3⟩
      exact ⟨j, by simp [hpi, hj1], by omega, by omega, hj4⟩

theorem u16_of_bytes_of_u16 (v : Nat) (hv : v < 65536) :
    u16_of_bytes (v % 256) (v / 256 % 256) = v := by
  unfold u16_of_bytes
  omega

theorem e_window_of_nil (sid : Nat) :
    e_window_of sid [] = { e_computation_node.zero_window with id := sid } := by
  simp [e_window_of, e_computation_node.zero_window, WINDOW_SIZE]

theorem e_store_window_of (sid v : Nat) (pre : List Nat) (hlen : pre.length < 30) :
    e_computation_node.store_reading (e_window_of sid pre) v = e_window_of sid (pre ++ [v]) := by
  have hmod : pre.length % 30 = pre.length := Nat.mod_eq_of_lt hlen
  have h256 : (pre.length + 1) % 256 = pre.length + 1 := Nat.mod_eq_of_lt (by omega)
  have hrep : List.replicate (30 - pre.length) 0 =
      (0 : Nat) :: List.replicate (30 - (pre.length + 1)) 0 := by
    rw [← List.replicate_succ]
    congr 1
    omega
  simp only [e_computation_node.store_reading, e_window_of, WINDOW_SIZE, hmod, hlen, if_true,
    h256, List.length_append, List.length_singleton]
  congr 1
  rw [List.set_append_right _ _ (Nat.le_refl _), Nat.sub_self, hrep, List.set_cons_zero]
  simp

theorem e_get_window_tracked (t : List e_computation_node.sensor_window_t) (j sid : Nat)
    (pre : List Nat) (h : e_tracked t j sid pre) (hpos : 0 < pre.length) :
    e_computation_node.get_window t sid = (some j, t) := by
  obtain ⟨hj, _, hw, hothers⟩ := h
  unfold e_computation_node.get_window
  rw [first_index_of_unique _ MAX_SENSORS 0 j (Nat.zero_le j) (by omega)]
  · rw [List.getD_eq_getElem?_getD] at hw
    simp [hw, e_window_of, hpos]
  · intro k _ hkj
    have := hothers k (by omega) (by omega)
    simpa using this

theorem e_get_window_fresh (t : List e_computation_node.sensor_window_t) (sid : Nat)
    (hlen : t.length = MAX_SENSORS)
    (hnone : ∀ i, i < MAX_SENSORS →
      ¬ ((t.getD i e_computation_node.zero_window).count > 0 ∧
         (t.getD i e_computation_node.zero_window).id = sid))
    (hfree : ∃ i, i < MAX_SENSORS ∧ (t.getD i e_computation_node.zero_window).count = 0) :
    ∃ j t', e_computation_node.get_window t sid = (some j, t') ∧ e_tracked t' j sid [] := by
  obtain ⟨i, hi, hi0⟩ := hfree
  obtain ⟨j, hj1, _, hj3, hj4⟩ := first_index_some_of_exists
    (fun i => decide ((t.getD i e_computation_node.zero_window).count = 0)) MAX_SENSORS 0
    ⟨i, Nat.zero_le i, by omega, by simpa using hi0⟩
  have hjlt : j < MAX_SENSORS := by omega
  refine ⟨j, t.set j { e_computation_node.zero_window with id := sid }, ?_, hjlt, ?_, ?_, ?_⟩
  · unfold e_computation_node.get_window
    rw [first_index_none_of_forall _ MAX_SENSORS 0 (fun k _ hk => by
      have := hnone k (by omega)
      simpa using this)]
    simp only [hj1]
  · simp [hlen]
  · rw [List.getD_eq_getElem?_getD, List.getElem?_set_self (by omega), e_window_of_nil]
    rfl
  · intro k hk hkj
    rw [List.getD_eq_getElem?_getD, List.getElem?_set_ne (Ne.symm hkj),
      ← List.getD_eq_getElem?_getD]
    exact hnone k hk

theorem e_tracked_store (t : List e_computation_node.sensor_window_t) (j sid v : Nat)
    (pre : List Nat) (h : e_tracked t j sid pre) (hlen : pre.length < 30) :
    e_tracked
      (t.set j (e_computation_node.store_reading (t.getD j e_computation_node.zero_window) v))
      j sid (pre ++ [v]) := by
  obtain ⟨hj, htl, hw, hothers⟩ := h
  refine ⟨hj, by simp [htl], ?_, ?_⟩
  · rw [List.getD_eq_getElem?_getD, List.getElem?_set_self (by omega), hw,
      e_store_window_of sid v pre hlen]
    rfl
  · intro k hk hkj
    rw [List.getD_eq_getElem?_getD, List.getElem?_set_ne (Ne.symm hkj),
      ← List.getD_eq_getElem?_getD]
    exact hothers k hk hkj

theorem SLOPE_THRESHOLD_eq : SLOPE_THRESHOLD = 1 / 2 := by norm_num [SLOPE_THRESHOLD]

/-- The accumulation loop of the slope functions, as the two sums it computes. -/
theorem slope_fold_sums (f : Nat → ℚ) (n : Nat) :
    (List.range n).foldl (fun (acc : ℚ × ℚ) (k : Nat) => (acc.1 + f k, acc.2 + (k : ℚ) * f k))
        (0, 0) =
      (((List.range n).map f).sum, ((List.range n).map (fun (k : Nat) => (k : ℚ) * f k)).sum) := by
  induction n with
  | zero => simp
  | succ n ih =>
    rw [List.range_succ, List.foldl_append, ih]
    simp

theorem e_compute_slope_short (sid : Nat) (pre : List Nat) (h : pre.length < 30) :
    e_computation_node.compute_slope (e_window_of sid pre) = 0 := by
  simp [e_computation_node.compute_slope, e_window_of, WINDOW_SIZE, h]

theorem e_compute_slope_full (sid : Nat) (pre : List Nat) (h : pre.length = 30) :
    e_computation_node.compute_slope (e_window_of sid pre) = spec_slope pre := by
  simp only [e_computation_node.compute_slope, e_window_of, WINDOW_SIZE, h, Nat.sub_self,
    List.replicate_zero, List.append_nil, lt_irrefl, if_false]
  rw [slope_fold_sums (fun k => (pre.getD k 0 : ℚ)) 30]
  simp only [spec_slope]
  norm_num

theorem e_input_callback_sensor_frame (LINKADDR_SIZE sid v : Nat)
    (s : e_computation_node.state) (src : linkaddr_t) :
    e_computation_node.input_callback LINKADDR_SIZE s (sensor_frame sid v) src =
      e_computation_node.on_sensor LINKADDR_SIZE s (sensor_frame sid v) := by
  simp [e_computation_node.input_callback, sensor_frame, bytes_of_u16]

theorem e_on_sensor_some (LINKADDR_SIZE sid v j : Nat) (s : e_computation_node.state)
    (t : List e_computation_node.sensor_window_t)
    (hnd : s.power_state ≠ power_state_t.STATE_DEEP_LPM) (hv : v < 65536)
    (hget : e_computation_node.get_window s.sensors sid = (some j, t)) :
    (e_computation_node.on_sensor LINKADDR_SIZE s (sensor_frame sid v)).1.sensors =
        t.set j (e_computation_node.store_reading
          (t.getD j e_computation_node.zero_window) v) ∧
    (e_computation_node.on_sensor LINKADDR_SIZE s (sensor_frame sid v)).1.power_state =
        s.power_state ∧
    outputs_of (e_computation_node.on_sensor LINKADDR_SIZE s (sensor_frame sid v)).2 =
      if e_computation_node.compute_slope (e_computation_node.store_reading
          (t.getD j e_computation_node.zero_window) v) > SLOPE_THRESHOLD then
        [(some (linkaddr_of_u8 LINKADDR_SIZE sid), [3, sid, 1, 0])]
      else [] := by
  have hdec := u16_of_bytes_of_u16 v hv
  simp only [e_computation_node.on_sensor, sensor_frame, bytes_of_u16, List.cons_append,
    List.nil_append, List.getD_cons_zero, List.getD_cons_succ, hdec, hget, hnd, ne_eq,
    not_false_eq_true, if_true]
  split_ifs with h
  · exact ⟨rfl, rfl, by simp [outputs_of]⟩
  · exact ⟨rfl, rfl, by simp [outputs_of]⟩

theorem e_run_tracked (LINKADDR_SIZE sid j : Nat) (src : linkaddr_t) :
    ∀ (rest pre : List Nat) (s : e_computation_node.state),
      e_tracked s.sensors j sid pre →
      s.power_state ≠ power_state_t.STATE_DEEP_LPM →
      0 < pre.length → pre.length + rest.length = 30 → rest ≠ [] →
      (∀ v ∈ rest, v < 65536) →
      (run_effects
          (fun s v => e_computation_node.input_callback LINKADDR_SIZE s (sensor_frame sid v) src)
          s rest).map outputs_of =
        List.replicate (rest.length - 1) [] ++
          [if spec_slope (pre ++ rest) > 1 / 2 then
            [(some (linkaddr_of_u8 LINKADDR_SIZE sid), [3, sid, 1, 0])] else []] := by
  intro rest
  induction rest with
  | nil => intro _ _ _ _ _ _ h; exact absurd rfl h
  | cons v rest ih =>
    intro pre s htr hnd hpos hlen _ hvs
    have hv : v < 65536 := hvs v (List.mem_cons_self v rest)
    have hpl : pre.length < 30 := by simp at hlen; omega
    have hget := e_get_window_tracked s.sensors j sid pre htr hpos
    obtain ⟨hs1, hs2, hs3⟩ := e_on_sensor_some LINKADDR_SIZE sid v j s s.sensors hnd hv hget
    have htr' := e_tracked_store s.sensors j sid v pre htr hpl
    rw [htr.2.2.1, e_store_window_of sid v pre hpl] at hs3
    simp only [run_effects, List.map_cons]
    rw [e_input_callback_sensor_frame]
    by_cases hrest : rest = []
    · subst hrest
      have h30 : (pre ++ [v]).length = 30 := by simp at hlen ⊢; omega
      rw [hs3, e_compute_slope_full sid _ h30, SLOPE_THRESHOLD_eq]
      simp [run_effects]
    · have hshort : (pre ++ [v]).length < 30 := by
        have : 0 < rest.length := List.length_pos.mpr hrest
        simp at hlen ⊢
        omega
      rw [hs3, e_compute_slope_short sid _ hshort, SLOPE_THRESHOLD_eq]
      have ih' := ih (pre ++ [v])
        (e_computation_node.on_sensor LINKADDR_SIZE s (sensor_frame sid v)).1
        (by rw [hs1]; exact htr') (by rw [hs2]; exact hnd) (by simp)
        (by simp at hlen ⊢; omega) hrest
        (fun u hu => hvs u (List.mem_cons_of_mem v hu))
      rw [ih']
      have hpos' : 0 < rest.length := List.length_pos.mpr hrest
      have hrep : (v :: rest).length - 1 = (rest.length - 1) + 1 := by
        simp
        omega
      rw [hrep, List.replicate_succ]
      norm_num

theorem u32_sub_mod_right (a b : Nat) : u32_sub a (b % 2 ^ 32) = u32_sub a b := by
  unfold u32_sub
  rw [Nat.mod_mod]

/-- The expiry loop, slot by slot. -/
theorem expire_fold_getD (now : Nat) (t : List computation_node.sensor_window_t) (n : Nat)
    (hn : n ≤ t.length) :
    ((List.range n).foldl (computation_node.expire_step now) t).length = t.length ∧
    ∀ i, ((List.range n).foldl (computation_node.expire_step now) t).getD i
        computation_node.zero_window =
      if i < n ∧ (t.getD i computation_node.zero_window).count > 0 ∧
          u32_sub now (t.getD i computation_node.zero_window).last_ts > WINDOW_EXPIRY then
        computation_node.zero_window
      else t.getD i computation_node.zero_window := by
  induction n with
  | zero =>
    refine ⟨rfl, fun i => ?_⟩
    rw [if_neg (fun h => Nat.not_lt_zero i h.1)]
    rfl
  | succ n ih =>
    obtain ⟨ihl, ihg⟩ := ih (by omega)
    rw [List.range_succ, List.foldl_append]
    simp only [List.foldl_cons, List.foldl_nil]
    have hn' : ¬ (n < n ∧ (t.getD n computation_node.zero_window).count > 0 ∧
          u32_sub now (t.getD n computation_node.zero_window).last_ts > WINDOW_EXPIRY) :=
      fun h => Nat.lt_irrefl n h.1
    have hlt : ∀ i, i ≠ n → ((i < n + 1) ↔ (i < n)) := by
      intro i hin
      constructor <;> intro h <;> omega
    generalize List.foldl (computation_node.expire_step now) t (List.range n) = T at ihl ihg ⊢
    unfold computation_node.expire_step
    rw [ihg n, if_neg hn']
    by_cases hc : (t.getD n computation_node.zero_window).count > 0 ∧
        u32_sub now (t.getD n computation_node.zero_window).last_ts > WINDOW_EXPIRY
    · rw [if_pos hc]
      refine ⟨by rw [List.length_set]; exact ihl, fun i => ?_⟩
      by_cases hin : i = n
      · subst hin
        rw [List.getD_eq_getElem?_getD, List.getElem?_set_self (by omega),
          if_pos ⟨Nat.lt_succ_self i, hc⟩]
        rfl
      · rw [List.getD_eq_getElem?_getD, List.getElem?_set_ne (Ne.symm hin),
          ← List.getD_eq_getElem?_getD, ihg i]
        simp only [hlt i hin]
    · rw [if_neg hc]
      refine ⟨ihl, fun i => ?_⟩
      rw [ihg i]
      by_cases hin : i = n
      · subst hin
        rw [if_neg hn', if_neg (fun h => hc h.2)]
      · simp only [hlt i hin]

theorem expire_windows_getD (now : Nat) (t : List computation_node.sensor_window_t)
    (hlen : t.length = MAX_SENSORS) :
    (computation_node.expire_windows now t).length = MAX_SENSORS ∧
    ∀ i, i < MAX_SENSORS →
      (computation_node.expire_windows now t).getD i computation_node.zero_window =
        if (t.getD i computation_node.zero_window).count > 0 ∧
            u32_sub now (t.getD i computation_node.zero_window).last_ts > WINDOW_EXPIRY then
          computation_node.zero_window
        else t.getD i computation_node.zero_window := by
  obtain ⟨h1, h2⟩ := expire_fold_getD now t MAX_SENSORS (by omega)
  refine ⟨h1.trans hlen, fun i hi => ?_⟩
  unfold computation_node.expire_windows
  rw [h2 i]
  by_cases hc : (t.getD i computation_node.zero_window).count > 0 ∧
      u32_sub now (t.getD i computation_node.zero_window).last_ts > WINDOW_EXPIRY
  · rw [if_pos ⟨hi, hc⟩, if_pos hc]
  · rw [if_neg (fun h => hc h.2), if_neg hc]

theorem c_tracked_expire (now : Nat) (t : List computation_node.sensor_window_t)
    (j sid ts : Nat) (pre : List Nat) (h : c_tracked t j sid ts pre)
    (hfresh : u32_sub now ts ≤ WINDOW_EXPIRY) :
    c_tracked (computation_node.expire_windows now t) j sid ts pre := by
  obtain ⟨hj, htl, hw, hothers⟩ := h
  obtain ⟨hl, hg⟩ := expire_windows_getD now t htl
  refine ⟨hj, hl, ?_, ?_⟩
  · rw [hg j hj, hw]
    have : ¬ ((c_window_of sid ts pre).count > 0 ∧
        u32_sub now (c_window_of sid ts pre).last_ts > WINDOW_EXPIRY) := by
      simp only [c_window_of]
      omega
    rw [if_neg this]
  · intro i hi hij
    rw [hg i hi]
    split_ifs with hc
    · simp [computation_node.zero_window]
    · exact hothers i hi hij

theorem c_free_expire (now : Nat) (t : List computation_node.sensor_window_t) (sid : Nat)
    (hlen : t.length = MAX_SENSORS)
    (hnone : ∀ i, i < MAX_SENSORS →
      ¬ ((t.getD i computation_node.zero_window).count > 0 ∧
         (t.getD i computation_node.zero_window).id = sid))
    (hfree : ∃ i, i < MAX_SENSORS ∧ (t.getD i computation_node.zero_window).count = 0) :
    (∀ i, i < MAX_SENSORS →
      ¬ (((computation_node.expire_windows now t).getD i computation_node.zero_window).count > 0 ∧
         ((computation_node.expire_windows now t).getD i computation_node.zero_window).id = sid)) ∧
    (∃ i, i < MAX_SENSORS ∧
      ((computation_node.expire_windows now t).getD i computation_node.zero_window).count = 0) := by
  obtain ⟨_, hg⟩ := expire_windows_getD now t hlen
  constructor
  · intro i hi
    rw [hg i hi]
    split_ifs with hc
    · simp [computation_node.zero_window]
    · exact hnone i hi
  · obtain ⟨i, hi, hi0⟩ := hfree
    refine ⟨i, hi, ?_⟩
    rw [hg i hi]
    split_ifs with hc
    · rfl
    · exact hi0

theorem c_window_of_nil (sid : Nat) :
    c_window_of sid 0 [] = { computation_node.zero_window with id := sid } := by
  simp [c_window_of, computation_node.zero_window, WINDOW_SIZE]

theorem c_store_window_of (now sid ts v : Nat) (pre : List Nat) (hlen : pre.length < 30) :
    computation_node.store_reading now (c_window_of sid ts pre) v =
      c_window_of sid (now % 2 ^ 32) (pre ++ [v]) := by
  have hmod : pre.length % 30 = pre.length := Nat.mod_eq_of_lt hlen
  have h256 : (pre.length + 1) % 256 = pre.length + 1 := Nat.mod_eq_of_lt (by omega)
  have hrep : List.replicate (30 - pre.length) 0 =
      (0 : Nat) :: List.replicate (30 - (pre.length + 1)) 0 := by
    rw [← List.replicate_succ]
    congr 1
    omega
  simp only [computation_node.store_reading, c_window_of, WINDOW_SIZE, hmod, hlen, if_true,
    h256, List.length_append, List.length_singleton]
  congr 1
  rw [List.set_append_right _ _ (Nat.le_refl _), Nat.sub_self, hrep, List.set_cons_zero]
  simp

theorem c_get_window_of_tracked (now : Nat) (t : List computation_node.sensor_window_t)
    (j sid ts : Nat) (pre : List Nat)
    (h : c_tracked (computation_node.expire_windows now t) j sid ts pre)
    (hpos : 0 < pre.length) :
    computation_node.get_window now t sid =
      (some j, computation_node.expire_windows now t) := by
  obtain ⟨hj, _, hw, hothers⟩ := h
  unfold computation_node.get_window
  simp only []
  rw [first_index_of_unique _ MAX_SENSORS 0 j (Nat.zero_le j) (by omega)]
  · rw [hw]
    simp [c_window_of, hpos]
  · intro k _ hkj
    have := hothers k (by omega) (by omega)
    simpa using this

theorem c_get_window_fresh (now : Nat) (t : List computation_node.sensor_window_t) (sid : Nat)
    (hlen : t.length = MAX_SENSORS)
    (hnone : ∀ i, i < MAX_SENSORS →
      ¬ ((t.getD i computation_node.zero_window).count > 0 ∧
         (t.getD i computation_node.zero_window).id = sid))
    (hfree : ∃ i, i < MAX_SENSORS ∧ (t.getD i computation_node.zero_window).count = 0) :
    ∃ j t', computation_node.get_window now t sid = (some j, t') ∧
      c_tracked t' j sid 0 [] := by
  obtain ⟨hnone', hfree'⟩ := c_free_expire now t sid hlen hnone hfree
  obtain ⟨hlen', _⟩ := expire_windows_getD now t hlen
  unfold computation_node.get_window
  simp only []
  generalize computation_node.expire_windows now t = T at hnone' hfree' hlen' ⊢
  obtain ⟨i, hi, hi0⟩ := hfree'
  obtain ⟨j, hj1, _, hj3, hj4⟩ := first_index_some_of_exists
    (fun i => decide ((T.getD i computation_node.zero_window).count = 0)) MAX_SENSORS 0
    ⟨i, Nat.zero_le i, by omega, by simpa using hi0⟩
  have hjlt : j < MAX_SENSORS := by omega
  refine ⟨j, T.set j { computation_node.zero_window with id := sid }, ?_, hjlt, ?_, ?_, ?_⟩
  · rw [first_index_none_of_forall _ MAX_SENSORS 0 (fun k _ hk => by
      have := hnone' k (by omega)
      simpa using this)]
    simp only [hj1]
  · simp [hlen']
  · rw [List.getD_eq_getElem?_getD, List.getElem?_set_self (by omega), c_window_of_nil]
    rfl
  · intro k hk hkj
    rw [List.getD_eq_getElem?_getD, List.getElem?_set_ne (Ne.symm hkj),
      ← List.getD_eq_getElem?_getD]
    exact hnone' k hk

theorem c_tracked_store (now : Nat) (t : List computation_node.sensor_window_t)
    (j sid ts v : Nat) (pre : List Nat) (h : c_tracked t j sid ts pre)
    (hlen : pre.length < 30) :
    c_tracked
      (t.set j (computation_node.store_reading now
        (t.getD j computation_node.zero_window) v))
      j sid (now % 2 ^ 32) (pre ++ [v]) := by
  obtain ⟨hj, htl, hw, hothers⟩ := h
  refine ⟨hj, by simp [htl], ?_, ?_⟩
  · rw [List.getD_eq_getElem?_getD, List.getElem?_set_self (by omega), hw,
      c_store_window_of now sid ts v pre hlen]
    rfl
  · intro k hk hkj
    rw [List.getD_eq_getElem?_getD, List.getElem?_set_ne (Ne.symm hkj),
      ← List.getD_eq_getElem?_getD]
    exact hothers k hk hkj

theorem c_compute_slope_full (sid ts : Nat) (pre : List Nat) (h : pre.length = 30) :
    computation_node.compute_slope_fixed (c_window_of sid ts pre) = spec_slope pre := by
  have hfold : ∀ (g f : Nat → ℚ) (n : Nat), (∀ k < n, g k = f k) →
      (List.range n).foldl
          (fun (acc : ℚ × ℚ) (k : Nat) => (acc.1 + g k, acc.2 + (k : ℚ) * g k)) (0, 0) =
        (List.range n).foldl
          (fun (acc : ℚ × ℚ) (k : Nat) => (acc.1 + f k, acc.2 + (k : ℚ) * f k)) (0, 0) := by
    intro g f n
    induction n with
    | zero => intro _; rfl
    | succ n ih =>
      intro hgf
      rw [List.range_succ, List.foldl_append, List.foldl_append,
        ih (fun k hk => hgf k (Nat.lt_succ_of_lt hk))]
      simp only [List.foldl_cons, List.foldl_nil, hgf n (Nat.lt_succ_self n)]
  simp only [computation_node.compute_slope_fixed, c_window_of, WINDOW_SIZE, h, Nat.sub_self,
    List.replicate_zero, List.append_nil, Nat.mod_self, Nat.zero_add]
  rw [hfold (fun k => (pre.getD (k % 30) 0 : ℚ)) (fun k => (pre.getD k 0 : ℚ)) 30
    (fun k hk => by simp only [Nat.mod_eq_of_lt hk]),
    slope_fold_sums (fun k => (pre.getD k 0 : ℚ)) 30]
  simp only [spec_slope]
  norm_num

theorem c_input_callback_sensor_frame (LINKADDR_SIZE now sid v : Nat)
    (s : computation_node.state) (src : linkaddr_t) :
    computation_node.input_callback LINKADDR_SIZE now s (sensor_frame sid v) src =
      computation_node.on_sensor LINKADDR_SIZE now s (sensor_frame sid v) := by
  simp [computation_node.input_callback, sensor_frame, bytes_of_u16]

theorem c_on_sensor_some (LINKADDR_SIZE now sid v j : Nat) (s : computation_node.state)
    (t : List computation_node.sensor_window_t) (hv : v < 65536)
    (hget : computation_node.get_window now s.sensors sid = (some j, t)) :
    (computation_node.on_sensor LINKADDR_SIZE now s (sensor_frame sid v)).1.sensors =
        t.set j (computation_node.store_reading now
          (t.getD j computation_node.zero_window) v) ∧
    outputs_of (computation_node.on_sensor LINKADDR_SIZE now s (sensor_frame sid v)).2 =
      if (computation_node.store_reading now
          (t.getD j computation_node.zero_window) v).count ≥ WINDOW_SIZE ∧
        computation_node.compute_slope_fixed (computation_node.store_reading now
          (t.getD j computation_node.zero_window) v) > SLOPE_THRESHOLD then
        [(some (linkaddr_of_u8 LINKADDR_SIZE sid), [3, sid, 1, 0])]
      else [] := by
  have hdec := u16_of_bytes_of_u16 v hv
  have hb1 : (sensor_frame sid v).getD 1 0 = sid := rfl
  have hb2 : u16_of_bytes ((sensor_frame sid v).getD 2 0) ((sensor_frame sid v).getD 3 0) = v :=
    hdec
  unfold computation_node.on_sensor
  simp only [hb1, hb2, hget]
  generalize computation_node.store_reading now (t.getD j computation_node.zero_window) v = W
  by_cases h1 : W.count ≥ WINDOW_SIZE
  · by_cases h2 : computation_node.compute_slope_fixed W > SLOPE_THRESHOLD
    · rw [if_pos h1, if_pos h2, if_pos ⟨h1, h2⟩]
      exact ⟨rfl, by simp [outputs_of, bytes_of_u16]⟩
    · rw [if_pos h1, if_neg h2, if_neg (fun h => h2 h.2)]
      exact ⟨rfl, by simp [outputs_of]⟩
  · rw [if_neg h1, if_neg (fun h => h1 h.1)]
    exact ⟨rfl, by simp [outputs_of]⟩

theorem c_run_tracked (LINKADDR_SIZE sid j : Nat) (src : linkaddr_t) :
    ∀ (rest : List (Nat × Nat)) (last : Nat × Nat) (pre : List Nat)
      (s : computation_node.state),
      c_tracked s.sensors j sid (last.1 % 2 ^ 32) pre →
      0 < pre.length → pre.length + rest.length = 30 → rest ≠ [] →
      (∀ p ∈ rest, p.2 < 65536) →
      List.Chain (fun p q : Nat × Nat => u32_sub q.1 p.1 ≤ WINDOW_EXPIRY) last rest →
      (run_effects
          (fun s (p : Nat × Nat) =>
            computation_node.input_callback LINKADDR_SIZE p.1 s (sensor_frame sid p.2) src)
          s rest).map outputs_of =
        List.replicate (rest.length - 1) [] ++
          [if spec_slope (pre ++ rest.map Prod.snd) > 1 / 2 then
            [(some (linkaddr_of_u8 LINKADDR_SIZE sid), [3, sid, 1, 0])] else []] := by
  intro rest
  induction rest with
  | nil => intro _ _ _ _ _ _ h; exact absurd rfl h
  | cons p rest ih =>
    intro last pre s htr hpos hlen _ hvs hchain
    have hv : p.2 < 65536 := hvs p (List.mem_cons_self p rest)
    have hpl : pre.length < 30 := by simp at hlen; omega
    rw [List.chain_cons] at hchain
    obtain ⟨hgap, hchain'⟩ := hchain
    have htre := c_tracked_expire p.1 s.sensors j sid (last.1 % 2 ^ 32) pre htr
      (by rw [u32_sub_mod_right]; exact hgap)
    have hget := c_get_window_of_tracked p.1 s.sensors j sid (last.1 % 2 ^ 32) pre htre hpos
    obtain ⟨hs1, hs3⟩ := c_on_sensor_some LINKADDR_SIZE p.1 sid p.2 j s _ hv hget
    have htr' := c_tracked_store p.1 _ j sid (last.1 % 2 ^ 32) p.2 pre htre hpl
    rw [htre.2.2.1, c_store_window_of p.1 sid _ p.2 pre hpl] at hs3
    simp only [run_effects, List.map_cons]
    rw [c_input_callback_sensor_frame]
    by_cases hrest : rest = []
    · subst hrest
      have h30 : (pre ++ [p.2]).length = 30 := by simp at hlen ⊢; omega
      rw [hs3, c_compute_slope_full sid _ _ h30, SLOPE_THRESHOLD_eq]
      simp [run_effects, c_window_of, h30, WINDOW_SIZE]
    · have hshort : (pre ++ [p.2]).length < 30 := by
        have : 0 < rest.length := List.length_pos.mpr hrest
        simp at hlen ⊢
        omega
      have hcnt : ¬ ((c_window_of sid (p.1 % 2 ^ 32) (pre ++ [p.2])).count ≥ WINDOW_SIZE ∧
          computation_node.compute_slope_fixed (c_window_of sid (p.1 % 2 ^ 32) (pre ++ [p.2])) >
            SLOPE_THRESHOLD) := by
        intro h
        have := h.1
        simp only [c_window_of, WINDOW_SIZE] at this
        omega
      rw [hs3, if_neg hcnt]
      have ih' := ih p (pre ++ [p.2])
        (computation_node.on_sensor LINKADDR_SIZE p.1 s (sensor_frame sid p.2)).1
        (by rw [hs1]; exact htr') (by simp)
        (by simp at hlen ⊢; omega) hrest
        (fun u hu => hvs u (List.mem_cons_of_mem p hu)) hchain'
      rw [ih']
      have hpos' : 0 < rest.length := List.length_pos.mpr hrest
      have hrep : (p :: rest).length - 1 = (rest.length - 1) + 1 := by
        simp
        omega
      rw [hrep, List.replicate_succ]
      simp

theorem spec_slope_ramp : spec_slope ramp = 1 := by
  norm_num [spec_slope, ramp, List.range_succ]

theorem timed_ramp_values : timed_ramp.map Prod.snd = ramp := by decide

theorem slow_ramp_values : slow_ramp.map Prod.snd = ramp := by decide

set_option maxRecDepth 100000 in
theorem slow_ramp_run :
    (run_effects
        (fun s (p : Nat × Nat) =>
          computation_node.input_callback 2 p.1 s (sensor_frame 7 p.2) [7, 0])
        fresh_computation slow_ramp).map outputs_of = List.replicate 30 [] := by
  decide

theorem e_run_tracked_state (LINKADDR_SIZE sid j : Nat) (src : linkaddr_t) :
    ∀ (rest pre : List Nat) (s : e_computation_node.state),
      e_tracked s.sensors j sid pre →
      s.power_state ≠ power_state_t.STATE_DEEP_LPM →
      0 < pre.length → pre.length + rest.length ≤ 30 →
      (∀ v ∈ rest, v < 65536) →
      e_tracked
        (run_inputs
          (fun s v => e_computation_node.input_callback LINKADDR_SIZE s (sensor_frame sid v) src)
          s rest).sensors j sid (pre ++ rest) ∧
      (run_inputs
          (fun s v => e_computation_node.input_callback LINKADDR_SIZE s (sensor_frame sid v) src)
          s rest).power_state ≠ power_state_t.STATE_DEEP_LPM := by
  intro rest
  induction rest with
  | nil =>
    intro pre s htr hnd _ _ _
    simpa [run_inputs] using ⟨htr, hnd⟩
  | cons v rest ih =>
    intro pre s htr hnd hpos hlen hvs
    have hv : v < 65536 := hvs v (List.mem_cons_self v rest)
    have hpl : pre.length < 30 := by simp at hlen; omega
    have hget := e_get_window_tracked s.sensors j sid pre htr hpos
    obtain ⟨hs1, hs2, _⟩ := e_on_sensor_some LINKADDR_SIZE sid v j s s.sensors hnd hv hget
    have htr' := e_tracked_store s.sensors j sid v pre htr hpl
    have ih' := ih (pre ++ [v])
      (e_computation_node.on_sensor LINKADDR_SIZE s (sensor_frame sid v)).1
      (by rw [hs1]; exact htr') (by rw [hs2]; exact hnd) (by simp)
      (by simp at hlen ⊢; omega)
      (fun u hu => hvs u (List.mem_cons_of_mem v hu))
    simp only [run_inputs, List.foldl_cons] at ih' ⊢
    rw [e_input_callback_sensor_frame]
    simpa using ih'

theorem wrapped_e_window_reachable :
    ∃ j, (run_inputs
        (fun s v => e_computation_node.input_callback 2 s (sensor_frame 7 v) [7, 0])
        fresh_e_computation (ramp ++ [30])).sensors.getD j e_computation_node.zero_window =
      wrapped_e_window := by
  obtain ⟨j, t', hget, htr⟩ := e_get_window_fresh fresh_e_computation.sensors 7
    (by decide) (by decide) (by decide)
  have hnd : fresh_e_computation.power_state ≠ power_state_t.STATE_DEEP_LPM := by decide
  obtain ⟨hs1, hs2, _⟩ := e_on_sensor_some 2 7 0 j fresh_e_computation t' hnd (by decide) hget
  have htr' := e_tracked_store t' j 7 0 [] htr (by simp)
  obtain ⟨h30, hnd30⟩ := e_run_tracked_state 2 7 j [7, 0] ramp.tail ([] ++ [0])
    (e_computation_node.on_sensor 2 fresh_e_computation (sensor_frame 7 0)).1
    (by rw [hs1]; exact htr') (by rw [hs2]; exact hnd) (by simp) (by decide) (by decide)
  have hramp : ramp ++ [30] = 0 :: (ramp.tail ++ [30]) := by decide
  have hpre : ([] ++ [0]) ++ ramp.tail = ramp := by decide
  rw [hpre] at h30
  refine ⟨j, ?_⟩
  rw [hramp]
  simp only [run_inputs, List.foldl_cons, List.foldl_append, List.foldl_nil] at h30 hnd30 ⊢
  rw [e_input_callback_sensor_frame 2 7 0 fresh_e_computation [7, 0]]
  generalize List.foldl
    (fun s i => (e_computation_node.input_callback 2 s (sensor_frame 7 i) [7, 0]).1)
    (e_computation_node.on_sensor 2 fresh_e_computation (sensor_frame 7 0)).1 ramp.tail = S
    at h30 hnd30 ⊢
  have hget' := e_get_window_tracked S.sensors j 7 ramp h30 (by decide)
  obtain ⟨hf1, _, _⟩ := e_on_sensor_some 2 7 30 j S S.sensors hnd30 (by decide) hget'
  rw [e_input_callback_sensor_frame, hf1, List.getD_eq_getElem?_getD,
    List.getElem?_set_self (by rw [h30.2.1]; exact h30.1), h30.2.2.1]
  decide

/-- C6, the defect evaluated. Feeding the 31 readings `0, 1, ..., 30` of sensor 7 to a fresh
energised Computation node leaves the window `wrapped_e_window` (write position 1). Its 30
samples in arrival order are `v_k = 1·k + 1`, yet `compute_slope`, which reads the buffer in
index order, returns 25/31 instead of 1; the energy-unaware `compute_slope_fixed` returns 1
on the same buffer. -/
theorem C6_compute_slope_wrapped :
    (∃ j, (run_inputs
        (fun s v => e_computation_node.input_callback 2 s (sensor_frame 7 v) [7, 0])
        fresh_e_computation (ramp ++ [30])).sensors.getD j e_computation_node.zero_window =
      wrapped_e_window) ∧
    wrapped_e_window.count = 30 ∧
    (∀ k < 30, wrapped_e_window.values.getD ((wrapped_e_window.idx + k) % 30) 0 = 1 * k + 1) ∧
    e_computation_node.compute_slope wrapped_e_window = 25 / 31 ∧
    e_computation_node.compute_slope wrapped_e_window ≠ 1 ∧
    computation_node.compute_slope_fixed wrapped_window = 1 := by
  have hval : e_computation_node.compute_slope wrapped_e_window = 25 / 31 := by
    norm_num [e_computation_node.compute_slope, wrapped_e_window, WINDOW_SIZE, List.range_succ]
  refine ⟨wrapped_e_window_reachable, rfl, by decide, hval, ?_, ?_⟩
  · rw [hval]
    norm_num
  · norm_num [computation_node.compute_slope_fixed, wrapped_window, wrapped_e_window,
      WINDOW_SIZE, List.range_succ]

/-- C7, refuted as stated for the energy-unaware variant: a Computation node with an empty
window table receives the 30 readings `0, 1, ..., 29` of sensor 7, one every 301 seconds. Their
least-squares slope in arrival order is 1 > 0.5, yet no frame is emitted on any of the 30
readings (each reading finds the window stale and starts a fresh one). -/
theorem C7_counterexample_stale_readings :
    spec_slope (slow_ramp.map Prod.snd) > 1 / 2 ∧
    (run_effects
        (fun s (p : Nat × Nat) =>
          computation_node.input_callback 2 p.1 s (sensor_frame 7 p.2) [7, 0])
        fresh_computation slow_ramp).map outputs_of = List.replicate 30 [] := by
  refine ⟨?_, slow_ramp_run⟩
  rw [slow_ramp_values, spec_slope_ramp]
  norm_num

/-- C7, amended. For a sensor id `sid` that has no occupied window while some slot of the
5-slot table is free, and 30 SENSOR frames `[2, sid, v_lo, v_hi]` carrying `v_0 .. v_29`:
the energised Computation node, when not in Deep-LPM, and the energy-unaware Computation
node, when each reading after the first arrives at most 300 s (by the node's clock, modulo
2^32) after the one before, emit no frame on the first 29 readings, and on the 30th emit
exactly the unicast `[3, sid, 1, 0]` to the address `{{sid}}` when the least-squares slope of
`v_0 .. v_29` in arrival order is > 0.5, and no frame otherwise. -/
theorem C7_trend_command (LINKADDR_SIZE sid : Nat) (src : linkaddr_t) :
    (∀ (s : e_computation_node.state) (vs : List Nat),
      s.power_state ≠ power_state_t.STATE_DEEP_LPM →
      s.sensors.length = MAX_SENSORS →
      (∀ i, i < MAX_SENSORS →
        ¬ ((s.sensors.getD i e_computation_node.zero_window).count > 0 ∧
           (s.sensors.getD i e_computation_node.zero_window).id = sid)) →
      (∃ i, i < MAX_SENSORS ∧ (s.sensors.getD i e_computation_node.zero_window).count = 0) →
      vs.length = 30 → (∀ v ∈ vs, v < 65536) →
      (run_effects
          (fun s v => e_computation_node.input_callback LINKADDR_SIZE s (sensor_frame sid v) src)
          s vs).map outputs_of =
        List.replicate 29 [] ++
          [if spec_slope vs > 1 / 2 then
            [(some (linkaddr_of_u8 LINKADDR_SIZE sid), [3, sid, 1, 0])] else []]) ∧
    (∀ (s : computation_node.state) (tvs : List (Nat × Nat)),
      s.sensors.length = MAX_SENSORS →
      (∀ i, i < MAX_SENSORS →
        ¬ ((s.sensors.getD i computation_node.zero_window).count > 0 ∧
           (s.sensors.getD i computation_node.zero_window).id = sid)) →
      (∃ i, i < MAX_SENSORS ∧ (s.sensors.getD i computation_node.zero_window).count = 0) →
      tvs.length = 30 → (∀ p ∈ tvs, p.2 < 65536) →
      List.Chain' (fun p q : Nat × Nat => u32_sub q.1 p.1 ≤ WINDOW_EXPIRY) tvs →
      (run_effects
          (fun s (p : Nat × Nat) =>
            computation_node.input_callback LINKADDR_SIZE p.1 s (sensor_frame sid p.2) src)
          s tvs).map outputs_of =
        List.replicate 29 [] ++
          [if spec_slope (tvs.map Prod.snd) > 1 / 2 then
            [(some (linkaddr_of_u8 LINKADDR_SIZE sid), [3, sid, 1, 0])] else []]) := by
  constructor
  · intro s vs hnd hlen hnone hfree hvl hvs
    cases vs with
    | nil => simp at hvl
    | cons v rest =>
      have hv : v < 65536 := hvs v (List.mem_cons_self v rest)
      have hrl : rest.length = 29 := by simp at hvl; omega
      obtain ⟨j, t', hget, htr⟩ := e_get_window_fresh s.sensors sid hlen hnone hfree
      obtain ⟨hs1, hs2, hs3⟩ := e_on_sensor_some LINKADDR_SIZE sid v j s t' hnd hv hget
      have htr' := e_tracked_store t' j sid v [] htr (by simp)
      rw [htr.2.2.1, e_store_window_of sid v [] (by simp),
        e_compute_slope_short sid _ (by simp), SLOPE_THRESHOLD_eq] at hs3
      simp only [run_effects, List.map_cons]
      rw [e_input_callback_sensor_frame, hs3,
        e_run_tracked LINKADDR_SIZE sid j src rest ([] ++ [v]) _ (by rw [hs1]; exact htr')
          (by rw [hs2]; exact hnd) (by simp) (by simp [hrl])
          (by intro h; rw [h] at hrl; simp at hrl)
          (fun u hu => hvs u (List.mem_cons_of_mem v hu)), hrl]
      norm_num
      rfl
  · intro s tvs hlen hnone hfree hvl hvs hchain
    cases tvs with
    | nil => simp at hvl
    | cons p rest =>
      have hv : p.2 < 65536 := hvs p (List.mem_cons_self p rest)
      have hrl : rest.length = 29 := by simp at hvl; omega
      obtain ⟨j, t', hget, htr⟩ := c_get_window_fresh p.1 s.sensors sid hlen hnone hfree
      obtain ⟨hs1, hs3⟩ := c_on_sensor_some LINKADDR_SIZE p.1 sid p.2 j s t' hv hget
      have htr' := c_tracked_store p.1 t' j sid 0 p.2 [] htr (by simp)
      have hcnt : ¬ ((c_window_of sid (p.1 % 2 ^ 32) ([] ++ [p.2])).count ≥ WINDOW_SIZE ∧
          computation_node.compute_slope_fixed (c_window_of sid (p.1 % 2 ^ 32) ([] ++ [p.2])) >
            SLOPE_THRESHOLD) := by
        intro h
        have := h.1
        simp [c_window_of, WINDOW_SIZE] at this
      rw [htr.2.2.1, c_store_window_of p.1 sid 0 p.2 [] (by simp), if_neg hcnt] at hs3
      simp only [run_effects, List.map_cons]
      rw [c_input_callback_sensor_frame, hs3,
        c_run_tracked LINKADDR_SIZE sid j src rest p ([] ++ [p.2]) _ (by rw [hs1]; exact htr')
          (by simp) (by simp [hrl])
          (by intro h; rw [h] at hrl; simp at hrl)
          (fun u hu => hvs u (List.mem_cons_of_mem p hu)) hchain, hrl]
      norm_num
      rfl

/-- Instances of the amended C7 for sensor 7 and the readings `0, 1, ..., 29` (slope 1): the
energised node, and the energy-unaware node with one reading every 60 s, emit nothing on the
first 29 readings and the command `[3, 7, 1, 0]` to node 7 on the 30th. -/
theorem C7_trend_command_witness :
    (run_effects
        (fun s v => e_computation_node.input_callback 2 s (sensor_frame 7 v) [7, 0])
        fresh_e_computation ramp).map outputs_of =
      List.replicate 29 [] ++ [[(some [7, 0], [3, 7, 1, 0])]] ∧
    (run_effects
        (fun s (p : Nat × Nat) =>
          computation_node.input_callback 2 p.1 s (sensor_frame 7 p.2) [7, 0])
        fresh_computation timed_ramp).map outputs_of =
      List.replicate 29 [] ++ [[(some [7, 0], [3, 7, 1, 0])]] := by
  have hchain : List.Chain' (fun p q : Nat × Nat => u32_sub q.1 p.1 ≤ WINDOW_EXPIRY)
      timed_ramp := by
    unfold timed_ramp
    rw [List.chain'_map, List.chain'_range_succ]
    intro m hm
    simp only [u32_sub, WINDOW_EXPIRY]
    omega
  have h1 := (C7_trend_command 2 7 [7, 0]).1 fresh_e_computation ramp (by decide) (by decide)
    (by decide) (by decide) (by decide) (by decide)
  have h2 := (C7_trend_command 2 7 [7, 0]).2 fresh_computation timed_ramp (by decide)
    (by decide) (by decide) (by decide) (by decide) hchain
  rw [spec_slope_ramp, if_pos (by norm_num)] at h1
  rw [timed_ramp_values, spec_slope_ramp, if_pos (by norm_num)] at h2
  exact ⟨h1, h2⟩

/-! ## Battery -/

theorem u32_sub_add (l d : Nat) (h : l + d < 2 ^ 32) : u32_sub (l + d) l = d := by
  unfold u32_sub
  omega

theorem u32_sub_self (a : Nat) : u32_sub a a = 0 := by
  unfold u32_sub
  omega

theorem update_battery_debit_facts (CLOCK_SECOND : Nat) (hCS : 0 < CLOCK_SECOND)
    (hCS32 : CLOCK_SECOND < 2 ^ 32) (e : energest_t) (b : ℚ) (l1 l2 l3 l4 : Nat) :
    ∃ d_cpu d_lpm d_tx d_rx : Nat,
      (d_cpu : ℤ) = ((e.cpu : ℤ) - l1) % 2 ^ 32 ∧ (d_lpm : ℤ) = ((e.lpm : ℤ) - l2) % 2 ^ 32 ∧
      (d_tx : ℤ) = ((e.tx : ℤ) - l3) % 2 ^ 32 ∧ (d_rx : ℤ) = ((e.rx : ℤ) - l4) % 2 ^ 32 ∧
      f32_sub b (battery_debit CLOCK_SECOND (u32_sub e.cpu l1) (u32_sub e.lpm l2)
          (u32_sub e.tx l3) (u32_sub e.rx l4)) =
        f32_sub b (battery_debit CLOCK_SECOND d_cpu d_lpm d_tx d_rx) ∧
      0 ≤ battery_debit CLOCK_SECOND d_cpu d_lpm d_tx d_rx ∧
      ((d_cpu : ℚ) * 0.2 + (d_lpm : ℚ) * 0.02 + (d_tx : ℚ) * 1.0 + (d_rx : ℚ) * 1.0) /
          CLOCK_SECOND * (1 - 1 / 1048576) ≤
        battery_debit CLOCK_SECOND d_cpu d_lpm d_tx d_rx ∧
      battery_debit CLOCK_SECOND d_cpu d_lpm d_tx d_rx ≤
        ((d_cpu : ℚ) * 0.2 + (d_lpm : ℚ) * 0.02 + (d_tx : ℚ) * 1.0 + (d_rx : ℚ) * 1.0) /
          CLOCK_SECOND * (1 + 1 / 1048576) ∧
      (f32_round b = b →
        f32_sub b (battery_debit CLOCK_SECOND d_cpu d_lpm d_tx d_rx) ≤ b) :=
  ⟨u32_sub e.cpu l1, u32_sub e.lpm l2, u32_sub e.tx l3, u32_sub e.rx l4,
    u32_sub_eq_emod _ _, u32_sub_eq_emod _ _, u32_sub_eq_emod _ _, u32_sub_eq_emod _ _, rfl,
    battery_debit_nonneg _ _ _ _ _, (battery_debit_rel _ _ _ _ _ hCS hCS32).1,
    (battery_debit_rel _ _ _ _ _ hCS hCS32).2,
    fun hb => f32_sub_le_self _ _ hb (battery_debit_nonneg _ _ _ _ _)⟩

/-- C9, refuted as stated: with `CLOCK_SECOND = 128`, the snapshot `(0, 0, 0, 0)`, the counter
readings `(64, 64, 128, 0)` and battery 5, the deltas are `(64, 64, 128, 0)` and the formula
gives the debit `(64·0.2 + 64·0.02 + 128·1.0 + 0·1.0) / 128 = 1.11`, hence the battery 3.89;
`update_battery`, whose arithmetic is binary32, leaves the battery at
`8157921 / 2097152 = 3.8899998664855957`, in each of the three energised roles. -/
theorem C9_counterexample_rounded_debit :
    (u32_sub 64 0 = 64 ∧ u32_sub 128 0 = 128 ∧ u32_sub 0 0 = 0) ∧
    (5 : ℚ) - ((64 : ℚ) * 0.2 + (64 : ℚ) * 0.02 + (128 : ℚ) * 1.0 + (0 : ℚ) * 1.0) / 128 = 3.89 ∧
    (low_sensor.battery_level = 5 ∧
      (e_sensor_node.update_battery 128 ⟨64, 64, 128, 0⟩ low_sensor).battery_level =
        8157921 / 2097152 ∧
      (e_sensor_node.update_battery 128 ⟨64, 64, 128, 0⟩ low_sensor).battery_level ≠ 3.89) ∧
    (low_computation.battery_level = 5 ∧
      (e_computation_node.update_battery 128 ⟨64, 64, 128, 0⟩ low_computation).battery_level =
        8157921 / 2097152 ∧
      (e_computation_node.update_battery 128 ⟨64, 64, 128, 0⟩ low_computation).battery_level ≠
        3.89) ∧
    (low_border.battery_level = 5 ∧
      (e_border_router.update_battery 128 ⟨64, 64, 128, 0⟩ low_border).battery_level =
        8157921 / 2097152 ∧
      (e_border_router.update_battery 128 ⟨64, 64, 128, 0⟩ low_border).battery_level ≠
        3.89) := by
  have hu : u32_sub 64 0 = 64 ∧ u32_sub 128 0 = 128 ∧ u32_sub 0 0 = 0 := by
    simp only [u32_sub]
    decide
  have hs : (e_sensor_node.update_battery 128 ⟨64, 64, 128, 0⟩ low_sensor).battery_level =
      8157921 / 2097152 := by
    show f32_sub 5 (battery_debit 128 (u32_sub 64 0) (u32_sub 64 0) (u32_sub 128 0)
      (u32_sub 0 0)) = 8157921 / 2097152
    rw [hu.1, hu.2.1, hu.2.2, battery_debit_half_second, f32_sub_5_half_second]
  have hc : (e_computation_node.update_battery 128 ⟨64, 64, 128, 0⟩
      low_computation).battery_level = 8157921 / 2097152 := by
    show f32_sub 5 (battery_debit 128 (u32_sub 64 0) (u32_sub 64 0) (u32_sub 128 0)
      (u32_sub 0 0)) = 8157921 / 2097152
    rw [hu.1, hu.2.1, hu.2.2, battery_debit_half_second, f32_sub_5_half_second]
  have hb : (e_border_router.update_battery 128 ⟨64, 64, 128, 0⟩ low_border).battery_level =
      8157921 / 2097152 := by
    show f32_sub 5 (battery_debit 128 (u32_sub 64 0) (u32_sub 64 0) (u32_sub 128 0)
      (u32_sub 0 0)) = 8157921 / 2097152
    rw [hu.1, hu.2.1, hu.2.2, battery_debit_half_second, f32_sub_5_half_second]
  refine ⟨hu, by norm_num, ⟨rfl, hs, ?_⟩, ⟨rfl, hc, ?_⟩, ⟨rfl, hb, ?_⟩⟩
  · rw [hs]
    norm_num
  · rw [hc]
    norm_num
  · rw [hb]
    norm_num

/-- C9, amended. In each of the three energised roles, for every snapshot and every reading
`e` of the four 32-bit counters (`0 < CLOCK_SECOND < 2^32`), with each `Δ` the current
counter minus the snapshot modulo `2^32`: `update_battery` lowers the battery level by the
binary32 value `battery_debit` of `Δcpu/CLOCK_SECOND·0.2f + Δlpm/CLOCK_SECOND·0.02f +
Δtx/CLOCK_SECOND·1.0f + Δrx/CLOCK_SECOND·1.0f`, every operation being rounded to nearest, and
stores the rounded difference. That debit is never negative and lies within a relative error
of `2^-20` of `(Δcpu·0.2 + Δlpm·0.02 + Δtx·1.0 + Δrx·1.0) / CLOCK_SECOND`; the snapshot is
replaced by the current counters; and a battery level that is a binary32 value does not
increase. -/
theorem C9_update_battery_debit (CLOCK_SECOND : Nat) (e : energest_t)
    (hCS : 0 < CLOCK_SECOND) (hCS32 : CLOCK_SECOND < 2 ^ 32)
    (hcpu : e.cpu < 2 ^ 32) (hlpm : e.lpm < 2 ^ 32) (htx : e.tx < 2 ^ 32)
    (hrx : e.rx < 2 ^ 32) :
    (∀ s : e_computation_node.state,
      ∃ d_cpu d_lpm d_tx d_rx : Nat,
        (d_cpu : ℤ) = ((e.cpu : ℤ) - s.last_cpu) % 2 ^ 32 ∧
        (d_lpm : ℤ) = ((e.lpm : ℤ) - s.last_lpm) % 2 ^ 32 ∧
        (d_tx : ℤ) = ((e.tx : ℤ) - s.last_tx) % 2 ^ 32 ∧
        (d_rx : ℤ) = ((e.rx : ℤ) - s.last_rx) % 2 ^ 32 ∧
        (e_computation_node.update_battery CLOCK_SECOND e s).battery_level =
          f32_sub s.battery_level (battery_debit CLOCK_SECOND d_cpu d_lpm d_tx d_rx) ∧
        0 ≤ battery_debit CLOCK_SECOND d_cpu d_lpm d_tx d_rx ∧
        ((d_cpu : ℚ) * 0.2 + (d_lpm : ℚ) * 0.02 + (d_tx : ℚ) * 1.0 + (d_rx : ℚ) * 1.0) /
            CLOCK_SECOND * (1 - 1 / 1048576) ≤
          battery_debit CLOCK_SECOND d_cpu d_lpm d_tx d_rx ∧
        battery_debit CLOCK_SECOND d_cpu d_lpm d_tx d_rx ≤
          ((d_cpu : ℚ) * 0.2 + (d_lpm : ℚ) * 0.02 + (d_tx : ℚ) * 1.0 + (d_rx : ℚ) * 1.0) /
            CLOCK_SECOND * (1 + 1 / 1048576) ∧
        (f32_round s.battery_level = s.battery_level →
          (e_computation_node.update_battery CLOCK_SECOND e s).battery_level ≤
            s.battery_level) ∧
        (e_computation_node.update_battery CLOCK_SECOND e s).last_cpu = e.cpu ∧
        (e_computation_node.update_battery CLOCK_SECOND e s).last_lpm = e.lpm ∧
        (e_computation_node.update_battery CLOCK_SECOND e s).last_tx = e.tx ∧
        (e_computation_node.update_battery CLOCK_SECOND e s).last_rx = e.rx) ∧
    (∀ s : e_sensor_node.state,
      ∃ d_cpu d_lpm d_tx d_rx : Nat,
        (d_cpu : ℤ) = ((e.cpu : ℤ) - s.last_cpu) % 2 ^ 32 ∧
        (d_lpm : ℤ) = ((e.lpm : ℤ) - s.last_lpm) % 2 ^ 32 ∧
        (d_tx : ℤ) = ((e.tx : ℤ) - s.last_tx) % 2 ^ 32 ∧
        (d_rx : ℤ) = ((e.rx : ℤ) - s.last_rx) % 2 ^ 32 ∧
        (e_sensor_node.update_battery CLOCK_SECOND e s).battery_level =
          f32_sub s.battery_level (battery_debit CLOCK_SECOND d_cpu d_lpm d_tx d_rx) ∧
        0 ≤ battery_debit CLOCK_SECOND d_cpu d_lpm d_tx d_rx ∧
        ((d_cpu : ℚ) * 0.2 + (d_lpm : ℚ) * 0.02 + (d_tx : ℚ) * 1.0 + (d_rx : ℚ) * 1.0) /
            CLOCK_SECOND * (1 - 1 / 1048576) ≤
          battery_debit CLOCK_SECOND d_cpu d_lpm d_tx d_rx ∧
        battery_debit CLOCK_SECOND d_cpu d_lpm d_tx d_rx ≤
          ((d_cpu : ℚ) * 0.2 + (d_lpm : ℚ) * 0.02 + (d_tx : ℚ) * 1.0 + (d_rx : ℚ) * 1.0) /
            CLOCK_SECOND * (1 + 1 / 1048576) ∧
        (f32_round s.battery_level = s.battery_level →
          (e_sensor_node.update_battery CLOCK_SECOND e s).battery_level ≤ s.battery_level) ∧
        (e_sensor_node.update_battery CLOCK_SECOND e s).last_cpu = e.cpu ∧
        (e_sensor_node.update_battery CLOCK_SECOND e s).last_lpm = e.lpm ∧
        (e_sensor_node.update_battery CLOCK_SECOND e s).last_tx = e.tx ∧
        (e_sensor_node.update_battery CLOCK_SECOND e s).last_rx = e.rx) ∧
    (∀ s : e_border_router.state,
      ∃ d_cpu d_lpm d_tx d_rx : Nat,
        (d_cpu : ℤ) = ((e.cpu : ℤ) - s.last_cpu) % 2 ^ 32 ∧
        (d_lpm : ℤ) = ((e.lpm : ℤ) - s.last_lpm) % 2 ^ 32 ∧
        (d_tx : ℤ) = ((e.tx : ℤ) - s.last_tx) % 2 ^ 32 ∧
        (d_rx : ℤ) = ((e.rx : ℤ) - s.last_rx) % 2 ^ 32 ∧
        (e_border_router.update_battery CLOCK_SECOND e s).battery_level =
          f32_sub s.battery_level (battery_debit CLOCK_SECOND d_cpu d_lpm d_tx d_rx) ∧
        0 ≤ battery_debit CLOCK_SECOND d_cpu d_lpm d_tx d_rx ∧
        ((d_cpu : ℚ) * 0.2 + (d_lpm : ℚ) * 0.02 + (d_tx : ℚ) * 1.0 + (d_rx : ℚ) * 1.0) /
            CLOCK_SECOND * (1 - 1 / 1048576) ≤
          battery_debit CLOCK_SECOND d_cpu d_lpm d_tx d_rx ∧
        battery_debit CLOCK_SECOND d_cpu d_lpm d_tx d_rx ≤
          ((d_cpu : ℚ) * 0.2 + (d_lpm : ℚ) * 0.02 + (d_tx : ℚ) * 1.0 + (d_rx : ℚ) * 1.0) /
            CLOCK_SECOND * (1 + 1 / 1048576) ∧
        (f32_round s.battery_level = s.battery_level →
          (e_border_router.update_battery CLOCK_SECOND e s).battery_level ≤ s.battery_level) ∧
        (e_border_router.update_battery CLOCK_SECOND e s).last_cpu = e.cpu ∧
        (e_border_router.update_battery CLOCK_SECOND e s).last_lpm = e.lpm ∧
        (e_border_router.update_battery CLOCK_SECOND e s).last_tx = e.tx ∧
        (e_border_router.update_battery CLOCK_SECOND e s).last_rx = e.rx) := by
  refine ⟨fun s => ?_, fun s => ?_, fun s => ?_⟩
  · obtain ⟨d1, d2, d3, d4, h1, h2, h3, h4, heq, h0, hlo, hhi, hle⟩ :=
      update_battery_debit_facts CLOCK_SECOND hCS hCS32 e s.battery_level s.last_cpu s.last_lpm
        s.last_tx s.last_rx
    exact ⟨d1, d2, d3, d4, h1, h2, h3, h4, heq, h0, hlo, hhi, fun hb => le_of_eq_of_le heq (hle hb),
      Nat.mod_eq_of_lt hcpu, Nat.mod_eq_of_lt hlpm, Nat.mod_eq_of_lt htx,
      Nat.mod_eq_of_lt hrx⟩
  · obtain ⟨d1, d2, d3, d4, h1, h2, h3, h4, heq, h0, hlo, hhi, hle⟩ :=
      update_battery_debit_facts CLOCK_SECOND hCS hCS32 e s.battery_level s.last_cpu s.last_lpm
        s.last_tx s.last_rx
    exact ⟨d1, d2, d3, d4, h1, h2, h3, h4, heq, h0, hlo, hhi, fun hb => le_of_eq_of_le heq (hle hb),
      Nat.mod_eq_of_lt hcpu, Nat.mod_eq_of_lt hlpm, Nat.mod_eq_of_lt htx,
      Nat.mod_eq_of_lt hrx⟩
  · obtain ⟨d1, d2, d3, d4, h1, h2, h3, h4, heq, h0, hlo, hhi, hle⟩ :=
      update_battery_debit_facts CLOCK_SECOND hCS hCS32 e s.battery_level s.last_cpu s.last_lpm
        s.last_tx s.last_rx
    exact ⟨d1, d2, d3, d4, h1, h2, h3, h4, heq, h0, hlo, hhi, fun hb => le_of_eq_of_le heq (hle hb),
      Nat.mod_eq_of_lt hcpu, Nat.mod_eq_of_lt hlpm, Nat.mod_eq_of_lt htx,
      Nat.mod_eq_of_lt hrx⟩

/-- Instance of the amended C9 for the energised sensor node with `CLOCK_SECOND = 128`,
snapshot `(0, 0, 0, 0)`, counters `(64, 64, 128, 0)` and battery 5: the deltas are
`(64, 64, 128, 0)`, the debit is that of `battery_debit 128 64 64 128 0`, it lies between
`1.11·(1 - 2^-20)` and `1.11·(1 + 2^-20)`, the battery does not increase and the snapshot
becomes `(64, 64, 128, 0)`. -/
theorem C9_update_battery_debit_witness :
    (e_sensor_node.update_battery 128 ⟨64, 64, 128, 0⟩ low_sensor).battery_level =
      f32_sub 5 (battery_debit 128 64 64 128 0) ∧
    (111 / 100 : ℚ) * (1 - 1 / 1048576) ≤ battery_debit 128 64 64 128 0 ∧
    battery_debit 128 64 64 128 0 ≤ (111 / 100 : ℚ) * (1 + 1 / 1048576) ∧
    (e_sensor_node.update_battery 128 ⟨64, 64, 128, 0⟩ low_sensor).battery_level ≤ 5 ∧
    (e_sensor_node.update_battery 128 ⟨64, 64, 128, 0⟩ low_sensor).last_tx = 128 := by
  obtain ⟨d1, d2, d3, d4, h1, h2, h3, h4, heq, _, hlo, hhi, hle, _, _, htx, _⟩ :=
    (C9_update_battery_debit 128 ⟨64, 64, 128, 0⟩ (by norm_num) (by norm_num) (by norm_num)
      (by norm_num) (by norm_num) (by norm_num)).2.1 low_sensor
  have e1 : d1 = 64 := by
    have : (d1 : ℤ) = 64 := by rw [h1]; rfl
    omega
  have e2 : d2 = 64 := by
    have : (d2 : ℤ) = 64 := by rw [h2]; rfl
    omega
  have e3 : d3 = 128 := by
    have : (d3 : ℤ) = 128 := by rw [h3]; rfl
    omega
  have e4 : d4 = 0 := by
    have : (d4 : ℤ) = 0 := by rw [h4]; rfl
    omega
  subst e1 e2 e3 e4
  refine ⟨heq, ?_, ?_, hle f32_round_5, htx⟩
  · refine le_trans (le_of_eq ?_) hlo
    norm_num
  · refine le_trans hhi (le_of_eq ?_)
    norm_num

/-- The Sensor and Computation roles do keep the bound that the Border misses: an energy
tick started with battery ≤ `BATTERY_MAX` ends with battery ≤ `BATTERY_MAX`, and no frame or
timer handler raises the battery level. -/
theorem sensor_computation_battery_le_max (CLOCK_SECOND LINKADDR_SIZE : Nat) :
    (∀ (e : energest_t) (s : e_sensor_node.state), s.battery_level ≤ BATTERY_MAX →
      (e_sensor_node.energy_tick CLOCK_SECOND e s).1.battery_level ≤ BATTERY_MAX) ∧
    (∀ (e : energest_t) (s : e_computation_node.state), s.battery_level ≤ BATTERY_MAX →
      (e_computation_node.energy_tick CLOCK_SECOND e s).1.battery_level ≤ BATTERY_MAX) ∧
    (∀ (s : e_sensor_node.state) (data : List Nat) (src : linkaddr_t),
      (e_sensor_node.input_callback CLOCK_SECOND s data src).1.battery_level ≤
        s.battery_level) ∧
    (∀ (s : e_computation_node.state) (data : List Nat) (src : linkaddr_t),
      (e_computation_node.input_callback LINKADDR_SIZE s data src).1.battery_level ≤
        s.battery_level) ∧
    (∀ (undef : Nat) (s : e_sensor_node.state),
      (e_sensor_node.hello_tick undef s).1.battery_level ≤ s.battery_level) ∧
    (∀ (undef : Nat) (s : e_computation_node.state),
      (e_computation_node.hello_tick undef s).1.battery_level ≤ s.battery_level) ∧
    (∀ (rnd : Nat) (s : e_sensor_node.state),
      (e_sensor_node.sensor_tick rnd s).1.battery_level ≤ s.battery_level) ∧
    (∀ s : e_sensor_node.state,
      (e_sensor_node.valve_tick s).1.battery_level ≤ s.battery_level) := by
  refine ⟨?_, ?_, ?_, ?_, ?_, ?_, ?_, ?_⟩
  · intro e s hs
    have hu : (e_sensor_node.update_battery CLOCK_SECOND e s).battery_level ≤ BATTERY_MAX := by
      simp only [e_sensor_node.update_battery]
      rw [BATTERY_MAX_eq] at hs ⊢
      exact_mod_cast f32_sub_le_nat _ _ 100 (by norm_num) (by exact_mod_cast hs)
        (battery_debit_nonneg CLOCK_SECOND (u32_sub e.cpu s.last_cpu)
          (u32_sub e.lpm s.last_lpm) (u32_sub e.tx s.last_tx) (u32_sub e.rx s.last_rx))
    simp only [e_sensor_node.energy_tick]
    rw [(e_sensor_transitions _).2]
    generalize e_sensor_node.update_battery CLOCK_SECOND e s = u at hu
    unfold e_sensor_node.energy_recharge
    simp only []
    split_ifs <;> first | exact hu | exact le_refl _ | (simp only []; linarith)
  · intro e s hs
    have hu : (e_computation_node.update_battery CLOCK_SECOND e s).battery_level ≤
        BATTERY_MAX := by
      simp only [e_computation_node.update_battery]
      rw [BATTERY_MAX_eq] at hs ⊢
      exact_mod_cast f32_sub_le_nat _ _ 100 (by norm_num) (by exact_mod_cast hs)
        (battery_debit_nonneg CLOCK_SECOND (u32_sub e.cpu s.last_cpu)
          (u32_sub e.lpm s.last_lpm) (u32_sub e.tx s.last_tx) (u32_sub e.rx s.last_rx))
    simp only [e_computation_node.energy_tick]
    rw [(e_computation_transitions _).2]
    generalize e_computation_node.update_battery CLOCK_SECOND e s = u at hu
    unfold e_computation_node.energy_recharge
    simp only []
    split_ifs <;> first | exact hu | exact le_refl _ | (simp only []; linarith)
  · intro s data src
    unfold e_sensor_node.input_callback e_sensor_node.on_hello
    simp only []
    split_ifs <;> first | exact le_refl _ | (simp only [COST_VALVE_RX]; linarith)
  · intro s data src
    unfold e_computation_node.input_callback e_computation_node.on_hello
      e_computation_node.on_sensor
    simp only []
    split_ifs
    any_goals exact le_refl _
    · split
      · split_ifs
        · simp only [COST_COMMAND_TX]
          linarith
        · exact le_refl _
      · exact le_refl _
    · simp only [COST_SENSOR_TX]
      linarith
  · intro undef s
    simp only [e_sensor_node.hello_tick, e_sensor_node.broadcast_rank, COST_HELLO]
    linarith
  · intro undef s
    simp only [e_computation_node.hello_tick, e_computation_node.broadcast_rank, COST_HELLO]
    linarith
  · intro rnd s
    unfold e_sensor_node.sensor_tick
    simp only []
    split_ifs <;> first | exact le_refl _ | (simp only [COST_SENSOR_TX]; linarith)
  · intro s
    exact le_refl _

/-! ## Tree maintenance: unjoined advertisements and the root -/

theorem e_computation_hello_unjoined (LINKADDR_SIZE e st : Nat) (src : linkaddr_t)
    (s : e_computation_node.state) :
    e_computation_node.input_callback LINKADDR_SIZE s [1, 255, 255, e, st] src = (s, []) := by
  have hdec := hello_rank_decode 255 255 (by decide) (by decide)
  simp only [e_computation_node.input_callback, e_computation_node.on_hello, List.length_cons,
    List.length_nil, List.getD_cons_zero, List.getD_cons_succ, hdec]
  simp

theorem e_sensor_hello_unjoined (CLOCK_SECOND e st : Nat) (src : linkaddr_t)
    (s : e_sensor_node.state) :
    e_sensor_node.input_callback CLOCK_SECOND s [1, 255, 255, e, st] src = (s, []) := by
  have hdec := hello_rank_decode 255 255 (by decide) (by decide)
  simp only [e_sensor_node.input_callback, e_sensor_node.on_hello, List.length_cons,
    List.length_nil, List.getD_cons_zero, List.getD_cons_succ, hdec]
  simp

theorem u16_unjoined : u16_of_bytes 255 255 = 65535 := by decide

/-- C14 (an unjoined advertisement is ignored). A HELLO that advertises rank `0xFFFF` (the
5-byte frame `[1, 255, 255, energy, state]` in the energised dialect, the 2-byte frame
`[255, 255]` in the energy-unaware dialect) leaves the whole node state unchanged, so in
particular `my_rank`, `parent` and `parent_energy`, and produces no effect, for every source
address and every current rank of a 16-bit `my_rank` (`0xFFFF` included), in the five node
programs that process HELLOs. -/
theorem C14_unjoined_hello_ignored (LINKADDR_SIZE CLOCK_SECOND : Nat) (src : linkaddr_t) :
    (∀ (s : e_computation_node.state) (energy st : Nat),
      e_computation_node.input_callback LINKADDR_SIZE s [1, 255, 255, energy, st] src =
        (s, [])) ∧
    (∀ (s : e_sensor_node.state) (energy st : Nat),
      e_sensor_node.input_callback CLOCK_SECOND s [1, 255, 255, energy, st] src = (s, [])) ∧
    (∀ (now : Nat) (s : computation_node.state), s.my_rank ≤ 0xFFFF →
      computation_node.input_callback LINKADDR_SIZE now s [255, 255] src = (s, [])) ∧
    (∀ (s : sensor_node.state), s.my_rank ≤ 0xFFFF →
      sensor_node.input_callback CLOCK_SECOND s [255, 255] src = (s, [])) ∧
    (∀ (s : border_router.state), s.my_rank ≤ 0xFFFF →
      border_router.input_callback s [255, 255] src = (s, [])) := by
  refine ⟨fun s e st => e_computation_hello_unjoined LINKADDR_SIZE e st src s,
    fun s e st => e_sensor_hello_unjoined CLOCK_SECOND e st src s, ?_, ?_, ?_⟩
  · intro now s hs
    have h : ¬ (65535 + 1 < s.my_rank) := by omega
    simp only [computation_node.input_callback, computation_node.on_hello, List.length_cons,
      List.length_nil, List.getD_cons_zero, List.getD_cons_succ, u16_unjoined]
    simp [h]
  · intro s hs
    have h : ¬ (65535 + 1 < s.my_rank) := by omega
    simp only [sensor_node.input_callback, List.length_cons,
      List.length_nil, List.getD_cons_zero, List.getD_cons_succ, u16_unjoined]
    simp [h]
  · intro s hs
    have h : ¬ (65535 + 1 < s.my_rank) := by omega
    simp only [border_router.input_callback, List.length_cons,
      List.length_nil, List.getD_cons_zero, List.getD_cons_succ, u16_unjoined]
    simp [h]

/-- Instance of C14 at the energy-unaware sensor node of rank 2 and at an unjoined-rank copy
of it: the HELLO `[255, 255]` from `[9, 0]` changes nothing. -/
theorem C14_unjoined_hello_ignored_witness :
    sensor_node.input_callback 128 plain_sensor [255, 255] [9, 0] = (plain_sensor, []) ∧
    sensor_node.input_callback 128 { plain_sensor with my_rank := 0xFFFF } [255, 255] [9, 0] =
      ({ plain_sensor with my_rank := 0xFFFF }, []) :=
  ⟨(C14_unjoined_hello_ignored 2 128 [9, 0]).2.2.2.1 plain_sensor (by decide),
   (C14_unjoined_hello_ignored 2 128 [9, 0]).2.2.2.1 { plain_sensor with my_rank := 0xFFFF }
     (by decide)⟩

theorem e_computation_on_hello_root (s : e_computation_node.state) (data : List Nat)
    (src : linkaddr_t) (h0 : s.my_rank = 0) :
    (e_computation_node.on_hello s data src).1.my_rank = 0 ∧
    (e_computation_node.on_hello s data src).1.parent = s.parent := by
  unfold e_computation_node.on_hello
  simp only []
  split_ifs with h1 h2 h3
  · exfalso
    have hlt : (data.getD 1 0 <<< 8 ||| data.getD 2 0) % 65536 < 65536 :=
      Nat.mod_lt _ (by decide)
    rw [h0] at h2
    rcases h2 with h2 | h2
    · exact Nat.not_lt_zero _ h2
    · have := h2.1
      omega
  · exact ⟨h0, rfl⟩
  · exact ⟨h0, rfl⟩
  · exact ⟨h0, rfl⟩

theorem e_sensor_on_hello_root (CLOCK_SECOND : Nat) (s : e_sensor_node.state)
    (data : List Nat) (src : linkaddr_t) (h0 : s.my_rank = 0) :
    (e_sensor_node.on_hello CLOCK_SECOND s data src).1.my_rank = 0 ∧
    (e_sensor_node.on_hello CLOCK_SECOND s data src).1.parent = s.parent := by
  unfold e_sensor_node.on_hello
  simp only []
  by_cases h1 : (data.getD 1 0 <<< 8 ||| data.getD 2 0) % 65536 ≠ 65535
  · have hno : ¬ (((data.getD 1 0 <<< 8 ||| data.getD 2 0) % 65536 + 1) % 65536 < s.my_rank ∨
        (((data.getD 1 0 <<< 8 ||| data.getD 2 0) % 65536 + 1) % 65536 = s.my_rank ∧
          linkaddr_cmp src s.parent = false ∧
          data.getD 3 0 > s.parent_energy + ENERGY_DIFF_THRESHOLD)) := by
      have hlt : (data.getD 1 0 <<< 8 ||| data.getD 2 0) % 65536 < 65536 :=
        Nat.mod_lt _ (by decide)
      rw [h0]
      rintro (h2 | h2)
      · exact Nat.not_lt_zero _ h2
      · have := h2.1
        omega
    rw [if_pos h1, if_neg hno]
    split_ifs <;> exact ⟨h0, rfl⟩
  · rw [if_neg h1]
    exact ⟨h0, rfl⟩

/-- C15 (root pinning). A node whose `my_rank` is 0 has `my_rank = 0` and the same parent
address after `input_callback`, for every inbound frame (any length, any bytes, any source),
in the energised Computation and Sensor nodes and in the three energy-unaware nodes; the
energised Border, which keeps no parent, keeps `my_rank`. -/
theorem C15_root_pinned (LINKADDR_SIZE CLOCK_SECOND : Nat) (data : List Nat)
    (src : linkaddr_t) :
    (∀ s : e_computation_node.state, s.my_rank = 0 →
      (e_computation_node.input_callback LINKADDR_SIZE s data src).1.my_rank = 0 ∧
      (e_computation_node.input_callback LINKADDR_SIZE s data src).1.parent = s.parent) ∧
    (∀ s : e_sensor_node.state, s.my_rank = 0 →
      (e_sensor_node.input_callback CLOCK_SECOND s data src).1.my_rank = 0 ∧
      (e_sensor_node.input_callback CLOCK_SECOND s data src).1.parent = s.parent) ∧
    (∀ s : e_border_router.state, s.my_rank = 0 →
      (e_border_router.input_callback s data src).1.my_rank = 0) ∧
    (∀ (now : Nat) (s : computation_node.state), s.my_rank = 0 →
      (computation_node.input_callback LINKADDR_SIZE now s data src).1.my_rank = 0 ∧
      (computation_node.input_callback LINKADDR_SIZE now s data src).1.parent = s.parent) ∧
    (∀ s : sensor_node.state, s.my_rank = 0 →
      (sensor_node.input_callback CLOCK_SECOND s data src).1.my_rank = 0 ∧
      (sensor_node.input_callback CLOCK_SECOND s data src).1.parent = s.parent) ∧
    (∀ s : border_router.state, s.my_rank = 0 →
      (border_router.input_callback s data src).1.my_rank = 0 ∧
      (border_router.input_callback s data src).1.parent = s.parent) := by
  refine ⟨?_, ?_, ?_, ?_, ?_, ?_⟩
  · intro s h0
    unfold e_computation_node.input_callback
    simp only []
    split_ifs with h1 h2
    · exact e_computation_on_hello_root s data src h0
    · have := e_computation_on_sensor_rank LINKADDR_SIZE s data
      exact ⟨this.1.trans h0, this.2.1⟩
    · exact ⟨h0, rfl⟩
  · intro s h0
    unfold e_sensor_node.input_callback
    simp only []
    split_ifs with h1 h2
    · exact ⟨h0, rfl⟩
    · exact e_sensor_on_hello_root CLOCK_SECOND s data src h0
    · exact ⟨h0, rfl⟩
  · intro s h0
    unfold e_border_router.input_callback
    simp only []
    split_ifs <;> exact h0
  · intro now s h0
    unfold computation_node.input_callback computation_node.on_hello
    simp only []
    split_ifs with h1 h2 h3
    · rw [h0] at h2
      exact absurd h2 (Nat.not_lt_zero _)
    · exact ⟨h0, rfl⟩
    · have := computation_on_sensor_rank LINKADDR_SIZE now s data
      exact ⟨this.1.trans h0, this.2⟩
    · exact ⟨h0, rfl⟩
  · intro s h0
    unfold sensor_node.input_callback
    simp only []
    split_ifs with h1 h2 h3 h4
    · rw [h0] at h2
      exact absurd h2 (Nat.not_lt_zero _)
    all_goals exact ⟨h0, rfl⟩
  · intro s h0
    unfold border_router.input_callback
    simp only []
    split_ifs with h1 h2 h3 h4
    · rw [h0] at h2
      exact absurd h2 (Nat.not_lt_zero _)
    all_goals exact ⟨h0, rfl⟩

/-- Instance of C15 at the energy-unaware root for the HELLO `[0, 0]` (advertised rank 0)
from `[9, 0]`: the rank stays 0 and the parent stays `[0, 0]`. -/
theorem C15_root_pinned_witness :
    (border_router.input_callback plain_border [0, 0] [9, 0]).1.my_rank = 0 ∧
    (border_router.input_callback plain_border [0, 0] [9, 0]).1.parent = [0, 0] :=
  (C15_root_pinned 2 128 [0, 0] [9, 0]).2.2.2.2.2 plain_border rfl

/-! ## Frame rejection -/

theorem getD_take_four (data : List Nat) (i : Nat) (hi : i < 4) :
    (data.take 4).getD i 0 = data.getD i 0 := by
  rw [List.getD_eq_getElem?_getD, List.getD_eq_getElem?_getD, List.getElem?_take, if_pos hi]

theorem computation_on_sensor_take (LINKADDR_SIZE now : Nat) (s : computation_node.state)
    (data : List Nat) :
    computation_node.on_sensor LINKADDR_SIZE now s (data.take 4) =
      computation_node.on_sensor LINKADDR_SIZE now s data := by
  unfold computation_node.on_sensor
  simp only [getD_take_four data 1 (by decide), getD_take_four data 2 (by decide),
    getD_take_four data 3 (by decide)]

/-- C11, refuted as stated: the energy-unaware Computation node with an empty window table
receives the 5-byte frame `[2, 7, 5, 0, 99]`; 5 is not a frame length of its dialect, yet the
node state changes (a window for sensor 7 is allocated and the reading 5 stored). -/
theorem C11_counterexample_long_sensor_frame :
    [2, 7, 5, 0, 99].length = 5 ∧
    (computation_node.input_callback 2 0 fresh_computation [2, 7, 5, 0, 99] [7, 0]).1 ≠
      fresh_computation ∧
    ((computation_node.input_callback 2 0 fresh_computation [2, 7, 5, 0, 99]
      [7, 0]).1.sensors.getD 0 computation_node.zero_window).count = 1 := by
  decide

/-- C11, amended. A frame whose length is neither 4 nor 5 is dropped by the three energised
nodes, and a frame whose length is neither 2 nor 4 is dropped by the energy-unaware Sensor and
Border nodes: `input_callback` returns the state unchanged and produces no effect, whatever
the bytes are. The energy-unaware Computation node tests `len >= 4`: it drops a frame whose
length is not 2 when the frame is shorter than 4 bytes or its first byte is not 2, and it
handles every frame of at least 4 bytes whose first byte is 2 exactly like the SENSOR frame
made of its first four bytes. -/
theorem C11_frame_rejection (LINKADDR_SIZE CLOCK_SECOND : Nat) (data : List Nat)
    (src : linkaddr_t) :
    (data.length ≠ 4 → data.length ≠ 5 →
      (∀ s : e_computation_node.state,
        e_computation_node.input_callback LINKADDR_SIZE s data src = (s, [])) ∧
      (∀ s : e_sensor_node.state,
        e_sensor_node.input_callback CLOCK_SECOND s data src = (s, [])) ∧
      (∀ s : e_border_router.state, e_border_router.input_callback s data src = (s, []))) ∧
    (data.length ≠ 2 → data.length ≠ 4 →
      (∀ s : sensor_node.state, sensor_node.input_callback CLOCK_SECOND s data src = (s, [])) ∧
      (∀ s : border_router.state, border_router.input_callback s data src = (s, []))) ∧
    (data.length ≠ 2 → (data.length < 4 ∨ data.getD 0 0 ≠ 2) →
      ∀ (now : Nat) (s : computation_node.state),
        computation_node.input_callback LINKADDR_SIZE now s data src = (s, [])) ∧
    (data.length ≥ 4 → data.getD 0 0 = 2 →
      ∀ (now : Nat) (s : computation_node.state),
        computation_node.input_callback LINKADDR_SIZE now s data src =
          computation_node.input_callback LINKADDR_SIZE now s (data.take 4) src) := by
  refine ⟨fun h4 h5 => ⟨fun s => ?_, fun s => ?_, fun s => ?_⟩,
    fun h2 h4 => ⟨fun s => ?_, fun s => ?_⟩, fun h2 h => fun now s => ?_,
    fun h4 h0 => fun now s => ?_⟩
  · unfold e_computation_node.input_callback
    simp only []
    rw [if_neg (fun h => h5 h.1), if_neg (fun h => h4 h.1)]
  · unfold e_sensor_node.input_callback
    simp only []
    rw [if_neg (fun h => h4 h.1), if_neg (fun h => h5 h.1)]
  · unfold e_border_router.input_callback
    simp only []
    rw [if_neg h4]
  · unfold sensor_node.input_callback
    simp only []
    rw [if_neg h2, if_neg h4]
  · unfold border_router.input_callback
    simp only []
    rw [if_neg h2, if_neg h4]
  · unfold computation_node.input_callback
    simp only []
    have hno : ¬ (data.length ≥ 4 ∧ data.getD 0 0 = 2) := by
      rintro ⟨ha, hb⟩
      rcases h with h | h
      · omega
      · exact h hb
    rw [if_neg h2, if_neg hno]
  · have hlen : (data.take 4).length = 4 := by
      rw [List.length_take]
      omega
    unfold computation_node.input_callback
    simp only []
    rw [if_neg (by omega : ¬ data.length = 2), if_pos ⟨h4, h0⟩, hlen,
      if_neg (by decide : ¬ (4 = 2)),
      if_pos ⟨by decide, (getD_take_four data 0 (by decide)).trans h0⟩,
      computation_on_sensor_take]

/-- Instances of the amended C11: the 3-byte frame `[2, 7, 5]` is dropped by the energised
sensor node and by the energy-unaware computation node, and the 5-byte frame
`[2, 7, 5, 0, 99]` is handled by the energy-unaware computation node like `[2, 7, 5, 0]`. -/
theorem C11_frame_rejection_witness :
    e_sensor_node.input_callback 128 low_sensor [2, 7, 5] [7, 0] = (low_sensor, []) ∧
    computation_node.input_callback 2 0 fresh_computation [2, 7, 5] [7, 0] =
      (fresh_computation, []) ∧
    computation_node.input_callback 2 0 fresh_computation [2, 7, 5, 0, 99] [7, 0] =
      computation_node.input_callback 2 0 fresh_computation [2, 7, 5, 0] [7, 0] :=
  ⟨((C11_frame_rejection 2 128 [2, 7, 5] [7, 0]).1 (by decide) (by decide)).2.1 low_sensor,
   (C11_frame_rejection 2 128 [2, 7, 5] [7, 0]).2.2.1 (by decide) (Or.inl (by decide)) 0
     fresh_computation,
   (C11_frame_rejection 2 128 [2, 7, 5, 0, 99] [7, 0]).2.2.2 (by decide) rfl 0
     fresh_computation⟩

/-! ## Command path -/

theorem e_sensor_on_command (CLOCK_SECOND : Nat) (s : e_sensor_node.state) (data : List Nat)
    (src : linkaddr_t) (hlen : data.length = 4) (htype : data.getD 0 0 = 3) :
    e_sensor_node.input_callback CLOCK_SECOND s data src =
      ({ s with battery_level := s.battery_level - COST_VALVE_RX, valve_open := true },
        [effect.leds_on_red,
         effect.etimer_set timer_id.valve_timer (VALVE_DURATION CLOCK_SECOND),
         effect.printf (log_t.process_valve_open (s.linkaddr_node_addr.headD 0))]) := by
  unfold e_sensor_node.input_callback
  simp only []
  rw [if_pos ⟨hlen, htype⟩]

theorem sensor_on_command (CLOCK_SECOND : Nat) (s : sensor_node.state) (data : List Nat)
    (src : linkaddr_t) (hlen : data.length = 4) (htype : data.getD 0 0 = 3) :
    sensor_node.input_callback CLOCK_SECOND s data src =
      if u16_of_bytes (data.getD 2 0) (data.getD 3 0) = 1 then
        ({ s with valve_open := true },
          [effect.leds_on_red,
           effect.etimer_set timer_id.valve_timer (VALVE_DURATION CLOCK_SECOND),
           effect.printf (log_t.process_valve_open (s.linkaddr_node_addr.headD 0))])
      else (s, []) := by
  unfold sensor_node.input_callback
  simp only []
  rw [if_neg (by rw [hlen]; decide), if_pos hlen]
  by_cases hc : u16_of_bytes (data.getD 2 0) (data.getD 3 0) = 1
  · rw [if_pos ⟨htype, hc⟩, if_pos hc]
  · rw [if_neg (fun h => hc h.2), if_neg hc]

/-- C16, the defect evaluated. An energised node that has not joined (rank `0xFFFF`, parent
`[0, 0]`, parent energy 0) receives the HELLO `[1, 255, 254, 80, 0]` (advertised rank 65534,
energy 80) from `[5, 0]`. The equal-rank branch fires with `cand = 65535 = my_rank`: the node
adopts `[5, 0]` while its rank stays the sentinel `0xFFFF`, and the Sensor node arms its
sampling timer. The energy-unaware Sensor node ignores the same advertisement (`[254, 255]`),
and its HELLO branch arms the sampling timer only under `my_rank != 0xFFFF`. -/
theorem C16_adoption_with_unjoined_rank :
    (unjoined_e_sensor.my_rank = 0xFFFF ∧
      (e_sensor_node.input_callback 128 unjoined_e_sensor [1, 255, 254, 80, 0] [5, 0]).1.parent =
        [5, 0] ∧
      (e_sensor_node.input_callback 128 unjoined_e_sensor [1, 255, 254, 80, 0]
        [5, 0]).1.my_rank = 0xFFFF ∧
      (e_sensor_node.input_callback 128 unjoined_e_sensor [1, 255, 254, 80, 0] [5, 0]).2 =
        [effect.printf (log_t.tree_new_parent 7 5 65535 (some 80)),
         effect.etimer_set timer_id.sensor_timer (SENSOR_INTERVAL 128)]) ∧
    (unjoined_e_computation.my_rank = 0xFFFF ∧
      (e_computation_node.input_callback 2 unjoined_e_computation [1, 255, 254, 80, 0]
        [5, 0]).1.parent = [5, 0] ∧
      (e_computation_node.input_callback 2 unjoined_e_computation [1, 255, 254, 80, 0]
        [5, 0]).1.my_rank = 0xFFFF) ∧
    (sensor_node.input_callback 128 unjoined_sensor [254, 255] [5, 0] = (unjoined_sensor, []) ∧
      (sensor_node.hello_tick 128 unjoined_sensor).1.sensor_timer_started = false) := by
  have hs := e_sensor_hello 128 255 254 80 0 [5, 0] unjoined_e_sensor (by decide) (by decide)
    (by decide)
  have hc := e_computation_hello 2 255 254 80 0 [5, 0] unjoined_e_computation (by decide)
    (by decide) (by decide)
  rw [if_pos (by decide)] at hs hc
  rw [hs, hc]
  exact ⟨⟨by decide, rfl, rfl, rfl⟩, ⟨by decide, rfl, rfl⟩, by decide, by decide⟩

/-! ## Window table full -/

theorem e_get_window_full (t : List e_computation_node.sensor_window_t) (sid : Nat)
    (hfull : ∀ i, i < MAX_SENSORS →
      (t.getD i e_computation_node.zero_window).count > 0 ∧
      (t.getD i e_computation_node.zero_window).id ≠ sid) :
    e_computation_node.get_window t sid = (none, t) := by
  unfold e_computation_node.get_window
  rw [first_index_none_of_forall _ MAX_SENSORS 0 (fun k _ hk => by
    have := (hfull k (by omega)).2
    show (decide _ && decide _) = false
    rw [decide_eq_false this, Bool.and_false])]
  simp only []
  rw [first_index_none_of_forall _ MAX_SENSORS 0 (fun k _ hk => by
    have := (hfull k (by omega)).1
    exact decide_eq_false (by omega))]

theorem expire_fold_fresh (now : Nat) (t : List computation_node.sensor_window_t) (n : Nat)
    (hfresh : ∀ i, i < n →
      ¬ ((t.getD i computation_node.zero_window).count > 0 ∧
         u32_sub now (t.getD i computation_node.zero_window).last_ts > WINDOW_EXPIRY)) :
    (List.range n).foldl (computation_node.expire_step now) t = t := by
  induction n with
  | zero => rfl
  | succ n ih =>
    rw [List.range_succ, List.foldl_append, ih (fun i hi => hfresh i (Nat.lt_succ_of_lt hi))]
    simp only [List.foldl_cons, List.foldl_nil]
    unfold computation_node.expire_step
    rw [if_neg (hfresh n (Nat.lt_succ_self n))]

theorem expire_fold_length (now : Nat) (t : List computation_node.sensor_window_t) (n : Nat) :
    ((List.range n).foldl (computation_node.expire_step now) t).length = t.length := by
  induction n with
  | zero => rfl
  | succ n ih =>
    rw [List.range_succ, List.foldl_append]
    simp only [List.foldl_cons, List.foldl_nil]
    generalize List.foldl (computation_node.expire_step now) t (List.range n) = T at ih ⊢
    unfold computation_node.expire_step
    split_ifs
    · rw [List.length_set, ih]
    · exact ih

theorem c_get_window_full (now : Nat) (t : List computation_node.sensor_window_t) (sid : Nat)
    (hfull : ∀ i, i < MAX_SENSORS →
      (t.getD i computation_node.zero_window).count > 0 ∧
      (t.getD i computation_node.zero_window).id ≠ sid ∧
      u32_sub now (t.getD i computation_node.zero_window).last_ts ≤ WINDOW_EXPIRY) :
    computation_node.get_window now t sid = (none, t) := by
  have hexp : computation_node.expire_windows now t = t :=
    expire_fold_fresh now t MAX_SENSORS (fun i hi h => by
      have := (hfull i hi).2.2
      omega)
  unfold computation_node.get_window
  simp only [hexp]
  rw [first_index_none_of_forall _ MAX_SENSORS 0 (fun k _ hk => by
    have := (hfull k (by omega)).2.1
    show (decide _ && decide _) = false
    rw [decide_eq_false this, Bool.and_false])]
  simp only []
  rw [first_index_none_of_forall _ MAX_SENSORS 0 (fun k _ hk => by
    have := (hfull k (by omega)).1
    exact decide_eq_false (by omega))]

theorem e_get_window_length (t : List e_computation_node.sensor_window_t) (sid : Nat) :
    (e_computation_node.get_window t sid).2.length = t.length := by
  unfold e_computation_node.get_window
  split
  · rfl
  · split
    · simp
    · rfl

theorem c_get_window_length (now : Nat) (t : List computation_node.sensor_window_t)
    (sid : Nat) :
    (computation_node.get_window now t sid).2.length = t.length := by
  have hl : (computation_node.expire_windows now t).length = t.length :=
    expire_fold_length now t MAX_SENSORS
  unfold computation_node.get_window
  simp only []
  generalize computation_node.expire_windows now t = T at hl ⊢
  split
  · exact hl
  · split
    · rw [List.length_set]
      exact hl
    · exact hl

theorem e_input_callback_length (LINKADDR_SIZE : Nat) (s : e_computation_node.state)
    (data : List Nat) (src : linkaddr_t) :
    (e_computation_node.input_callback LINKADDR_SIZE s data src).1.sensors.length =
      s.sensors.length := by
  unfold e_computation_node.input_callback
  simp only []
  split_ifs with h1 h2
  · unfold e_computation_node.on_hello
    simp only []
    split_ifs <;> rfl
  · have hl := e_get_window_length s.sensors (data.getD 1 0)
    unfold e_computation_node.on_sensor
    simp only []
    split_ifs with h3
    · split
      · rename_i i sensors heq
        rw [heq] at hl
        split_ifs <;> simp [hl]
      · rename_i sensors heq
        rw [heq] at hl
        exact hl
    · rfl
  · rfl

theorem c_input_callback_length (LINKADDR_SIZE now : Nat) (s : computation_node.state)
    (data : List Nat) (src : linkaddr_t) :
    (computation_node.input_callback LINKADDR_SIZE now s data src).1.sensors.length =
      s.sensors.length := by
  unfold computation_node.input_callback
  simp only []
  split_ifs with h1 h2
  · unfold computation_node.on_hello
    simp only []
    split_ifs <;> rfl
  · have hl := c_get_window_length now s.sensors (data.getD 1 0)
    unfold computation_node.on_sensor
    simp only []
    split
    · rename_i i sensors heq
      rw [heq] at hl
      split_ifs <;> simp [hl]
    · rename_i sensors heq
      rw [heq] at hl
      exact hl
  · rfl

/-- C17, refuted as stated: an energised Computation node in Deep-LPM whose five slots are
occupied by the sensors 1..5 receives the SENSOR frame `[2, 9, 5, 0]` of sensor 9. The table
is left alone, but a frame is emitted: the reading is forwarded unchanged to the parent
`[1, 0]`. -/
theorem C17_counterexample_full_table_deep_lpm :
    (∀ i, i < MAX_SENSORS →
      (full_deep_computation.sensors.getD i e_computation_node.zero_window).count > 0 ∧
      (full_deep_computation.sensors.getD i e_computation_node.zero_window).id ≠ 9) ∧
    outputs_of (e_computation_node.input_callback 2 full_deep_computation [2, 9, 5, 0]
      [9, 0]).2 = [(some [1, 0], [2, 9, 5, 0])] := by
  decide

/-- C17, amended. For a 4-byte SENSOR frame of sensor `sid` and a Computation node whose five
window slots are all occupied (`count > 0`) by ids different from `sid`: in the energised
node that is not in Deep-LPM (in Deep-LPM the frame is forwarded instead), and in the
energy-unaware node when none of the five windows is stale at the clock reading `now`,
`get_window` returns no slot and leaves the table as it is, and `input_callback` returns the
state unchanged with no effect, so the reading is dropped and no frame is emitted. For every
frame the handler keeps the number of slots, so a 5-slot table never holds more than 5
occupied windows. -/
theorem C17_window_table_full (LINKADDR_SIZE : Nat) (data : List Nat) (src : linkaddr_t) :
    (data.length = 4 → data.getD 0 0 = 2 →
      ∀ s : e_computation_node.state,
        s.power_state ≠ power_state_t.STATE_DEEP_LPM →
        (∀ i, i < MAX_SENSORS →
          (s.sensors.getD i e_computation_node.zero_window).count > 0 ∧
          (s.sensors.getD i e_computation_node.zero_window).id ≠ data.getD 1 0) →
        e_computation_node.get_window s.sensors (data.getD 1 0) = (none, s.sensors) ∧
        e_computation_node.input_callback LINKADDR_SIZE s data src = (s, [])) ∧
    (data.length = 4 → data.getD 0 0 = 2 →
      ∀ (now : Nat) (s : computation_node.state),
        (∀ i, i < MAX_SENSORS →
          (s.sensors.getD i computation_node.zero_window).count > 0 ∧
          (s.sensors.getD i computation_node.zero_window).id ≠ data.getD 1 0 ∧
          u32_sub now (s.sensors.getD i computation_node.zero_window).last_ts ≤
            WINDOW_EXPIRY) →
        computation_node.get_window now s.sensors (data.getD 1 0) = (none, s.sensors) ∧
        computation_node.input_callback LINKADDR_SIZE now s data src = (s, [])) ∧
    (∀ s : e_computation_node.state, s.sensors.length = MAX_SENSORS →
      (e_computation_node.input_callback LINKADDR_SIZE s data src).1.sensors.length =
        MAX_SENSORS ∧
      ((e_computation_node.input_callback LINKADDR_SIZE s data src).1.sensors.filter
        (fun w => decide (w.count > 0))).length ≤ MAX_SENSORS) ∧
    (∀ (now : Nat) (s : computation_node.state), s.sensors.length = MAX_SENSORS →
      (computation_node.input_callback LINKADDR_SIZE now s data src).1.sensors.length =
        MAX_SENSORS ∧
      ((computation_node.input_callback LINKADDR_SIZE now s data src).1.sensors.filter
        (fun w => decide (w.count > 0))).length ≤ MAX_SENSORS) := by
  refine ⟨fun hlen htype s hnd hfull => ?_, fun hlen htype now s hfull => ?_,
    fun s hs => ?_, fun now s hs => ?_⟩
  · have hget := e_get_window_full s.sensors (data.getD 1 0) hfull
    refine ⟨hget, ?_⟩
    have h1 : ¬ (data.length = 5 ∧ data.getD 0 0 = 1) := by
      rw [hlen]
      intro h
      exact absurd h.1 (by decide)
    unfold e_computation_node.input_callback
    simp only []
    rw [if_neg h1, if_pos ⟨hlen, htype⟩]
    unfold e_computation_node.on_sensor
    simp only []
    rw [if_pos hnd, hget]
  · have hget := c_get_window_full now s.sensors (data.getD 1 0) hfull
    refine ⟨hget, ?_⟩
    unfold computation_node.input_callback
    simp only []
    rw [if_neg (by omega : ¬ data.length = 2), if_pos ⟨(by omega : data.length ≥ 4), htype⟩]
    unfold computation_node.on_sensor
    simp only []
    rw [hget]
  · have hl := (e_input_callback_length LINKADDR_SIZE s data src).trans hs
    exact ⟨hl, hl ▸ List.length_filter_le _ _⟩
  · have hl := (c_input_callback_length LINKADDR_SIZE now s data src).trans hs
    exact ⟨hl, hl ▸ List.length_filter_le _ _⟩

/-- Instances of the amended C17 for the frame `[2, 9, 5, 0]` of sensor 9 and tables whose
five slots hold the sensors 1..5: the Active energised node and the energy-unaware node (at
clock reading 1100, windows stamped 1000) drop the reading. -/
theorem C17_window_table_full_witness :
    e_computation_node.input_callback 2 full_e_computation [2, 9, 5, 0] [9, 0] =
      (full_e_computation, []) ∧
    computation_node.input_callback 2 1100 full_computation [2, 9, 5, 0] [9, 0] =
      (full_computation, []) ∧
    (computation_node.input_callback 2 1100 full_computation [2, 9, 5, 0]
      [9, 0]).1.sensors.length = MAX_SENSORS :=
  ⟨((C17_window_table_full 2 [2, 9, 5, 0] [9, 0]).1 rfl rfl full_e_computation (by decide)
      (by decide)).2,
   ((C17_window_table_full 2 [2, 9, 5, 0] [9, 0]).2.1 rfl rfl 1100 full_computation
      (by decide)).2,
   ((C17_window_table_full 2 [2, 9, 5, 0] [9, 0]).2.2.2 1100 full_computation (by decide)).1⟩

/-! ## Event costs -/

theorem e_computation_on_hello_outputs (s : e_computation_node.state) (data : List Nat)
    (src : linkaddr_t) :
    outputs_of (e_computation_node.on_hello s data src).2 = [] := by
  unfold e_computation_node.on_hello
  simp only []
  split_ifs <;> rfl

theorem e_computation_command_cost (LINKADDR_SIZE : Nat) (s : e_computation_node.state)
    (data : List Nat) (src : linkaddr_t)
    (hcmd : ∃ p, p ∈ outputs_of (e_computation_node.input_callback LINKADDR_SIZE s data src).2 ∧
      p.2.getD 0 0 = 3) :
    (e_computation_node.input_callback LINKADDR_SIZE s data src).1.battery_level =
      s.battery_level - 2 := by
  have hcost : COST_COMMAND_TX = 2 := by norm_num [COST_COMMAND_TX]
  obtain ⟨p, hp, hp3⟩ := hcmd
  unfold e_computation_node.input_callback at hp ⊢
  simp only [] at hp ⊢
  by_cases h1 : data.length = 5 ∧ data.getD 0 0 = 1
  · rw [if_pos h1, e_computation_on_hello_outputs] at hp
    exact absurd hp (List.not_mem_nil p)
  · rw [if_neg h1] at hp ⊢
    by_cases h2 : data.length = 4 ∧ data.getD 0 0 = 2
    · rw [if_pos h2] at hp ⊢
      unfold e_computation_node.on_sensor at hp ⊢
      simp only [] at hp ⊢
      by_cases h3 : s.power_state ≠ power_state_t.STATE_DEEP_LPM
      · rw [if_pos h3] at hp ⊢
        generalize e_computation_node.get_window s.sensors (data.getD 1 0) = g at hp ⊢
        obtain ⟨gi, gt⟩ := g
        cases gi with
        | none => exact absurd hp (List.not_mem_nil p)
        | some i =>
          simp only [] at hp ⊢
          by_cases h4 : e_computation_node.compute_slope
              (e_computation_node.store_reading (gt.getD i e_computation_node.zero_window)
                (u16_of_bytes (data.getD 2 0) (data.getD 3 0))) > SLOPE_THRESHOLD
          · rw [if_pos h4, hcost]
          · rw [if_neg h4] at hp
            exact absurd hp (List.not_mem_nil p)
      · rw [if_neg h3] at hp
        simp only [outputs_of, List.filterMap_cons, List.filterMap_nil,
          List.mem_singleton] at hp
        rw [hp] at hp3
        simp only [] at hp3
        rw [h2.2] at hp3
        exact absurd hp3 (by decide)
    · rw [if_neg h2] at hp
      exact absurd hp (List.not_mem_nil p)

theorem primed_outputs :
    outputs_of (e_computation_node.input_callback 2 primed_e_computation [2, 7, 29, 0]
      [7, 0]).2 = [(some [7, 0], [3, 7, 1, 0])] := by
  have htr : e_tracked primed_e_computation.sensors 0 7 (List.range 29) := by
    unfold e_tracked
    decide
  have hget := e_get_window_tracked primed_e_computation.sensors 0 7 (List.range 29) htr
    (by decide)
  have h := (e_on_sensor_some 2 7 29 0 primed_e_computation primed_e_computation.sensors
    (by decide) (by decide) hget).2.2
  rw [htr.2.2.1, e_store_window_of 7 29 (List.range 29) (by decide),
    show List.range 29 ++ [29] = ramp from by decide,
    e_compute_slope_full 7 ramp (by decide), spec_slope_ramp, SLOPE_THRESHOLD_eq,
    if_pos (by norm_num)] at h
  rw [show ([2, 7, 29, 0] : List Nat) = sensor_frame 7 29 from by decide,
    e_input_callback_sensor_frame]
  exact h

/-- The binary32 difference `30.2f - 0.2f` is `30.0f`. -/
theorem f32_sub_30_2_cpu_cost : f32_sub (15833498 / 524288) CPU_COST = 30 := by
  unfold f32_sub
  rw [CPU_COST_eq]
  exact f32_round_pos_eq _ _ 4 15728640 (by norm_num) (by norm_num) (by norm_num)
    (by norm_num) (by norm_num) (by norm_num) (by norm_num)

/-- C20, refuted as stated: in each energised role, an Active node with battery 31 whose
energy tick sees one second of CPU time and nothing else (`CLOCK_SECOND = 128`, counters
`(128, 0, 0, 0)` against the snapshot `(0, 0, 0, 0)`) ends the tick with the binary32 value of
`31.0f - 0.2f`, which is `8074035 / 262144 = 30.799999237060547`, above 30, and is still
Active. -/
theorem C20_counterexample_cpu_second :
    ((e_computation_node.energy_tick 128 ⟨128, 0, 0, 0⟩ active31_computation).1.battery_level =
        8074035 / 262144 ∧
      ¬ (e_computation_node.energy_tick 128 ⟨128, 0, 0, 0⟩
        active31_computation).1.battery_level ≤ 30 ∧
      (e_computation_node.energy_tick 128 ⟨128, 0, 0, 0⟩ active31_computation).1.power_state =
        power_state_t.STATE_ACTIVE) ∧
    ((e_sensor_node.energy_tick 128 ⟨128, 0, 0, 0⟩ active31_sensor).1.battery_level =
        8074035 / 262144 ∧
      ¬ (e_sensor_node.energy_tick 128 ⟨128, 0, 0, 0⟩ active31_sensor).1.battery_level ≤ 30 ∧
      (e_sensor_node.energy_tick 128 ⟨128, 0, 0, 0⟩ active31_sensor).1.power_state =
        power_state_t.STATE_ACTIVE) ∧
    ((e_border_router.energy_tick 128 ⟨128, 0, 0, 0⟩ active31_border).1.battery_level =
        8074035 / 262144 ∧
      ¬ (e_border_router.energy_tick 128 ⟨128, 0, 0, 0⟩ active31_border).1.battery_level ≤ 30 ∧
      (e_border_router.energy_tick 128 ⟨128, 0, 0, 0⟩ active31_border).1.power_state =
        power_state_t.STATE_ACTIVE) := by
  obtain ⟨hc, hs, hb⟩ := energy_tick_power_state 128 ⟨128, 0, 0, 0⟩
  have hu : u32_sub 128 0 = 128 ∧ u32_sub 0 0 = 0 := by
    simp only [u32_sub]
    decide
  have hd : f32_sub 31 (battery_debit 128 (u32_sub 128 0) (u32_sub 0 0) (u32_sub 0 0)
      (u32_sub 0 0)) = 8074035 / 262144 := by
    rw [hu.1, hu.2, battery_debit_cpu_second 128 (by decide), f32_sub_31_cpu_cost]
  have bc : (e_computation_node.energy_tick 128 ⟨128, 0, 0, 0⟩
      active31_computation).1.battery_level = 8074035 / 262144 := by
    rw [e_computation_tick_active _ _ _ rfl]
    exact hd
  have bs : (e_sensor_node.energy_tick 128 ⟨128, 0, 0, 0⟩ active31_sensor).1.battery_level =
      8074035 / 262144 := by
    rw [e_sensor_tick_active _ _ _ rfl]
    exact hd
  have bb : (e_border_router.energy_tick 128 ⟨128, 0, 0, 0⟩ active31_border).1.battery_level =
      8074035 / 262144 := by
    rw [e_border_tick_active _ _ _ rfl]
    exact hd
  refine ⟨⟨bc, ?_, ?_⟩, ⟨bs, ?_, ?_⟩, ⟨bb, ?_, ?_⟩⟩
  · rw [bc]
    norm_num
  · rw [hc, bc, show active31_computation.power_state = power_state_t.STATE_ACTIVE from rfl,
      chained_from_active]
    norm_num
  · rw [bs]
    norm_num
  · rw [hs, bs, show active31_sensor.power_state = power_state_t.STATE_ACTIVE from rfl,
      chained_from_active]
    norm_num
  · rw [bb]
    norm_num
  · rw [hb, bb, show active31_border.power_state = power_state_t.STATE_ACTIVE from rfl,
      chained_from_active]
    norm_num

/-- C20, amended. In each energised role, for an Active node and an energy tick whose deltas
are `Δcpu = CLOCK_SECOND` and `Δlpm = Δtx = Δrx = 0` (with `CLOCK_SECOND > 0`): the debit is
`CPU_COST = 0.2f = 13421773 / 67108864`, the battery level becomes the binary32 value of
`battery - 0.2f`, and the node ends the tick in Active when that value is > 30, in LPM when it
is in (10, 30] and in Deep-LPM when it is ≤ 10. From battery 31 the level becomes
`8074035 / 262144 = 30.799999237060547` and the node stays Active. -/
theorem C20_cpu_second_tick (CLOCK_SECOND : Nat) (hCS : 0 < CLOCK_SECOND) (e : energest_t) :
    CPU_COST = 13421773 / 67108864 ∧
    (∀ s : e_computation_node.state, s.power_state = power_state_t.STATE_ACTIVE →
      u32_sub e.cpu s.last_cpu = CLOCK_SECOND → u32_sub e.lpm s.last_lpm = 0 →
      u32_sub e.tx s.last_tx = 0 → u32_sub e.rx s.last_rx = 0 →
      (e_computation_node.energy_tick CLOCK_SECOND e s).1.battery_level =
        f32_sub s.battery_level CPU_COST ∧
      (e_computation_node.energy_tick CLOCK_SECOND e s).1.power_state =
        (if f32_sub s.battery_level CPU_COST ≤ 30 then
          (if f32_sub s.battery_level CPU_COST ≤ 10 then power_state_t.STATE_DEEP_LPM
           else power_state_t.STATE_LPM)
         else power_state_t.STATE_ACTIVE) ∧
      (s.battery_level = 31 →
        (e_computation_node.energy_tick CLOCK_SECOND e s).1.battery_level =
          8074035 / 262144 ∧
        (e_computation_node.energy_tick CLOCK_SECOND e s).1.power_state =
          power_state_t.STATE_ACTIVE)) ∧
    (∀ s : e_sensor_node.state, s.power_state = power_state_t.STATE_ACTIVE →
      u32_sub e.cpu s.last_cpu = CLOCK_SECOND → u32_sub e.lpm s.last_lpm = 0 →
      u32_sub e.tx s.last_tx = 0 → u32_sub e.rx s.last_rx = 0 →
      (e_sensor_node.energy_tick CLOCK_SECOND e s).1.battery_level =
        f32_sub s.battery_level CPU_COST ∧
      (e_sensor_node.energy_tick CLOCK_SECOND e s).1.power_state =
        (if f32_sub s.battery_level CPU_COST ≤ 30 then
          (if f32_sub s.battery_level CPU_COST ≤ 10 then power_state_t.STATE_DEEP_LPM
           else power_state_t.STATE_LPM)
         else power_state_t.STATE_ACTIVE) ∧
      (s.battery_level = 31 →
        (e_sensor_node.energy_tick CLOCK_SECOND e s).1.battery_level = 8074035 / 262144 ∧
        (e_sensor_node.energy_tick CLOCK_SECOND e s).1.power_state =
          power_state_t.STATE_ACTIVE)) ∧
    (∀ s : e_border_router.state, s.power_state = power_state_t.STATE_ACTIVE →
      u32_sub e.cpu s.last_cpu = CLOCK_SECOND → u32_sub e.lpm s.last_lpm = 0 →
      u32_sub e.tx s.last_tx = 0 → u32_sub e.rx s.last_rx = 0 →
      (e_border_router.energy_tick CLOCK_SECOND e s).1.battery_level =
        f32_sub s.battery_level CPU_COST ∧
      (e_border_router.energy_tick CLOCK_SECOND e s).1.power_state =
        (if f32_sub s.battery_level CPU_COST ≤ 30 then
          (if f32_sub s.battery_level CPU_COST ≤ 10 then power_state_t.STATE_DEEP_LPM
           else power_state_t.STATE_LPM)
         else power_state_t.STATE_ACTIVE) ∧
      (s.battery_level = 31 →
        (e_border_router.energy_tick CLOCK_SECOND e s).1.battery_level = 8074035 / 262144 ∧
        (e_border_router.energy_tick CLOCK_SECOND e s).1.power_state =
          power_state_t.STATE_ACTIVE)) := by
  obtain ⟨hc, hs, hb⟩ := energy_tick_power_state CLOCK_SECOND e
  have hdebit := battery_debit_cpu_second CLOCK_SECOND hCS
  have key : ∀ (b b1 : ℚ) (q : power_state_t), b1 = f32_sub b CPU_COST →
      q = chained_power_state power_state_t.STATE_ACTIVE b1 →
      b1 = f32_sub b CPU_COST ∧
      q = (if f32_sub b CPU_COST ≤ 30 then
          (if f32_sub b CPU_COST ≤ 10 then power_state_t.STATE_DEEP_LPM
           else power_state_t.STATE_LPM)
         else power_state_t.STATE_ACTIVE) ∧
      (b = 31 → b1 = 8074035 / 262144 ∧ q = power_state_t.STATE_ACTIVE) := by
    intro b b1 q hb1 hq
    rw [chained_from_active, hb1] at hq
    refine ⟨hb1, hq, fun h31 => ?_⟩
    rw [hq, hb1, h31, f32_sub_31_cpu_cost]
    norm_num
  refine ⟨CPU_COST_eq, fun s ha h1 h2 h3 h4 => ?_, fun s ha h1 h2 h3 h4 => ?_,
    fun s ha h1 h2 h3 h4 => ?_⟩
  · apply key
    · rw [e_computation_tick_active _ _ _ ha]
      simp only [e_computation_node.update_battery, h1, h2, h3, h4]
      rw [hdebit]
    · rw [hc s, ha]
  · apply key
    · rw [e_sensor_tick_active _ _ _ ha]
      simp only [e_sensor_node.update_battery, h1, h2, h3, h4]
      rw [hdebit]
    · rw [hs s, ha]
  · apply key
    · rw [e_border_tick_active _ _ _ ha]
      simp only [e_border_router.update_battery, h1, h2, h3, h4]
      rw [hdebit]
    · rw [hb s, ha]

/-- Instances of the amended C20 at the Active sensor node with `CLOCK_SECOND = 128`, snapshot
`(0, 0, 0, 0)` and counters `(128, 0, 0, 0)`: from battery 31 the tick ends with battery
`8074035 / 262144` in Active; from the binary32 value `30.2f = 15833498 / 524288` it ends with
battery 30 in LPM. -/
theorem C20_cpu_second_tick_witness :
    (e_sensor_node.energy_tick 128 ⟨128, 0, 0, 0⟩ active31_sensor).1.battery_level =
      8074035 / 262144 ∧
    (e_sensor_node.energy_tick 128 ⟨128, 0, 0, 0⟩ active31_sensor).1.power_state =
      power_state_t.STATE_ACTIVE ∧
    (e_sensor_node.energy_tick 128 ⟨128, 0, 0, 0⟩
      { active31_sensor with battery_level := 15833498 / 524288 }).1.battery_level = 30 ∧
    (e_sensor_node.energy_tick 128 ⟨128, 0, 0, 0⟩
      { active31_sensor with battery_level := 15833498 / 524288 }).1.power_state =
      power_state_t.STATE_LPM := by
  have hu : u32_sub 128 0 = 128 ∧ u32_sub 0 0 = 0 := by
    simp only [u32_sub]
    decide
  have h := (C20_cpu_second_tick 128 (by decide) ⟨128, 0, 0, 0⟩).2.2.1
  have h31 := (h active31_sensor rfl hu.1 hu.2 hu.2 hu.2).2.2 rfl
  have h30 := h { active31_sensor with battery_level := 15833498 / 524288 } rfl hu.1 hu.2 hu.2
    hu.2
  refine ⟨h31.1, h31.2, ?_, ?_⟩
  · rw [h30.1]
    exact f32_sub_30_2_cpu_cost
  · rw [h30.2.1]
    rw [show ({ active31_sensor with battery_level := 15833498 / 524288 } :
      e_sensor_node.state).battery_level = 15833498 / 524288 from rfl, f32_sub_30_2_cpu_cost]
    norm_num

/-! ## Recharge cadence -/

theorem counter_cycle_ten (f : Nat → Nat) (h0 : f 0 < 10)
    (hstep : ∀ k, k + 1 < 10 →
      f (k + 1) = if (f k + 1) % 256 ≥ 10 then 0 else (f k + 1) % 256) :
    ∀ k, k < 10 → f k = (f 0 + k) % 10 := by
  intro k
  induction k with
  | zero =>
    intro _
    omega
  | succ k ih =>
    intro hk
    have ihk := ih (by omega)
    rw [hstep k hk]
    split_ifs <;> omega

theorem counter_cycle_two (f : Nat → Nat) (h0 : f 0 < 2)
    (hstep : ∀ k, k + 1 < 2 →
      f (k + 1) = if (f k + 1) % 256 ≥ 2 then 0 else (f k + 1) % 256) :
    ∀ k, k < 2 → f k = (f 0 + k) % 2 := by
  intro k
  induction k with
  | zero =>
    intro _
    omega
  | succ k ih =>
    intro hk
    have ihk := ih (by omega)
    rw [hstep k hk]
    split_ifs <;> omega

theorem e_sensor_transitions_counters (s : e_sensor_node.state) :
    (e_sensor_node.energy_transitions s).1.lpm_cnt = s.lpm_cnt ∧
    (e_sensor_node.energy_transitions s).1.deep_cnt = s.deep_cnt := by
  unfold e_sensor_node.energy_transitions
  simp only []
  split_ifs <;> exact ⟨rfl, rfl⟩

theorem e_computation_transitions_counters (s : e_computation_node.state) :
    (e_computation_node.energy_transitions s).1.lpm_cnt = s.lpm_cnt ∧
    (e_computation_node.energy_transitions s).1.deep_cnt = s.deep_cnt := by
  unfold e_computation_node.energy_transitions
  simp only []
  split_ifs <;> exact ⟨rfl, rfl⟩

theorem e_border_transitions_counters (s : e_border_router.state) :
    (e_border_router.energy_transitions s).lpmc = s.lpmc ∧
    (e_border_router.energy_transitions s).dpc = s.dpc := by
  unfold e_border_router.energy_transitions
  simp only []
  split_ifs <;> exact ⟨rfl, rfl⟩

theorem e_sensor_recharge_lpm (s : e_sensor_node.state)
    (h : s.power_state = power_state_t.STATE_LPM) :
    (e_sensor_node.energy_recharge s).lpm_cnt =
        (if (s.lpm_cnt + 1) % 256 ≥ 10 then 0 else (s.lpm_cnt + 1) % 256) ∧
    (e_sensor_node.energy_recharge s).battery_level =
        (if (s.lpm_cnt + 1) % 256 ≥ 10 then min (s.battery_level + 1) 100
         else s.battery_level) := by
  constructor
  · unfold e_sensor_node.energy_recharge
    simp only [h, if_true]
    split_ifs <;> rfl
  · unfold e_sensor_node.energy_recharge
    simp only [h, if_true, BATTERY_MAX_eq, min_def]
    split_ifs <;> first | rfl | linarith

theorem e_sensor_recharge_deep (s : e_sensor_node.state)
    (h : s.power_state = power_state_t.STATE_DEEP_LPM) :
    (e_sensor_node.energy_recharge s).deep_cnt =
        (if (s.deep_cnt + 1) % 256 ≥ 2 then 0 else (s.deep_cnt + 1) % 256) ∧
    (e_sensor_node.energy_recharge s).battery_level =
        (if (s.deep_cnt + 1) % 256 ≥ 2 then min (s.battery_level + 1) 100
         else s.battery_level) := by
  have hne2 : ¬ (power_state_t.STATE_DEEP_LPM = power_state_t.STATE_LPM) := by decide
  constructor
  · unfold e_sensor_node.energy_recharge
    simp only [h, if_true, if_neg hne2]
    split_ifs <;> rfl
  · unfold e_sensor_node.energy_recharge
    simp only [h, if_true, if_neg hne2, BATTERY_MAX_eq, min_def]
    split_ifs <;> first | rfl | linarith

theorem e_computation_recharge_lpm (s : e_computation_node.state)
    (h : s.power_state = power_state_t.STATE_LPM) :
    (e_computation_node.energy_recharge s).lpm_cnt =
        (if (s.lpm_cnt + 1) % 256 ≥ 10 then 0 else (s.lpm_cnt + 1) % 256) ∧
    (e_computation_node.energy_recharge s).battery_level =
        (if (s.lpm_cnt + 1) % 256 ≥ 10 then min (s.battery_level + 1) 100
         else s.battery_level) := by
  constructor
  · unfold e_computation_node.energy_recharge
    simp only [h, if_true]
    split_ifs <;> rfl
  · unfold e_computation_node.energy_recharge
    simp only [h, if_true, BATTERY_MAX_eq, min_def]
    split_ifs <;> first | rfl | linarith

theorem e_computation_recharge_deep (s : e_computation_node.state)
    (h : s.power_state = power_state_t.STATE_DEEP_LPM) :
    (e_computation_node.energy_recharge s).deep_cnt =
        (if (s.deep_cnt + 1) % 256 ≥ 2 then 0 else (s.deep_cnt + 1) % 256) ∧
    (e_computation_node.energy_recharge s).battery_level =
        (if (s.deep_cnt + 1) % 256 ≥ 2 then min (s.battery_level + 1) 100
         else s.battery_level) := by
  have hne2 : ¬ (power_state_t.STATE_DEEP_LPM = power_state_t.STATE_LPM) := by decide
  constructor
  · unfold e_computation_node.energy_recharge
    simp only [h, if_true, if_neg hne2]
    split_ifs <;> rfl
  · unfold e_computation_node.energy_recharge
    simp only [h, if_true, if_neg hne2, BATTERY_MAX_eq, min_def]
    split_ifs <;> first | rfl | linarith

theorem e_border_recharge_lpm (s : e_border_router.state)
    (h : s.power_state = power_state_t.STATE_LPM) :
    (e_border_router.energy_recharge s).lpmc =
        (if (s.lpmc + 1) % 256 ≥ 10 then 0 else (s.lpmc + 1) % 256) ∧
    (e_border_router.energy_recharge s).battery_level =
        (if (s.lpmc + 1) % 256 ≥ 10 then s.battery_level + 1 else s.battery_level) := by
  have hne : ¬ (power_state_t.STATE_LPM = power_state_t.STATE_DEEP_LPM) := by decide
  have hne2 : ¬ (power_state_t.STATE_DEEP_LPM = power_state_t.STATE_LPM) := by decide
  constructor
  · unfold e_border_router.energy_recharge
    simp only [h, if_true, if_neg hne, if_neg hne2]
    split_ifs <;> rfl
  · unfold e_border_router.energy_recharge
    simp only [h, if_true, if_neg hne, if_neg hne2, BATTERY_MAX_eq, min_def]
    split_ifs <;> first | rfl | contradiction

theorem e_border_recharge_deep (s : e_border_router.state)
    (h : s.power_state = power_state_t.STATE_DEEP_LPM) :
    (e_border_router.energy_recharge s).dpc =
        (if (s.dpc + 1) % 256 ≥ 2 then 0 else (s.dpc + 1) % 256) ∧
    (e_border_router.energy_recharge s).battery_level =
        (if (s.dpc + 1) % 256 ≥ 2 then s.battery_level + 1 else s.battery_level) := by
  have hne : ¬ (power_state_t.STATE_LPM = power_state_t.STATE_DEEP_LPM) := by decide
  have hne2 : ¬ (power_state_t.STATE_DEEP_LPM = power_state_t.STATE_LPM) := by decide
  constructor
  · unfold e_border_router.energy_recharge
    simp only [h, if_true, if_neg hne, if_neg hne2]
    split_ifs <;> rfl
  · unfold e_border_router.energy_recharge
    simp only [h, if_true, if_neg hne, if_neg hne2, BATTERY_MAX_eq, min_def]
    split_ifs <;> rfl

theorem e_sensor_tick_lpm (CLOCK_SECOND : Nat) (e : energest_t) (s : e_sensor_node.state)
    (h : s.power_state = power_state_t.STATE_LPM) :
    (e_sensor_node.energy_tick CLOCK_SECOND e s).1.lpm_cnt =
        (if (s.lpm_cnt + 1) % 256 ≥ 10 then 0 else (s.lpm_cnt + 1) % 256) ∧
    (e_sensor_node.energy_tick CLOCK_SECOND e s).1.battery_level =
        (if (s.lpm_cnt + 1) % 256 ≥ 10 then
          min ((e_sensor_node.update_battery CLOCK_SECOND e s).battery_level + 1) 100
         else (e_sensor_node.update_battery CLOCK_SECOND e s).battery_level) := by
  have hr := e_sensor_recharge_lpm (e_sensor_node.update_battery CLOCK_SECOND e s) h
  have hc : (e_sensor_node.update_battery CLOCK_SECOND e s).lpm_cnt = s.lpm_cnt := rfl
  rw [hc] at hr
  simp only [e_sensor_node.energy_tick]
  rw [(e_sensor_transitions_counters _).1, (e_sensor_transitions _).2]
  exact hr

theorem e_sensor_tick_deep (CLOCK_SECOND : Nat) (e : energest_t) (s : e_sensor_node.state)
    (h : s.power_state = power_state_t.STATE_DEEP_LPM) :
    (e_sensor_node.energy_tick CLOCK_SECOND e s).1.deep_cnt =
        (if (s.deep_cnt + 1) % 256 ≥ 2 then 0 else (s.deep_cnt + 1) % 256) ∧
    (e_sensor_node.energy_tick CLOCK_SECOND e s).1.battery_level =
        (if (s.deep_cnt + 1) % 256 ≥ 2 then
          min ((e_sensor_node.update_battery CLOCK_SECOND e s).battery_level + 1) 100
         else (e_sensor_node.update_battery CLOCK_SECOND e s).battery_level) := by
  have hr := e_sensor_recharge_deep (e_sensor_node.update_battery CLOCK_SECOND e s) h
  have hc : (e_sensor_node.update_battery CLOCK_SECOND e s).deep_cnt = s.deep_cnt := rfl
  rw [hc] at hr
  simp only [e_sensor_node.energy_tick]
  rw [(e_sensor_transitions_counters _).2, (e_sensor_transitions _).2]
  exact hr

theorem e_computation_tick_lpm (CLOCK_SECOND : Nat) (e : energest_t)
    (s : e_computation_node.state) (h : s.power_state = power_state_t.STATE_LPM) :
    (e_computation_node.energy_tick CLOCK_SECOND e s).1.lpm_cnt =
        (if (s.lpm_cnt + 1) % 256 ≥ 10 then 0 else (s.lpm_cnt + 1) % 256) ∧
    (e_computation_node.energy_tick CLOCK_SECOND e s).1.battery_level =
        (if (s.lpm_cnt + 1) % 256 ≥ 10 then
          min ((e_computation_node.update_battery CLOCK_SECOND e s).battery_level + 1) 100
         else (e_computation_node.update_battery CLOCK_SECOND e s).battery_level) := by
  have hr := e_computation_recharge_lpm (e_computation_node.update_battery CLOCK_SECOND e s) h
  have hc : (e_computation_node.update_battery CLOCK_SECOND e s).lpm_cnt = s.lpm_cnt := rfl
  rw [hc] at hr
  simp only [e_computation_node.energy_tick]
  rw [(e_computation_transitions_counters _).1, (e_computation_transitions _).2]
  exact hr

theorem e_computation_tick_deep (CLOCK_SECOND : Nat) (e : energest_t)
    (s : e_computation_node.state) (h : s.power_state = power_state_t.STATE_DEEP_LPM) :
    (e_computation_node.energy_tick CLOCK_SECOND e s).1.deep_cnt =
        (if (s.deep_cnt + 1) % 256 ≥ 2 then 0 else (s.deep_cnt + 1) % 256) ∧
    (e_computation_node.energy_tick CLOCK_SECOND e s).1.battery_level =
        (if (s.deep_cnt + 1) % 256 ≥ 2 then
          min ((e_computation_node.update_battery CLOCK_SECOND e s).battery_level + 1) 100
         else (e_computation_node.update_battery CLOCK_SECOND e s).battery_level) := by
  have hr := e_computation_recharge_deep (e_computation_node.update_battery CLOCK_SECOND e s) h
  have hc : (e_computation_node.update_battery CLOCK_SECOND e s).deep_cnt = s.deep_cnt := rfl
  rw [hc] at hr
  simp only [e_computation_node.energy_tick]
  rw [(e_computation_transitions_counters _).2, (e_computation_transitions _).2]
  exact hr

theorem e_border_tick_lpm (CLOCK_SECOND : Nat) (e : energest_t) (s : e_border_router.state)
    (h : s.power_state = power_state_t.STATE_LPM) :
    (e_border_router.energy_tick CLOCK_SECOND e s).1.lpmc =
        (if (s.lpmc + 1) % 256 ≥ 10 then 0 else (s.lpmc + 1) % 256) ∧
    (e_border_router.energy_tick CLOCK_SECOND e s).1.battery_level =
        (if (s.lpmc + 1) % 256 ≥ 10 then
          (e_border_router.update_battery CLOCK_SECOND e s).battery_level + 1
         else (e_border_router.update_battery CLOCK_SECOND e s).battery_level) := by
  have hr := e_border_recharge_lpm (e_border_router.update_battery CLOCK_SECOND e s) h
  have hc : (e_border_router.update_battery CLOCK_SECOND e s).lpmc = s.lpmc := rfl
  rw [hc] at hr
  simp only [e_border_router.energy_tick]
  rw [(e_border_transitions_counters _).1, (e_border_transitions _).2]
  exact hr

theorem e_border_tick_deep (CLOCK_SECOND : Nat) (e : energest_t) (s : e_border_router.state)
    (h : s.power_state = power_state_t.STATE_DEEP_LPM) :
    (e_border_router.energy_tick CLOCK_SECOND e s).1.dpc =
        (if (s.dpc + 1) % 256 ≥ 2 then 0 else (s.dpc + 1) % 256) ∧
    (e_border_router.energy_tick CLOCK_SECOND e s).1.battery_level =
        (if (s.dpc + 1) % 256 ≥ 2 then
          (e_border_router.update_battery CLOCK_SECOND e s).battery_level + 1
         else (e_border_router.update_battery CLOCK_SECOND e s).battery_level) := by
  have hr := e_border_recharge_deep (e_border_router.update_battery CLOCK_SECOND e s) h
  have hc : (e_border_router.update_battery CLOCK_SECOND e s).dpc = s.dpc := rfl
  rw [hc] at hr
  simp only [e_border_router.energy_tick]
  rw [(e_border_transitions_counters _).2, (e_border_transitions _).2]
  exact hr

theorem e_sensor_recharge_bounded (s : e_sensor_node.state)
    (h1 : s.lpm_cnt < 10) (h2 : s.deep_cnt < 2) :
    (e_sensor_node.energy_recharge s).lpm_cnt < 10 ∧
    (e_sensor_node.energy_recharge s).deep_cnt < 2 := by
  unfold e_sensor_node.energy_recharge
  simp only []
  split_ifs <;> constructor <;> (try dsimp only at *) <;> omega

theorem e_computation_recharge_bounded (s : e_computation_node.state)
    (h1 : s.lpm_cnt < 10) (h2 : s.deep_cnt < 2) :
    (e_computation_node.energy_recharge s).lpm_cnt < 10 ∧
    (e_computation_node.energy_recharge s).deep_cnt < 2 := by
  unfold e_computation_node.energy_recharge
  simp only []
  split_ifs <;> constructor <;> (try dsimp only at *) <;> omega

theorem e_border_recharge_bounded (s : e_border_router.state)
    (h1 : s.lpmc < 10) (h2 : s.dpc < 2) :
    (e_border_router.energy_recharge s).lpmc < 10 ∧
    (e_border_router.energy_recharge s).dpc < 2 := by
  unfold e_border_router.energy_recharge
  simp only []
  split_ifs <;> constructor <;> (try dsimp only at *) <;> omega

/-- The recharge counters of the three energised roles start at 0, stay below their
thresholds (10 and 2) across every energy tick, and are left unchanged by every other
handler of the event loop. -/
theorem recharge_counters_invariant (LINKADDR_SIZE CLOCK_SECOND BORDER_NODE_ID : Nat) :
    (∀ addr e, (e_sensor_node.init LINKADDR_SIZE BORDER_NODE_ID addr e).lpm_cnt = 0 ∧
        (e_sensor_node.init LINKADDR_SIZE BORDER_NODE_ID addr e).deep_cnt = 0) ∧
    (∀ addr e, (e_computation_node.init LINKADDR_SIZE BORDER_NODE_ID addr e).lpm_cnt = 0 ∧
        (e_computation_node.init LINKADDR_SIZE BORDER_NODE_ID addr e).deep_cnt = 0) ∧
    (∀ addr e, (e_border_router.init BORDER_NODE_ID addr e).lpmc = 0 ∧
        (e_border_router.init BORDER_NODE_ID addr e).dpc = 0) ∧
    (∀ e (s : e_sensor_node.state), s.lpm_cnt < 10 → s.deep_cnt < 2 →
        (e_sensor_node.energy_tick CLOCK_SECOND e s).1.lpm_cnt < 10 ∧
        (e_sensor_node.energy_tick CLOCK_SECOND e s).1.deep_cnt < 2) ∧
    (∀ e (s : e_computation_node.state), s.lpm_cnt < 10 → s.deep_cnt < 2 →
        (e_computation_node.energy_tick CLOCK_SECOND e s).1.lpm_cnt < 10 ∧
        (e_computation_node.energy_tick CLOCK_SECOND e s).1.deep_cnt < 2) ∧
    (∀ e (s : e_border_router.state), s.lpmc < 10 → s.dpc < 2 →
        (e_border_router.energy_tick CLOCK_SECOND e s).1.lpmc < 10 ∧
        (e_border_router.energy_tick CLOCK_SECOND e s).1.dpc < 2) ∧
    (∀ (s : e_sensor_node.state) data src rnd undef,
        ((e_sensor_node.input_callback CLOCK_SECOND s data src).1.lpm_cnt = s.lpm_cnt ∧
          (e_sensor_node.input_callback CLOCK_SECOND s data src).1.deep_cnt = s.deep_cnt) ∧
        ((e_sensor_node.hello_tick undef s).1.lpm_cnt = s.lpm_cnt ∧
          (e_sensor_node.hello_tick undef s).1.deep_cnt = s.deep_cnt) ∧
        ((e_sensor_node.sensor_tick rnd s).1.lpm_cnt = s.lpm_cnt ∧
          (e_sensor_node.sensor_tick rnd s).1.deep_cnt = s.deep_cnt) ∧
        ((e_sensor_node.valve_tick s).1.lpm_cnt = s.lpm_cnt ∧
          (e_sensor_node.valve_tick s).1.deep_cnt = s.deep_cnt)) ∧
    (∀ (s : e_computation_node.state) data src undef,
        ((e_computation_node.input_callback LINKADDR_SIZE s data src).1.lpm_cnt = s.lpm_cnt ∧
          (e_computation_node.input_callback LINKADDR_SIZE s data src).1.deep_cnt =
            s.deep_cnt) ∧
        ((e_computation_node.hello_tick undef s).1.lpm_cnt = s.lpm_cnt ∧
          (e_computation_node.hello_tick undef s).1.deep_cnt = s.deep_cnt)) ∧
    (∀ (s : e_border_router.state) data src scan undef,
        ((e_border_router.input_callback s data src).1.lpmc = s.lpmc ∧
          (e_border_router.input_callback s data src).1.dpc = s.dpc) ∧
        ((e_border_router.serial_line_event LINKADDR_SIZE s scan).1.lpmc = s.lpmc ∧
          (e_border_router.serial_line_event LINKADDR_SIZE s scan).1.dpc = s.dpc) ∧
        ((e_border_router.hello_tick undef s).1.lpmc = s.lpmc ∧
          (e_border_router.hello_tick undef s).1.dpc = s.dpc)) := by
  refine ⟨fun _ _ => ⟨rfl, rfl⟩, fun _ _ => ⟨rfl, rfl⟩, fun _ _ => ⟨rfl, rfl⟩, ?_, ?_, ?_,
    ?_, ?_, ?_⟩
  · intro e s h1 h2
    simp only [e_sensor_node.energy_tick]
    rw [(e_sensor_transitions_counters _).1, (e_sensor_transitions_counters _).2]
    exact e_sensor_recharge_bounded _ h1 h2
  · intro e s h1 h2
    simp only [e_computation_node.energy_tick]
    rw [(e_computation_transitions_counters _).1, (e_computation_transitions_counters _).2]
    exact e_computation_recharge_bounded _ h1 h2
  · intro e s h1 h2
    simp only [e_border_router.energy_tick]
    rw [(e_border_transitions_counters _).1, (e_border_transitions_counters _).2]
    exact e_border_recharge_bounded _ h1 h2
  · intro s data src rnd undef
    refine ⟨?_, ⟨rfl, rfl⟩, ?_, ⟨rfl, rfl⟩⟩
    · unfold e_sensor_node.input_callback e_sensor_node.on_hello
      simp only []
      split_ifs <;> exact ⟨rfl, rfl⟩
    · unfold e_sensor_node.sensor_tick
      split_ifs <;> exact ⟨rfl, rfl⟩
  · intro s data src undef
    refine ⟨?_, ⟨rfl, rfl⟩⟩
    unfold e_computation_node.input_callback e_computation_node.on_hello
      e_computation_node.on_sensor
    simp only []
    split_ifs
    all_goals first
      | exact ⟨rfl, rfl⟩
      | (split <;> first | exact ⟨rfl, rfl⟩ | (split_ifs <;> exact ⟨rfl, rfl⟩))
  · intro s data src scan undef
    refine ⟨?_, ?_, ⟨rfl, rfl⟩⟩
    · unfold e_border_router.input_callback
      simp only []
      split_ifs <;> exact ⟨rfl, rfl⟩
    · unfold e_border_router.serial_line_event
      cases scan with
      | none => exact ⟨rfl, rfl⟩
      | some p => exact ⟨rfl, rfl⟩

theorem slope_den_eq : slope_den = 67425 := by
  simp only [slope_den, slope_sum_i, slope_sum_i2, WINDOW_SIZE]
  norm_num

theorem compute_slope_fixed_guarded (w : computation_node.sensor_window_t) :
    computation_node.compute_slope_fixed w =
      if slope_den ≠ 0 then slope_num_fixed w / slope_den else 0 := by
  simp only [computation_node.compute_slope_fixed, slope_den, slope_num_fixed, slope_sum_i,
    slope_sum_i2]
  rw [slope_fold_sums
    (fun k => (w.values.getD ((w.idx + k) % WINDOW_SIZE) 0 : ℚ)) WINDOW_SIZE]

theorem compute_slope_guarded (w : e_computation_node.sensor_window_t) :
    e_computation_node.compute_slope w =
      if w.count < WINDOW_SIZE then 0
      else if slope_den ≠ 0 then slope_num w / slope_den else 0 := by
  simp only [e_computation_node.compute_slope, slope_den, slope_num, slope_sum_i,
    slope_sum_i2]
  rw [slope_fold_sums (fun i => (w.values.getD i 0 : ℚ)) WINDOW_SIZE]

/-- C26: the slope denominator guard. The denominator `WINDOW_SIZE * sum_i2 - sum_i * sum_i`
of both slope functions is the constant `30·8555 − 435² = 67425`, which is not zero. Each
function tests exactly this denominator in its guard, so for every window
`compute_slope_fixed` returns the quotient `num / 67425`, and the energised `compute_slope`
returns `num / 67425` whenever the window is full (its only 0-yielding branch that can be
taken is the one for `count < WINDOW_SIZE`): the zero-denominator branch is never taken. -/
theorem C26_slope_denominator_guard :
    slope_sum_i = 435 ∧ slope_sum_i2 = 8555 ∧
    slope_den = 30 * 8555 - 435 ^ 2 ∧ slope_den = 67425 ∧ slope_den ≠ 0 ∧
    (∀ w : computation_node.sensor_window_t,
      computation_node.compute_slope_fixed w =
        (if slope_den ≠ 0 then slope_num_fixed w / slope_den else 0) ∧
      computation_node.compute_slope_fixed w = slope_num_fixed w / 67425) ∧
    (∀ w : e_computation_node.sensor_window_t,
      e_computation_node.compute_slope w =
        (if w.count < WINDOW_SIZE then 0
         else if slope_den ≠ 0 then slope_num w / slope_den else 0) ∧
      e_computation_node.compute_slope w =
        if w.count < WINDOW_SIZE then 0 else slope_num w / 67425) := by
  have hden : slope_den ≠ 0 := by rw [slope_den_eq]; norm_num
  refine ⟨?_, ?_, ?_, slope_den_eq, hden, ?_, ?_⟩
  · simp only [slope_sum_i, WINDOW_SIZE]
    norm_num
  · simp only [slope_sum_i2, WINDOW_SIZE]
    norm_num
  · rw [slope_den_eq]
    norm_num
  · intro w
    refine ⟨compute_slope_fixed_guarded w, ?_⟩
    rw [compute_slope_fixed_guarded w, if_pos hden, slope_den_eq]
  · intro w
    refine ⟨compute_slope_guarded w, ?_⟩
    rw [compute_slope_guarded w, if_pos hden, slope_den_eq]

/-! ## Agreement of the two slope functions -/

theorem slope_num_agree (we : e_computation_node.sensor_window_t)
    (wc : computation_node.sensor_window_t) (hidx : wc.idx = 0)
    (hvals : wc.values = we.values) : slope_num_fixed wc = slope_num we := by
  have hmap : ∀ (g f : Nat → ℚ) (n : Nat), (∀ k < n, g k = f k) →
      (List.range n).map g = (List.range n).map f := by
    intro g f n h
    apply List.map_congr_left
    intro k hk
    exact h k (List.mem_range.mp hk)
  simp only [slope_num_fixed, slope_num, hidx, hvals, Nat.zero_add]
  rw [hmap (fun (k : Nat) => (k : ℚ) * (we.values.getD (k % WINDOW_SIZE) 0 : ℚ))
      (fun (i : Nat) => (i : ℚ) * (we.values.getD i 0 : ℚ)) WINDOW_SIZE
      (fun k hk => by simp only [Nat.mod_eq_of_lt hk]),
    hmap (fun (k : Nat) => (we.values.getD (k % WINDOW_SIZE) 0 : ℚ))
      (fun (i : Nat) => (we.values.getD i 0 : ℚ)) WINDOW_SIZE
      (fun k hk => by simp only [Nat.mod_eq_of_lt hk])]

theorem e_store_fold (sid : Nat) :
    ∀ (rest pre : List Nat), pre.length + rest.length ≤ 30 →
      rest.foldl e_computation_node.store_reading (e_window_of sid pre) =
        e_window_of sid (pre ++ rest) := by
  intro rest
  induction rest with
  | nil => intro pre _; simp
  | cons v rest ih =>
    intro pre h
    simp only [List.length_cons] at h
    rw [List.foldl_cons, e_store_window_of sid v pre (by omega),
      ih (pre ++ [v]) (by simp only [List.length_append, List.length_singleton]; omega),
      List.append_assoc, List.singleton_append]

theorem c_store_fold (sid : Nat) :
    ∀ (rest : List (Nat × Nat)) (ts : Nat) (pre : List Nat),
      pre.length + rest.length ≤ 30 →
      ∃ ts2, rest.foldl (fun w (p : Nat × Nat) => computation_node.store_reading p.1 w p.2)
          (c_window_of sid ts pre) = c_window_of sid ts2 (pre ++ rest.map Prod.snd) := by
  intro rest
  induction rest with
  | nil => intro ts pre _; exact ⟨ts, by simp⟩
  | cons p rest ih =>
    intro ts pre h
    simp only [List.length_cons] at h
    obtain ⟨ts2, h2⟩ := ih (p.1 % 2 ^ 32) (pre ++ [p.2])
      (by simp only [List.length_append, List.length_singleton]; omega)
    refine ⟨ts2, ?_⟩
    rw [List.foldl_cons, c_store_window_of p.1 sid ts p.2 pre (by omega), h2,
      List.map_cons, List.append_assoc, List.singleton_append]

/-- C27: agreement of the two slope implementations. For a full energised window
(`count = 30`) and an energy-unaware window with the same 30 stored values whose next-write
index `idx` is 0, the energised `compute_slope` (buffer-index order) and the energy-unaware
`compute_slope_fixed` (oldest-first from `idx`) return the same value. This is the situation
when a window first becomes full: after 30 readings have been stored into a freshly allocated
window of either variant, the window has `count = 30`, `idx = 0` and holds the readings in
arrival order, and the two functions agree on the two windows. -/
theorem C27_slope_agreement :
    (∀ (we : e_computation_node.sensor_window_t) (wc : computation_node.sensor_window_t),
      we.count = 30 → wc.idx = 0 → wc.values = we.values →
      e_computation_node.compute_slope we = computation_node.compute_slope_fixed wc) ∧
    (∀ (sid : Nat) (readings : List (Nat × Nat)), readings.length = 30 →
      (readings.foldl (fun w (p : Nat × Nat) => e_computation_node.store_reading w p.2)
          { e_computation_node.zero_window with id := sid }).count = 30 ∧
      (readings.foldl (fun w (p : Nat × Nat) => e_computation_node.store_reading w p.2)
          { e_computation_node.zero_window with id := sid }).idx = 0 ∧
      (readings.foldl (fun w (p : Nat × Nat) => computation_node.store_reading p.1 w p.2)
          { computation_node.zero_window with id := sid }).count = 30 ∧
      (readings.foldl (fun w (p : Nat × Nat) => computation_node.store_reading p.1 w p.2)
          { computation_node.zero_window with id := sid }).idx = 0 ∧
      (readings.foldl (fun w (p : Nat × Nat) => computation_node.store_reading p.1 w p.2)
          { computation_node.zero_window with id := sid }).values = readings.map Prod.snd ∧
      e_computation_node.compute_slope
          (readings.foldl (fun w (p : Nat × Nat) => e_computation_node.store_reading w p.2)
            { e_computation_node.zero_window with id := sid }) =
        computation_node.compute_slope_fixed
          (readings.foldl (fun w (p : Nat × Nat) => computation_node.store_reading p.1 w p.2)
            { computation_node.zero_window with id := sid })) := by
  have main : ∀ (we : e_computation_node.sensor_window_t)
      (wc : computation_node.sensor_window_t),
      we.count = 30 → wc.idx = 0 → wc.values = we.values →
      e_computation_node.compute_slope we = computation_node.compute_slope_fixed wc := by
    intro we wc hcount hidx hvals
    rw [compute_slope_guarded, compute_slope_fixed_guarded, slope_num_agree we wc hidx hvals,
      if_neg (by rw [hcount]; decide)]
  refine ⟨main, ?_⟩
  intro sid readings hlen
  have he : readings.foldl (fun w (p : Nat × Nat) => e_computation_node.store_reading w p.2)
      { e_computation_node.zero_window with id := sid } =
      e_window_of sid (readings.map Prod.snd) := by
    have h := e_store_fold sid (readings.map Prod.snd) []
      (by simp only [List.length_nil, List.length_map]; omega)
    rw [List.foldl_map, e_window_of_nil, List.nil_append] at h
    exact h
  obtain ⟨ts2, hc⟩ := c_store_fold sid readings 0 []
    (by simp only [List.length_nil]; omega)
  rw [c_window_of_nil, List.nil_append] at hc
  have hl : (readings.map Prod.snd).length = 30 := by rw [List.length_map]; exact hlen
  rw [he, hc]
  have hv : (c_window_of sid ts2 (readings.map Prod.snd)).values =
      (e_window_of sid (readings.map Prod.snd)).values := rfl
  have hce : (e_window_of sid (readings.map Prod.snd)).count = 30 := hl
  have hie : (e_window_of sid (readings.map Prod.snd)).idx = 0 := by
    simp only [e_window_of, hl, WINDOW_SIZE, Nat.mod_self]
  have hcc : (c_window_of sid ts2 (readings.map Prod.snd)).count = 30 := hl
  have hic : (c_window_of sid ts2 (readings.map Prod.snd)).idx = 0 := by
    simp only [c_window_of, hl, WINDOW_SIZE, Nat.mod_self]
  refine ⟨hce, hie, hcc, hic, ?_, main _ _ hce hic hv⟩
  simp only [c_window_of, hl, WINDOW_SIZE, Nat.sub_self, List.replicate_zero, List.append_nil]

/-- Instance of C27: on the full windows that hold the ramp `0, 1, ..., 29` with next-write
index 0, the energised and the energy-unaware slope functions return the same value. -/
theorem C27_slope_agreement_witness :
    e_computation_node.compute_slope { id := 7, count := 30, idx := 0, values := ramp } =
      computation_node.compute_slope_fixed
        { id := 7, count := 30, idx := 0, last_ts := 0, values := ramp } :=
  C27_slope_agreement.1 { id := 7, count := 30, idx := 0, values := ramp }
    { id := 7, count := 30, idx := 0, last_ts := 0, values := ramp } rfl rfl rfl

/-! ## The HELLO frame of the energised nodes -/

theorem power_state_code (p : power_state_t) :
    p.toNat % 256 = p.toNat ∧ p.toNat < 3 := by
  cases p <;> exact ⟨rfl, by decide⟩

theorem e_sensor_broadcast_frame (undef : Nat) (s : e_sensor_node.state) :
    outputs_of (e_sensor_node.broadcast_rank undef s).2 =
      [(none, [1, (s.my_rank >>> 8) % 256, s.my_rank % 256,
        u8_of_float undef s.battery_level, s.power_state.toNat])] := by
  have h1 : (s.my_rank >>> 8) &&& 255 = (s.my_rank >>> 8) % 256 :=
    Nat.and_pow_two_sub_one_eq_mod _ 8
  have h2 : s.my_rank &&& 255 = s.my_rank % 256 := Nat.and_pow_two_sub_one_eq_mod _ 8
  simp only [e_sensor_node.broadcast_rank, outputs_of, (power_state_code s.power_state).1]
  rw [h1, h2]
  rfl

theorem e_computation_broadcast_frame (undef : Nat) (s : e_computation_node.state) :
    outputs_of (e_computation_node.broadcast_rank undef s).2 =
      [(none, [1, (s.my_rank >>> 8) % 256, s.my_rank % 256,
        u8_of_float undef s.battery_level, s.power_state.toNat])] := by
  simp only [e_computation_node.broadcast_rank, outputs_of, (power_state_code s.power_state).1]
  rfl

theorem e_border_broadcast_frame (undef : Nat) (s : e_border_router.state) :
    outputs_of (e_border_router.broadcast_rank undef s).2 =
      [(none, [1, (s.my_rank >>> 8) % 256, s.my_rank % 256,
        u8_of_float undef s.battery_level, s.power_state.toNat])] := by
  simp only [e_border_router.broadcast_rank, outputs_of, (power_state_code s.power_state).1]
  rfl

/-- Inside the range of the conversion the byte `(uint8_t)x` is the integer part of `x`,
whatever the unspecified byte is. -/
theorem u8_of_float_in_range (undef : Nat) (x : ℚ) (h0 : 0 ≤ x) (h1 : x < 256) :
    u8_of_float undef x = Int.toNat ⌊x⌋ := by
  unfold u8_of_float
  rw [if_pos ⟨by linarith, h1⟩]

/-! ## Deep-LPM sensor silence -/

theorem hello_bytes (rank : Nat) (b : ℚ) (hr : rank ≤ 65535) (h0 : 0 ≤ b) (h100 : b ≤ 100) :
    (rank >>> 8) % 256 = rank / 256 ∧ rank / 256 < 256 ∧
    (Int.toNat ⌊b⌋) % 256 = Int.toNat ⌊b⌋ ∧ Int.toNat ⌊b⌋ ≤ 100 ∧
    (((rank / 256) <<< 8) ||| (rank % 256)) % 65536 = rank := by
  have hfl0 : 0 ≤ ⌊b⌋ := Int.floor_nonneg.mpr h0
  have hfl1 : ⌊b⌋ < 101 := Int.floor_lt.mpr (by push_cast; linarith)
  have hfl : Int.toNat ⌊b⌋ ≤ 100 := by omega
  refine ⟨?_, by omega, by omega, hfl, ?_⟩
  · rw [Nat.shiftRight_eq_div_pow]
    omega
  · rw [hello_rank_decode (rank / 256) (rank % 256) (by omega) (by omega)]
    omega

/-- C23: HELLO codec round trip of the energised dialect. For a sender (Sensor, Computation
or Border node) with rank in `0..65535`, battery level in `[0, 100]` and any power state,
`broadcast_rank` hands exactly one frame to the radio, the broadcast of the 5 bytes
`[1, rank div 256, rank mod 256, floor(battery), state code]`, where the state code is 0, 1,
2 for Active, LPM, Deep-LPM. On the bytes of that frame the receiver's expressions
`(buf[1] << 8) | buf[2]` and `buf[3]` give back the sender's rank and `floor(battery)`:
a Computation or Sensor node that receives the frame from a sender of rank other than
`0xFFFF` compares exactly `rank + 1` with its own rank and, when it adopts the sender or hears
its parent, caches exactly `floor(battery)`. -/
theorem C23_hello_round_trip (LINKADDR_SIZE CLOCK_SECOND rank undef : Nat) (battery : ℚ)
    (p : power_state_t) (src : linkaddr_t)
    (hrank : rank ≤ 65535) (h0 : 0 ≤ battery) (h100 : battery ≤ 100) :
    (power_state_t.STATE_ACTIVE.toNat = 0 ∧ power_state_t.STATE_LPM.toNat = 1 ∧
      power_state_t.STATE_DEEP_LPM.toNat = 2) ∧
    (∀ s : e_sensor_node.state,
      s.my_rank = rank → s.battery_level = battery → s.power_state = p →
      outputs_of (e_sensor_node.broadcast_rank undef s).2 =
        [(none, [1, rank / 256, rank % 256, Int.toNat ⌊battery⌋, p.toNat])]) ∧
    (∀ s : e_computation_node.state,
      s.my_rank = rank → s.battery_level = battery → s.power_state = p →
      outputs_of (e_computation_node.broadcast_rank undef s).2 =
        [(none, [1, rank / 256, rank % 256, Int.toNat ⌊battery⌋, p.toNat])]) ∧
    (∀ s : e_border_router.state,
      s.my_rank = rank → s.battery_level = battery → s.power_state = p →
      outputs_of (e_border_router.broadcast_rank undef s).2 =
        [(none, [1, rank / 256, rank % 256, Int.toNat ⌊battery⌋, p.toNat])]) ∧
    ((([1, rank / 256, rank % 256, Int.toNat ⌊battery⌋, p.toNat].getD 1 0 <<< 8) |||
        [1, rank / 256, rank % 256, Int.toNat ⌊battery⌋, p.toNat].getD 2 0) % 65536 = rank ∧
      [1, rank / 256, rank % 256, Int.toNat ⌊battery⌋, p.toNat].getD 3 0 =
        Int.toNat ⌊battery⌋ ∧ (Int.toNat ⌊battery⌋ : ℚ) ≤ battery ∧
        battery < (Int.toNat ⌊battery⌋ : ℚ) + 1) ∧
    (rank ≠ 0xFFFF →
      (∀ r : e_computation_node.state,
        e_computation_node.input_callback LINKADDR_SIZE r
            [1, rank / 256, rank % 256, Int.toNat ⌊battery⌋, p.toNat] src =
          if rank + 1 < r.my_rank ∨ (rank + 1 = r.my_rank ∧ src ≠ r.parent ∧
              Int.toNat ⌊battery⌋ > r.parent_energy + 30) then
            ({ r with my_rank := rank + 1, parent := src,
                      parent_energy := Int.toNat ⌊battery⌋ },
              [effect.printf (log_t.tree_new_parent (r.linkaddr_node_addr.headD 0)
                (src.headD 0) (rank + 1) (some (Int.toNat ⌊battery⌋)))])
          else if src = r.parent then ({ r with parent_energy := Int.toNat ⌊battery⌋ }, [])
          else (r, [])) ∧
      (∀ r : e_sensor_node.state,
        e_sensor_node.input_callback CLOCK_SECOND r
            [1, rank / 256, rank % 256, Int.toNat ⌊battery⌋, p.toNat] src =
          if rank + 1 < r.my_rank ∨ (rank + 1 = r.my_rank ∧ src ≠ r.parent ∧
              Int.toNat ⌊battery⌋ > r.parent_energy + 30) then
            ({ r with my_rank := rank + 1, parent := src,
                      parent_energy := Int.toNat ⌊battery⌋, sensor_timer_started := true },
              [effect.printf (log_t.tree_new_parent (r.linkaddr_node_addr.headD 0)
                (src.headD 0) (rank + 1) (some (Int.toNat ⌊battery⌋)))] ++
              (if r.sensor_timer_started = false then
                [effect.etimer_set timer_id.sensor_timer (SENSOR_INTERVAL CLOCK_SECOND)]
               else []))
          else if src = r.parent then ({ r with parent_energy := Int.toNat ⌊battery⌋ }, [])
          else (r, []))) := by
  obtain ⟨hhi, hhi256, hfl, hfl100, hdec⟩ := hello_bytes rank battery hrank h0 h100
  have hfl0 : 0 ≤ ⌊battery⌋ := Int.floor_nonneg.mpr h0
  have hcast : ((Int.toNat ⌊battery⌋ : Nat) : ℚ) = ((⌊battery⌋ : ℤ) : ℚ) := by
    have : ((Int.toNat ⌊battery⌋ : Nat) : ℤ) = ⌊battery⌋ := Int.toNat_of_nonneg hfl0
    exact_mod_cast congrArg (fun z : ℤ => (z : ℚ)) this
  have hu8 : u8_of_float undef battery = Int.toNat ⌊battery⌋ :=
    u8_of_float_in_range undef battery h0 (by linarith)
  refine ⟨⟨rfl, rfl, rfl⟩, ?_, ?_, ?_, ⟨?_, rfl, ?_, ?_⟩, ?_⟩
  · intro s h1 h2 h3
    rw [e_sensor_broadcast_frame, h1, h2, h3, hhi, hu8]
  · intro s h1 h2 h3
    rw [e_computation_broadcast_frame, h1, h2, h3, hhi, hu8]
  · intro s h1 h2 h3
    rw [e_border_broadcast_frame, h1, h2, h3, hhi, hu8]
  · exact hdec
  · rw [hcast]
    exact Int.floor_le battery
  · rw [hcast]
    exact Int.lt_floor_add_one battery
  · intro hne
    have hsum : rank / 256 * 256 + rank % 256 = rank := Nat.div_add_mod' rank 256
    have hne2 : rank / 256 * 256 + rank % 256 ≠ 0xFFFF := by rw [hsum]; exact hne
    constructor
    · intro r
      have h := e_computation_hello LINKADDR_SIZE (rank / 256) (rank % 256)
        (Int.toNat ⌊battery⌋) p.toNat src r hhi256 (Nat.mod_lt _ (by decide)) hne2
      rw [hsum] at h
      exact h
    · intro r
      have h := e_sensor_hello CLOCK_SECOND (rank / 256) (rank % 256)
        (Int.toNat ⌊battery⌋) p.toNat src r hhi256 (Nat.mod_lt _ (by decide)) hne2
      rw [hsum] at h
      exact h

/-- Instance of C23: an energised sensor node of rank 258 with battery level 73.5 in LPM
broadcasts `[1, 1, 2, 73, 1]`; the energised computation node of rank 3 does not adopt the
sender (259 is not below 3), and the decoded rank and energy are 258 and 73. -/
theorem C23_hello_round_trip_witness :
    outputs_of (e_sensor_node.broadcast_rank 0
      { lpm_sensor with my_rank := 258, battery_level := 73.5 }).2 =
        [(none, [1, 1, 2, 73, 1])] ∧
    (([1, 1, 2, 73, 1].getD 1 0 <<< 8) ||| [1, 1, 2, 73, 1].getD 2 0) % 65536 = 258 := by
  have hfloor : Int.toNat ⌊(73.5 : ℚ)⌋ = 73 := by
    have : ⌊(73.5 : ℚ)⌋ = 73 := by
      rw [Int.floor_eq_iff]
      constructor <;> norm_num
    rw [this]
    rfl
  have h := C23_hello_round_trip 2 128 258 0 73.5 power_state_t.STATE_LPM [2, 0]
    (by decide) (by norm_num) (by norm_num)
  have h1 := h.2.1 { lpm_sensor with my_rank := 258, battery_level := 73.5 } rfl rfl rfl
  have h2 := h.2.2.2.2.1.1
  rw [hfloor] at h1 h2
  exact ⟨h1, h2⟩

/-! ## Scenario S5 -/

theorem idle_second_mod (CLOCK_SECOND : Nat) (e e2 : energest_t)
    (h : idle_second CLOCK_SECOND e e2) :
    idle_second CLOCK_SECOND ⟨e.cpu % 2 ^ 32, e.lpm % 2 ^ 32, e.tx % 2 ^ 32, e.rx % 2 ^ 32⟩
      e2 := by
  unfold idle_second at h ⊢
  simp only [u32_sub_mod_right]
  exact h

theorem e_sensor_tick_snapshot (CLOCK_SECOND : Nat) (e : energest_t)
    (s : e_sensor_node.state) :
    e_sensor_node.snapshot (e_sensor_node.energy_tick CLOCK_SECOND e s).1 =
      ⟨e.cpu % 2 ^ 32, e.lpm % 2 ^ 32, e.tx % 2 ^ 32, e.rx % 2 ^ 32⟩ := by
  have ht : ∀ x : e_sensor_node.state,
      e_sensor_node.snapshot (e_sensor_node.energy_transitions x).1 =
        e_sensor_node.snapshot x := by
    intro x
    unfold e_sensor_node.energy_transitions
    simp only []
    split_ifs <;> rfl
  have hr : ∀ x : e_sensor_node.state,
      e_sensor_node.snapshot (e_sensor_node.energy_recharge x) =
        e_sensor_node.snapshot x := by
    intro x
    unfold e_sensor_node.energy_recharge
    simp only []
    split_ifs <;> rfl
  simp only [e_sensor_node.energy_tick]
  rw [ht, hr]
  rfl

theorem e_computation_tick_snapshot (CLOCK_SECOND : Nat) (e : energest_t)
    (s : e_computation_node.state) :
    e_computation_node.snapshot (e_computation_node.energy_tick CLOCK_SECOND e s).1 =
      ⟨e.cpu % 2 ^ 32, e.lpm % 2 ^ 32, e.tx % 2 ^ 32, e.rx % 2 ^ 32⟩ := by
  have ht : ∀ x : e_computation_node.state,
      e_computation_node.snapshot (e_computation_node.energy_transitions x).1 =
        e_computation_node.snapshot x := by
    intro x
    unfold e_computation_node.energy_transitions
    simp only []
    split_ifs <;> rfl
  have hr : ∀ x : e_computation_node.state,
      e_computation_node.snapshot (e_computation_node.energy_recharge x) =
        e_computation_node.snapshot x := by
    intro x
    unfold e_computation_node.energy_recharge
    simp only []
    split_ifs <;> rfl
  simp only [e_computation_node.energy_tick]
  rw [ht, hr]
  rfl

theorem e_border_tick_snapshot (CLOCK_SECOND : Nat) (e : energest_t)
    (s : e_border_router.state) :
    e_border_router.snapshot (e_border_router.energy_tick CLOCK_SECOND e s).1 =
      ⟨e.cpu % 2 ^ 32, e.lpm % 2 ^ 32, e.tx % 2 ^ 32, e.rx % 2 ^ 32⟩ := by
  have ht : ∀ x : e_border_router.state,
      e_border_router.snapshot (e_border_router.energy_transitions x) =
        e_border_router.snapshot x := by
    intro x
    unfold e_border_router.energy_transitions
    simp only []
    split_ifs <;> rfl
  have hr : ∀ x : e_border_router.state,
      e_border_router.snapshot (e_border_router.energy_recharge x) =
        e_border_router.snapshot x := by
    intro x
    unfold e_border_router.energy_recharge
    simp only []
    split_ifs <;> rfl
  simp only [e_border_router.energy_tick]
  rw [ht, hr]
  rfl

theorem idle_readings_128 :
    idle_second 128 ⟨0, 0, 0, 0⟩ ⟨0, 128, 0, 0⟩ ∧
    idle_second 128 ⟨0, 128, 0, 0⟩ ⟨0, 256, 0, 0⟩ ∧
    idle_second 128 ⟨0, 256, 0, 0⟩ ⟨0, 384, 0, 0⟩ ∧
    idle_second 128 ⟨0, 384, 0, 0⟩ ⟨0, 512, 0, 0⟩ := by
  simp only [idle_second, u32_sub]
  norm_num

theorem e_sensor_deep_idle_tick (CLOCK_SECOND : Nat) (hCS : 0 < CLOCK_SECOND)
    (e : energest_t) (s : e_sensor_node.state) (b : ℚ) (c : Nat)
    (hp : s.power_state = power_state_t.STATE_DEEP_LPM) (hb : s.battery_level = b)
    (hc : s.deep_cnt = c) (hc1 : c ≤ 1) (hb99 : f32_sub b LPM_COST ≤ 99)
    (hidle : idle_second CLOCK_SECOND (e_sensor_node.snapshot s) e) :
    (e_sensor_node.energy_tick CLOCK_SECOND e s).1.battery_level =
        f32_sub b LPM_COST + (if c = 1 then 1 else 0) ∧
    (e_sensor_node.energy_tick CLOCK_SECOND e s).1.deep_cnt = 1 - c ∧
    (e_sensor_node.energy_tick CLOCK_SECOND e s).1.power_state =
        (if f32_sub b LPM_COST + (if c = 1 then 1 else 0) ≥ 90 then power_state_t.STATE_ACTIVE
         else power_state_t.STATE_DEEP_LPM) ∧
    ∀ e2, idle_second CLOCK_SECOND e e2 →
      idle_second CLOCK_SECOND
        (e_sensor_node.snapshot (e_sensor_node.energy_tick CLOCK_SECOND e s).1) e2 := by
  obtain ⟨h1, h2, h3, h4⟩ := hidle
  have hub : (e_sensor_node.update_battery CLOCK_SECOND e s).battery_level =
      f32_sub b LPM_COST := by
    simp only [e_sensor_node.snapshot] at h1 h2 h3 h4
    simp only [e_sensor_node.update_battery, h1, h2, h3, h4]
    rw [battery_debit_idle_second CLOCK_SECOND hCS, hb]
  obtain ⟨hcnt, hbat⟩ := e_sensor_tick_deep CLOCK_SECOND e s hp
  rw [hub, hc] at hbat
  rw [hc] at hcnt
  have hbat2 : (e_sensor_node.energy_tick CLOCK_SECOND e s).1.battery_level =
      f32_sub b LPM_COST + (if c = 1 then 1 else 0) := by
    rw [hbat]
    interval_cases c
    · norm_num
    · norm_num
      linarith
  refine ⟨hbat2, ?_, ?_, ?_⟩
  · rw [hcnt]
    interval_cases c <;> rfl
  · rw [(energy_tick_power_state CLOCK_SECOND e).2.1 s, hp, chained_from_deep, hbat2]
  · intro e2 he2
    rw [e_sensor_tick_snapshot]
    exact idle_second_mod CLOCK_SECOND e e2 he2

theorem e_computation_deep_idle_tick (CLOCK_SECOND : Nat) (hCS : 0 < CLOCK_SECOND)
    (e : energest_t) (s : e_computation_node.state) (b : ℚ) (c : Nat)
    (hp : s.power_state = power_state_t.STATE_DEEP_LPM) (hb : s.battery_level = b)
    (hc : s.deep_cnt = c) (hc1 : c ≤ 1) (hb99 : f32_sub b LPM_COST ≤ 99)
    (hidle : idle_second CLOCK_SECOND (e_computation_node.snapshot s) e) :
    (e_computation_node.energy_tick CLOCK_SECOND e s).1.battery_level =
        f32_sub b LPM_COST + (if c = 1 then 1 else 0) ∧
    (e_computation_node.energy_tick CLOCK_SECOND e s).1.deep_cnt = 1 - c ∧
    (e_computation_node.energy_tick CLOCK_SECOND e s).1.power_state =
        (if f32_sub b LPM_COST + (if c = 1 then 1 else 0) ≥ 90 then power_state_t.STATE_ACTIVE
         else power_state_t.STATE_DEEP_LPM) ∧
    ∀ e2, idle_second CLOCK_SECOND e e2 →
      idle_second CLOCK_SECOND
        (e_computation_node.snapshot (e_computation_node.energy_tick CLOCK_SECOND e s).1) e2 := by
  obtain ⟨h1, h2, h3, h4⟩ := hidle
  have hub : (e_computation_node.update_battery CLOCK_SECOND e s).battery_level =
      f32_sub b LPM_COST := by
    simp only [e_computation_node.snapshot] at h1 h2 h3 h4
    simp only [e_computation_node.update_battery, h1, h2, h3, h4]
    rw [battery_debit_idle_second CLOCK_SECOND hCS, hb]
  obtain ⟨hcnt, hbat⟩ := e_computation_tick_deep CLOCK_SECOND e s hp
  rw [hub, hc] at hbat
  rw [hc] at hcnt
  have hbat2 : (e_computation_node.energy_tick CLOCK_SECOND e s).1.battery_level =
      f32_sub b LPM_COST + (if c = 1 then 1 else 0) := by
    rw [hbat]
    interval_cases c
    · norm_num
    · norm_num
      linarith
  refine ⟨hbat2, ?_, ?_, ?_⟩
  · rw [hcnt]
    interval_cases c <;> rfl
  · rw [(energy_tick_power_state CLOCK_SECOND e).1 s, hp, chained_from_deep, hbat2]
  · intro e2 he2
    rw [e_computation_tick_snapshot]
    exact idle_second_mod CLOCK_SECOND e e2 he2

theorem e_border_deep_idle_tick (CLOCK_SECOND : Nat) (hCS : 0 < CLOCK_SECOND)
    (e : energest_t) (s : e_border_router.state) (b : ℚ) (c : Nat)
    (hp : s.power_state = power_state_t.STATE_DEEP_LPM) (hb : s.battery_level = b)
    (hc : s.dpc = c) (hc1 : c ≤ 1)
    (hidle : idle_second CLOCK_SECOND (e_border_router.snapshot s) e) :
    (e_border_router.energy_tick CLOCK_SECOND e s).1.battery_level =
        f32_sub b LPM_COST + (if c = 1 then 1 else 0) ∧
    (e_border_router.energy_tick CLOCK_SECOND e s).1.dpc = 1 - c ∧
    (e_border_router.energy_tick CLOCK_SECOND e s).1.power_state =
        (if f32_sub b LPM_COST + (if c = 1 then 1 else 0) ≥ 90 then power_state_t.STATE_ACTIVE
         else power_state_t.STATE_DEEP_LPM) ∧
    ∀ e2, idle_second CLOCK_SECOND e e2 →
      idle_second CLOCK_SECOND
        (e_border_router.snapshot (e_border_router.energy_tick CLOCK_SECOND e s).1) e2 := by
  obtain ⟨h1, h2, h3, h4⟩ := hidle
  have hub : (e_border_router.update_battery CLOCK_SECOND e s).battery_level =
      f32_sub b LPM_COST := by
    simp only [e_border_router.snapshot] at h1 h2 h3 h4
    simp only [e_border_router.update_battery, h1, h2, h3, h4]
    rw [battery_debit_idle_second CLOCK_SECOND hCS, hb]
  obtain ⟨hcnt, hbat⟩ := e_border_tick_deep CLOCK_SECOND e s hp
  rw [hub, hc] at hbat
  rw [hc] at hcnt
  have hbat2 : (e_border_router.energy_tick CLOCK_SECOND e s).1.battery_level =
      f32_sub b LPM_COST + (if c = 1 then 1 else 0) := by
    rw [hbat]
    interval_cases c
    · norm_num
    · norm_num
  refine ⟨hbat2, ?_, ?_, ?_⟩
  · rw [hcnt]
    interval_cases c <;> rfl
  · rw [(energy_tick_power_state CLOCK_SECOND e).2.2 s, hp, chained_from_deep, hbat2]
  · intro e2 he2
    rw [e_border_tick_snapshot]
    exact idle_second_mod CLOCK_SECOND e e2 he2

/-- The binary32 values met by the battery level on the idle Deep-LPM path from 89: each
subtraction of `0.02f` lowers the level by 2621 units of `2^-17`. -/
theorem f32_sub_lpm_chain :
    f32_sub 89 LPM_COST = 11662787 / 131072 ∧
    f32_sub (11662787 / 131072) LPM_COST = 11660166 / 131072 ∧
    f32_sub (11791238 / 131072) LPM_COST = 11788617 / 131072 ∧
    f32_sub (11788617 / 131072) LPM_COST = 11785996 / 131072 ∧
    f32_sub (11793859 / 131072) LPM_COST = 11791238 / 131072 := by
  have h1 := f32_sub_lpm_cost 11665408 (by norm_num) (by norm_num)
  have h2 := f32_sub_lpm_cost 11662787 (by norm_num) (by norm_num)
  have h3 := f32_sub_lpm_cost 11791238 (by norm_num) (by norm_num)
  have h4 := f32_sub_lpm_cost 11788617 (by norm_num) (by norm_num)
  have h5 := f32_sub_lpm_cost 11793859 (by norm_num) (by norm_num)
  refine ⟨?_, ?_, ?_, ?_, ?_⟩
  · convert h1 using 2
    norm_num
  · convert h2 using 2
  · convert h3 using 2
  · convert h4 using 2
  · convert h5 using 2

theorem deep_idle_chain {σ : Type} (CLOCK_SECOND : Nat) (bat : σ → ℚ) (cnt : σ → Nat)
    (ps : σ → power_state_t) (snap : σ → energest_t) (tick : σ → energest_t → σ × List effect)
    (hstep : ∀ (e : energest_t) (s : σ) (b : ℚ) (c : Nat),
      ps s = power_state_t.STATE_DEEP_LPM → bat s = b → cnt s = c → c ≤ 1 →
      f32_sub b LPM_COST ≤ 99 →
      idle_second CLOCK_SECOND (snap s) e →
      bat (tick s e).1 = f32_sub b LPM_COST + (if c = 1 then 1 else 0) ∧
      cnt (tick s e).1 = 1 - c ∧
      ps (tick s e).1 =
        (if f32_sub b LPM_COST + (if c = 1 then 1 else 0) ≥ 90 then power_state_t.STATE_ACTIVE
         else power_state_t.STATE_DEEP_LPM) ∧
      ∀ e2, idle_second CLOCK_SECOND e e2 → idle_second CLOCK_SECOND (snap (tick s e).1) e2)
    (s : σ) (e1 e2 e3 e4 : energest_t)
    (hp : ps s = power_state_t.STATE_DEEP_LPM) (hb : bat s = 89) (hc : cnt s ≤ 1)
    (h1 : idle_second CLOCK_SECOND (snap s) e1) (h2 : idle_second CLOCK_SECOND e1 e2)
    (h3 : idle_second CLOCK_SECOND e2 e3) (h4 : idle_second CLOCK_SECOND e3 e4) :
    (bat (run_inputs tick s [e1]) < 90 ∧
      ps (run_inputs tick s [e1]) = power_state_t.STATE_DEEP_LPM) ∧
    (bat (run_inputs tick s [e1, e2]) = 11791238 / 131072 ∧
      ps (run_inputs tick s [e1, e2]) = power_state_t.STATE_DEEP_LPM) ∧
    (cnt s = 1 →
      bat (run_inputs tick s [e1, e2, e3]) = 11919689 / 131072 ∧
      ps (run_inputs tick s [e1, e2, e3]) = power_state_t.STATE_ACTIVE) ∧
    (cnt s = 0 →
      bat (run_inputs tick s [e1, e2, e3]) = 11788617 / 131072 ∧
      ps (run_inputs tick s [e1, e2, e3]) = power_state_t.STATE_DEEP_LPM ∧
      bat (run_inputs tick s [e1, e2, e3, e4]) = 11917068 / 131072 ∧
      ps (run_inputs tick s [e1, e2, e3, e4]) = power_state_t.STATE_ACTIVE) := by
  simp only [run_inputs, List.foldl_cons, List.foldl_nil]
  obtain ⟨v1, v2, v3, v4, v5⟩ := f32_sub_lpm_chain
  have hcases : cnt s = 0 ∨ cnt s = 1 := by omega
  rcases hcases with h0 | h0
  · obtain ⟨b1, c1, p1, i1⟩ := hstep e1 s 89 0 hp hb h0 (by omega)
      (by rw [v1]; norm_num) h1
    rw [v1] at b1 p1
    have b1n : bat (tick s e1).1 = 11662787 / 131072 := by rw [b1]; norm_num
    have p1n : ps (tick s e1).1 = power_state_t.STATE_DEEP_LPM := by rw [p1]; norm_num
    obtain ⟨b2, c2, p2, i2⟩ := hstep e2 _ _ 1 p1n b1n c1 (by omega)
      (by rw [v2]; norm_num) (i1 e2 h2)
    rw [v2] at b2 p2
    have b2n : bat (tick (tick s e1).1 e2).1 = 11791238 / 131072 := by rw [b2]; norm_num
    have p2n : ps (tick (tick s e1).1 e2).1 = power_state_t.STATE_DEEP_LPM := by
      rw [p2]
      norm_num
    obtain ⟨b3, c3, p3, i3⟩ := hstep e3 _ _ 0 p2n b2n c2 (by omega)
      (by rw [v3]; norm_num) (i2 e3 h3)
    rw [v3] at b3 p3
    have b3n : bat (tick (tick (tick s e1).1 e2).1 e3).1 = 11788617 / 131072 := by
      rw [b3]
      norm_num
    have p3n : ps (tick (tick (tick s e1).1 e2).1 e3).1 = power_state_t.STATE_DEEP_LPM := by
      rw [p3]
      norm_num
    obtain ⟨b4, c4, p4, _⟩ := hstep e4 _ _ 1 p3n b3n c3 (by omega)
      (by rw [v4]; norm_num) (i3 e4 h4)
    rw [v4] at b4 p4
    have b4n : bat (tick (tick (tick (tick s e1).1 e2).1 e3).1 e4).1 = 11917068 / 131072 := by
      rw [b4]
      norm_num
    have p4n : ps (tick (tick (tick (tick s e1).1 e2).1 e3).1 e4).1 =
        power_state_t.STATE_ACTIVE := by
      rw [p4]
      norm_num
    exact ⟨⟨by rw [b1n]; norm_num, p1n⟩, ⟨b2n, p2n⟩, fun h => absurd h (by omega),
      fun _ => ⟨b3n, p3n, b4n, p4n⟩⟩
  · obtain ⟨b1, c1, p1, i1⟩ := hstep e1 s 89 1 hp hb h0 (by omega)
      (by rw [v1]; norm_num) h1
    rw [v1] at b1 p1
    have b1n : bat (tick s e1).1 = 11793859 / 131072 := by rw [b1]; norm_num
    have p1n : ps (tick s e1).1 = power_state_t.STATE_DEEP_LPM := by rw [p1]; norm_num
    obtain ⟨b2, c2, p2, i2⟩ := hstep e2 _ _ 0 p1n b1n c1 (by omega)
      (by rw [v5]; norm_num) (i1 e2 h2)
    rw [v5] at b2 p2
    have b2n : bat (tick (tick s e1).1 e2).1 = 11791238 / 131072 := by rw [b2]; norm_num
    have p2n : ps (tick (tick s e1).1 e2).1 = power_state_t.STATE_DEEP_LPM := by
      rw [p2]
      norm_num
    obtain ⟨b3, c3, p3, _⟩ := hstep e3 _ _ 1 p2n b2n c2 (by omega)
      (by rw [v3]; norm_num) (i2 e3 h3)
    rw [v3] at b3 p3
    have b3n : bat (tick (tick (tick s e1).1 e2).1 e3).1 = 11919689 / 131072 := by
      rw [b3]
      norm_num
    have p3n : ps (tick (tick (tick s e1).1 e2).1 e3).1 = power_state_t.STATE_ACTIVE := by
      rw [p3]
      norm_num
    exact ⟨⟨by rw [b1n]; norm_num, p1n⟩, ⟨b2n, p2n⟩, fun _ => ⟨b3n, p3n⟩,
      fun h => absurd h (by omega)⟩

/-- C21, refuted as stated: an energised sensor node in Deep-LPM with battery 89 that is
idle (`CLOCK_SECOND = 128`, the LPM counter growing by 128 per energy tick, the other counters
unchanged) is still in Deep-LPM with battery below 90 after one energy tick and after two,
whether its Deep-LPM recharge counter starts at 0 or at 1: each tick debits `LPM_COST = 0.02f`
in binary32, so the single recharge of the first two ticks leaves the level at
`11791238 / 131072 = 89.96000671386719`. -/
theorem C21_counterexample_deep_lpm_two_ticks :
    ((run_inputs (fun s e => e_sensor_node.energy_tick 128 e s) (deep89_sensor 0)
        [⟨0, 128, 0, 0⟩]).battery_level < 90 ∧
      (run_inputs (fun s e => e_sensor_node.energy_tick 128 e s) (deep89_sensor 0)
        [⟨0, 128, 0, 0⟩]).power_state = power_state_t.STATE_DEEP_LPM ∧
      (run_inputs (fun s e => e_sensor_node.energy_tick 128 e s) (deep89_sensor 0)
        [⟨0, 128, 0, 0⟩, ⟨0, 256, 0, 0⟩]).battery_level = 11791238 / 131072 ∧
      (run_inputs (fun s e => e_sensor_node.energy_tick 128 e s) (deep89_sensor 0)
        [⟨0, 128, 0, 0⟩, ⟨0, 256, 0, 0⟩]).power_state = power_state_t.STATE_DEEP_LPM) ∧
    ((run_inputs (fun s e => e_sensor_node.energy_tick 128 e s) (deep89_sensor 1)
        [⟨0, 128, 0, 0⟩]).battery_level < 90 ∧
      (run_inputs (fun s e => e_sensor_node.energy_tick 128 e s) (deep89_sensor 1)
        [⟨0, 128, 0, 0⟩]).power_state = power_state_t.STATE_DEEP_LPM ∧
      (run_inputs (fun s e => e_sensor_node.energy_tick 128 e s) (deep89_sensor 1)
        [⟨0, 128, 0, 0⟩, ⟨0, 256, 0, 0⟩]).battery_level = 11791238 / 131072 ∧
      (run_inputs (fun s e => e_sensor_node.energy_tick 128 e s) (deep89_sensor 1)
        [⟨0, 128, 0, 0⟩, ⟨0, 256, 0, 0⟩]).power_state = power_state_t.STATE_DEEP_LPM) := by
  obtain ⟨i1, i2, i3, i4⟩ := idle_readings_128
  have h : ∀ c, c ≤ 1 → _ := fun c hc =>
    deep_idle_chain 128 e_sensor_node.state.battery_level e_sensor_node.state.deep_cnt
      e_sensor_node.state.power_state e_sensor_node.snapshot
      (fun s e => e_sensor_node.energy_tick 128 e s)
      (fun e s b c hp hb hc hc1 hb99 hi =>
        e_sensor_deep_idle_tick 128 (by decide) e s b c hp hb hc hc1 hb99 hi)
      (deep89_sensor c) ⟨0, 128, 0, 0⟩ ⟨0, 256, 0, 0⟩ ⟨0, 384, 0, 0⟩ ⟨0, 512, 0, 0⟩
      rfl rfl hc i1 i2 i3 i4
  have h0 := h 0 (by decide)
  have h1 := h 1 (by decide)
  exact ⟨⟨h0.1.1, h0.1.2, h0.2.1.1, h0.2.1.2⟩, ⟨h1.1.1, h1.1.2, h1.2.1.1, h1.2.1.2⟩⟩

/-- C21, amended. In each energised role, for a node in Deep-LPM with battery 89 whose
Deep-LPM recharge counter is 0 or 1 (the only values the counter takes), and energy ticks that
each see one idle second (`Δlpm = CLOCK_SECOND`, `Δcpu = Δtx = Δrx = 0`, `CLOCK_SECOND > 0`):
every tick debits `0.02f` in binary32 and every second tick recharges 1.0, so after one tick
the battery is still below 90 and after two ticks it is `11791238 / 131072 =
89.96000671386719`, the node being still in Deep-LPM. The node becomes Active at the second
recharge: after three ticks with battery `11919689 / 131072 = 90.94001007080078` when the
counter started at 1, and after four ticks with battery `11917068 / 131072 =
90.92001342773438` (still Deep-LPM with `11788617 / 131072 = 89.94001007080078` after three)
when the counter started at 0. -/
theorem C21_deep_lpm_recharge_path (CLOCK_SECOND : Nat) (hCS : 0 < CLOCK_SECOND)
    (e1 e2 e3 e4 : energest_t)
    (h2 : idle_second CLOCK_SECOND e1 e2) (h3 : idle_second CLOCK_SECOND e2 e3)
    (h4 : idle_second CLOCK_SECOND e3 e4) :
    (∀ s : e_sensor_node.state,
      s.power_state = power_state_t.STATE_DEEP_LPM → s.battery_level = 89 → s.deep_cnt ≤ 1 →
      idle_second CLOCK_SECOND (e_sensor_node.snapshot s) e1 →
      ((run_inputs (fun s e => e_sensor_node.energy_tick CLOCK_SECOND e s) s
          [e1]).battery_level < 90 ∧
        (run_inputs (fun s e => e_sensor_node.energy_tick CLOCK_SECOND e s) s
          [e1]).power_state = power_state_t.STATE_DEEP_LPM) ∧
      ((run_inputs (fun s e => e_sensor_node.energy_tick CLOCK_SECOND e s) s
          [e1, e2]).battery_level = 11791238 / 131072 ∧
        (run_inputs (fun s e => e_sensor_node.energy_tick CLOCK_SECOND e s) s
          [e1, e2]).power_state = power_state_t.STATE_DEEP_LPM) ∧
      (s.deep_cnt = 1 →
        (run_inputs (fun s e => e_sensor_node.energy_tick CLOCK_SECOND e s) s
          [e1, e2, e3]).battery_level = 11919689 / 131072 ∧
        (run_inputs (fun s e => e_sensor_node.energy_tick CLOCK_SECOND e s) s
          [e1, e2, e3]).power_state = power_state_t.STATE_ACTIVE) ∧
      (s.deep_cnt = 0 →
        (run_inputs (fun s e => e_sensor_node.energy_tick CLOCK_SECOND e s) s
          [e1, e2, e3]).battery_level = 11788617 / 131072 ∧
        (run_inputs (fun s e => e_sensor_node.energy_tick CLOCK_SECOND e s) s
          [e1, e2, e3]).power_state = power_state_t.STATE_DEEP_LPM ∧
        (run_inputs (fun s e => e_sensor_node.energy_tick CLOCK_SECOND e s) s
          [e1, e2, e3, e4]).battery_level = 11917068 / 131072 ∧
        (run_inputs (fun s e => e_sensor_node.energy_tick CLOCK_SECOND e s) s
          [e1, e2, e3, e4]).power_state = power_state_t.STATE_ACTIVE)) ∧
    (∀ s : e_computation_node.state,
      s.power_state = power_state_t.STATE_DEEP_LPM → s.battery_level = 89 → s.deep_cnt ≤ 1 →
      idle_second CLOCK_SECOND (e_computation_node.snapshot s) e1 →
      ((run_inputs (fun s e => e_computation_node.energy_tick CLOCK_SECOND e s) s
          [e1]).battery_level < 90 ∧
        (run_inputs (fun s e => e_computation_node.energy_tick CLOCK_SECOND e s) s
          [e1]).power_state = power_state_t.STATE_DEEP_LPM) ∧
      ((run_inputs (fun s e => e_computation_node.energy_tick CLOCK_SECOND e s) s
          [e1, e2]).battery_level = 11791238 / 131072 ∧
        (run_inputs (fun s e => e_computation_node.energy_tick CLOCK_SECOND e s) s
          [e1, e2]).power_state = power_state_t.STATE_DEEP_LPM) ∧
      (s.deep_cnt = 1 →
        (run_inputs (fun s e => e_computation_node.energy_tick CLOCK_SECOND e s) s
          [e1, e2, e3]).battery_level = 11919689 / 131072 ∧
        (run_inputs (fun s e => e_computation_node.energy_tick CLOCK_SECOND e s) s
          [e1, e2, e3]).power_state = power_state_t.STATE_ACTIVE) ∧
      (s.deep_cnt = 0 →
        (run_inputs (fun s e => e_computation_node.energy_tick CLOCK_SECOND e s) s
          [e1, e2, e3]).battery_level = 11788617 / 131072 ∧
        (run_inputs (fun s e => e_computation_node.energy_tick CLOCK_SECOND e s) s
          [e1, e2, e3]).power_state = power_state_t.STATE_DEEP_LPM ∧
        (run_inputs (fun s e => e_computation_node.energy_tick CLOCK_SECOND e s) s
          [e1, e2, e3, e4]).battery_level = 11917068 / 131072 ∧
        (run_inputs (fun s e => e_computation_node.energy_tick CLOCK_SECOND e s) s
          [e1, e2, e3, e4]).power_state = power_state_t.STATE_ACTIVE)) ∧
    (∀ s : e_border_router.state,
      s.power_state = power_state_t.STATE_DEEP_LPM → s.battery_level = 89 → s.dpc ≤ 1 →
      idle_second CLOCK_SECOND (e_border_router.snapshot s) e1 →
      ((run_inputs (fun s e => e_border_router.energy_tick CLOCK_SECOND e s) s
          [e1]).battery_level < 90 ∧
        (run_inputs (fun s e => e_border_router.energy_tick CLOCK_SECOND e s) s
          [e1]).power_state = power_state_t.STATE_DEEP_LPM) ∧
      ((run_inputs (fun s e => e_border_router.energy_tick CLOCK_SECOND e s) s
          [e1, e2]).battery_level = 11791238 / 131072 ∧
        (run_inputs (fun s e => e_border_router.energy_tick CLOCK_SECOND e s) s
          [e1, e2]).power_state = power_state_t.STATE_DEEP_LPM) ∧
      (s.dpc = 1 →
        (run_inputs (fun s e => e_border_router.energy_tick CLOCK_SECOND e s) s
          [e1, e2, e3]).battery_level = 11919689 / 131072 ∧
        (run_inputs (fun s e => e_border_router.energy_tick CLOCK_SECOND e s) s
          [e1, e2, e3]).power_state = power_state_t.STATE_ACTIVE) ∧
      (s.dpc = 0 →
        (run_inputs (fun s e => e_border_router.energy_tick CLOCK_SECOND e s) s
          [e1, e2, e3]).battery_level = 11788617 / 131072 ∧
        (run_inputs (fun s e => e_border_router.energy_tick CLOCK_SECOND e s) s
          [e1, e2, e3]).power_state = power_state_t.STATE_DEEP_LPM ∧
        (run_inputs (fun s e => e_border_router.energy_tick CLOCK_SECOND e s) s
          [e1, e2, e3, e4]).battery_level = 11917068 / 131072 ∧
        (run_inputs (fun s e => e_border_router.energy_tick CLOCK_SECOND e s) s
          [e1, e2, e3, e4]).power_state = power_state_t.STATE_ACTIVE)) := by
  refine ⟨fun s hp hb hc h1 => ?_, fun s hp hb hc h1 => ?_, fun s hp hb hc h1 => ?_⟩
  · exact deep_idle_chain CLOCK_SECOND e_sensor_node.state.battery_level
      e_sensor_node.state.deep_cnt e_sensor_node.state.power_state e_sensor_node.snapshot
      (fun s e => e_sensor_node.energy_tick CLOCK_SECOND e s)
      (fun e s b c hp hb hc hc1 hb99 hi =>
        e_sensor_deep_idle_tick CLOCK_SECOND hCS e s b c hp hb hc hc1 hb99 hi)
      s e1 e2 e3 e4 hp hb hc h1 h2 h3 h4
  · exact deep_idle_chain CLOCK_SECOND e_computation_node.state.battery_level
      e_computation_node.state.deep_cnt e_computation_node.state.power_state
      e_computation_node.snapshot
      (fun s e => e_computation_node.energy_tick CLOCK_SECOND e s)
      (fun e s b c hp hb hc hc1 hb99 hi =>
        e_computation_deep_idle_tick CLOCK_SECOND hCS e s b c hp hb hc hc1 hb99 hi)
      s e1 e2 e3 e4 hp hb hc h1 h2 h3 h4
  · exact deep_idle_chain CLOCK_SECOND e_border_router.state.battery_level
      e_border_router.state.dpc e_border_router.state.power_state e_border_router.snapshot
      (fun s e => e_border_router.energy_tick CLOCK_SECOND e s)
      (fun e s b c hp hb hc hc1 _ hi =>
        e_border_deep_idle_tick CLOCK_SECOND hCS e s b c hp hb hc hc1 hi)
      s e1 e2 e3 e4 hp hb hc h1 h2 h3 h4

/-- Instance of the amended C21 with `CLOCK_SECOND = 128` and the LPM counter reading 128,
256, 384 at the three ticks: the sensor node in Deep-LPM with battery 89 and counter 1 is in
Deep-LPM with battery `11791238 / 131072` after two ticks and Active with battery
`11919689 / 131072` after three. -/
theorem C21_deep_lpm_recharge_path_witness :
    (run_inputs (fun s e => e_sensor_node.energy_tick 128 e s) (deep89_sensor 1)
        [⟨0, 128, 0, 0⟩, ⟨0, 256, 0, 0⟩]).battery_level = 11791238 / 131072 ∧
    (run_inputs (fun s e => e_sensor_node.energy_tick 128 e s) (deep89_sensor 1)
        [⟨0, 128, 0, 0⟩, ⟨0, 256, 0, 0⟩]).power_state = power_state_t.STATE_DEEP_LPM ∧
    (run_inputs (fun s e => e_sensor_node.energy_tick 128 e s) (deep89_sensor 1)
        [⟨0, 128, 0, 0⟩, ⟨0, 256, 0, 0⟩, ⟨0, 384, 0, 0⟩]).battery_level = 11919689 / 131072 ∧
    (run_inputs (fun s e => e_sensor_node.energy_tick 128 e s) (deep89_sensor 1)
        [⟨0, 128, 0, 0⟩, ⟨0, 256, 0, 0⟩, ⟨0, 384, 0, 0⟩]).power_state =
      power_state_t.STATE_ACTIVE := by
  have h := (C21_deep_lpm_recharge_path 128 (by decide) ⟨0, 128, 0, 0⟩ ⟨0, 256, 0, 0⟩
    ⟨0, 384, 0, 0⟩ ⟨0, 512, 0, 0⟩ idle_readings_128.2.1 idle_readings_128.2.2.1
    idle_readings_128.2.2.2).1 (deep89_sensor 1) rfl rfl (by decide) idle_readings_128.1
  exact ⟨h.2.1.1, h.2.1.2, (h.2.2.1 rfl).1, (h.2.2.1 rfl).2⟩

/-! ## The lookup of a window -/

theorem first_index_some_spec (p : Nat → Bool) :
    ∀ (n i j : Nat), first_index p n i = some j →
      i ≤ j ∧ j < i + n ∧ p j = true ∧ ∀ k, i ≤ k → k < j → p k = false := by
  intro n
  induction n with
  | zero =>
    intro i j h
    simp [first_index] at h
  | succ n ih =>
    intro i j h
    unfold first_index at h
    by_cases hp : p i = true
    · rw [if_pos hp] at h
      have hij : i = j := Option.some.inj h
      subst hij
      exact ⟨le_refl _, by omega, hp, fun k h1 h2 => absurd h1 (by omega)⟩
    · rw [if_neg hp] at h
      obtain ⟨h1, h2, h3, h4⟩ := ih (i + 1) j h
      refine ⟨by omega, by omega, h3, fun k hk1 hk2 => ?_⟩
      by_cases hki : k = i
      · subst hki
        simpa using hp
      · exact h4 k (by omega) hk2

theorem first_index_none_spec (p : Nat → Bool) :
    ∀ (n i : Nat), first_index p n i = none → ∀ k, i ≤ k → k < i + n → p k = false := by
  intro n
  induction n with
  | zero =>
    intro i _ k h1 h2
    omega
  | succ n ih =>
    intro i h k h1 h2
    unfold first_index at h
    by_cases hp : p i = true
    · rw [if_pos hp] at h
      exact absurd h (by simp)
    · rw [if_neg hp] at h
      by_cases hki : k = i
      · subst hki
        simpa using hp
      · exact ih (i + 1) h k (by omega) (by omega)

theorem e_get_window_spec (t : List e_computation_node.sensor_window_t) (sid : Nat) :
    (∃ j, j < MAX_SENSORS ∧ (t.getD j e_computation_node.zero_window).count > 0 ∧
        (t.getD j e_computation_node.zero_window).id = sid ∧
        e_computation_node.get_window t sid = (some j, t)) ∨
    ((∀ k, k < MAX_SENSORS →
        ¬ ((t.getD k e_computation_node.zero_window).count > 0 ∧
           (t.getD k e_computation_node.zero_window).id = sid)) ∧
      ((∃ j, j < MAX_SENSORS ∧ (t.getD j e_computation_node.zero_window).count = 0 ∧
          e_computation_node.get_window t sid =
            (some j, t.set j { e_computation_node.zero_window with id := sid })) ∨
        ((∀ k, k < MAX_SENSORS → (t.getD k e_computation_node.zero_window).count ≠ 0) ∧
          e_computation_node.get_window t sid = (none, t)))) := by
  unfold e_computation_node.get_window
  cases h1 : first_index
      (fun i => decide ((t.getD i e_computation_node.zero_window).count > 0) &&
        decide ((t.getD i e_computation_node.zero_window).id = sid)) MAX_SENSORS 0 with
  | some j =>
    obtain ⟨_, hj, hp, _⟩ := first_index_some_spec _ _ _ _ h1
    simp only [Bool.and_eq_true, decide_eq_true_eq] at hp
    exact Or.inl ⟨j, by omega, hp.1, hp.2, rfl⟩
  | none =>
    have hnone := first_index_none_spec _ _ _ h1
    refine Or.inr ⟨fun k hk => ?_, ?_⟩
    · have := hnone k (Nat.zero_le k) (by omega)
      simpa using this
    · cases h2 : first_index
          (fun i => decide ((t.getD i e_computation_node.zero_window).count = 0))
          MAX_SENSORS 0 with
      | some j =>
        obtain ⟨_, hj, hp, _⟩ := first_index_some_spec _ _ _ _ h2
        simp only [decide_eq_true_eq] at hp
        exact Or.inl ⟨j, by omega, hp, rfl⟩
      | none =>
        have hfull := first_index_none_spec _ _ _ h2
        refine Or.inr ⟨fun k hk => ?_, rfl⟩
        have := hfull k (Nat.zero_le k) (by omega)
        simpa using this

theorem c_get_window_spec (now : Nat) (t : List computation_node.sensor_window_t)
    (sid : Nat) :
    (∃ j, j < MAX_SENSORS ∧
        ((computation_node.expire_windows now t).getD j computation_node.zero_window).count
          > 0 ∧
        ((computation_node.expire_windows now t).getD j computation_node.zero_window).id
          = sid ∧
        computation_node.get_window now t sid =
          (some j, computation_node.expire_windows now t)) ∨
    ((∀ k, k < MAX_SENSORS →
        ¬ (((computation_node.expire_windows now t).getD k
              computation_node.zero_window).count > 0 ∧
           ((computation_node.expire_windows now t).getD k
              computation_node.zero_window).id = sid)) ∧
      ((∃ j, j < MAX_SENSORS ∧
          ((computation_node.expire_windows now t).getD j
            computation_node.zero_window).count = 0 ∧
          computation_node.get_window now t sid =
            (some j, (computation_node.expire_windows now t).set j
              { computation_node.zero_window with id := sid })) ∨
        ((∀ k, k < MAX_SENSORS →
            ((computation_node.expire_windows now t).getD k
              computation_node.zero_window).count ≠ 0) ∧
          computation_node.get_window now t sid =
            (none, computation_node.expire_windows now t)))) := by
  unfold computation_node.get_window
  simp only []
  generalize computation_node.expire_windows now t = T
  cases h1 : first_index
      (fun i => decide ((T.getD i computation_node.zero_window).count > 0) &&
        decide ((T.getD i computation_node.zero_window).id = sid)) MAX_SENSORS 0 with
  | some j =>
    obtain ⟨_, hj, hp, _⟩ := first_index_some_spec _ _ _ _ h1
    simp only [Bool.and_eq_true, decide_eq_true_eq] at hp
    exact Or.inl ⟨j, by omega, hp.1, hp.2, rfl⟩
  | none =>
    have hnone := first_index_none_spec _ _ _ h1
    refine Or.inr ⟨fun k hk => ?_, ?_⟩
    · have := hnone k (Nat.zero_le k) (by omega)
      simpa using this
    · cases h2 : first_index
          (fun i => decide ((T.getD i computation_node.zero_window).count = 0))
          MAX_SENSORS 0 with
      | some j =>
        obtain ⟨_, hj, hp, _⟩ := first_index_some_spec _ _ _ _ h2
        simp only [decide_eq_true_eq] at hp
        exact Or.inl ⟨j, by omega, hp, rfl⟩
      | none =>
        have hfull := first_index_none_spec _ _ _ h2
        refine Or.inr ⟨fun k hk => ?_, rfl⟩
        have := hfull k (Nat.zero_le k) (by omega)
        simpa using this

/-! ## The window table invariant -/

theorem getD_set_eq {W : Type} (T : List W) (j : Nat) (w z : W) (i : Nat)
    (hj : j < T.length) :
    (T.set j w).getD i z = if i = j then w else T.getD i z := by
  by_cases h : i = j
  · subst h
    rw [if_pos rfl, List.getD_eq_getElem?_getD, List.getElem?_set_self hj]
    rfl
  · rw [if_neg h, List.getD_eq_getElem?_getD, List.getElem?_set_ne (Ne.symm h),
      ← List.getD_eq_getElem?_getD]

theorem table_inv_set {W : Type} (id count idx : W → Nat) (z : W) (T : List W)
    (h : table_inv id count idx z T) (j : Nat) (hj : j < MAX_SENSORS) (w : W)
    (hw : window_ok (count w) (idx w))
    (hu : count w > 0 → ∀ i, i < MAX_SENSORS → i ≠ j → count (T.getD i z) > 0 →
      id (T.getD i z) ≠ id w) :
    table_inv id count idx z (T.set j w) := by
  obtain ⟨hlen, hok, huniq⟩ := h
  have hjl : j < T.length := by omega
  refine ⟨by rw [List.length_set]; exact hlen, fun i hi => ?_, fun i hi k hk hik hci hck => ?_⟩
  · rw [getD_set_eq T j w z i hjl]
    split_ifs
    · exact hw
    · exact hok i hi
  · rw [getD_set_eq T j w z i hjl] at hci ⊢
    rw [getD_set_eq T j w z k hjl] at hck ⊢
    by_cases h1 : i = j
    · have h2 : ¬ k = j := fun h => hik (h1.trans h.symm)
      rw [if_pos h1] at hci ⊢
      rw [if_neg h2] at hck ⊢
      exact Ne.symm (hu hci k hk h2 hck)
    · rw [if_neg h1] at hci ⊢
      by_cases h2 : k = j
      · rw [if_pos h2] at hck ⊢
        exact hu hck i hi h1 hci
      · rw [if_neg h2] at hck ⊢
        exact huniq i hi k hk hik hci hck

theorem window_ok_store (c i : Nat) (h : window_ok c i) :
    window_ok (if c < WINDOW_SIZE then (c + 1) % 256 else c) ((i + 1) % WINDOW_SIZE) ∧
    0 < (if c < WINDOW_SIZE then (c + 1) % 256 else c) := by
  unfold window_ok WINDOW_SIZE at *
  obtain ⟨h1, h2, h3⟩ := h
  split_ifs with hc
  · have := h3 hc
    refine ⟨⟨by omega, Nat.mod_lt _ (by decide), fun _ => by omega⟩, by omega⟩
  · refine ⟨⟨by omega, Nat.mod_lt _ (by decide), fun _ => by omega⟩, by omega⟩

theorem table_inv_init {W : Type} (id count idx : W → Nat) (z : W)
    (hz : count z = 0 ∧ idx z = 0) :
    table_inv id count idx z (List.replicate MAX_SENSORS z) := by
  have hget : ∀ i, (List.replicate MAX_SENSORS z).getD i z = z := by
    intro i
    rw [List.getD_eq_getElem?_getD, List.getElem?_replicate]
    split_ifs <;> rfl
  refine ⟨List.length_replicate _ _, fun i _ => ?_, fun i _ j _ _ hci _ => ?_⟩
  · rw [hget, hz.1, hz.2]
    exact ⟨by decide, by decide, fun _ => rfl⟩
  · rw [hget, hz.1] at hci
    exact absurd hci (by decide)

theorem e_store_fields (w : e_computation_node.sensor_window_t) (v : Nat) :
    (e_computation_node.store_reading w v).id = w.id ∧
    (e_computation_node.store_reading w v).count =
      (if w.count < WINDOW_SIZE then (w.count + 1) % 256 else w.count) ∧
    (e_computation_node.store_reading w v).idx = (w.idx + 1) % WINDOW_SIZE := by
  unfold e_computation_node.store_reading
  simp only []
  split_ifs <;> exact ⟨rfl, rfl, rfl⟩

theorem e_input_callback_sensors (LINKADDR_SIZE : Nat) (s : e_computation_node.state)
    (data : List Nat) (src : linkaddr_t) :
    (e_computation_node.input_callback LINKADDR_SIZE s data src).1.sensors = s.sensors ∨
    (∃ j T, e_computation_node.get_window s.sensors (data.getD 1 0) = (some j, T) ∧
      (e_computation_node.input_callback LINKADDR_SIZE s data src).1.sensors =
        T.set j (e_computation_node.store_reading (T.getD j e_computation_node.zero_window)
          (u16_of_bytes (data.getD 2 0) (data.getD 3 0)))) ∨
    (∃ T, e_computation_node.get_window s.sensors (data.getD 1 0) = (none, T) ∧
      (e_computation_node.input_callback LINKADDR_SIZE s data src).1.sensors = T) := by
  unfold e_computation_node.input_callback
  simp only []
  split_ifs with h1 h2
  · left
    unfold e_computation_node.on_hello
    simp only []
    split_ifs <;> rfl
  · unfold e_computation_node.on_sensor
    simp only []
    split_ifs with h3
    · split
      · rename_i i sensors heq
        right
        left
        refine ⟨i, sensors, heq, ?_⟩
        split_ifs <;> rfl
      · rename_i sensors heq
        right
        right
        exact ⟨sensors, heq, rfl⟩
    · left
      rfl
  · left
    rfl

theorem e_table_inv_lookup_store (t : List e_computation_node.sensor_window_t)
    (h : e_table_inv t) (sid v j : Nat) (T : List e_computation_node.sensor_window_t)
    (hget : e_computation_node.get_window t sid = (some j, T)) :
    e_table_inv
      (T.set j (e_computation_node.store_reading (T.getD j e_computation_node.zero_window)
        v)) := by
  have hlen : t.length = MAX_SENSORS := h.1
  rcases e_get_window_spec t sid with ⟨k, hk, hcnt, hid, hg⟩ | ⟨hnone, hrest⟩
  · rw [hg] at hget
    have hkj : k = j := Option.some.inj (congrArg Prod.fst hget)
    have hT : t = T := congrArg Prod.snd hget
    subst hkj
    subst hT
    obtain ⟨f1, f2, f3⟩ := e_store_fields (t.getD k e_computation_node.zero_window) v
    apply table_inv_set _ _ _ _ t h k hk
    · rw [f2, f3]
      exact (window_ok_store _ _ (h.2.1 k hk)).1
    · intro _ i hi hik hci
      rw [f1]
      exact h.2.2 i hi k hk hik hci hcnt
  · rcases hrest with ⟨k, hk, hcnt, hg⟩ | ⟨_, hg⟩
    · rw [hg] at hget
      have hkj : k = j := Option.some.inj (congrArg Prod.fst hget)
      have hT : t.set k { e_computation_node.zero_window with id := sid } = T :=
        congrArg Prod.snd hget
      subst hkj
      subst hT
      have hfresh : (t.set k { e_computation_node.zero_window with id := sid }).getD k
          e_computation_node.zero_window =
          { e_computation_node.zero_window with id := sid } := by
        rw [getD_set_eq _ _ _ _ _ (by omega), if_pos rfl]
      rw [hfresh, List.set_set]
      obtain ⟨f1, f2, f3⟩ := e_store_fields
        { e_computation_node.zero_window with id := sid } v
      apply table_inv_set _ _ _ _ t h k hk
      · rw [f2, f3]
        exact (window_ok_store 0 0 ⟨by decide, by decide, fun _ => rfl⟩).1
      · intro _ i hi _ hci
        rw [f1]
        exact fun hid => hnone i hi ⟨hci, hid⟩
    · rw [hg] at hget
      exact absurd (congrArg Prod.fst hget) (by simp)

theorem e_get_window_none_table (t : List e_computation_node.sensor_window_t) (sid : Nat)
    (T : List e_computation_node.sensor_window_t)
    (hget : e_computation_node.get_window t sid = (none, T)) : T = t := by
  rcases e_get_window_spec t sid with ⟨k, _, _, _, hg⟩ | ⟨_, ⟨k, _, _, hg⟩ | ⟨_, hg⟩⟩
  · rw [hg] at hget
    exact absurd (congrArg Prod.fst hget) (by simp)
  · rw [hg] at hget
    exact absurd (congrArg Prod.fst hget) (by simp)
  · rw [hg] at hget
    exact (congrArg Prod.snd hget).symm

theorem e_table_inv_step (LINKADDR_SIZE : Nat) (s : e_computation_node.state)
    (data : List Nat) (src : linkaddr_t) (h : e_table_inv s.sensors) :
    e_table_inv (e_computation_node.input_callback LINKADDR_SIZE s data src).1.sensors := by
  rcases e_input_callback_sensors LINKADDR_SIZE s data src with
    h1 | ⟨j, T, hget, h2⟩ | ⟨T, hget, h3⟩
  · rw [h1]
    exact h
  · rw [h2]
    exact e_table_inv_lookup_store s.sensors h _ _ j T hget
  · rw [h3, e_get_window_none_table _ _ _ hget]
    exact h

theorem e_table_inv_run (LINKADDR_SIZE : Nat) :
    ∀ (frames : List (List Nat × linkaddr_t)) (s : e_computation_node.state),
      e_table_inv s.sensors →
      e_table_inv (run_inputs
        (fun s (f : List Nat × linkaddr_t) =>
          e_computation_node.input_callback LINKADDR_SIZE s f.1 f.2) s frames).sensors := by
  intro frames
  induction frames with
  | nil => intro s h; exact h
  | cons f rest ih =>
    intro s h
    exact ih _ (e_table_inv_step LINKADDR_SIZE s f.1 f.2 h)

theorem c_store_fields (now : Nat) (w : computation_node.sensor_window_t) (v : Nat) :
    (computation_node.store_reading now w v).id = w.id ∧
    (computation_node.store_reading now w v).count =
      (if w.count < WINDOW_SIZE then (w.count + 1) % 256 else w.count) ∧
    (computation_node.store_reading now w v).idx = (w.idx + 1) % WINDOW_SIZE ∧
    (computation_node.store_reading now w v).last_ts = now % 2 ^ 32 ∧
    (computation_node.store_reading now w v).values = w.values.set w.idx v := by
  unfold computation_node.store_reading
  simp only []
  split_ifs <;> exact ⟨rfl, rfl, rfl, rfl, rfl⟩

theorem c_table_inv_expire (now : Nat) (t : List computation_node.sensor_window_t)
    (h : c_table_inv t) : c_table_inv (computation_node.expire_windows now t) := by
  obtain ⟨hlen, hget⟩ := expire_windows_getD now t h.1
  refine ⟨hlen, fun i hi => ?_, fun i hi j hj hij hci hcj => ?_⟩
  · rw [hget i hi]
    split_ifs
    · exact ⟨by decide, by decide, fun _ => rfl⟩
    · exact h.2.1 i hi
  · rw [hget i hi] at hci ⊢
    rw [hget j hj] at hcj ⊢
    split_ifs at hci hcj ⊢
    · exact absurd hci (by decide)
    · exact absurd hci (by decide)
    · exact absurd hcj (by decide)
    · exact h.2.2 i hi j hj hij hci hcj

theorem c_input_callback_sensors (LINKADDR_SIZE now : Nat) (s : computation_node.state)
    (data : List Nat) (src : linkaddr_t) :
    (computation_node.input_callback LINKADDR_SIZE now s data src).1.sensors = s.sensors ∨
    (∃ j T, computation_node.get_window now s.sensors (data.getD 1 0) = (some j, T) ∧
      (computation_node.input_callback LINKADDR_SIZE now s data src).1.sensors =
        T.set j (computation_node.store_reading now (T.getD j computation_node.zero_window)
          (u16_of_bytes (data.getD 2 0) (data.getD 3 0)))) ∨
    (∃ T, computation_node.get_window now s.sensors (data.getD 1 0) = (none, T) ∧
      (computation_node.input_callback LINKADDR_SIZE now s data src).1.sensors = T) := by
  unfold computation_node.input_callback
  simp only []
  split_ifs with h1 h2
  · left
    unfold computation_node.on_hello
    simp only []
    split_ifs <;> rfl
  · unfold computation_node.on_sensor
    simp only []
    split
    · rename_i i sensors heq
      right
      left
      refine ⟨i, sensors, heq, ?_⟩
      split_ifs <;> rfl
    · rename_i sensors heq
      right
      right
      exact ⟨sensors, heq, rfl⟩
  · left
    rfl

theorem c_table_inv_lookup_store (now : Nat) (t : List computation_node.sensor_window_t)
    (h : c_table_inv t) (sid v j : Nat) (T : List computation_node.sensor_window_t)
    (hget : computation_node.get_window now t sid = (some j, T)) :
    c_table_inv
      (T.set j (computation_node.store_reading now (T.getD j computation_node.zero_window)
        v)) := by
  have hE := c_table_inv_expire now t h
  have hspec := c_get_window_spec now t sid
  generalize computation_node.expire_windows now t = E at hE hspec
  have hlen : E.length = MAX_SENSORS := hE.1
  rcases hspec with ⟨k, hk, hcnt, hid, hg⟩ | ⟨hnone, hrest⟩
  · rw [hg] at hget
    obtain ⟨hkj, hT⟩ := Prod.mk.inj hget
    have hkj2 : k = j := Option.some.inj hkj
    subst hkj2
    subst hT
    obtain ⟨f1, f2, f3, _⟩ := c_store_fields now (E.getD k computation_node.zero_window) v
    apply table_inv_set _ _ _ _ E hE k hk
    · rw [f2, f3]
      exact (window_ok_store _ _ (hE.2.1 k hk)).1
    · intro _ i hi hik hci
      rw [f1]
      exact hE.2.2 i hi k hk hik hci hcnt
  · rcases hrest with ⟨k, hk, hcnt, hg⟩ | ⟨_, hg⟩
    · rw [hg] at hget
      obtain ⟨hkj, hT⟩ := Prod.mk.inj hget
      have hkj2 : k = j := Option.some.inj hkj
      subst hkj2
      subst hT
      have hfresh : (E.set k { computation_node.zero_window with id := sid }).getD k
          computation_node.zero_window =
          { computation_node.zero_window with id := sid } := by
        rw [getD_set_eq _ _ _ _ _ (by omega), if_pos rfl]
      rw [hfresh, List.set_set]
      obtain ⟨f1, f2, f3, _⟩ := c_store_fields now
        { computation_node.zero_window with id := sid } v
      apply table_inv_set _ _ _ _ E hE k hk
      · rw [f2, f3]
        exact (window_ok_store 0 0 ⟨by decide, by decide, fun _ => rfl⟩).1
      · intro _ i hi _ hci
        rw [f1]
        exact fun hid => hnone i hi ⟨hci, hid⟩
    · rw [hg] at hget
      exact absurd (Prod.mk.inj hget).1 (by simp)

theorem c_get_window_none_table (now : Nat) (t : List computation_node.sensor_window_t)
    (sid : Nat) (T : List computation_node.sensor_window_t)
    (hget : computation_node.get_window now t sid = (none, T)) :
    T = computation_node.expire_windows now t := by
  have hspec := c_get_window_spec now t sid
  generalize computation_node.expire_windows now t = E at hspec ⊢
  rcases hspec with ⟨k, _, _, _, hg⟩ | ⟨_, ⟨k, _, _, hg⟩ | ⟨_, hg⟩⟩
  · rw [hg] at hget
    exact absurd (Prod.mk.inj hget).1 (by simp)
  · rw [hg] at hget
    exact absurd (Prod.mk.inj hget).1 (by simp)
  · rw [hg] at hget
    exact (Prod.mk.inj hget).2.symm

theorem c_table_inv_step (LINKADDR_SIZE now : Nat) (s : computation_node.state)
    (data : List Nat) (src : linkaddr_t) (h : c_table_inv s.sensors) :
    c_table_inv (computation_node.input_callback LINKADDR_SIZE now s data src).1.sensors := by
  rcases c_input_callback_sensors LINKADDR_SIZE now s data src with
    h1 | ⟨j, T, hget, h2⟩ | ⟨T, hget, h3⟩
  · rw [h1]
    exact h
  · rw [h2]
    exact c_table_inv_lookup_store now s.sensors h _ _ j T hget
  · rw [h3, c_get_window_none_table _ _ _ _ hget]
    exact c_table_inv_expire now s.sensors h

theorem c_table_inv_run (LINKADDR_SIZE : Nat) :
    ∀ (frames : List (Nat × List Nat × linkaddr_t)) (s : computation_node.state),
      c_table_inv s.sensors →
      c_table_inv (run_inputs
        (fun s (f : Nat × List Nat × linkaddr_t) =>
          computation_node.input_callback LINKADDR_SIZE f.1 s f.2.1 f.2.2) s frames).sensors := by
  intro frames
  induction frames with
  | nil => intro s h; exact h
  | cons f rest ih =>
    intro s h
    exact ih _ (c_table_inv_step LINKADDR_SIZE f.1 s f.2.1 f.2.2 h)

/-- C24: the window table invariant. Starting from the all-zero table, after any sequence of
inbound frames handled by `input_callback` of a Computation node (arbitrary lengths, bytes and
source addresses; in the energy-unaware variant also arbitrary clock readings), the table
still has its 5 slots, every window satisfies `count ≤ 30` and `idx < 30`, a window that is
not yet full (`count < 30`) satisfies `idx = count`, and no two occupied windows
(`count > 0`) have the same source id. This holds for the energised and for the
energy-unaware variant. -/
theorem C24_window_table_invariant (LINKADDR_SIZE : Nat) :
    (∀ (s : e_computation_node.state) (frames : List (List Nat × linkaddr_t)),
      s.sensors = List.replicate MAX_SENSORS e_computation_node.zero_window →
      (run_inputs (fun s (f : List Nat × linkaddr_t) =>
          e_computation_node.input_callback LINKADDR_SIZE s f.1 f.2) s frames).sensors.length
        = MAX_SENSORS ∧
      (∀ i, i < MAX_SENSORS →
        (((run_inputs (fun s (f : List Nat × linkaddr_t) =>
            e_computation_node.input_callback LINKADDR_SIZE s f.1 f.2) s frames).sensors.getD i
              e_computation_node.zero_window).count ≤ WINDOW_SIZE ∧
         ((run_inputs (fun s (f : List Nat × linkaddr_t) =>
            e_computation_node.input_callback LINKADDR_SIZE s f.1 f.2) s frames).sensors.getD i
              e_computation_node.zero_window).idx < WINDOW_SIZE ∧
         (((run_inputs (fun s (f : List Nat × linkaddr_t) =>
            e_computation_node.input_callback LINKADDR_SIZE s f.1 f.2) s frames).sensors.getD i
              e_computation_node.zero_window).count < WINDOW_SIZE →
          ((run_inputs (fun s (f : List Nat × linkaddr_t) =>
            e_computation_node.input_callback LINKADDR_SIZE s f.1 f.2) s frames).sensors.getD i
              e_computation_node.zero_window).idx =
          ((run_inputs (fun s (f : List Nat × linkaddr_t) =>
            e_computation_node.input_callback LINKADDR_SIZE s f.1 f.2) s frames).sensors.getD i
              e_computation_node.zero_window).count))) ∧
      (∀ i, i < MAX_SENSORS → ∀ j, j < MAX_SENSORS → i ≠ j →
        ((run_inputs (fun s (f : List Nat × linkaddr_t) =>
            e_computation_node.input_callback LINKADDR_SIZE s f.1 f.2) s frames).sensors.getD i
              e_computation_node.zero_window).count > 0 →
        ((run_inputs (fun s (f : List Nat × linkaddr_t) =>
            e_computation_node.input_callback LINKADDR_SIZE s f.1 f.2) s frames).sensors.getD j
              e_computation_node.zero_window).count > 0 →
        ((run_inputs (fun s (f : List Nat × linkaddr_t) =>
            e_computation_node.input_callback LINKADDR_SIZE s f.1 f.2) s frames).sensors.getD i
              e_computation_node.zero_window).id ≠
        ((run_inputs (fun s (f : List Nat × linkaddr_t) =>
            e_computation_node.input_callback LINKADDR_SIZE s f.1 f.2) s frames).sensors.getD j
              e_computation_node.zero_window).id)) ∧
    (∀ (s : computation_node.state) (frames : List (Nat × List Nat × linkaddr_t)),
      s.sensors = List.replicate MAX_SENSORS computation_node.zero_window →
      (run_inputs (fun s (f : Nat × List Nat × linkaddr_t) =>
          computation_node.input_callback LINKADDR_SIZE f.1 s f.2.1 f.2.2) s
            frames).sensors.length = MAX_SENSORS ∧
      (∀ i, i < MAX_SENSORS →
        (((run_inputs (fun s (f : Nat × List Nat × linkaddr_t) =>
            computation_node.input_callback LINKADDR_SIZE f.1 s f.2.1 f.2.2) s
              frames).sensors.getD i computation_node.zero_window).count ≤ WINDOW_SIZE ∧
         ((run_inputs (fun s (f : Nat × List Nat × linkaddr_t) =>
            computation_node.input_callback LINKADDR_SIZE f.1 s f.2.1 f.2.2) s
              frames).sensors.getD i computation_node.zero_window).idx < WINDOW_SIZE ∧
         (((run_inputs (fun s (f : Nat × List Nat × linkaddr_t) =>
            computation_node.input_callback LINKADDR_SIZE f.1 s f.2.1 f.2.2) s
              frames).sensors.getD i computation_node.zero_window).count < WINDOW_SIZE →
          ((run_inputs (fun s (f : Nat × List Nat × linkaddr_t) =>
            computation_node.input_callback LINKADDR_SIZE f.1 s f.2.1 f.2.2) s
              frames).sensors.getD i computation_node.zero_window).idx =
          ((run_inputs (fun s (f : Nat × List Nat × linkaddr_t) =>
            computation_node.input_callback LINKADDR_SIZE f.1 s f.2.1 f.2.2) s
              frames).sensors.getD i computation_node.zero_window).count))) ∧
      (∀ i, i < MAX_SENSORS → ∀ j, j < MAX_SENSORS → i ≠ j →
        ((run_inputs (fun s (f : Nat × List Nat × linkaddr_t) =>
            computation_node.input_callback LINKADDR_SIZE f.1 s f.2.1 f.2.2) s
              frames).sensors.getD i computation_node.zero_window).count > 0 →
        ((run_inputs (fun s (f : Nat × List Nat × linkaddr_t) =>
            computation_node.input_callback LINKADDR_SIZE f.1 s f.2.1 f.2.2) s
              frames).sensors.getD j computation_node.zero_window).count > 0 →
        ((run_inputs (fun s (f : Nat × List Nat × linkaddr_t) =>
            computation_node.input_callback LINKADDR_SIZE f.1 s f.2.1 f.2.2) s
              frames).sensors.getD i computation_node.zero_window).id ≠
        ((run_inputs (fun s (f : Nat × List Nat × linkaddr_t) =>
            computation_node.input_callback LINKADDR_SIZE f.1 s f.2.1 f.2.2) s
              frames).sensors.getD j computation_node.zero_window).id)) := by
  constructor
  · intro s frames hs
    have h0 : e_table_inv s.sensors := by
      rw [hs]
      exact table_inv_init _ _ _ _ ⟨rfl, rfl⟩
    exact e_table_inv_run LINKADDR_SIZE frames s h0
  · intro s frames hs
    have h0 : c_table_inv s.sensors := by
      rw [hs]
      exact table_inv_init _ _ _ _ ⟨rfl, rfl⟩
    exact c_table_inv_run LINKADDR_SIZE frames s h0

/-- Instances of C24: the energised computation node with an empty table after the SENSOR
frames `[2, 7, 5, 0]`, `[2, 8, 6, 0]`, `[2, 7, 9, 0]` and the 3-byte frame `[2, 7, 5]`, and the
energy-unaware computation node with an empty table after the frames `[2, 7, 5, 0]` at clock
reading 0, `[2, 8, 6, 0, 99]` at 10 and `[2, 7, 9, 0]` at 400: both tables satisfy the
invariant. -/
theorem C24_window_table_invariant_witness :
    e_table_inv (run_inputs (fun s (f : List Nat × linkaddr_t) =>
        e_computation_node.input_callback 2 s f.1 f.2) fresh_e_computation
      [([2, 7, 5, 0], [7, 0]), ([2, 8, 6, 0], [8, 0]), ([2, 7, 9, 0], [7, 0]),
       ([2, 7, 5], [7, 0])]).sensors ∧
    c_table_inv (run_inputs (fun s (f : Nat × List Nat × linkaddr_t) =>
        computation_node.input_callback 2 f.1 s f.2.1 f.2.2) fresh_computation
      [(0, [2, 7, 5, 0], [7, 0]), (10, [2, 8, 6, 0, 99], [8, 0]),
       (400, [2, 7, 9, 0], [7, 0])]).sensors :=
  ⟨(C24_window_table_invariant 2).1 fresh_e_computation _ rfl,
   (C24_window_table_invariant 2).2 fresh_computation _ rfl⟩

/-! ## Stale-window expiry -/

theorem u32_sub_of_le (now ts : Nat) (h1 : ts ≤ now) (h2 : now < 2 ^ 32) :
    u32_sub now ts = now - ts := by
  unfold u32_sub
  norm_num at h2 ⊢
  omega

theorem c_get_window_table (now : Nat) (t : List computation_node.sensor_window_t)
    (sid : Nat) (hlen : t.length = MAX_SENSORS) (i : Nat) :
    (computation_node.get_window now t sid).2.getD i computation_node.zero_window =
        (computation_node.expire_windows now t).getD i computation_node.zero_window ∨
    (((computation_node.expire_windows now t).getD i computation_node.zero_window).count = 0 ∧
      (computation_node.get_window now t sid).2.getD i computation_node.zero_window =
        { computation_node.zero_window with id := sid }) := by
  have hspec := c_get_window_spec now t sid
  have hl := (expire_windows_getD now t hlen).1
  generalize computation_node.expire_windows now t = E at hspec hl ⊢
  rcases hspec with ⟨k, _, _, _, hg⟩ | ⟨_, ⟨k, hk, hc, hg⟩ | ⟨_, hg⟩⟩
  · rw [hg]
    exact Or.inl rfl
  · rw [hg]
    simp only []
    rw [getD_set_eq E k _ _ i (by omega)]
    by_cases hik : i = k
    · subst hik
      rw [if_pos rfl]
      exact Or.inr ⟨hc, rfl⟩
    · rw [if_neg hik]
      exact Or.inl rfl
  · rw [hg]
    exact Or.inl rfl

theorem c_sensor_frame_sensors (LINKADDR_SIZE now : Nat) (s : computation_node.state)
    (data : List Nat) (src : linkaddr_t) (h2 : data.length ≠ 2) (h4 : data.length ≥ 4)
    (h0 : data.getD 0 0 = 2) :
    (∃ j T, computation_node.get_window now s.sensors (data.getD 1 0) = (some j, T) ∧
      (computation_node.input_callback LINKADDR_SIZE now s data src).1.sensors =
        T.set j (computation_node.store_reading now (T.getD j computation_node.zero_window)
          (u16_of_bytes (data.getD 2 0) (data.getD 3 0)))) ∨
    (∃ T, computation_node.get_window now s.sensors (data.getD 1 0) = (none, T) ∧
      (computation_node.input_callback LINKADDR_SIZE now s data src).1.sensors = T) := by
  unfold computation_node.input_callback
  simp only []
  rw [if_neg h2, if_pos ⟨h4, h0⟩]
  unfold computation_node.on_sensor
  simp only []
  split
  · rename_i i sensors heq
    left
    refine ⟨i, sensors, heq, ?_⟩
    split_ifs <;> rfl
  · rename_i sensors heq
    right
    exact ⟨sensors, heq, rfl⟩

theorem c_reading_fresh_core (LINKADDR_SIZE now : Nat) (s : computation_node.state)
    (data : List Nat) (src : linkaddr_t)
    (hlen : s.sensors.length = MAX_SENSORS)
    (h2 : data.length ≠ 2) (h4 : data.length ≥ 4) (h0 : data.getD 0 0 = 2)
    (hEnone : ∀ i, i < MAX_SENSORS →
      ¬ (((computation_node.expire_windows now s.sensors).getD i
            computation_node.zero_window).count > 0 ∧
         ((computation_node.expire_windows now s.sensors).getD i
            computation_node.zero_window).id = data.getD 1 0))
    (hEfree : ∃ j, j < MAX_SENSORS ∧
      ((computation_node.expire_windows now s.sensors).getD j
        computation_node.zero_window).count = 0) :
    ∃ k, k < MAX_SENSORS ∧
      (computation_node.input_callback LINKADDR_SIZE now s data src).1.sensors.getD k
          computation_node.zero_window =
        computation_node.store_reading now
          { computation_node.zero_window with id := data.getD 1 0 }
          (u16_of_bytes (data.getD 2 0) (data.getD 3 0)) := by
  obtain ⟨hlenE, _⟩ := expire_windows_getD now s.sensors hlen
  have hspec := c_get_window_spec now s.sensors (data.getD 1 0)
  have hframe := c_sensor_frame_sensors LINKADDR_SIZE now s data src h2 h4 h0
  generalize computation_node.expire_windows now s.sensors = E at hlenE hEfree hEnone hspec
  rcases hspec with ⟨k, hk, hc, hi, _⟩ | ⟨_, ⟨k, hk, hc, hg⟩ | ⟨hfull, _⟩⟩
  · exact absurd ⟨hc, hi⟩ (hEnone k hk)
  · refine ⟨k, hk, ?_⟩
    rcases hframe with ⟨k2, T, hget, hres⟩ | ⟨T, hget, _⟩
    · rw [hg] at hget
      obtain ⟨hkk, hT⟩ := Prod.mk.inj hget
      have hkk2 : k = k2 := Option.some.inj hkk
      subst hkk2
      subst hT
      rw [hres, getD_set_eq _ _ _ _ _ (by rw [List.length_set]; omega), if_pos rfl,
        getD_set_eq _ _ _ _ _ (by omega), if_pos rfl]
    · rw [hg] at hget
      exact absurd (Prod.mk.inj hget).1 (by simp)
  · obtain ⟨j, hj, hj0⟩ := hEfree
    exact absurd hj0 (hfull j hj)

theorem c_reading_after_expiry (LINKADDR_SIZE now : Nat) (s : computation_node.state)
    (data : List Nat) (src : linkaddr_t) (j : Nat)
    (hinv : c_table_inv s.sensors) (hj : j < MAX_SENSORS)
    (hocc : (s.sensors.getD j computation_node.zero_window).count > 0)
    (hid : (s.sensors.getD j computation_node.zero_window).id = data.getD 1 0)
    (h2 : data.length ≠ 2) (h4 : data.length ≥ 4) (h0 : data.getD 0 0 = 2)
    (hstale : u32_sub now (s.sensors.getD j computation_node.zero_window).last_ts >
      WINDOW_EXPIRY) :
    ∃ k, k < MAX_SENSORS ∧
      (computation_node.input_callback LINKADDR_SIZE now s data src).1.sensors.getD k
          computation_node.zero_window =
        computation_node.store_reading now
          { computation_node.zero_window with id := data.getD 1 0 }
          (u16_of_bytes (data.getD 2 0) (data.getD 3 0)) := by
  obtain ⟨hlenE, hgetE⟩ := expire_windows_getD now s.sensors hinv.1
  have hEj : ((computation_node.expire_windows now s.sensors).getD j
      computation_node.zero_window) = computation_node.zero_window := by
    rw [hgetE j hj, if_pos ⟨hocc, hstale⟩]
  apply c_reading_fresh_core LINKADDR_SIZE now s data src hinv.1 h2 h4 h0
  · intro i hi
    rw [hgetE i hi]
    split_ifs
    · exact fun h => absurd h.1 (by decide)
    · intro h
      by_cases hij : i = j
      · subst hij
        rename_i hns
        exact hns ⟨hocc, hstale⟩
      · exact hinv.2.2 i hi j hj hij h.1 hocc (h.2.trans hid.symm)
  · exact ⟨j, hj, by rw [hEj]; rfl⟩

theorem c_reading_no_window (LINKADDR_SIZE now : Nat) (s : computation_node.state)
    (data : List Nat) (src : linkaddr_t)
    (hlen : s.sensors.length = MAX_SENSORS)
    (h2 : data.length ≠ 2) (h4 : data.length ≥ 4) (h0 : data.getD 0 0 = 2)
    (hnone : ∀ i, i < MAX_SENSORS →
      ¬ ((s.sensors.getD i computation_node.zero_window).count > 0 ∧
         (s.sensors.getD i computation_node.zero_window).id = data.getD 1 0)) :
    ((∃ j, j < MAX_SENSORS ∧
        ((s.sensors.getD j computation_node.zero_window).count = 0 ∨
         u32_sub now (s.sensors.getD j computation_node.zero_window).last_ts >
          WINDOW_EXPIRY)) →
      ∃ k, k < MAX_SENSORS ∧
        (computation_node.input_callback LINKADDR_SIZE now s data src).1.sensors.getD k
            computation_node.zero_window =
          computation_node.store_reading now
            { computation_node.zero_window with id := data.getD 1 0 }
            (u16_of_bytes (data.getD 2 0) (data.getD 3 0))) ∧
    ((∀ j, j < MAX_SENSORS →
        (s.sensors.getD j computation_node.zero_window).count > 0 ∧
        u32_sub now (s.sensors.getD j computation_node.zero_window).last_ts ≤
          WINDOW_EXPIRY) →
      computation_node.input_callback LINKADDR_SIZE now s data src = (s, [])) := by
  obtain ⟨hlenE, hgetE⟩ := expire_windows_getD now s.sensors hlen
  constructor
  · rintro ⟨j, hj, hfree⟩
    apply c_reading_fresh_core LINKADDR_SIZE now s data src hlen h2 h4 h0
    · intro i hi
      rw [hgetE i hi]
      split_ifs
      · exact fun h => absurd h.1 (by decide)
      · exact hnone i hi
    · refine ⟨j, hj, ?_⟩
      rw [hgetE j hj]
      split_ifs with hc
      · rfl
      · rcases hfree with h | h
        · exact h
        · have : ¬ (s.sensors.getD j computation_node.zero_window).count > 0 :=
            fun hp => hc ⟨hp, h⟩
          omega
  · intro hfull
    have hget := c_get_window_full now s.sensors (data.getD 1 0) (fun i hi =>
      ⟨(hfull i hi).1, fun hid => hnone i hi ⟨(hfull i hi).1, hid⟩, (hfull i hi).2⟩)
    unfold computation_node.input_callback
    simp only []
    rw [if_neg h2, if_pos ⟨h4, h0⟩]
    unfold computation_node.on_sensor
    simp only [hget]

theorem c_reading_appended (LINKADDR_SIZE now : Nat) (s : computation_node.state)
    (data : List Nat) (src : linkaddr_t) (j : Nat)
    (hinv : c_table_inv s.sensors) (hj : j < MAX_SENSORS)
    (hocc : (s.sensors.getD j computation_node.zero_window).count > 0)
    (hid : (s.sensors.getD j computation_node.zero_window).id = data.getD 1 0)
    (h2 : data.length ≠ 2) (h4 : data.length ≥ 4) (h0 : data.getD 0 0 = 2)
    (hfresh : u32_sub now (s.sensors.getD j computation_node.zero_window).last_ts ≤
      WINDOW_EXPIRY) :
    (computation_node.input_callback LINKADDR_SIZE now s data src).1.sensors.getD j
        computation_node.zero_window =
      computation_node.store_reading now (s.sensors.getD j computation_node.zero_window)
        (u16_of_bytes (data.getD 2 0) (data.getD 3 0)) := by
  obtain ⟨hlenE, hgetE⟩ := expire_windows_getD now s.sensors hinv.1
  have hinvE := c_table_inv_expire now s.sensors hinv
  have hEj : ((computation_node.expire_windows now s.sensors).getD j
      computation_node.zero_window) = s.sensors.getD j computation_node.zero_window := by
    rw [hgetE j hj, if_neg (fun h => absurd h.2 (by omega))]
  have hspec := c_get_window_spec now s.sensors (data.getD 1 0)
  have hframe := c_sensor_frame_sensors LINKADDR_SIZE now s data src h2 h4 h0
  generalize computation_node.expire_windows now s.sensors = E at hlenE hEj hinvE hspec
  rw [← hEj] at hocc hid ⊢
  rcases hspec with ⟨k, hk, hc, hi, hg⟩ | ⟨hnone, _⟩
  · have hkj : k = j := by
      by_contra hne
      exact hinvE.2.2 k hk j hj hne hc hocc (hi.trans hid.symm)
    subst hkj
    rcases hframe with ⟨k2, T, hget, hres⟩ | ⟨T, hget, _⟩
    · rw [hg] at hget
      obtain ⟨hkk, hT⟩ := Prod.mk.inj hget
      have hkk2 : k = k2 := Option.some.inj hkk
      subst hkk2
      subst hT
      rw [hres, getD_set_eq _ _ _ _ _ (by omega), if_pos rfl]
    · rw [hg] at hget
      exact absurd (Prod.mk.inj hget).1 (by simp)
  · exact absurd ⟨hocc, hid⟩ (hnone j hj)

set_option maxRecDepth 100000 in
theorem crowded_run :
    ((computation_node.input_callback 2 0 fresh_computation [2, 1, 40, 0]
        [1, 0]).1.sensors.getD 0 computation_node.zero_window =
      { id := 1, count := 1, idx := 1, last_ts := 0, values := 40 :: List.replicate 29 0 }) ∧
    crowded_computation.sensors.map (fun w => (w.id, w.count, w.last_ts)) =
      [(6, 1, 301), (2, 2, 200), (3, 2, 200), (4, 2, 200), (5, 2, 200)] ∧
    computation_node.input_callback 2 302 crowded_computation [2, 1, 9, 0] [1, 0] =
      (crowded_computation, []) ∧
    ¬ ∃ k, k < MAX_SENSORS ∧
      ((computation_node.input_callback 2 302 crowded_computation [2, 1, 9, 0]
        [1, 0]).1.sensors.getD k computation_node.zero_window).id = 1 := by
  decide

/-- C25, refuted as stated: six sensors at a table of five windows. Sensor 1 stores a reading
at clock reading 0 (slot 0). The sensors 2..5 keep their windows fresh (readings at 0 and
200). At 301 the first reading of sensor 6 makes `get_window` free the stale window of
sensor 1 and take its slot. The next reading of sensor 1 arrives at 302, more than 300 s after
its previous one: no window of sensor 1 is left, all five slots are occupied by fresh
windows, and the reading is dropped (state unchanged, no effect) instead of starting a fresh
window. -/
theorem C25_counterexample_slot_taken :
    ((computation_node.input_callback 2 0 fresh_computation [2, 1, 40, 0]
        [1, 0]).1.sensors.getD 0 computation_node.zero_window =
      { id := 1, count := 1, idx := 1, last_ts := 0, values := 40 :: List.replicate 29 0 }) ∧
    crowded_computation.sensors.map (fun w => (w.id, w.count, w.last_ts)) =
      [(6, 1, 301), (2, 2, 200), (3, 2, 200), (4, 2, 200), (5, 2, 200)] ∧
    computation_node.input_callback 2 302 crowded_computation [2, 1, 9, 0] [1, 0] =
      (crowded_computation, []) ∧
    ¬ ∃ k, k < MAX_SENSORS ∧
      ((computation_node.input_callback 2 302 crowded_computation [2, 1, 9, 0]
        [1, 0]).1.sensors.getD k computation_node.zero_window).id = 1 :=
  crowded_run

/-- C25, amended: stale-window expiry of the energy-unaware Computation node, for a table
that satisfies the window table invariant and a clock that has not wrapped (`last_ts ≤ now <
2^32`). On every lookup `get_window` frees exactly the stale occupied windows: an occupied
window whose `last_ts` is more than 300 s before `now` has `count = 0` in the table after the
call, and an occupied window whose `last_ts` is at most 300 s before `now` is left exactly
as it was. For a SENSOR frame (at least 4 bytes, first byte 2) of a sensor `sid` whose window
is still in the table with time stamp `last_ts`: if the frame arrives more than 300 s after
`last_ts`, the reading starts a fresh window (some slot then holds the window of `sid` with
`count = 1`, `idx = 1`, `values[0]` the new reading and `last_ts = now`); if it arrives at
most 300 s after `last_ts`, the reading is appended to the existing window (same slot, same
id, `values[idx]` set to the reading, `idx` advanced modulo 30, `count` incremented up to 30,
`last_ts = now`). When `sid` has no window in the table any more (an earlier lookup freed
it), the reading starts a fresh window if some slot is free or stale, and is dropped, with
the state unchanged and no effect, if all five slots hold windows that are not stale. -/
theorem C25_stale_window_expiry (LINKADDR_SIZE now : Nat) (s : computation_node.state)
    (hinv : c_table_inv s.sensors) (hnow : now < 2 ^ 32) :
    (∀ sid i, i < MAX_SENSORS →
      (s.sensors.getD i computation_node.zero_window).count > 0 →
      (s.sensors.getD i computation_node.zero_window).last_ts ≤ now →
      ((s.sensors.getD i computation_node.zero_window).last_ts + 300 < now →
        ((computation_node.expire_windows now s.sensors).getD i
          computation_node.zero_window) = computation_node.zero_window ∧
        ((computation_node.get_window now s.sensors sid).2.getD i
          computation_node.zero_window).count = 0) ∧
      (now ≤ (s.sensors.getD i computation_node.zero_window).last_ts + 300 →
        (computation_node.get_window now s.sensors sid).2.getD i
          computation_node.zero_window = s.sensors.getD i computation_node.zero_window)) ∧
    (∀ (data : List Nat) (src : linkaddr_t) (j : Nat), j < MAX_SENSORS →
      (s.sensors.getD j computation_node.zero_window).count > 0 →
      (s.sensors.getD j computation_node.zero_window).id = data.getD 1 0 →
      data.length ≥ 4 → data.getD 0 0 = 2 →
      (s.sensors.getD j computation_node.zero_window).last_ts ≤ now →
      ((s.sensors.getD j computation_node.zero_window).last_ts + 300 < now →
        ∃ k, k < MAX_SENSORS ∧
          ((computation_node.input_callback LINKADDR_SIZE now s data src).1.sensors.getD k
            computation_node.zero_window).id = data.getD 1 0 ∧
          ((computation_node.input_callback LINKADDR_SIZE now s data src).1.sensors.getD k
            computation_node.zero_window).count = 1 ∧
          ((computation_node.input_callback LINKADDR_SIZE now s data src).1.sensors.getD k
            computation_node.zero_window).idx = 1 ∧
          ((computation_node.input_callback LINKADDR_SIZE now s data src).1.sensors.getD k
            computation_node.zero_window).values.getD 0 0 =
              u16_of_bytes (data.getD 2 0) (data.getD 3 0) ∧
          ((computation_node.input_callback LINKADDR_SIZE now s data src).1.sensors.getD k
            computation_node.zero_window).last_ts = now) ∧
      (now ≤ (s.sensors.getD j computation_node.zero_window).last_ts + 300 →
        (computation_node.input_callback LINKADDR_SIZE now s data src).1.sensors.getD j
            computation_node.zero_window =
          computation_node.store_reading now
            (s.sensors.getD j computation_node.zero_window)
            (u16_of_bytes (data.getD 2 0) (data.getD 3 0)) ∧
        ((computation_node.input_callback LINKADDR_SIZE now s data src).1.sensors.getD j
            computation_node.zero_window).id = data.getD 1 0 ∧
        ((computation_node.input_callback LINKADDR_SIZE now s data src).1.sensors.getD j
            computation_node.zero_window).count =
          (if (s.sensors.getD j computation_node.zero_window).count < 30 then
            (s.sensors.getD j computation_node.zero_window).count + 1 else 30) ∧
        ((computation_node.input_callback LINKADDR_SIZE now s data src).1.sensors.getD j
            computation_node.zero_window).idx =
          ((s.sensors.getD j computation_node.zero_window).idx + 1) % 30 ∧
        ((computation_node.input_callback LINKADDR_SIZE now s data src).1.sensors.getD j
            computation_node.zero_window).values =
          (s.sensors.getD j computation_node.zero_window).values.set
            (s.sensors.getD j computation_node.zero_window).idx
            (u16_of_bytes (data.getD 2 0) (data.getD 3 0)) ∧
        ((computation_node.input_callback LINKADDR_SIZE now s data src).1.sensors.getD j
            computation_node.zero_window).last_ts = now)) ∧
    (∀ (data : List Nat) (src : linkaddr_t),
      data.length ≥ 4 → data.getD 0 0 = 2 →
      (∀ i, i < MAX_SENSORS →
        ¬ ((s.sensors.getD i computation_node.zero_window).count > 0 ∧
           (s.sensors.getD i computation_node.zero_window).id = data.getD 1 0)) →
      ((∃ j, j < MAX_SENSORS ∧
          ((s.sensors.getD j computation_node.zero_window).count = 0 ∨
           ((s.sensors.getD j computation_node.zero_window).last_ts ≤ now ∧
            (s.sensors.getD j computation_node.zero_window).last_ts + 300 < now))) →
        ∃ k, k < MAX_SENSORS ∧
          ((computation_node.input_callback LINKADDR_SIZE now s data src).1.sensors.getD k
            computation_node.zero_window).id = data.getD 1 0 ∧
          ((computation_node.input_callback LINKADDR_SIZE now s data src).1.sensors.getD k
            computation_node.zero_window).count = 1 ∧
          ((computation_node.input_callback LINKADDR_SIZE now s data src).1.sensors.getD k
            computation_node.zero_window).idx = 1 ∧
          ((computation_node.input_callback LINKADDR_SIZE now s data src).1.sensors.getD k
            computation_node.zero_window).values.getD 0 0 =
              u16_of_bytes (data.getD 2 0) (data.getD 3 0) ∧
          ((computation_node.input_callback LINKADDR_SIZE now s data src).1.sensors.getD k
            computation_node.zero_window).last_ts = now) ∧
      ((∀ j, j < MAX_SENSORS →
          (s.sensors.getD j computation_node.zero_window).count > 0 ∧
          (s.sensors.getD j computation_node.zero_window).last_ts ≤ now ∧
          now ≤ (s.sensors.getD j computation_node.zero_window).last_ts + 300) →
        computation_node.input_callback LINKADDR_SIZE now s data src = (s, []))) := by
  have hmod : now % 2 ^ 32 = now := Nat.mod_eq_of_lt hnow
  obtain ⟨hlenE, hgetE⟩ := expire_windows_getD now s.sensors hinv.1
  have hexp : WINDOW_EXPIRY = 300 := rfl
  have hfields : ∀ (data : List Nat) (w : computation_node.sensor_window_t),
      w = computation_node.store_reading now
          { computation_node.zero_window with id := data.getD 1 0 }
          (u16_of_bytes (data.getD 2 0) (data.getD 3 0)) →
      w.id = data.getD 1 0 ∧ w.count = 1 ∧ w.idx = 1 ∧
      w.values.getD 0 0 = u16_of_bytes (data.getD 2 0) (data.getD 3 0) ∧ w.last_ts = now := by
    intro data w hw
    obtain ⟨f1, f2, f3, f4, f5⟩ := c_store_fields now
      { computation_node.zero_window with id := data.getD 1 0 }
      (u16_of_bytes (data.getD 2 0) (data.getD 3 0))
    rw [hw]
    refine ⟨f1, ?_, ?_, ?_, ?_⟩
    · rw [f2]
      rfl
    · rw [f3]
      rfl
    · rw [f5]
      rfl
    · rw [f4, hmod]
  refine ⟨?_, ?_, ?_⟩
  · intro sid i hi hocc hts
    have hsub := u32_sub_of_le now _ hts hnow
    constructor
    · intro hstale
      have hE : (computation_node.expire_windows now s.sensors).getD i
          computation_node.zero_window = computation_node.zero_window := by
        rw [hgetE i hi, if_pos ⟨hocc, by rw [hsub, hexp]; omega⟩]
      refine ⟨hE, ?_⟩
      rcases c_get_window_table now s.sensors sid hinv.1 i with h | ⟨_, h⟩
      · rw [h, hE]
        rfl
      · rw [h]
        rfl
    · intro hfresh
      have hE : (computation_node.expire_windows now s.sensors).getD i
          computation_node.zero_window = s.sensors.getD i computation_node.zero_window := by
        rw [hgetE i hi, if_neg (fun h => absurd h.2 (by rw [hsub, hexp]; omega))]
      rcases c_get_window_table now s.sensors sid hinv.1 i with h | ⟨h0, _⟩
      · rw [h, hE]
      · rw [hE] at h0
        omega
  · intro data src j hj hocc hid h4 h0 hts
    have hsub := u32_sub_of_le now _ hts hnow
    constructor
    · intro hstale
      obtain ⟨k, hk, hres⟩ := c_reading_after_expiry LINKADDR_SIZE now s data src j hinv hj
        hocc hid (by omega) h4 h0 (by rw [hsub, hexp]; omega)
      exact ⟨k, hk, hfields data _ hres⟩
    · intro hfresh
      have hres := c_reading_appended LINKADDR_SIZE now s data src j hinv hj
        hocc hid (by omega) h4 h0 (by rw [hsub, hexp]; omega)
      obtain ⟨f1, f2, f3, f4, f5⟩ := c_store_fields now
        (s.sensors.getD j computation_node.zero_window)
        (u16_of_bytes (data.getD 2 0) (data.getD 3 0))
      have hwin := hinv.2.1 j hj
      refine ⟨hres, ?_, ?_, ?_, ?_, ?_⟩
      · rw [hres, f1, hid]
      · rw [hres, f2]
        have hle : (s.sensors.getD j computation_node.zero_window).count ≤ 30 := hwin.1
        have hW : WINDOW_SIZE = 30 := rfl
        rw [hW]
        split_ifs <;> omega
      · rw [hres, f3]
        rfl
      · rw [hres, f5]
      · rw [hres, f4, hmod]
  · intro data src h4 h0 hnone
    obtain ⟨hA, hB⟩ := c_reading_no_window LINKADDR_SIZE now s data src hinv.1 (by omega)
      h4 h0 hnone
    constructor
    · rintro ⟨j, hj, hfree⟩
      obtain ⟨k, hk, hres⟩ := hA ⟨j, hj, by
        rcases hfree with h | ⟨h1, h2⟩
        · exact Or.inl h
        · right
          rw [u32_sub_of_le now _ h1 hnow, hexp]
          omega⟩
      exact ⟨k, hk, hfields data _ hres⟩
    · intro hfull
      exact hB (fun j hj => ⟨(hfull j hj).1, by
        rw [u32_sub_of_le now _ (hfull j hj).2.1 hnow, hexp]
        have := (hfull j hj).2.2
        omega⟩)

/-- Instances of the amended C25 on the energy-unaware computation node whose five slots hold one
reading each of the sensors 1..5, stored at clock reading 1000, for the frame `[2, 3, 77, 0]`
of sensor 3: at clock reading 1400 the reading starts a fresh window (count 1, idx 1,
`values[0] = 77`), and at clock reading 1200 it is appended to the window in slot 2, which
then holds the two readings 40 and 77. -/
theorem C25_stale_window_expiry_witness :
    (∃ k, k < MAX_SENSORS ∧
      ((computation_node.input_callback 2 1400 full_computation [2, 3, 77, 0]
          [3, 0]).1.sensors.getD k computation_node.zero_window).id = 3 ∧
      ((computation_node.input_callback 2 1400 full_computation [2, 3, 77, 0]
          [3, 0]).1.sensors.getD k computation_node.zero_window).count = 1 ∧
      ((computation_node.input_callback 2 1400 full_computation [2, 3, 77, 0]
          [3, 0]).1.sensors.getD k computation_node.zero_window).idx = 1 ∧
      ((computation_node.input_callback 2 1400 full_computation [2, 3, 77, 0]
          [3, 0]).1.sensors.getD k computation_node.zero_window).values.getD 0 0 = 77 ∧
      ((computation_node.input_callback 2 1400 full_computation [2, 3, 77, 0]
          [3, 0]).1.sensors.getD k computation_node.zero_window).last_ts = 1400) ∧
    (computation_node.input_callback 2 1200 full_computation [2, 3, 77, 0]
        [3, 0]).1.sensors.getD 2 computation_node.zero_window =
      { id := 3, count := 2, idx := 2, last_ts := 1200,
        values := 40 :: 77 :: List.replicate 28 0 } := by
  have hinv : c_table_inv full_computation.sensors := by decide
  constructor
  · exact ((C25_stale_window_expiry 2 1400 full_computation hinv (by norm_num)).2.1
      [2, 3, 77, 0] [3, 0] 2 (by decide) (by decide) (by decide) (by decide) (by decide)
      (by decide)).1 (by decide)
  · rw [(((C25_stale_window_expiry 2 1200 full_computation hinv (by norm_num)).2.1
      [2, 3, 77, 0] [3, 0] 2 (by decide) (by decide) (by decide) (by decide) (by decide)
      (by decide)).2 (by decide)).1]
    decide

/-! ## The battery bound -/

theorem e_sensor_run_battery (CLOCK_SECOND : Nat) :
    ∀ (hs : List e_sensor_node.handler) (s : e_sensor_node.state),
      s.battery_level ≤ BATTERY_MAX →
      (run_inputs (e_sensor_node.handle CLOCK_SECOND) s hs).battery_level ≤ BATTERY_MAX := by
  obtain ⟨h1, _, h3, _, h5, _, h7, h8⟩ := sensor_computation_battery_le_max CLOCK_SECOND 0
  intro hs
  induction hs with
  | nil => intro s h; exact h
  | cons i rest ih =>
    intro s h
    simp only [run_inputs, List.foldl_cons] at ih ⊢
    apply ih
    cases i with
    | energy e => exact h1 e s h
    | hello undef => exact le_trans (h5 undef s) h
    | sampling rnd => exact le_trans (h7 rnd s) h
    | valve => exact le_trans (h8 s) h
    | frame data src => exact le_trans (h3 s data src) h

theorem e_computation_run_battery (CLOCK_SECOND LINKADDR_SIZE : Nat) :
    ∀ (hs : List e_computation_node.handler) (s : e_computation_node.state),
      s.battery_level ≤ BATTERY_MAX →
      (run_inputs (e_computation_node.handle CLOCK_SECOND LINKADDR_SIZE) s hs).battery_level ≤
        BATTERY_MAX := by
  obtain ⟨_, h2, _, h4, _, h6, _, _⟩ :=
    sensor_computation_battery_le_max CLOCK_SECOND LINKADDR_SIZE
  intro hs
  induction hs with
  | nil => intro s h; exact h
  | cons i rest ih =>
    intro s h
    simp only [run_inputs, List.foldl_cons] at ih ⊢
    apply ih
    cases i with
    | energy e => exact h2 e s h
    | hello undef => exact le_trans (h6 undef s) h
    | frame data src => exact le_trans (h4 s data src) h

theorem battery_inv_iff (CLOCK_SECOND r mid : Nat) (p : e_border_router.process_t) :
    e_border_router.battery_inv CLOCK_SECOND r mid p ↔
      p.vars.lpmc < 10 ∧
      ∃ xe xh : Nat, p.energy_timer = some (xe, CLOCK_SECOND) ∧ p.hello_timer = some (xh, r) ∧
        xe ≤ p.clock + CLOCK_SECOND ∧ xh < xe + r ∧
        (p.vars.power_state = power_state_t.STATE_ACTIVE → p.vars.battery_level ≤ 100) ∧
        (p.vars.power_state = power_state_t.STATE_DEEP_LPM → p.vars.battery_level ≤ 90) ∧
        (p.vars.power_state = power_state_t.STATE_LPM →
          ∃ n : Nat, n < 3 ∧ p.vars.battery_level ≤ 30 + (n : ℚ) ∧
            10 * n + p.vars.lpmc ≤ 20 + mid ∧
            xh + (10 * n + p.vars.lpmc + 1) * CLOCK_SECOND ≤ xe + 20 * CLOCK_SECOND) := by
  unfold e_border_router.battery_inv
  constructor
  · rintro ⟨hl, h⟩
    refine ⟨hl, ?_⟩
    split at h
    · rename_i te th hte hth
      obtain ⟨h1, h2, h3, h4, h5⟩ := h
      refine ⟨te.1, th.1, ?_, ?_, h3, h4, ?_, ?_, ?_⟩
      · rw [hte, ← h1]
      · rw [hth, ← h2]
      · intro hp
        rw [hp] at h5
        exact h5
      · intro hp
        rw [hp] at h5
        exact h5
      · intro hp
        rw [hp] at h5
        exact h5
    · exact absurd h id
  · rintro ⟨hl, xe, xh, hte, hth, h3, h4, ha, hd, hlpm⟩
    refine ⟨hl, ?_⟩
    rw [hte, hth]
    refine ⟨rfl, rfl, h3, h4, ?_⟩
    split
    · rename_i hp
      exact ha hp
    · rename_i hp
      exact hd hp
    · rename_i hp
      exact hlpm hp

theorem e_border_recharge_lpmc_other (s : e_border_router.state)
    (h : s.power_state ≠ power_state_t.STATE_LPM) :
    (e_border_router.energy_recharge s).lpmc = s.lpmc := by
  unfold e_border_router.energy_recharge
  simp only [if_neg h]
  split_ifs <;> rfl

theorem e_border_tick_lpmc_other (CLOCK_SECOND : Nat) (e : energest_t)
    (s : e_border_router.state) (h : s.power_state ≠ power_state_t.STATE_LPM) :
    (e_border_router.energy_tick CLOCK_SECOND e s).1.lpmc = s.lpmc := by
  simp only [e_border_router.energy_tick]
  rw [(e_border_transitions_counters _).1,
    e_border_recharge_lpmc_other (e_border_router.update_battery CLOCK_SECOND e s) h]
  rfl

theorem e_border_update_le_nat (CLOCK_SECOND : Nat) (e : energest_t)
    (s : e_border_router.state) (N : Nat) (hN : N < 2 ^ 23) (h : s.battery_level ≤ N) :
    (e_border_router.update_battery CLOCK_SECOND e s).battery_level ≤ N :=
  f32_sub_le_nat _ _ N hN h (battery_debit_nonneg _ _ _ _ _)

/-- The energy tick of the border router, summarised: the battery level is that left by
`update_battery`, plus 1.0 on the tenth LPM tick or on the second Deep-LPM tick. -/
theorem e_border_tick_summary (CLOCK_SECOND : Nat) (e : energest_t)
    (s : e_border_router.state) (hl : s.lpmc < 10) :
    (e_border_router.energy_tick CLOCK_SECOND e s).1.power_state =
      chained_power_state s.power_state
        (e_border_router.energy_tick CLOCK_SECOND e s).1.battery_level ∧
    (s.power_state = power_state_t.STATE_ACTIVE →
      (e_border_router.energy_tick CLOCK_SECOND e s).1.battery_level =
        (e_border_router.update_battery CLOCK_SECOND e s).battery_level ∧
      (e_border_router.energy_tick CLOCK_SECOND e s).1.lpmc = s.lpmc) ∧
    (s.power_state = power_state_t.STATE_LPM →
      (s.lpmc = 9 →
        (e_border_router.energy_tick CLOCK_SECOND e s).1.battery_level =
          (e_border_router.update_battery CLOCK_SECOND e s).battery_level + 1 ∧
        (e_border_router.energy_tick CLOCK_SECOND e s).1.lpmc = 0) ∧
      (s.lpmc < 9 →
        (e_border_router.energy_tick CLOCK_SECOND e s).1.battery_level =
          (e_border_router.update_battery CLOCK_SECOND e s).battery_level ∧
        (e_border_router.energy_tick CLOCK_SECOND e s).1.lpmc = s.lpmc + 1)) ∧
    (s.power_state = power_state_t.STATE_DEEP_LPM →
      (e_border_router.energy_tick CLOCK_SECOND e s).1.battery_level ≤
        (e_border_router.update_battery CLOCK_SECOND e s).battery_level + 1 ∧
      (e_border_router.energy_tick CLOCK_SECOND e s).1.lpmc = s.lpmc) := by
  refine ⟨(energy_tick_power_state CLOCK_SECOND e).2.2 s, fun ha => ?_, fun hp => ?_,
    fun hd => ?_⟩
  · exact ⟨e_border_tick_active _ _ _ ha,
      e_border_tick_lpmc_other _ _ _ (by rw [ha]; decide)⟩
  · obtain ⟨h1, h2⟩ := e_border_tick_lpm CLOCK_SECOND e s hp
    constructor
    · intro h9
      rw [h9] at h1 h2
      exact ⟨by rw [h2]; rfl, by rw [h1]; rfl⟩
    · intro h9
      have hm : (s.lpmc + 1) % 256 = s.lpmc + 1 := Nat.mod_eq_of_lt (by omega)
      rw [hm] at h1 h2
      have hge : ¬ (s.lpmc + 1 ≥ 10) := by omega
      rw [if_neg hge] at h1 h2
      exact ⟨h2, h1⟩
  · obtain ⟨_, h2⟩ := e_border_tick_deep CLOCK_SECOND e s hd
    refine ⟨?_, e_border_tick_lpmc_other _ _ _ (by rw [hd]; decide)⟩
    rw [h2]
    split_ifs
    · exact le_refl _
    · linarith

theorem timer_after_energy_reset (now : Nat) (t : Option (Nat × Nat)) :
    timer_after timer_id.energy_timer now t [effect.etimer_reset timer_id.energy_timer] =
        t.map (fun p => (p.1 + p.2, p.2)) ∧
    timer_after timer_id.hello_timer now t [effect.etimer_reset timer_id.energy_timer] = t := by
  constructor <;> simp [timer_after]

theorem border_after_energy_tick (CLOCK_SECOND : Nat) (e : energest_t)
    (p : e_border_router.process_t) :
    (p.after (e_border_router.energy_tick CLOCK_SECOND e p.vars)).vars =
        (e_border_router.energy_tick CLOCK_SECOND e p.vars).1 ∧
    (p.after (e_border_router.energy_tick CLOCK_SECOND e p.vars)).clock = p.clock ∧
    (p.after (e_border_router.energy_tick CLOCK_SECOND e p.vars)).energy_timer =
        p.energy_timer.map (fun t => (t.1 + t.2, t.2)) ∧
    (p.after (e_border_router.energy_tick CLOCK_SECOND e p.vars)).hello_timer =
        p.hello_timer := by
  refine ⟨rfl, rfl, ?_, ?_⟩
  · exact (timer_after_energy_reset p.clock p.energy_timer).1
  · exact (timer_after_energy_reset p.clock p.hello_timer).2

theorem border_after_hello_tick (undef : Nat) (p : e_border_router.process_t) :
    (p.after (e_border_router.hello_tick undef p.vars)).vars =
        { p.vars with battery_level := p.vars.battery_level - 1 } ∧
    (p.after (e_border_router.hello_tick undef p.vars)).clock = p.clock ∧
    (p.after (e_border_router.hello_tick undef p.vars)).energy_timer = p.energy_timer ∧
    (p.after (e_border_router.hello_tick undef p.vars)).hello_timer =
        p.hello_timer.map (fun t => (t.1 + t.2, t.2)) := by
  refine ⟨?_, rfl, ?_, ?_⟩
  · simp only [e_border_router.process_t.after, e_border_router.hello_tick,
      e_border_router.broadcast_rank, COST_HELLO]
    norm_num
  · simp [e_border_router.process_t.after, e_border_router.hello_tick,
      e_border_router.broadcast_rank, timer_after]
  · simp [e_border_router.process_t.after, e_border_router.hello_tick,
      e_border_router.broadcast_rank, timer_after]

/-- A frame or a serial line leaves the timers, the power state and the LPM counter of the
border router alone and does not raise its battery level. -/
theorem border_after_passive (LINKADDR_SIZE : Nat) (p : e_border_router.process_t) :
    (∀ data src,
      (p.after (e_border_router.input_callback p.vars data src)).energy_timer =
          p.energy_timer ∧
      (p.after (e_border_router.input_callback p.vars data src)).hello_timer =
          p.hello_timer ∧
      (p.after (e_border_router.input_callback p.vars data src)).clock = p.clock ∧
      (p.after (e_border_router.input_callback p.vars data src)).vars.lpmc = p.vars.lpmc ∧
      (p.after (e_border_router.input_callback p.vars data src)).vars.power_state =
          p.vars.power_state ∧
      (p.after (e_border_router.input_callback p.vars data src)).vars.battery_level ≤
          p.vars.battery_level) ∧
    (∀ scan,
      (p.after (e_border_router.serial_line_event LINKADDR_SIZE p.vars scan)).energy_timer =
          p.energy_timer ∧
      (p.after (e_border_router.serial_line_event LINKADDR_SIZE p.vars scan)).hello_timer =
          p.hello_timer ∧
      (p.after (e_border_router.serial_line_event LINKADDR_SIZE p.vars scan)).clock =
          p.clock ∧
      (p.after (e_border_router.serial_line_event LINKADDR_SIZE p.vars scan)).vars.lpmc =
          p.vars.lpmc ∧
      (p.after (e_border_router.serial_line_event LINKADDR_SIZE p.vars scan)).vars.power_state =
          p.vars.power_state ∧
      (p.after (e_border_router.serial_line_event LINKADDR_SIZE p.vars scan)).vars.battery_level ≤
          p.vars.battery_level) := by
  constructor
  · intro data src
    unfold e_border_router.input_callback
    simp only []
    split_ifs
    · refine ⟨by simp [e_border_router.process_t.after, timer_after],
        by simp [e_border_router.process_t.after, timer_after], rfl, rfl, rfl, ?_⟩
      simp only [e_border_router.process_t.after, COST_FORWARD]
      linarith
    · exact ⟨rfl, rfl, rfl, rfl, rfl, le_refl _⟩
    · exact ⟨rfl, rfl, rfl, rfl, rfl, le_refl _⟩
  · intro scan
    cases scan with
    | none => exact ⟨rfl, rfl, rfl, rfl, rfl, le_refl _⟩
    | some t =>
      obtain ⟨a, b, c⟩ := t
      refine ⟨by simp [e_border_router.process_t.after, e_border_router.serial_line_event,
          e_border_router.serial_command, timer_after],
        by simp [e_border_router.process_t.after, e_border_router.serial_line_event,
          e_border_router.serial_command, timer_after], rfl, rfl, rfl, ?_⟩
      simp only [e_border_router.process_t.after, e_border_router.serial_line_event,
        e_border_router.serial_command, COST_FORWARD]
      linarith

theorem border_arith_entry (CS r lpmc xe xh : Nat) (h4 : xh < xe + r) (hr : r < 10 * CS)
    (hl : lpmc < 10) : xh + (10 * 0 + lpmc + 1) * CS ≤ xe + CS + 20 * CS := by
  have : (lpmc + 1) * CS ≤ 10 * CS := Nat.mul_le_mul_right _ (by omega)
  simp only [Nat.mul_zero, Nat.zero_add]
  omega

theorem border_arith_tick (CS n lpmc xe xh : Nat)
    (h : xh + (10 * n + lpmc + 1) * CS ≤ xe + 20 * CS) :
    xh + (10 * n + (lpmc + 1) + 1) * CS ≤ xe + CS + 20 * CS := by
  nlinarith

theorem border_arith_recharge (CS n xe xh : Nat)
    (h : xh + (10 * n + 9 + 1) * CS ≤ xe + 20 * CS) :
    xh + (10 * (n + 1) + 0 + 1) * CS ≤ xe + CS + 20 * CS := by
  nlinarith

theorem border_arith_hello (CS r n lpmc xe xh : Nat) (hn : 1 ≤ n) (hr : r < 10 * CS)
    (h : xh + (10 * n + lpmc + 1) * CS ≤ xe + 20 * CS) :
    xh + r + (10 * (n - 1) + lpmc + 1) * CS ≤ xe + 20 * CS := by
  obtain ⟨m, rfl⟩ : ∃ m, n = m + 1 := ⟨n - 1, by omega⟩
  simp only [Nat.add_sub_cancel]
  nlinarith

theorem border_arith_hello_zero (CS r lpmc xe xh clock : Nat) (hx : xh ≤ clock)
    (hc : clock < xe) (hr : r < 10 * CS) (hl : lpmc < 10) :
    xh + r + (10 * 0 + lpmc + 1) * CS ≤ xe + 20 * CS := by
  have : (lpmc + 1) * CS ≤ 10 * CS := Nat.mul_le_mul_right _ (by omega)
  simp only [Nat.mul_zero, Nat.zero_add]
  omega

theorem border_arith_settle (CS n lpmc xe xh clock : Nat) (hCS : 0 < CS) (hc : clock < xh)
    (h3 : xe ≤ clock + CS) (hb : 10 * n + lpmc ≤ 20 + 1)
    (h : xh + (10 * n + lpmc + 1) * CS ≤ xe + 20 * CS) :
    10 * n + lpmc ≤ 20 + 0 := by
  by_contra hc2
  have h21 : 10 * n + lpmc = 21 := by omega
  rw [h21] at h
  omega

theorem chained_active_cases (b : ℚ) :
    chained_power_state power_state_t.STATE_ACTIVE b = power_state_t.STATE_ACTIVE ∨
    (chained_power_state power_state_t.STATE_ACTIVE b = power_state_t.STATE_LPM ∧ b ≤ 30) ∨
    (chained_power_state power_state_t.STATE_ACTIVE b = power_state_t.STATE_DEEP_LPM ∧
      b ≤ 10) := by
  rw [chained_from_active]
  split_ifs with h1 h2
  · exact Or.inr (Or.inr ⟨rfl, h2⟩)
  · exact Or.inr (Or.inl ⟨rfl, h1⟩)
  · exact Or.inl rfl

theorem chained_lpm_cases (b : ℚ) :
    chained_power_state power_state_t.STATE_LPM b = power_state_t.STATE_LPM ∨
    (chained_power_state power_state_t.STATE_LPM b = power_state_t.STATE_DEEP_LPM ∧
      b ≤ 10) := by
  rw [chained_from_lpm]
  split_ifs with h1
  · exact Or.inr ⟨rfl, h1⟩
  · exact Or.inl rfl

theorem chained_deep_cases (b : ℚ) :
    chained_power_state power_state_t.STATE_DEEP_LPM b = power_state_t.STATE_ACTIVE ∨
    (chained_power_state power_state_t.STATE_DEEP_LPM b = power_state_t.STATE_DEEP_LPM ∧
      b < 90) := by
  rw [chained_from_deep]
  split_ifs with h1
  · exact Or.inl rfl
  · exact Or.inr ⟨rfl, lt_of_not_ge h1⟩

theorem inv_state_clause (q : power_state_t) (b : ℚ) (P : Prop)
    (h : (q = power_state_t.STATE_ACTIVE ∧ b ≤ 100) ∨
      (q = power_state_t.STATE_DEEP_LPM ∧ b ≤ 90) ∨ (q = power_state_t.STATE_LPM ∧ P)) :
    (q = power_state_t.STATE_ACTIVE → b ≤ 100) ∧
    (q = power_state_t.STATE_DEEP_LPM → b ≤ 90) ∧ (q = power_state_t.STATE_LPM → P) := by
  rcases h with ⟨hq, h⟩ | ⟨hq, h⟩ | ⟨hq, h⟩
  · subst hq
    exact ⟨fun _ => h, fun h2 => absurd h2 (by decide), fun h2 => absurd h2 (by decide)⟩
  · subst hq
    exact ⟨fun h2 => absurd h2 (by decide), fun _ => h, fun h2 => absurd h2 (by decide)⟩
  · subst hq
    exact ⟨fun h2 => absurd h2 (by decide), fun h2 => absurd h2 (by decide), fun _ => h⟩

/-- The battery part of the invariant after an energy tick of the border router that fires
at clock tick `clock`, the energy timer going from `xe` to `xe + CS`. -/
theorem border_tick_state_clause (CS r xe xh : Nat) (e : energest_t)
    (s : e_border_router.state) (hr : r < 10 * CS) (hl : s.lpmc < 10) (h4 : xh < xe + r)
    (ha : s.power_state = power_state_t.STATE_ACTIVE → s.battery_level ≤ 100)
    (hd : s.power_state = power_state_t.STATE_DEEP_LPM → s.battery_level ≤ 90)
    (hlpm : s.power_state = power_state_t.STATE_LPM →
      ∃ n : Nat, n < 3 ∧ s.battery_level ≤ 30 + (n : ℚ) ∧ 10 * n + s.lpmc ≤ 20 + 0 ∧
        xh + (10 * n + s.lpmc + 1) * CS ≤ xe + 20 * CS) :
    (e_border_router.energy_tick CS e s).1.lpmc < 10 ∧
    ((e_border_router.energy_tick CS e s).1.power_state = power_state_t.STATE_ACTIVE →
      (e_border_router.energy_tick CS e s).1.battery_level ≤ 100) ∧
    ((e_border_router.energy_tick CS e s).1.power_state = power_state_t.STATE_DEEP_LPM →
      (e_border_router.energy_tick CS e s).1.battery_level ≤ 90) ∧
    ((e_border_router.energy_tick CS e s).1.power_state = power_state_t.STATE_LPM →
      ∃ n : Nat, n < 3 ∧ (e_border_router.energy_tick CS e s).1.battery_level ≤ 30 + (n : ℚ) ∧
        10 * n + (e_border_router.energy_tick CS e s).1.lpmc ≤ 20 + 1 ∧
        xh + (10 * n + (e_border_router.energy_tick CS e s).1.lpmc + 1) * CS ≤
          xe + CS + 20 * CS) := by
  obtain ⟨hps, hA, hL, hD⟩ := e_border_tick_summary CS e s hl
  generalize (e_border_router.energy_tick CS e s).1 = s1 at hps hA hL hD ⊢
  have hu : ∀ N : Nat, N < 2 ^ 23 → s.battery_level ≤ N →
      (e_border_router.update_battery CS e s).battery_level ≤ N :=
    fun N hN h => e_border_update_le_nat CS e s N hN h
  generalize (e_border_router.update_battery CS e s).battery_level = u at hA hL hD hu
  cases hp : s.power_state with
  | STATE_ACTIVE =>
    obtain ⟨hb, hc⟩ := hA hp
    have hu100 : u ≤ 100 := by exact_mod_cast hu 100 (by norm_num) (by exact_mod_cast ha hp)
    rw [hp, hb] at hps
    refine ⟨by rw [hc]; exact hl, ?_⟩
    rw [hb, hc]
    apply inv_state_clause
    rcases chained_active_cases u with h | ⟨h, h30⟩ | ⟨h, h10⟩
    · exact Or.inl ⟨hps.trans h, hu100⟩
    · refine Or.inr (Or.inr ⟨hps.trans h, 0, by norm_num, by norm_num; exact h30, by omega,
        border_arith_entry CS r s.lpmc xe xh h4 hr hl⟩)
    · exact Or.inr (Or.inl ⟨hps.trans h, by linarith⟩)
  | STATE_LPM =>
    obtain ⟨n, hn, hbn, hcnt, hq⟩ := hlpm hp
    have hun : u ≤ 30 + (n : ℚ) := by
      have := hu (30 + n) (by omega) (by push_cast; exact hbn)
      push_cast at this
      exact this
    rw [hp] at hps
    rcases Nat.lt_or_ge s.lpmc 9 with h9 | h9
    · obtain ⟨hb, hc⟩ := (hL hp).2 h9
      rw [hb] at hps
      refine ⟨by rw [hc]; omega, ?_⟩
      rw [hb, hc]
      apply inv_state_clause
      rcases chained_lpm_cases u with h | ⟨h, h10⟩
      · exact Or.inr (Or.inr ⟨hps.trans h, n, hn, hun, by omega,
          border_arith_tick CS n s.lpmc xe xh hq⟩)
      · exact Or.inr (Or.inl ⟨hps.trans h, by linarith⟩)
    · have h9e : s.lpmc = 9 := by omega
      obtain ⟨hb, hc⟩ := (hL hp).1 h9e
      rw [hb] at hps
      refine ⟨by rw [hc]; omega, ?_⟩
      rw [hb, hc]
      apply inv_state_clause
      rw [h9e] at hq hcnt
      rcases chained_lpm_cases (u + 1) with h | ⟨h, h10⟩
      · refine Or.inr (Or.inr ⟨hps.trans h, n + 1, by omega, ?_, by omega,
          border_arith_recharge CS n xe xh hq⟩)
        push_cast
        linarith
      · exact Or.inr (Or.inl ⟨hps.trans h, by linarith⟩)
  | STATE_DEEP_LPM =>
    obtain ⟨hb, hc⟩ := hD hp
    have hu90 : u ≤ 90 := by exact_mod_cast hu 90 (by norm_num) (by exact_mod_cast hd hp)
    rw [hp] at hps
    refine ⟨by rw [hc]; exact hl, ?_⟩
    apply inv_state_clause
    rcases chained_deep_cases s1.battery_level with h | ⟨h, h90⟩
    · exact Or.inl ⟨hps.trans h, by linarith⟩
    · exact Or.inr (Or.inl ⟨hps.trans h, h90.le⟩)

theorem timer_expired_some (now x i : Nat) :
    timer_expired now (some (x, i)) = true ↔ x ≤ now := by
  simp [timer_expired]

/-- The invariant bounds the battery level by `BATTERY_MAX`. -/
theorem battery_inv_le_max (CS r mid : Nat) (p : e_border_router.process_t)
    (h : e_border_router.battery_inv CS r mid p) : p.vars.battery_level ≤ BATTERY_MAX := by
  rw [battery_inv_iff] at h
  obtain ⟨_, xe, xh, _, _, _, _, ha, hd, hlpm⟩ := h
  rw [BATTERY_MAX_eq]
  cases hp : p.vars.power_state with
  | STATE_ACTIVE => exact ha hp
  | STATE_DEEP_LPM => linarith [hd hp]
  | STATE_LPM =>
    obtain ⟨n, hn, hb, _, _⟩ := hlpm hp
    have : (n : ℚ) ≤ 2 := by exact_mod_cast Nat.lt_succ_iff.mp hn
    linarith

theorem battery_inv_clock (CS r : Nat) (p : e_border_router.process_t) (dt : Nat)
    (h : e_border_router.battery_inv CS r 0 p) :
    e_border_router.battery_inv CS r 0 { p with clock := p.clock + dt } := by
  rw [battery_inv_iff] at h ⊢
  obtain ⟨hl, xe, xh, hte, hth, h3, h4, ha, hd, hlpm⟩ := h
  exact ⟨hl, xe, xh, hte, hth, by simp only []; omega, h4, ha, hd, hlpm⟩

theorem battery_inv_passive (CS r : Nat) (p q : e_border_router.process_t)
    (h : e_border_router.battery_inv CS r 0 p)
    (h1 : q.energy_timer = p.energy_timer) (h2 : q.hello_timer = p.hello_timer)
    (h3 : q.clock = p.clock) (h4 : q.vars.lpmc = p.vars.lpmc)
    (h5 : q.vars.power_state = p.vars.power_state)
    (h6 : q.vars.battery_level ≤ p.vars.battery_level) :
    e_border_router.battery_inv CS r 0 q := by
  rw [battery_inv_iff] at h ⊢
  obtain ⟨hl, xe, xh, hte, hth, ht2, ht3, ha, hd, hlpm⟩ := h
  refine ⟨by rw [h4]; exact hl, xe, xh, by rw [h1]; exact hte, by rw [h2]; exact hth,
    by rw [h3]; exact ht2, ht3, ?_, ?_, ?_⟩
  · intro hp
    exact le_trans h6 (ha (h5 ▸ hp))
  · intro hp
    exact le_trans h6 (hd (h5 ▸ hp))
  · intro hp
    obtain ⟨n, hn, hb, hc, hq⟩ := hlpm (h5 ▸ hp)
    exact ⟨n, hn, le_trans h6 hb, by rw [h4]; exact hc, by rw [h4]; exact hq⟩

/-- The energy-timer test of an iteration keeps the invariant, in its intermediate form, and
leaves the energy timer armed for a later clock tick, provided the timer is not a full period
late. -/
theorem border_energy_branch_inv (CS r : Nat) (e : energest_t)
    (p : e_border_router.process_t) (hr : r < 10 * CS)
    (hinv : e_border_router.battery_inv CS r 0 p)
    (hserved : ∀ t, p.energy_timer = some t → p.clock < t.1 + CS) :
    e_border_router.battery_inv CS r 1 (e_border_router.energy_branch CS e p) ∧
    (e_border_router.energy_branch CS e p).clock = p.clock ∧
    ∀ t, (e_border_router.energy_branch CS e p).energy_timer = some t → p.clock < t.1 := by
  rw [battery_inv_iff] at hinv
  obtain ⟨hl, xe, xh, hte, hth, h3, h4, ha, hd, hlpm⟩ := hinv
  have hs := hserved (xe, CS) hte
  simp only [] at hs
  by_cases hexp : timer_expired p.clock p.energy_timer = true
  · have hxe : xe ≤ p.clock := by
      rw [hte] at hexp
      exact (timer_expired_some _ _ _).mp hexp
    have key : e_border_router.energy_branch CS e p =
        p.after (e_border_router.energy_tick CS e p.vars) := by
      unfold e_border_router.energy_branch
      rw [if_pos hexp]
    obtain ⟨hv, hc, ht, hh⟩ := border_after_energy_tick CS e p
    rw [hte] at ht
    rw [hth] at hh
    obtain ⟨c1, c2, c3, c4⟩ := border_tick_state_clause CS r xe xh e p.vars hr hl h4 ha hd hlpm
    rw [key]
    refine ⟨?_, hc, ?_⟩
    · rw [battery_inv_iff, hv, hc]
      exact ⟨c1, xe + CS, xh, ht, hh, by omega, by omega, c2, c3, c4⟩
    · intro t htt
      rw [ht] at htt
      have : t = (xe + CS, CS) := (Option.some.inj htt).symm
      rw [this]
      simp only []
      omega
  · have key : e_border_router.energy_branch CS e p = p := by
      unfold e_border_router.energy_branch
      rw [if_neg hexp]
    have hxe : p.clock < xe := by
      rw [hte] at hexp
      have := (timer_expired_some p.clock xe CS).not.mp hexp
      omega
    rw [key]
    refine ⟨?_, rfl, ?_⟩
    · rw [battery_inv_iff]
      refine ⟨hl, xe, xh, hte, hth, h3, h4, ha, hd, fun hp => ?_⟩
      obtain ⟨n, hn, hb, hc, hq⟩ := hlpm hp
      exact ⟨n, hn, hb, by omega, hq⟩
    · intro t htt
      rw [hte] at htt
      have : t = (xe, CS) := (Option.some.inj htt).symm
      rw [this]
      exact hxe

/-- The HELLO-timer test of an iteration brings the invariant back to its form between
runs. -/
theorem border_hello_branch_inv (CS r undef : Nat) (p : e_border_router.process_t)
    (hCS : 0 < CS) (hr : r < 10 * CS)
    (hinv : e_border_router.battery_inv CS r 1 p)
    (hnot : ∀ t, p.energy_timer = some t → p.clock < t.1) :
    e_border_router.battery_inv CS r 0 (e_border_router.hello_branch undef p) := by
  rw [battery_inv_iff] at hinv
  obtain ⟨hl, xe, xh, hte, hth, h3, h4, ha, hd, hlpm⟩ := hinv
  have hce := hnot (xe, CS) hte
  simp only [] at hce
  by_cases hexp : timer_expired p.clock p.hello_timer = true
  · have hxh : xh ≤ p.clock := by
      rw [hth] at hexp
      exact (timer_expired_some _ _ _).mp hexp
    have key : e_border_router.hello_branch undef p =
        p.after (e_border_router.hello_tick undef p.vars) := by
      unfold e_border_router.hello_branch
      rw [if_pos hexp]
    obtain ⟨hv, hc, ht, hh⟩ := border_after_hello_tick undef p
    rw [hte] at ht
    rw [hth] at hh
    rw [key, battery_inv_iff, hv, hc]
    refine ⟨hl, xe, xh + r, ht, hh, h3, by omega, ?_, ?_, ?_⟩
    · intro hp
      have := ha hp
      simp only []
      linarith
    · intro hp
      have := hd hp
      simp only []
      linarith
    · intro hp
      obtain ⟨n, hn, hb, hcnt, hq⟩ := hlpm hp
      simp only []
      rcases Nat.eq_zero_or_pos n with h0 | hpos
      · subst h0
        refine ⟨0, by norm_num, ?_, by omega,
          border_arith_hello_zero CS r p.vars.lpmc xe xh p.clock hxh hce hr hl⟩
        push_cast at hb ⊢
        linarith
      · refine ⟨n - 1, by omega, ?_, by omega,
          border_arith_hello CS r n p.vars.lpmc xe xh hpos hr hq⟩
        have hn1 : ((n - 1 : Nat) : ℚ) = (n : ℚ) - 1 := by
          rw [Nat.cast_sub hpos]
          norm_num
        rw [hn1]
        linarith
  · have key : e_border_router.hello_branch undef p = p := by
      unfold e_border_router.hello_branch
      rw [if_neg hexp]
    have hxh : p.clock < xh := by
      rw [hth] at hexp
      have := (timer_expired_some p.clock xh r).not.mp hexp
      omega
    rw [key, battery_inv_iff]
    refine ⟨hl, xe, xh, hte, hth, h3, h4, ha, hd, fun hp => ?_⟩
    obtain ⟨n, hn, hb, hc, hq⟩ := hlpm hp
    exact ⟨n, hn, hb, border_arith_settle CS n p.vars.lpmc xe xh p.clock hCS hxh h3 hc hq, hq⟩

/-- Every run of the border process keeps the invariant, if it finds the energy timer less
than a period late. -/
theorem border_process_step_inv (CS LS r : Nat) (p : e_border_router.process_t)
    (i : Nat × e_border_router.wakeup) (hCS : 0 < CS) (hr : r < 10 * CS)
    (hinv : e_border_router.battery_inv CS r 0 p)
    (hserved : ∀ t, p.energy_timer = some t → p.clock + i.1 < t.1 + CS) :
    e_border_router.battery_inv CS r 0 (e_border_router.process_step CS LS p i) ∧
    ∀ e undef, i.2 = e_border_router.wakeup.event e undef →
      e_border_router.battery_inv CS r 1
        (e_border_router.energy_branch CS e { p with clock := p.clock + i.1 }) := by
  have hinv1 := battery_inv_clock CS r p i.1 hinv
  obtain ⟨dt, w⟩ := i
  cases w with
  | frame data src =>
    refine ⟨?_, fun e undef h => absurd h (by simp)⟩
    obtain ⟨h1, h2, h3, h4, h5, h6⟩ :=
      (border_after_passive LS { p with clock := p.clock + dt }).1 data src
    exact battery_inv_passive CS r _ _ hinv1 h1 h2 h3 h4 h5 h6
  | serial_line scan =>
    refine ⟨?_, fun e undef h => absurd h (by simp)⟩
    obtain ⟨h1, h2, h3, h4, h5, h6⟩ :=
      (border_after_passive LS { p with clock := p.clock + dt }).2 scan
    exact battery_inv_passive CS r _ _ hinv1 h1 h2 h3 h4 h5 h6
  | event e undef =>
    obtain ⟨hm, hc, hn⟩ := border_energy_branch_inv CS r e { p with clock := p.clock + dt } hr
      hinv1 hserved
    refine ⟨?_, fun e2 undef2 h => ?_⟩
    · exact border_hello_branch_inv CS r undef _ hCS hr hm (fun t ht => by
        rw [hc]
        exact hn t ht)
    · have he : e2 = e := by
        injection h with h1 h2
        exact h1.symm
      rw [he]
      exact hm

theorem border_process_begin_inv (CS BORDER_NODE_ID : Nat) (addr : linkaddr_t)
    (e : energest_t) (rnd now : Nat) (hCS : 0 < CS) :
    e_border_router.battery_inv CS (rnd % HELLO_INTERVAL_BORDER CS) 0
      (e_border_router.process_begin CS BORDER_NODE_ID addr e rnd now) := by
  rw [battery_inv_iff]
  refine ⟨by simp [e_border_router.process_begin, e_border_router.process_t.after,
      e_border_router.init], now + CS, now + rnd % HELLO_INTERVAL_BORDER CS, ?_, ?_, ?_, ?_,
    ?_, ?_, ?_⟩
  · simp [e_border_router.process_begin, e_border_router.process_t.after, timer_after]
  · simp [e_border_router.process_begin, e_border_router.process_t.after, timer_after]
  · exact le_refl _
  · omega
  · intro _
    show BATTERY_MAX ≤ 100
    rw [BATTERY_MAX_eq]
  · intro h
    exact absurd h (by simp [e_border_router.process_begin, e_border_router.process_t.after,
      e_border_router.init])
  · intro h
    exact absurd h (by simp [e_border_router.process_begin, e_border_router.process_t.after,
      e_border_router.init])

theorem hello_interval_border_lt (CS rnd : Nat) (hCS : 0 < CS) :
    rnd % HELLO_INTERVAL_BORDER CS < 10 * CS := by
  unfold HELLO_INTERVAL_BORDER
  have := Nat.mod_lt rnd (show 0 < CS * 10 by omega)
  omega

theorem border_process_run_inv (CS LS r : Nat) (hCS : 0 < CS) (hr : r < 10 * CS) :
    ∀ (is : List (Nat × e_border_router.wakeup)) (p : e_border_router.process_t),
      e_border_router.battery_inv CS r 0 p →
      e_border_router.energy_timer_served CS LS p is = true →
      e_border_router.battery_inv CS r 0 (e_border_router.process_run CS LS p is) := by
  intro is
  induction is with
  | nil =>
    intro p h _
    exact h
  | cons i rest ih =>
    intro p h hs
    simp only [e_border_router.energy_timer_served, Bool.and_eq_true] at hs
    simp only [e_border_router.process_run, List.foldl_cons] at ih ⊢
    apply ih _ _ hs.2
    refine (border_process_step_inv CS LS r p i hCS hr h ?_).1
    intro t ht
    have h1 := hs.1
    rw [ht] at h1
    simpa using h1

theorem energy_timer_served_append (CS LS : Nat) :
    ∀ (is : List (Nat × e_border_router.wakeup)) (p : e_border_router.process_t)
      (i : Nat × e_border_router.wakeup),
      e_border_router.energy_timer_served CS LS p (is ++ [i]) = true →
      e_border_router.energy_timer_served CS LS p is = true ∧
      ∀ t, (e_border_router.process_run CS LS p is).energy_timer = some t →
        (e_border_router.process_run CS LS p is).clock + i.1 < t.1 + CS := by
  intro is
  induction is with
  | nil =>
    intro p i h
    simp only [List.nil_append, e_border_router.energy_timer_served, Bool.and_eq_true] at h
    refine ⟨rfl, fun t ht => ?_⟩
    have h1 := h.1
    simp only [e_border_router.process_run, List.foldl_nil] at ht ⊢
    rw [ht] at h1
    simpa using h1
  | cons j rest ih =>
    intro p i h
    simp only [List.cons_append, e_border_router.energy_timer_served, Bool.and_eq_true] at h
    obtain ⟨h1, h2⟩ := ih _ i h.2
    refine ⟨?_, ?_⟩
    · simp only [e_border_router.energy_timer_served, Bool.and_eq_true]
      exact ⟨h.1, h1⟩
    · simp only [e_border_router.process_run, List.foldl_cons] at h2 ⊢
      exact h2

